import Mathlib

/-
Verification of the pog-rs Proof-of-Generosity blockchain simulator.

This file shallowly embeds the parts of the Rust sources that the verified
properties talk about, and proves (or refutes) those properties:

  * `tools::Hasher::hash` (SHA3-256) and the `hex` crate's encode/decode,
    modelled bit-exactly over lists of byte values (`List Nat`);
  * `Block::cal_merkle_root` (src/blockchain/block.rs);
  * `Blockchain::add_block` (src/blockchain/blockchain.rs);
  * the PoG contribution / virtual-stake pipeline (src/consensus/pog.rs);
  * `PosConsensus::select` (src/consensus/pos.rs);
  * `combine_seed` (src/consensus/mod.rs);
  * the string-parsing front end of `Wallet::recover_pubkey` /
    `Wallet::verify_by_address` (src/wallet/mod.rs) and
    `AggregatedSignedPaths::verify` (src/blockchain/path.rs).

Modelling conventions:
  * Rust `f64` arithmetic is idealised as real-number arithmetic (`ℝ`).
  * Elliptic-curve and BLS primitives are abstracted as oracle parameters;
    everything around them (string parsing, control flow, registry lookups)
    is embedded concretely.  Code positions that panic in Rust (`unwrap`,
    `expect`, out-of-range slicing) are made explicit with a `crash` result.
  * `HashMap<String, f64>` is modelled as an association list when the code
    iterates over or sums the map, and as a total function with default 0
    where the code only performs `get(..).unwrap_or(&0.0)` lookups.
-/

set_option maxRecDepth 100000

namespace PogRs

/-! ### Bytes, hex, SHA3-256

`tools::Hasher::hash` is `Sha3_256` from the `sha3` crate (NIST SHA3).
We implement Keccak-f[1600] with rate 136 over `List Nat` (bytes). -/

/-- 2^64, the lane modulus of Keccak-f[1600]. -/
def M64 : Nat := 18446744073709551616

/-- Rotate a 64-bit lane left by `n` (for 0 ≤ n < 64). -/
def rotl64 (x n : Nat) : Nat :=
  ((x <<< n) % M64) ||| (x >>> (64 - n))

/-- Bitwise complement of a 64-bit lane. -/
def not64 (x : Nat) : Nat := (M64 - 1) ^^^ x

/-- Keccak round constants. -/
def keccakRC : List Nat :=
  [1, 32898, 9223372036854808714, 9223372039002292224,
   32907, 2147483649, 9223372039002292353, 9223372036854808585,
   138, 136, 2147516425, 2147483658,
   2147516555, 9223372036854775947, 9223372036854808713, 9223372036854808579,
   9223372036854808578, 9223372036854775936, 32778, 9223372039002259466,
   9223372039002292353, 9223372036854808704, 2147483649, 9223372039002292232]

/-- Keccak rho rotation offsets, indexed by `x + 5*y`. -/
def keccakRho : List Nat :=
  [0, 1, 62, 28, 27] ++
    [36, 44, 6, 55, 20] ++
    [3, 10, 43, 25, 39] ++
    [41, 45, 15, 21, 8] ++
    [18, 2, 61, 56, 14]

/-- Lane (x, y) of a 25-lane state. -/
def lane (st : List Nat) (x y : Nat) : Nat := st.getD (x + 5 * y) 0

/-- One Keccak-f round with round constant `rc`. -/
def keccakRound (st : List Nat) (rc : Nat) : List Nat :=
  -- theta
  let C : List Nat := (List.range 5).map fun x =>
    lane st x 0 ^^^ lane st x 1 ^^^ lane st x 2 ^^^ lane st x 3 ^^^ lane st x 4
  let D : List Nat := (List.range 5).map fun x =>
    C.getD ((x + 4) % 5) 0 ^^^ rotl64 (C.getD ((x + 1) % 5) 0) 1
  let stTheta : List Nat := (List.range 25).map fun i =>
    st.getD i 0 ^^^ D.getD (i % 5) 0
  -- rho and pi: entry (X, Y) of the new state is lane ((X + 3Y) % 5, X) rotated
  let B : List Nat := (List.range 25).map fun j =>
    let X := j % 5
    let Y := j / 5
    let x := (X + 3 * Y) % 5
    let y := X
    rotl64 (lane stTheta x y) (keccakRho.getD (x + 5 * y) 0)
  -- chi
  let stChi : List Nat := (List.range 25).map fun j =>
    let x := j % 5
    let y := j / 5
    lane B x y ^^^ (not64 (lane B ((x + 1) % 5) y) &&& lane B ((x + 2) % 5) y)
  -- iota
  stChi.set 0 (stChi.getD 0 0 ^^^ rc)

/-- The full Keccak-f[1600] permutation (24 rounds). -/
def keccakF (st : List Nat) : List Nat :=
  keccakRC.foldl keccakRound st

/-- Read a little-endian 64-bit lane out of (up to) 8 bytes. -/
def bytesToLane (bs : List Nat) : Nat :=
  bs.foldr (fun b acc => acc * 256 + b) 0

/-- XOR a rate block (136 bytes) into the first 17 lanes of the state. -/
def xorBlock (st : List Nat) (block : List Nat) : List Nat :=
  (List.range 25).map fun i =>
    if i < 17 then st.getD i 0 ^^^ bytesToLane ((block.drop (8 * i)).take 8)
    else st.getD i 0

/-- SHA3 padding: append 0x06, zero-fill to a rate multiple, set the top bit
of the final rate byte. -/
def sha3Pad (msg : List Nat) : List Nat :=
  let q := 136 - msg.length % 136
  if q = 1 then msg ++ [0x86]
  else msg ++ [0x06] ++ List.replicate (q - 2) 0 ++ [0x80]

/-- Absorb all 136-byte blocks of a padded message.  The fuel argument makes
the recursion structural; any fuel at least the message length is enough,
since each step consumes 136 bytes. -/
def absorbBlocks : Nat → List Nat → List Nat → List Nat
  | _, st, [] => st
  | 0, st, _ => st
  | f + 1, st, msg => absorbBlocks f (keccakF (xorBlock st (msg.take 136))) (msg.drop 136)

/-- SHA3-256 of a byte list: the 32-byte digest produced by
`tools::Hasher::hash`. -/
def sha3_256 (msg : List Nat) : List Nat :=
  let padded := sha3Pad msg
  let st := absorbBlocks padded.length (List.replicate 25 0) padded
  (List.range 32).map fun i => (st.getD (i / 8) 0 >>> (8 * (i % 8))) % 256

/-- Hex digit characters. -/
def hexDigits : List Char := "0123456789abcdef".toList

/-- Lowercase hex encoding of a byte list, as the `hex` crate's `encode`. -/
def hexEncode (bs : List Nat) : String :=
  String.mk (bs.foldr (fun b acc =>
    hexDigits.getD (b / 16 % 16) '0' :: hexDigits.getD (b % 16) '0' :: acc) [])

/-- Value of one hex digit, if valid. -/
def hexVal? (c : Char) : Option Nat :=
  if '0' ≤ c ∧ c ≤ '9' then some (c.toNat - '0'.toNat)
  else if 'a' ≤ c ∧ c ≤ 'f' then some (c.toNat - 'a'.toNat + 10)
  else if 'A' ≤ c ∧ c ≤ 'F' then some (c.toNat - 'A'.toNat + 10)
  else none

/-- Hex decoding of a character list; fails on odd length or invalid digits,
as the `hex` crate's `decode`. -/
def hexDecodeChars? : List Char → Option (List Nat)
  | [] => some []
  | [_] => none
  | a :: b :: rest =>
    match hexVal? a, hexVal? b, hexDecodeChars? rest with
    | some ha, some hb, some tl => some ((ha * 16 + hb) :: tl)
    | _, _, _ => none

/-- Hex decoding of a string. -/
def hexDecode? (s : String) : Option (List Nat) := hexDecodeChars? s.toList

/-- Hex decoding with default `[]`; stands for `hex::decode(..).unwrap()` at
call sites where the input is known to be valid hex. -/
def hexDecodeD (s : String) : List Nat := (hexDecode? s).getD []

/-! ### `Block::cal_merkle_root` (src/blockchain/block.rs, lines 123-140)

The Rust function recurses on the list of (hex-string) leaves: return a single
leaf directly, duplicate the last leaf when the count is odd, hash each
consecutive pair as SHA3-256 of the concatenated decoded bytes, recurse on the
resulting level.  We embed it with explicit fuel because on the empty list the
Rust recursion never terminates (`chunks(2)` of `[]` is `[]`, which recurses on
`[]` again); `merkleFuel` returns `none` exactly when the fuel runs out. -/

/-- Hash of one consecutive pair: `encode(H(decode(a) ++ decode(b)))`. -/
def hashPair (a b : String) : String :=
  hexEncode (sha3_256 (hexDecodeD a ++ hexDecodeD b))

/-- One level of the Merkle tree: `leaves.chunks(2)` each hashed.  Called only
on even-length lists in `merkleFuel` (after duplication), so the one-element
leftover case is unreachable there. -/
def pairHash : List String → List String
  | a :: b :: rest => hashPair a b :: pairHash rest
  | _ => []

/-- Fuel-indexed embedding of `Block::cal_merkle_root`. -/
def merkleFuel : Nat → List String → Option String
  | 0, _ => none
  | f + 1, leaves =>
    if leaves.length = 1 then some (leaves.headD "")
    else
      let l2 := if leaves.length % 2 ≠ 0 then leaves ++ [leaves.getLastD ""] else leaves
      merkleFuel f (pairHash l2)

/-- `Block::cal_merkle_root`, with fuel `leaves.length` (sufficient for every
non-empty input, as proved below). -/
def calMerkleRoot (leaves : List String) : String :=
  (merkleFuel leaves.length leaves).getD ""

/-- Modelled from the spec: "H = SHA3-256 on decoded bytes and results are
hex-encoded" — the hash step used in scenario S5's formula. -/
def specH (s : String) : String := hexEncode (sha3_256 (hexDecodeD s))

/-! ### Blocks and the chain (src/blockchain/{transaction,block,blockchain}.rs)

`Transaction::verify` recomputes the hash and recovers the ECDSA signer; that
cryptographic step is abstracted as the oracle `txOk` below, which stands for
the whole of `transaction.verify()`.  Everything else is embedded concretely.
-/

/-- Field-for-field model of `Transaction` (src/blockchain/transaction.rs). -/
structure Transaction where
  -- `from` and `to` collide with Lean keywords, hence the underscores
  from_ : String
  to_ : String
  amount : Int
  hash : String
  signature : String
  timestamp : Nat
  data : List Nat
deriving DecidableEq

/-- Model of `AggregatedSignedPaths` (src/blockchain/path.rs). -/
structure AggregatedSignedPaths where
  signature : String
  paths : List String
deriving DecidableEq

/-- Model of `Header` (src/blockchain/block.rs). -/
structure Header where
  index : Nat
  epoch : Nat
  slot : Nat
  hash : String
  parent_hash : String
  timestamp : Nat
  merkle_root : String
  miner : String
deriving DecidableEq

/-- Model of `Body` (src/blockchain/block.rs). -/
structure Body where
  transactions : List Transaction
  paths : List AggregatedSignedPaths
deriving DecidableEq

/-- Model of `Block` (src/blockchain/block.rs). -/
structure Block where
  header : Header
  body : Body
deriving DecidableEq

/-- Model of `Blockchain` (src/blockchain/blockchain.rs); the `HashSet` of
seen transaction hashes is modelled as a list observed through `contains`. -/
structure Blockchain where
  blocks : List Block
  transactions_hash_set : List String
deriving DecidableEq

/-- The error enum of `Blockchain::add_block`. -/
inductive BlockChainError where
  | InvalidBlock
  | ParentHashMismatch
  | IndexMismatch
  | EpochError
  | SlotError
  | DuplicateBlocksReceived
  | TransactionExists
deriving DecidableEq

/-- Placeholder block for `blocks.last().unwrap()`; every `Blockchain` is
created from a genesis block, so the list is never empty where it matters. -/
def blockDefault : Block :=
  ⟨⟨0, 0, 0, "", "", 0, "", ""⟩, ⟨[], []⟩⟩

/-- `Blockchain::get_last_block`. -/
def getLastBlock (c : Blockchain) : Block := c.blocks.getLastD blockDefault

/-- `Blockchain::get_last_hash`. -/
def getLastHash (c : Blockchain) : String := (getLastBlock c).header.hash

/-- `Block::verify`: length parity of transactions and paths, then
`transaction.verify()` for each transaction.  The per-path aggregate check is
commented out in the source ("consumes too much CPU"), so it does not run. -/
def blockVerify (txOk : Transaction → Bool) (b : Block) : Bool :=
  b.body.transactions.length == b.body.paths.length &&
  b.body.transactions.all txOk

/-- `Blockchain::add_block`, returned together with the chain state after the
call (the Rust method mutates `self` only in the final, successful branch). -/
def addBlock (txOk : Transaction → Bool) (c : Blockchain) (b : Block) :
    Option BlockChainError × Blockchain :=
  if ¬ blockVerify txOk b then (some .InvalidBlock, c)
  else if getLastHash c = b.header.hash then (some .DuplicateBlocksReceived, c)
  else if getLastHash c ≠ b.header.parent_hash then (some .ParentHashMismatch, c)
  else if (getLastBlock c).header.index + 1 ≠ b.header.index then (some .IndexMismatch, c)
  else if b.header.epoch < (getLastBlock c).header.epoch then (some .EpochError, c)
  else if (getLastBlock c).header.epoch = b.header.epoch ∧
      b.header.slot < (getLastBlock c).header.slot then (some .SlotError, c)
  else if b.body.transactions.any (fun t => c.transactions_hash_set.contains t.hash) then
    (some .TransactionExists, c)
  else (none, ⟨c.blocks ++ [b], c.transactions_hash_set ++ b.body.transactions.map (·.hash)⟩)

/-- Tip of the concrete chain used to exhibit the equal-slot acceptance. -/
def tipC4 : Block :=
  ⟨⟨0, 0, 5, "h0", "", 0, "", "m"⟩, ⟨[], []⟩⟩

/-- Concrete one-block chain whose tip sits at epoch 0, slot 5. -/
def chainC4 : Blockchain := ⟨[tipC4], []⟩

/-- Concrete successor block with the SAME epoch and slot as the tip, correct
parent hash and index, and an empty (trivially verifying) body. -/
def blockC4 : Block :=
  ⟨⟨1, 0, 5, "h1", "h0", 0, "", "m"⟩, ⟨[], []⟩⟩

/-- Successor block for the C5 witness: epoch 0, slot 6 on top of `tipC4`. -/
def blockC5 : Block :=
  ⟨⟨1, 0, 6, "h1", "h0", 0, "", "m"⟩, ⟨[], []⟩⟩

/-- Chain state after appending `blockC5` to `chainC4`. -/
def chainC5 : Blockchain := ⟨[tipC4, blockC5], []⟩

/-! ### Validators and PoG state (src/consensus/{mod,pog}.rs)

`f64` stakes and scores are idealised as `ℝ`.  A `HashMap<String, f64>` is an
association list `List (String × ℝ)` (iteration order never matters to the
code: it only sums, rescales, or looks up); `mapInsert` models
`HashMap::insert` (replace), `mapGetD` models `get(..).unwrap_or(&0.0)`.
Definitions over `ℝ` are necessarily noncomputable; witnesses evaluate them
with `simp`/`norm_num` instead of `decide`. -/

noncomputable section

/-- Model of `Validator` (src/consensus/mod.rs). -/
structure Validator where
  address : String
  stake : ℝ

/-- The `ValidatorError` enum (src/consensus/mod.rs). -/
inductive ValidatorError where
  | JSONError
  | NOValidatorError
deriving DecidableEq

/-- Lookup with the `unwrap_or(&0.0)` default. -/
def mapGetD (m : List (String × ℝ)) (k : String) : ℝ :=
  match m.find? (fun p => p.1 == k) with
  | some p => p.2
  | none => 0

/-- Sum of the values of a map. -/
def mapSum (m : List (String × ℝ)) : ℝ := (m.map Prod.snd).sum

/-- Keys of a map. -/
def mapKeys (m : List (String × ℝ)) : List String := m.map Prod.fst

/-- `HashMap::insert`: any existing binding of the key is replaced. -/
def mapInsert (m : List (String × ℝ)) (k : String) (v : ℝ) : List (String × ℝ) :=
  (k, v) :: m.filter (fun p => p.1 != k)

/-- Internal state of `PogConsensus` (src/consensus/pog.rs). -/
structure PogState where
  ntd : ℕ
  score_history : List (String × ℝ)
  alpha : ℝ
  k_sat : ℝ
  k_base : ℝ
  omega : ℝ

/-- `PogConsensus::new`. -/
def pogNew (initial_ntd : ℕ) : PogState :=
  ⟨initial_ntd, [], 0.8, 1, 1, 0⟩

/-- `PogConsensus::get_real_stake`: stake of the first validator carrying the
address, 0 if absent. -/
def getRealStake (node : String) (validators : List Validator) : ℝ :=
  ((validators.find? (fun v => v.address == node)).map (fun v => v.stake)).getD 0

/-- `PogConsensus::compute_position_weight`:
`alpha_k(L) = 2(L - k + 1) / (L(L + 1))` with zero-guards; the subtraction is
`usize` subtraction, cast to `f64` afterwards. -/
def computePositionWeight (position path_length : ℕ) : ℝ :=
  if path_length = 0 ∨ position > path_length ∨ position = 0 then 0
  else 2 * ((path_length - position + 1 : ℕ) : ℝ) / ((path_length * (path_length + 1) : ℕ) : ℝ)

/-- `PogConsensus::compute_path_value`:
`c(p) = 1` if `L ≤ NTD`, else `1/(1 + (L − NTD))` (usize subtraction). -/
def computePathValue (ntd path_length : ℕ) : ℝ :=
  if path_length ≤ ntd then 1 else 1 / (1 + ((path_length - ntd : ℕ) : ℝ))

/-- Per-node atomic score contributed by the node at (0-based) position
`pn.1` within a path: `c(p) · alpha_k · ŝ_k`. -/
def atomicScore (c_p : ℝ) (path_length : ℕ) (sum_stake : ℝ) (validators : List Validator)
    (pn : ℕ × String) : ℝ :=
  c_p * computePositionWeight (pn.1 + 1) path_length * (getRealStake pn.2 validators / sum_stake)

/-- Step 1 of `PogConsensus::cal_slot_contribution`: the `raw_scores` map,
modelled as a total function with default 0 (its consumers only look up).
Empty paths, paths with no non-miner node, and paths whose non-miner stake
total is zero are skipped exactly as in the source. -/
def rawScores (ntd : ℕ) (paths : List (List String)) (validators : List Validator) :
    String → ℝ :=
  paths.foldl (fun m path =>
    if path = [] then m
    else
      let path_nodes := path.dropLast
      let path_length := path_nodes.length
      if path_length = 0 then m
      else
        let c_p := computePathValue ntd path_length
        let sum_stake := (path_nodes.map (fun n => getRealStake n validators)).sum
        if sum_stake = 0 then m
        else
          path_nodes.enum.foldl (fun m' pn =>
            fun n' => if n' = pn.2 then m' n' + atomicScore c_p path_length sum_stake validators pn
                      else m' n') m)
    (fun _ => 0)

/-- `PogConsensus::cal_slot_contribution`: logarithmic saturation
`C_slot(n) = K_sat · ln(1 + raw(n)/K_base)` applied on top of the raw scores
(nodes absent from `raw_scores` read as raw 0, hence saturated 0, matching the
`unwrap_or(&0.0)` lookups of the map the code returns). -/
def calSlotContribution (st : PogState) (paths : List (List String))
    (validators : List Validator) : String → ℝ :=
  fun n => st.k_sat * Real.log (1 + rawScores st.ntd paths validators n / st.k_base)

/-- `PogConsensus::update_score_history`: EMA update
`Score(n,t) = alpha · C_slot(n,t) + (1 − alpha) · Score(n,t−1)` for every
registered validator, inserted into the history map in order. -/
def updateScoreHistory (st : PogState) (slot_contribution : String → ℝ)
    (validators : List Validator) : List (String × ℝ) :=
  validators.foldl (fun hist v =>
    mapInsert hist v.address
      (st.alpha * slot_contribution v.address + (1 - st.alpha) * mapGetD hist v.address))
    st.score_history

/-- `PogConsensus::normalize_map`: divide every value by the total, except
that a zero-sum map is returned unchanged. -/
def normalizeMap (m : List (String × ℝ)) : List (String × ℝ) :=
  let s := mapSum m
  if s = 0 then m else m.map (fun p => (p.1, p.2 / s))

/-- The `s_real_map` of `select_internal`: collect the validator list into a
map from address to stake (later duplicates of an address overwrite). -/
def realStakeMap (validators : List Validator) : List (String × ℝ) :=
  validators.foldl (fun m v => mapInsert m v.address v.stake) []

/-- `PogConsensus::cal_virtual_stake`:
`S_v(n) = omega · Ĉ(n) + (1 − omega) · Ŝ(n)` over the keys of the real-stake
map. -/
def calVirtualStake (omega : ℝ) (real_stake_map normalized_stake normalized_contribution :
    List (String × ℝ)) : List (String × ℝ) :=
  real_stake_map.map (fun p =>
    (p.1, omega * mapGetD normalized_contribution p.1 + (1 - omega) * mapGetD normalized_stake p.1))

/-- `Block::get_all_paths`. -/
def getAllPaths (b : Block) : List (List String) := b.body.paths.map (fun p => p.paths)
end


noncomputable section

/-- Modelled from the spec: path value `c(p) = 1` if `L ≤ NTD` else
`1/(1 + (L − NTD))`, with mathematical (not usize) subtraction. -/
def cSpec (ntd L : ℕ) : ℝ :=
  if L ≤ ntd then 1 else 1 / (1 + ((L : ℝ) - (ntd : ℝ)))

/-- Modelled from the spec: position weight
`alpha_k = 2·(L − k + 1) / (L·(L+1))`, with mathematical subtraction. -/
def alphaSpec (k L : ℕ) : ℝ :=
  2 * ((L : ℝ) - (k : ℝ) + 1) / ((L : ℝ) * ((L : ℝ) + 1))

/-- Modelled from the spec (claim C1): the raw score a single path `p` gives to
node `n` — the sum over the 1-indexed positions `k` of the `L` non-miner nodes
at which `p` contains `n` of `c(p) · alpha_k · ŝ_k`, where
`ŝ_k = stake(n) / (total stake of the path's non-miner nodes)`; empty paths,
paths with no non-miner node, and paths with zero non-miner stake total
contribute nothing. -/
def pathRawSpec (ntd : ℕ) (validators : List Validator) (n : String) (p : List String) : ℝ :=
  let nodes := p.dropLast
  let L := nodes.length
  if L = 0 then 0
  else
    let total := (nodes.map (fun m => getRealStake m validators)).sum
    if total = 0 then 0
    else
      (nodes.enum.map (fun pn =>
        if pn.2 = n then cSpec ntd L * alphaSpec (pn.1 + 1) L * (getRealStake n validators / total)
        else 0)).sum

/-- Modelled from the spec (claim C1): `raw(n)`, summed over all paths. -/
def rawSpec (ntd : ℕ) (paths : List (List String)) (validators : List Validator)
    (n : String) : ℝ :=
  (paths.map (pathRawSpec ntd validators n)).sum

end


/-- Target NTD computed by `adjust_ntd`: the ceiling of the mean non-miner
path length `p_ave` (each path counts `len − 1`, saturating; the `f64`
division and `ceil` are idealised over `ℚ`, and `as usize` truncation of the
non-negative integer result is `Int.toNat`). -/
def ntdTarget (paths : List (List String)) : ℕ :=
  let s : ℕ := (paths.map (fun path => path.length - 1)).sum
  let p_ave : ℚ := (s : ℚ) / (paths.length : ℚ)
  (Int.ceil p_ave).toNat

/-- `PogConsensus::adjust_ntd`: one saturating step of NTD toward the target;
no change when the closed epoch had no paths. -/
def adjustNtd (ntd : ℕ) (paths : List (List String)) : ℕ :=
  if paths = [] then ntd
  else
    let target := ntdTarget paths
    if target < ntd then ntd - 1
    else if ntd < target then ntd + 1
    else ntd

/-- NTD across epochs: epoch `k` applies `adjust_ntd` with the paths observed
in epoch `k`. -/
def ntdTrajectory (ntd : ℕ) (pathsSeq : ℕ → List (List String)) : ℕ → ℕ
  | 0 => ntd
  | k + 1 => ntdTrajectory (adjustNtd ntd (pathsSeq 0)) (fun i => pathsSeq (i + 1)) k


noncomputable section

/-- Total stake of a validator list. -/
def totalStake (validators : List Validator) : ℝ :=
  (validators.map (fun v => v.stake)).sum

/-- The cumulative-weight selection loop shared by `PosConsensus::select` and
`PogConsensus::select_internal`: return the first validator whose cumulative
weight exceeds the drawn value `u`. -/
def cumulativePick : List Validator → ℝ → ℝ → Option Validator
  | [], _, _ => none
  | v :: rest, acc, u => if acc + v.stake > u then some v else cumulativePick rest (acc + v.stake) u

/-- `PosConsensus::select`, with the PRNG draw
`gen_range(0.0..total_stake)` abstracted as the oracle value `u`. -/
def posSelect (validators : List Validator) (u : ℝ) : Except ValidatorError Validator :=
  if validators.isEmpty then .error .NOValidatorError
  else
    match cumulativePick validators 0 u with
    | some v => .ok v
    | none => .error .NOValidatorError

/-- Steps 1-3 of `PogConsensus::select_internal`: the per-slot contribution,
the EMA history update, the normalised stake and contribution, the hybrid
virtual stakes, and the validator list re-weighted by virtual stake. -/
def pogVirtualValidators (st : PogState) (validators : List Validator)
    (paths : List (List String)) : List Validator :=
  let slot_contribution := calSlotContribution st paths validators
  let hist := updateScoreHistory st slot_contribution validators
  let s_real_map := realStakeMap validators
  let normalized_stake := normalizeMap s_real_map
  let normalized_contribution := normalizeMap hist
  let s_virtual_map := calVirtualStake st.omega s_real_map normalized_stake normalized_contribution
  validators.map (fun v => ⟨v.address, mapGetD s_virtual_map v.address⟩)

/-- `PogConsensus::select_internal`: paths are read from the chain's last
block; the returned state carries the updated score history; the PRNG draw
`gen_range(0.0..total_stake)` is the oracle value `u`. -/
def selectInternal (st : PogState) (validators : List Validator) (blockchain : Blockchain)
    (u : ℝ) : Except ValidatorError Validator × PogState :=
  let paths := getAllPaths (getLastBlock blockchain)
  let vlist := pogVirtualValidators st validators paths
  let hist := updateScoreHistory st (calSlotContribution st paths validators) validators
  let st' : PogState := { st with score_history := hist }
  (match cumulativePick vlist 0 u with
   | some v => Except.ok v
   | none => Except.error ValidatorError.NOValidatorError, st')

end


/-! ### `combine_seed` (src/consensus/mod.rs, lines 73-93)

`Wallet::verify_by_address` (ECDSA recovery) is abstracted as the oracle
`ecdsaVerify`, applied exactly where the source applies it.  A 32-byte seed
array is a total function `Fin 32 → Nat`. -/

/-- Model of `RandaoSeed` (src/consensus/mod.rs). -/
structure RandaoSeed where
  address : String
  seed : Fin 32 → Nat
  signature : String

/-- `combine_seed`: fold the contributions into an all-zero 32-byte array,
XOR-ing in each seed whose address belongs to a validator and whose ECDSA
signature over the seed bytes verifies, then SHA3-256 the result. -/
def combineSeed (ecdsaVerify : List Nat → String → String → Bool)
    (validators : List Validator) (vdf_seeds : List RandaoSeed) : List Nat :=
  let result : Fin 32 → Nat := vdf_seeds.foldl (fun result v =>
    if ¬ validators.any (fun validator => validator.address == v.address) then result
    else if ecdsaVerify (List.ofFn v.seed) v.signature v.address then
      fun i => result i ^^^ v.seed i
    else result) (fun _ => 0)
  sha3_256 (List.ofFn result)

/-- Modelled from the spec (claim C8): the contributions that are accepted —
signer is a current validator and the signature over the seed verifies. -/
def acceptedSeeds (ecdsaVerify : List Nat → String → String → Bool)
    (validators : List Validator) (vdf_seeds : List RandaoSeed) : List RandaoSeed :=
  vdf_seeds.filter (fun v =>
    validators.any (fun validator => validator.address == v.address) &&
      ecdsaVerify (List.ofFn v.seed) v.signature v.address)

/-- Modelled from the spec (claim C8): bytewise XOR of a list of seeds into an
initially all-zero 32-byte array. -/
def xorFold (seeds : List RandaoSeed) : Fin 32 → Nat :=
  seeds.foldl (fun result v => fun i => result i ^^^ v.seed i) (fun _ => 0)


/-! ### `Wallet::recover_pubkey` / `verify_by_address` front end
(src/wallet/mod.rs, lines 121-183) and `AggregatedSignedPaths::verify`
(src/blockchain/path.rs, lines 202-236)

The elliptic-curve recovery itself (`from_compact` + `recover_ecdsa`) and the
BLS aggregate check are oracles; the string parsing, slicing, registry
lookups and control flow around them are embedded concretely.  Rust positions
that PANIC — out-of-range string slicing, `expect`, `unwrap` — are made
explicit as the `crash` result; `WalletError` returns (which `verify` maps to
`false`) are `err`. -/

/-- Outcome of a Rust computation that may panic. -/
inductive VerifyOutcome (α : Type) where
  | crash
  | err
  | ok (a : α)
deriving DecidableEq

/-- ASCII bytes of a string (`as_bytes()`; all strings involved are ASCII). -/
def strBytes (s : String) : List Nat := s.toList.map Char.toNat

/-- `Wallet::recover_pubkey`: strip `0x`, slice out the 128-hex-digit (r, s)
part — Rust `&signature[0..128]` PANICS when the string is shorter — hex-decode
it (`?` turns failure into a `WalletError` return), slice and parse the
recovery byte (`&signature[128..130]`, again panicking when out of range),
require `v − 27 ∈ 0..=3` (`RecoveryId::try_from(..).expect(..)` panics
otherwise, and `v < 27` underflows), then run the abstracted EC recovery,
whose failure is `.expect(..)`-panicked as well. -/
def recoverPubkey {PK : Type} (recoverOracle : List Nat → List Nat → Nat → Option PK)
    (msg : List Nat) (signature : String) : VerifyOutcome PK :=
  let sig := signature.toList
  let sig := if sig.take 2 = ['0', 'x'] then sig.drop 2 else sig
  if sig.length < 128 then .crash
  else
    match hexDecodeChars? (sig.take 128) with
    | none => .err
    | some sigBytes =>
      if sig.length < 130 then .crash
      else
        match hexDecodeChars? ((sig.drop 128).take 2) with
        | none => .err
        | some vbytes =>
          let v := vbytes.headD 0
          if v < 27 ∨ 30 < v then .crash
          else
            match recoverOracle (sha3_256 msg) sigBytes (v - 27) with
            | none => .crash
            | some pk => .ok pk

/-- `Wallet::verify_by_address`: recover the key, derive its address (the
derivation `public_key_to_address` is abstracted as `addrOf`), compare.  A
`WalletError` from recovery yields `false`; a panic propagates. -/
def verifyByAddress {PK : Type} (recoverOracle : List Nat → List Nat → Nat → Option PK)
    (addrOf : PK → String) (msg : List Nat) (signature : String) (address : String) :
    VerifyOutcome Bool :=
  match recoverPubkey recoverOracle msg signature with
  | .crash => .crash
  | .err => .ok false
  | .ok pk => .ok (addrOf pk == address)

/-- `concat_tx_hash_with_to_hash_static`: `decode(tx_hash).unwrap()` PANICS on
invalid hex; otherwise the decoded transaction hash followed by the SHA3-256
of the recipient address bytes. -/
def concatTxHashWithToHash (tx_hash to_ : String) : Option (List Nat) :=
  match hexDecode? tx_hash with
  | none => none
  | some bytes => some (bytes ++ sha3_256 (strBytes to_))

/-- The message-rebuilding loop of `AggregatedSignedPaths::verify` (hop 0 is
skipped: the originator signed nothing); `none` is a propagated panic. -/
def buildMessages (tx_hash : String) : List String → Option (List (List Nat))
  | [] => some []
  | p :: rest =>
    match concatTxHashWithToHash tx_hash p, buildMessages tx_hash rest with
    | some m, some ms => some (m :: ms)
    | _, _ => none

/-- Collect the registry lookups; `none` stands for the
`get_bls_pub_key(..).unwrap()` PANIC on a missing key. -/
def lookupKeys {PK : Type} (registry : String → Option PK) : List String → Option (List PK)
  | [] => some []
  | a :: rest =>
    match registry a, lookupKeys registry rest with
    | some pk, some pks => some (pk :: pks)
    | _, _ => none

/-- `AggregatedSignedPaths::verify`: empty path list fails; an
originator-is-miner single-hop path passes; the terminal address must be the
miner; then the hop messages are rebuilt, every address's BLS key is resolved
via the registry (PANICKING via `unwrap` on a missing key), the terminal
miner's key is dropped, and the abstracted aggregate verification runs. -/
def aspVerify {PK : Type} (registry : String → Option PK)
    (aggVerifyOracle : List (List Nat) → List PK → String → Bool)
    (asp : AggregatedSignedPaths) (transaction : Transaction) (miner : String) :
    VerifyOutcome Bool :=
  if asp.paths.isEmpty then .ok false
  else if transaction.from_ == miner && asp.paths.headD "" == miner then .ok true
  else if !(asp.paths.getLastD "" == miner) then .ok false
  else
    match buildMessages transaction.hash (asp.paths.drop 1) with
    | none => .crash
    | some messages =>
      match lookupKeys registry asp.paths with
      | none => .crash
      | some pks => .ok (aggVerifyOracle messages pks.dropLast asp.signature)

/-- Concrete transaction for the C7 failing input: originator distinct from
the miner, valid-hex transaction hash. -/
def txC7 : Transaction := ⟨"zz", "m", 1, "aa", "s", 0, []⟩


/-! ### Theorems -/


/-- Length of one hashed level. -/
theorem pairHash_length : ∀ l : List String, (pairHash l).length = l.length / 2
  | [] => rfl
  | [_] => by simp [pairHash]
  | _ :: _ :: rest => by
    simp only [pairHash, List.length_cons, pairHash_length rest]
    omega

/-- Main termination lemma: fuel `leaves.length` (or more) suffices on any
non-empty list, and the result is independent of the fuel. -/
theorem merkleFuel_terminates :
    ∀ n (leaves : List String), leaves.length = n → leaves ≠ [] →
      ∃ r, ∀ f, n ≤ f → merkleFuel f leaves = some r := by
  intro n
  induction n using Nat.strong_induction_on with
  | _ n ih =>
    intro leaves hlen hne
    match n, hlen with
    | 0, hlen => exact absurd (List.length_eq_zero.mp hlen) hne
    | 1, hlen =>
      refine ⟨leaves.headD "", fun f hf => ?_⟩
      match f, hf with
      | f + 1, _ => simp [merkleFuel, hlen]
    | n + 2, hlen =>
      set l2 := if leaves.length % 2 ≠ 0 then leaves ++ [leaves.getLastD ""] else leaves
        with hl2
      have hl2len : l2.length = if leaves.length % 2 ≠ 0 then leaves.length + 1
          else leaves.length := by
        rw [hl2]
        split
        · simp
        · simp
      have hnextlen : (pairHash l2).length = l2.length / 2 := pairHash_length l2
      have hlt : (pairHash l2).length < n + 2 := by
        rw [hnextlen, hl2len, hlen]
        split <;> omega
    -- the next level is non-empty because the (evened-out) level has ≥ 2 leaves
      have hnextne : pairHash l2 ≠ [] := by
        intro h
        rw [h] at hnextlen
        rw [hl2len, hlen] at hnextlen
        revert hnextlen
        split <;> (simp; try omega)
      obtain ⟨r, hr⟩ := ih (pairHash l2).length hlt (pairHash l2) rfl hnextne
      refine ⟨r, fun f hf => ?_⟩
      match f, hf with
      | f + 1, hf =>
        have h1 : leaves.length ≠ 1 := by omega
        have hfuel : (pairHash l2).length ≤ f := by omega
        simp only [merkleFuel, h1, if_false]
        exact hr f hfuel





/-- C9: `Block::cal_merkle_root` terminates on every non-empty leaf list (fuel
equal to the number of leaves suffices, with a fuel-independent result), and
on the empty list the recursion never produces a result no matter how much
fuel it is given — the Rust code loops forever, so a block with zero
transactions has no defined Merkle root. -/
theorem cal_merkle_root_termination :
    (∀ leaves : List String, leaves ≠ [] →
       ∃ r, ∀ f, leaves.length ≤ f → merkleFuel f leaves = some r)
  ∧ (∀ f, merkleFuel f ([] : List String) = none) := by
  constructor
  · intro leaves hne
    exact merkleFuel_terminates leaves.length leaves rfl hne
  · intro f
    induction f with
    | zero => rfl
    | succ f ih => simpa [merkleFuel, pairHash] using ih

/-- Witness for C9 at the concrete singleton list `["aa"]`. -/
theorem cal_merkle_root_termination_witness :
    (["aa"] : List String) ≠ [] ∧
      ∃ r, ∀ f, (["aa"] : List String).length ≤ f → merkleFuel f ["aa"] = some r :=
  ⟨by simp, cal_merkle_root_termination.1 ["aa"] (by simp)⟩



/-- Unfolding lemma: absorbing one step consumes 136 bytes. -/
theorem absorbBlocks_step (f : ℕ) (st : List Nat) (b : Nat) (rest : List Nat) :
    absorbBlocks (f + 1) st (b :: rest) =
      absorbBlocks f (keccakF (xorBlock st ((b :: rest).take 136))) ((b :: rest).drop 136) := rfl

/-- Unfolding lemma: an exhausted message leaves the state unchanged. -/
theorem absorbBlocks_nil (f : ℕ) (st : List Nat) : absorbBlocks f st [] = st := by
  cases f
  · rfl
  · rfl

/-- Staged kernel evaluation of SHA3-256 on the message `aabb`:
each Keccak round is checked separately on literal states, keeping every
single proof obligation small. -/
theorem sha3_eval_1 : sha3_256 [170, 187] = [246, 15, 12, 99, 160, 244, 184, 211, 255, 94, 107, 153, 121, 51, 243, 209, 32, 7, 204, 98, 1, 194, 196, 247, 184, 142, 17, 205, 248, 249, 81, 174] := by
  have hpad : sha3Pad [170, 187] = [170, 187, 6, 0, 0, 0, 0, 0, 0, 0, 0, 0, 0, 0, 0, 0, 0, 0, 0, 0, 0, 0, 0, 0, 0, 0, 0, 0, 0, 0, 0, 0, 0, 0, 0, 0, 0, 0, 0, 0, 0, 0, 0, 0, 0, 0, 0, 0, 0, 0, 0, 0, 0, 0, 0, 0, 0, 0, 0, 0, 0, 0, 0, 0, 0, 0, 0, 0, 0, 0, 0, 0, 0, 0, 0, 0, 0, 0, 0, 0, 0, 0, 0, 0, 0, 0, 0, 0, 0, 0, 0, 0, 0, 0, 0, 0, 0, 0, 0, 0, 0, 0, 0, 0, 0, 0, 0, 0, 0, 0, 0, 0, 0, 0, 0, 0, 0, 0, 0, 0, 0, 0, 0, 0, 0, 0, 0, 0, 0, 0, 0, 0, 0, 0, 0, 128] := by decide
  have hxor : xorBlock (List.replicate 25 0) [170, 187, 6, 0, 0, 0, 0, 0, 0, 0, 0, 0, 0, 0, 0, 0, 0, 0, 0, 0, 0, 0, 0, 0, 0, 0, 0, 0, 0, 0, 0, 0, 0, 0, 0, 0, 0, 0, 0, 0, 0, 0, 0, 0, 0, 0, 0, 0, 0, 0, 0, 0, 0, 0, 0, 0, 0, 0, 0, 0, 0, 0, 0, 0, 0, 0, 0, 0, 0, 0, 0, 0, 0, 0, 0, 0, 0, 0, 0, 0, 0, 0, 0, 0, 0, 0, 0, 0, 0, 0, 0, 0, 0, 0, 0, 0, 0, 0, 0, 0, 0, 0, 0, 0, 0, 0, 0, 0, 0, 0, 0, 0, 0, 0, 0, 0, 0, 0, 0, 0, 0, 0, 0, 0, 0, 0, 0, 0, 0, 0, 0, 0, 0, 0, 0, 128] = [441258, 0, 0, 0, 0, 0, 0, 0, 0, 0, 0, 0, 0, 0, 0, 0, 9223372036854775808, 0, 0, 0, 0, 0, 0, 0, 0] := by decide
  have hr0 : keccakRound [441258, 0, 0, 0, 0, 0, 0, 0, 0, 0, 0, 0, 0, 0, 0, 0, 9223372036854775808, 0, 0, 0, 0, 0, 0, 0, 0] 1 = [4398046952362, 7762692829586915328, 4412505653248, 179115, 7762692844046057472, 8, 15525404176744972288, 8, 15525403251359875072, 1152922429991944192, 882516, 225924128, 0, 226370388, 262176, 118449744291840, 68719493120, 451848192, 118449292460032, 0, 2791011311062876160, 0, 485168301850947240, 2305845208236949504, 1765032] := by decide
  have hr1 : keccakRound [4398046952362, 7762692829586915328, 4412505653248, 179115, 7762692844046057472, 8, 15525404176744972288, 8, 15525403251359875072, 1152922429991944192, 882516, 225924128, 0, 226370388, 262176, 118449744291840, 68719493120, 451848192, 118449292460032, 0, 2791011311062876160, 0, 485168301850947240, 2305845208236949504, 1765032] 32898 = [216688775070940385, 18197756924581420254, 6462606852495333142, 9237665188560185523, 14999762657642966684, 11620204681889440314, 14239847968349528639, 1993699150709884290, 16453557607529046020, 16869173956785506671, 15490801659642993511, 9935118901106538484, 18122398549160697246, 159560787421713086, 11847826129098684139, 6055521188026747028, 5748106053168247997, 172880658189143590, 9652071689552816406, 4216964632042415026, 15384826207406558679, 16052623335868046157, 17305922890286449140, 5067837144460265955, 12042760520350479568] := by decide
  have hr2 : keccakRound [216688775070940385, 18197756924581420254, 6462606852495333142, 9237665188560185523, 14999762657642966684, 11620204681889440314, 14239847968349528639, 1993699150709884290, 16453557607529046020, 16869173956785506671, 15490801659642993511, 9935118901106538484, 18122398549160697246, 159560787421713086, 11847826129098684139, 6055521188026747028, 5748106053168247997, 172880658189143590, 9652071689552816406, 4216964632042415026, 15384826207406558679, 16052623335868046157, 17305922890286449140, 5067837144460265955, 12042760520350479568] 9223372036854808714 = [16379770039460329362, 16086051964503651888, 16497132422208055372, 18039746601280021224, 9557354242299525805, 12255190420519077609, 4798574438831241649, 11968488288971103912, 7108758130133837643, 1397878571963581007, 12649332899086920451, 7856983454813365965, 15937034116187010606, 2808849314895894612, 5224974603626959582, 1308254993012557346, 1444417026921006318, 4396168695279937386, 2265334435717345567, 14650942244077873180, 14865918328090361899, 3842771214630240338, 10864445883339764073, 3426755721647619884, 16606737345320920670] := by decide
  have hr3 : keccakRound [16379770039460329362, 16086051964503651888, 16497132422208055372, 18039746601280021224, 9557354242299525805, 12255190420519077609, 4798574438831241649, 11968488288971103912, 7108758130133837643, 1397878571963581007, 12649332899086920451, 7856983454813365965, 15937034116187010606, 2808849314895894612, 5224974603626959582, 1308254993012557346, 1444417026921006318, 4396168695279937386, 2265334435717345567, 14650942244077873180, 14865918328090361899, 3842771214630240338, 10864445883339764073, 3426755721647619884, 16606737345320920670] 9223372039002292224 = [8334312520025193061, 13727084327549537680, 14179777538777593546, 6972845946553564741, 121047648053117667, 13180076524623734091, 17062051454008465104, 17427033082013000903, 15709017114582892370, 5429477258615793634, 4693420079888223490, 2686744053751888970, 5737661855522633697, 16885531973643614867, 13688788493337317132, 9729040235301497352, 432915006192276678, 10833488572152855710, 6850432568576785047, 5835765101084154022, 5340021087499151500, 12365248619755120882, 3007411868693814480, 6119672845090479014, 3035979683852207509] := by decide
  have hr4 : keccakRound [8334312520025193061, 13727084327549537680, 14179777538777593546, 6972845946553564741, 121047648053117667, 13180076524623734091, 17062051454008465104, 17427033082013000903, 15709017114582892370, 5429477258615793634, 4693420079888223490, 2686744053751888970, 5737661855522633697, 16885531973643614867, 13688788493337317132, 9729040235301497352, 432915006192276678, 10833488572152855710, 6850432568576785047, 5835765101084154022, 5340021087499151500, 12365248619755120882, 3007411868693814480, 6119672845090479014, 3035979683852207509] 32907 = [4703078863081864173, 8498715335559850942, 17205348281093007638, 749808047910616837, 11302089851339095156, 3103027961988060105, 5280437420379807783, 14269144369784741915, 9576163413285608780, 14418555682411227762, 17526922973656049122, 7234714642710308583, 18010936774959153599, 269991743710128011, 10564249076292766700, 15821068010301545545, 11477428653603596548, 6805232232689999338, 15752447509376857487, 9064159354440278896, 11680673640808159910, 12017569015748141922, 1124558751826649751, 16165271876260045673, 16551630845247876213] := by decide
  have hr5 : keccakRound [4703078863081864173, 8498715335559850942, 17205348281093007638, 749808047910616837, 11302089851339095156, 3103027961988060105, 5280437420379807783, 14269144369784741915, 9576163413285608780, 14418555682411227762, 17526922973656049122, 7234714642710308583, 18010936774959153599, 269991743710128011, 10564249076292766700, 15821068010301545545, 11477428653603596548, 6805232232689999338, 15752447509376857487, 9064159354440278896, 11680673640808159910, 12017569015748141922, 1124558751826649751, 16165271876260045673, 16551630845247876213] 2147483649 = [16131025449803671347, 8381500741793512958, 1298681538104102236, 1572890471892550530, 6058380832643660962, 15142512278245442256, 5547434318271341886, 18235213956369865211, 7113239693875185256, 14735475396406080854, 16821263963089280541, 3370779251213620659, 16430823070119147662, 14522152771448472330, 11839499290038549170, 3332473837833853844, 702408793349552664, 12646214434764181892, 17034011813342816359, 4115280489020948442, 17950749084378048601, 18220470213105675700, 2448215411643265484, 12862628836873471103, 1801351436731309783] := by decide
  have hr6 : keccakRound [16131025449803671347, 8381500741793512958, 1298681538104102236, 1572890471892550530, 6058380832643660962, 15142512278245442256, 5547434318271341886, 18235213956369865211, 7113239693875185256, 14735475396406080854, 16821263963089280541, 3370779251213620659, 16430823070119147662, 14522152771448472330, 11839499290038549170, 3332473837833853844, 702408793349552664, 12646214434764181892, 17034011813342816359, 4115280489020948442, 17950749084378048601, 18220470213105675700, 2448215411643265484, 12862628836873471103, 1801351436731309783] 9223372039002292353 = [10137579313630058790, 16671314098899460623, 14645186397741260135, 17950448886326645224, 17927603095836100073, 12618800542086903152, 12905699583622939372, 10743871607821520133, 5647248027938471315, 1161356472202606034, 12995905965233740308, 13900851836636935635, 1626430881119751706, 14348649180150109374, 9202871037193104988, 16254741949483796945, 16550572914839151403, 7248213025113357434, 7873383374369785802, 9540428293380871174, 13566244846208188604, 13877542690441207391, 3495107795575647604, 1710351823122848864, 6134832874474748752] := by decide
  have hr7 : keccakRound [10137579313630058790, 16671314098899460623, 14645186397741260135, 17950448886326645224, 17927603095836100073, 12618800542086903152, 12905699583622939372, 10743871607821520133, 5647248027938471315, 1161356472202606034, 12995905965233740308, 13900851836636935635, 1626430881119751706, 14348649180150109374, 9202871037193104988, 16254741949483796945, 16550572914839151403, 7248213025113357434, 7873383374369785802, 9540428293380871174, 13566244846208188604, 13877542690441207391, 3495107795575647604, 1710351823122848864, 6134832874474748752] 9223372036854808585 = [2351933799576205463, 17459079485666535789, 17437943889581253619, 17796958668525108513, 3397235900736747411, 15112465642911724638, 11097158775942729196, 9806490992297696612, 17398851842245441279, 17925697215555382108, 4184487320677947275, 16792426872009442764, 7515386258315400575, 10125674723222008978, 18091718686255220086, 4397329224841644261, 1064765449210340675, 3131190790032507119, 9532883909525727316, 17748223099877598499, 8067318040284971246, 4733031746186159016, 18239462313829719177, 5048705165155864390, 14964813880367996528] := by decide
  have hr8 : keccakRound [2351933799576205463, 17459079485666535789, 17437943889581253619, 17796958668525108513, 3397235900736747411, 15112465642911724638, 11097158775942729196, 9806490992297696612, 17398851842245441279, 17925697215555382108, 4184487320677947275, 16792426872009442764, 7515386258315400575, 10125674723222008978, 18091718686255220086, 4397329224841644261, 1064765449210340675, 3131190790032507119, 9532883909525727316, 17748223099877598499, 8067318040284971246, 4733031746186159016, 18239462313829719177, 5048705165155864390, 14964813880367996528] 138 = [9935417000975168692, 16013402695808899280, 17500706840715238748, 11971148674891602809, 9436203832496285570, 14141262109684235149, 11393585592786226920, 10273623403620454421, 16982761363772086791, 5706846222002883856, 14385942049067862643, 17256153377042618809, 2612428720893409474, 16874890234885820076, 16243117818247614303, 15678653323014839560, 17813255525263890977, 6783830521003795427, 12624784206761467772, 1911807559076829768, 8066639278466147198, 18018253750525763770, 1607122971391273095, 10946145594443913618, 5824842528314437489] := by decide
  have hr9 : keccakRound [9935417000975168692, 16013402695808899280, 17500706840715238748, 11971148674891602809, 9436203832496285570, 14141262109684235149, 11393585592786226920, 10273623403620454421, 16982761363772086791, 5706846222002883856, 14385942049067862643, 17256153377042618809, 2612428720893409474, 16874890234885820076, 16243117818247614303, 15678653323014839560, 17813255525263890977, 6783830521003795427, 12624784206761467772, 1911807559076829768, 8066639278466147198, 18018253750525763770, 1607122971391273095, 10946145594443913618, 5824842528314437489] 136 = [12223669722357222377, 18194639305795844834, 14045608509550183570, 9503392050680091689, 12407794550894841198, 1125948643674390067, 5746282974027875661, 12436585047840783471, 2105843196954641414, 13928548538400307376, 12815355169033960543, 5388804850390521281, 3900279594165954488, 14939694459232126141, 14747313447687222967, 5354533424433836348, 9849469581780176677, 12048115636858779982, 17076910270934769774, 1547669781802817735, 9570652839492232383, 9267431635957252160, 14229199486378740273, 98535998102990782, 11196614081118001187] := by decide
  have hr10 : keccakRound [12223669722357222377, 18194639305795844834, 14045608509550183570, 9503392050680091689, 12407794550894841198, 1125948643674390067, 5746282974027875661, 12436585047840783471, 2105843196954641414, 13928548538400307376, 12815355169033960543, 5388804850390521281, 3900279594165954488, 14939694459232126141, 14747313447687222967, 5354533424433836348, 9849469581780176677, 12048115636858779982, 17076910270934769774, 1547669781802817735, 9570652839492232383, 9267431635957252160, 14229199486378740273, 98535998102990782, 11196614081118001187] 2147516425 = [14302179265794851065, 6076409426368609336, 14096325638737746835, 9573065634733993177, 16195404506817248625, 10144032510299182429, 12931435254825938635, 14238883850038791949, 13919049105275196945, 15748619655879629237, 9444104158018271878, 11179393889671968857, 2440752363033697611, 18246738319072908571, 10448714290320712428, 18371974480778127454, 3825169880431796651, 3611935847048843034, 8814896614404568914, 11485858135639807845, 3934255565863000271, 10488136376518566513, 9605173470414548241, 570032575135683041, 3946150945150464728] := by decide
  have hr11 : keccakRound [14302179265794851065, 6076409426368609336, 14096325638737746835, 9573065634733993177, 16195404506817248625, 10144032510299182429, 12931435254825938635, 14238883850038791949, 13919049105275196945, 15748619655879629237, 9444104158018271878, 11179393889671968857, 2440752363033697611, 18246738319072908571, 10448714290320712428, 18371974480778127454, 3825169880431796651, 3611935847048843034, 8814896614404568914, 11485858135639807845, 3934255565863000271, 10488136376518566513, 9605173470414548241, 570032575135683041, 3946150945150464728] 2147483658 = [8410321927309111426, 18330874344517185202, 15502396631684003217, 3002554854994731034, 8238872279831966268, 15101165498048461981, 14027024532229244911, 10140138347344979409, 15002799576682284438, 1786655818832017844, 17122055094660081854, 16942959899183943212, 12581598729361872630, 13672159283862571837, 15543805198272172569, 7187514604873880363, 16173837515320345224, 14145989498339284539, 2895332795970008873, 11372417805261523069, 2626979008200353800, 8339041057593785135, 8388656258004025577, 87526229372638011, 10951073969125386699] := by decide
  have hr12 : keccakRound [8410321927309111426, 18330874344517185202, 15502396631684003217, 3002554854994731034, 8238872279831966268, 15101165498048461981, 14027024532229244911, 10140138347344979409, 15002799576682284438, 1786655818832017844, 17122055094660081854, 16942959899183943212, 12581598729361872630, 13672159283862571837, 15543805198272172569, 7187514604873880363, 16173837515320345224, 14145989498339284539, 2895332795970008873, 11372417805261523069, 2626979008200353800, 8339041057593785135, 8388656258004025577, 87526229372638011, 10951073969125386699] 2147516555 = [16975489775728311426, 6813552792597427883, 11416960433943840266, 15016655186603304515, 13750845326682209259, 16645089556846624428, 4801494979320918332, 9706177271910523010, 17082264087153899203, 3767142579552487486, 12846556070688793042, 12781859396592027784, 10794138998120719922, 1051897359637600718, 17739976073955572954, 12989635510695479224, 16407555103068016627, 11284356538376379273, 11285087513927859586, 6023999787367812978, 8313517540865154756, 5679466634982312115, 8053404065656103154, 13772307526203060961, 6219945998208553381] := by decide
  have hr13 : keccakRound [16975489775728311426, 6813552792597427883, 11416960433943840266, 15016655186603304515, 13750845326682209259, 16645089556846624428, 4801494979320918332, 9706177271910523010, 17082264087153899203, 3767142579552487486, 12846556070688793042, 12781859396592027784, 10794138998120719922, 1051897359637600718, 17739976073955572954, 12989635510695479224, 16407555103068016627, 11284356538376379273, 11285087513927859586, 6023999787367812978, 8313517540865154756, 5679466634982312115, 8053404065656103154, 13772307526203060961, 6219945998208553381] 9223372036854775947 = [772300183163993471, 16657597209337298510, 16794414948828465218, 12673038146087113603, 13099013943104384407, 3337615817805948039, 2296100628463453262, 4212691211684089120, 11406541604641875513, 8677818748950646478, 15290788241138180945, 1600862464224881496, 2745226235205653838, 825332199841237489, 5654824304963037469, 9742389913104912875, 14819935371627744349, 5028935719637191095, 902198059131231755, 15041937042225363838, 14697776917929826339, 14067219916732072735, 2627210115049977911, 8694407450466678093, 4114829800368902291] := by decide
  have hr14 : keccakRound [772300183163993471, 16657597209337298510, 16794414948828465218, 12673038146087113603, 13099013943104384407, 3337615817805948039, 2296100628463453262, 4212691211684089120, 11406541604641875513, 8677818748950646478, 15290788241138180945, 1600862464224881496, 2745226235205653838, 825332199841237489, 5654824304963037469, 9742389913104912875, 14819935371627744349, 5028935719637191095, 902198059131231755, 15041937042225363838, 14697776917929826339, 14067219916732072735, 2627210115049977911, 8694407450466678093, 4114829800368902291] 9223372036854808713 = [7800414040348840203, 1370050333898246668, 1133517454697574414, 3255693751045666460, 8339028750550650855, 1609026466348529344, 4284042418294155320, 1681984328040183405, 1138426728003989816, 14600038094011762734, 16492839876354449376, 16460995160901646579, 15266259729910042372, 9934899367302047878, 4525573467088864399, 12221349800441311794, 12799107242250754763, 12446506941195870367, 12811761736463584294, 12932534933753753182, 3834221194215865936, 3422657134254133175, 11766895496488688234, 5313524216298942805, 1754783867352763455] := by decide
  have hr15 : keccakRound [7800414040348840203, 1370050333898246668, 1133517454697574414, 3255693751045666460, 8339028750550650855, 1609026466348529344, 4284042418294155320, 1681984328040183405, 1138426728003989816, 14600038094011762734, 16492839876354449376, 16460995160901646579, 15266259729910042372, 9934899367302047878, 4525573467088864399, 12221349800441311794, 12799107242250754763, 12446506941195870367, 12811761736463584294, 12932534933753753182, 3834221194215865936, 3422657134254133175, 11766895496488688234, 5313524216298942805, 1754783867352763455] 9223372036854808579 = [16521831214191798267, 4891009563991372557, 9376755134781004423, 13563989474006138816, 6891842404473471980, 12759146672744284186, 13452763647740159038, 3285961681288629669, 13631810553659604480, 6945272756058204170, 408643493621149766, 14500319156329765208, 17082351507890469773, 12075258071852294117, 2201965335396072906, 11564251023431051412, 17356170757965807439, 10918508469131324990, 12231505322734332997, 15083803558452472010, 8234440484581949077, 3623584654394929800, 13752320975683173238, 10000478867342867017, 10566763196337779566] := by decide
  have hr16 : keccakRound [16521831214191798267, 4891009563991372557, 9376755134781004423, 13563989474006138816, 6891842404473471980, 12759146672744284186, 13452763647740159038, 3285961681288629669, 13631810553659604480, 6945272756058204170, 408643493621149766, 14500319156329765208, 17082351507890469773, 12075258071852294117, 2201965335396072906, 11564251023431051412, 17356170757965807439, 10918508469131324990, 12231505322734332997, 15083803558452472010, 8234440484581949077, 3623584654394929800, 13752320975683173238, 10000478867342867017, 10566763196337779566] 9223372036854808578 = [15136078029566766378, 14948936935323875117, 3776087306359423250, 17300877284124773934, 11260551503398704177, 7014446317459634669, 10921620119707592709, 2245118440319210941, 6963960911778806974, 13761963523068284179, 16690123408649432010, 1237334816015651559, 593731326700583817, 4468974335654866065, 16361452822846718008, 10696993888729977544, 16398075128510382736, 17501033412338106980, 8521399728966247917, 15971147775453339721, 1945298875825719886, 13532575686255314820, 2849163175185038993, 16539621666896234916, 17920339034710689569] := by decide
  have hr17 : keccakRound [15136078029566766378, 14948936935323875117, 3776087306359423250, 17300877284124773934, 11260551503398704177, 7014446317459634669, 10921620119707592709, 2245118440319210941, 6963960911778806974, 13761963523068284179, 16690123408649432010, 1237334816015651559, 593731326700583817, 4468974335654866065, 16361452822846718008, 10696993888729977544, 16398075128510382736, 17501033412338106980, 8521399728966247917, 15971147775453339721, 1945298875825719886, 13532575686255314820, 2849163175185038993, 16539621666896234916, 17920339034710689569] 9223372036854775936 = [10788146563362498198, 8990234749496611079, 917141382619347389, 5468271329648648499, 4505832440202972499, 10636379931998715896, 3544413031528393691, 97176410069033017, 15715217155997077047, 2431106497992182366, 8268684543450377761, 6859279547329904585, 10754796327429789067, 12496682061589486679, 1045379281737966708, 17508250748161805492, 12473079362175926863, 16720837360434228921, 3244039287472630986, 11158500372682474671, 7283684758292434694, 14785305544748219017, 17761800991946505467, 13726640324356181405, 13171641177564393003] := by decide
  have hr18 : keccakRound [10788146563362498198, 8990234749496611079, 917141382619347389, 5468271329648648499, 4505832440202972499, 10636379931998715896, 3544413031528393691, 97176410069033017, 15715217155997077047, 2431106497992182366, 8268684543450377761, 6859279547329904585, 10754796327429789067, 12496682061589486679, 1045379281737966708, 17508250748161805492, 12473079362175926863, 16720837360434228921, 3244039287472630986, 11158500372682474671, 7283684758292434694, 14785305544748219017, 17761800991946505467, 13726640324356181405, 13171641177564393003] 32778 = [9058230726488425807, 735087111975519253, 8599493266453624413, 4092251042185515066, 7295582318122858491, 2715107402271431849, 11410389663642392858, 6213016562448393173, 4449871991296689582, 12212012110823065012, 382317762134651367, 1036466491986311386, 11592826788876744422, 1206073899003368050, 9442589068993150290, 15463985340941035805, 2415277428483464399, 9016961852920473478, 14337274846413824643, 794665462836866946, 17523124421486483471, 9557715911801920873, 12776084406387962791, 13095902936555805805, 10250058454590589596] := by decide
  have hr19 : keccakRound [9058230726488425807, 735087111975519253, 8599493266453624413, 4092251042185515066, 7295582318122858491, 2715107402271431849, 11410389663642392858, 6213016562448393173, 4449871991296689582, 12212012110823065012, 382317762134651367, 1036466491986311386, 11592826788876744422, 1206073899003368050, 9442589068993150290, 15463985340941035805, 2415277428483464399, 9016961852920473478, 14337274846413824643, 794665462836866946, 17523124421486483471, 9557715911801920873, 12776084406387962791, 13095902936555805805, 10250058454590589596] 9223372039002259466 = [5520266044852184992, 8793673819764129255, 9152979180174784738, 18300999719485431680, 15186634714995727879, 1208472358883173961, 16468126668917761180, 231927551254129837, 497748179345050113, 7526215328485030956, 1239391620837139811, 3233887295421147429, 17263294520797854547, 17518698240347754429, 2161814466862322840, 6213092699505450432, 11509484125639146158, 2628059026062331838, 1712284827868385076, 12496948604844143889, 2697217768058284619, 8860450684998847923, 5772266755450728916, 8715190734973283598, 14704829984322398753] := by decide
  have hr20 : keccakRound [5520266044852184992, 8793673819764129255, 9152979180174784738, 18300999719485431680, 15186634714995727879, 1208472358883173961, 16468126668917761180, 231927551254129837, 497748179345050113, 7526215328485030956, 1239391620837139811, 3233887295421147429, 17263294520797854547, 17518698240347754429, 2161814466862322840, 6213092699505450432, 11509484125639146158, 2628059026062331838, 1712284827868385076, 12496948604844143889, 2697217768058284619, 8860450684998847923, 5772266755450728916, 8715190734973283598, 14704829984322398753] 9223372039002292353 = [12047016823747265196, 18437478844776037431, 4630203892094702265, 416237174132569073, 6661297588557998212, 11177738695358971769, 592645765036555106, 13635949604301976354, 1691695520719951310, 8739520965567098965, 8101914668180971078, 10969624651837729030, 8622960878736550942, 2550290583070381474, 1338521129055935307, 18018814149591526541, 8983588267706553741, 6077591011102762525, 6134775614553758727, 8832873424035552365, 4167161453090428408, 12116330841682434212, 7882807356622417659, 16780878933574025651, 3243116729230555514] := by decide
  have hr21 : keccakRound [12047016823747265196, 18437478844776037431, 4630203892094702265, 416237174132569073, 6661297588557998212, 11177738695358971769, 592645765036555106, 13635949604301976354, 1691695520719951310, 8739520965567098965, 8101914668180971078, 10969624651837729030, 8622960878736550942, 2550290583070381474, 1338521129055935307, 18018814149591526541, 8983588267706553741, 6077591011102762525, 6134775614553758727, 8832873424035552365, 4167161453090428408, 12116330841682434212, 7882807356622417659, 16780878933574025651, 3243116729230555514] 9223372036854808704 = [3580889212171829312, 17776409629816179969, 12238723328226576020, 14172525792782489406, 17996895011171972015, 17939415843129834212, 2795538889477629875, 4503704577991309803, 15024240443053101991, 6902503600621588265, 3432536842706133012, 1521406446929249030, 7341310124832705596, 10276012316650097097, 7457035038878842830, 15970145238616312101, 12116266396721277497, 10792600190035762561, 13624047170737563455, 14596124367866503755, 2074002424952905540, 15828984050441583366, 18196310397851256375, 6978798042601874346, 14023571482605724319] := by decide
  have hr22 : keccakRound [3580889212171829312, 17776409629816179969, 12238723328226576020, 14172525792782489406, 17996895011171972015, 17939415843129834212, 2795538889477629875, 4503704577991309803, 15024240443053101991, 6902503600621588265, 3432536842706133012, 1521406446929249030, 7341310124832705596, 10276012316650097097, 7457035038878842830, 15970145238616312101, 12116266396721277497, 10792600190035762561, 13624047170737563455, 14596124367866503755, 2074002424952905540, 15828984050441583366, 18196310397851256375, 6978798042601874346, 14023571482605724319] 2147483649 = [364898289068464818, 2732725629618914055, 9275439324067453673, 751201443816801384, 1667891506636273595, 16182648873113836479, 4399414409628570046, 15024609303006216316, 8566979565499867430, 14122033280997897638, 9784724378285924647, 110026851507017219, 5454809868093591664, 2490287747696372951, 2440979480984845154, 15509548390167160062, 1602871030845855882, 14796914939452739601, 12697382720226284107, 5073841923033675852, 17176934225309009765, 8200159510302962363, 12814945180819823714, 3806925242305702403, 4529575971998058601] := by decide
  have hr23 : keccakRound [364898289068464818, 2732725629618914055, 9275439324067453673, 751201443816801384, 1667891506636273595, 16182648873113836479, 4399414409628570046, 15024609303006216316, 8566979565499867430, 14122033280997897638, 9784724378285924647, 110026851507017219, 5454809868093591664, 2490287747696372951, 2440979480984845154, 15509548390167160062, 1602871030845855882, 14796914939452739601, 12697382720226284107, 5073841923033675852, 17176934225309009765, 8200159510302962363, 12814945180819823714, 3806925242305702403, 4529575971998058601] 9223372039002292232 = [15256212707411234806, 15128492170625638143, 17853608134011782944, 12561095682700709560, 15793364025892717702, 4586858562443462253, 16855769801622741800, 17744496536144085879, 11701539720543786899, 10311280630452521897, 7008791636663120356, 9159148161784189998, 3509975512898158290, 16792995182718910238, 4186508671346622209, 14548587012836644388, 7696932347179732227, 7619473822676314798, 16693352964891846403, 313226627594329084, 1998302339585631344, 12980640065122838615, 5208097093875270080, 3916338159635102605, 1388571319749272209] := by decide
  have hkf : keccakF [441258, 0, 0, 0, 0, 0, 0, 0, 0, 0, 0, 0, 0, 0, 0, 0, 9223372036854775808, 0, 0, 0, 0, 0, 0, 0, 0] = [15256212707411234806, 15128492170625638143, 17853608134011782944, 12561095682700709560, 15793364025892717702, 4586858562443462253, 16855769801622741800, 17744496536144085879, 11701539720543786899, 10311280630452521897, 7008791636663120356, 9159148161784189998, 3509975512898158290, 16792995182718910238, 4186508671346622209, 14548587012836644388, 7696932347179732227, 7619473822676314798, 16693352964891846403, 313226627594329084, 1998302339585631344, 12980640065122838615, 5208097093875270080, 3916338159635102605, 1388571319749272209] := by
    simp only [keccakF, keccakRC, List.foldl_cons, List.foldl_nil, hr0, hr1, hr2, hr3, hr4, hr5, hr6, hr7, hr8, hr9, hr10, hr11, hr12, hr13, hr14, hr15, hr16, hr17, hr18, hr19, hr20, hr21, hr22, hr23]
  have habs : absorbBlocks 136 (List.replicate 25 0) [170, 187, 6, 0, 0, 0, 0, 0, 0, 0, 0, 0, 0, 0, 0, 0, 0, 0, 0, 0, 0, 0, 0, 0, 0, 0, 0, 0, 0, 0, 0, 0, 0, 0, 0, 0, 0, 0, 0, 0, 0, 0, 0, 0, 0, 0, 0, 0, 0, 0, 0, 0, 0, 0, 0, 0, 0, 0, 0, 0, 0, 0, 0, 0, 0, 0, 0, 0, 0, 0, 0, 0, 0, 0, 0, 0, 0, 0, 0, 0, 0, 0, 0, 0, 0, 0, 0, 0, 0, 0, 0, 0, 0, 0, 0, 0, 0, 0, 0, 0, 0, 0, 0, 0, 0, 0, 0, 0, 0, 0, 0, 0, 0, 0, 0, 0, 0, 0, 0, 0, 0, 0, 0, 0, 0, 0, 0, 0, 0, 0, 0, 0, 0, 0, 0, 128] = [15256212707411234806, 15128492170625638143, 17853608134011782944, 12561095682700709560, 15793364025892717702, 4586858562443462253, 16855769801622741800, 17744496536144085879, 11701539720543786899, 10311280630452521897, 7008791636663120356, 9159148161784189998, 3509975512898158290, 16792995182718910238, 4186508671346622209, 14548587012836644388, 7696932347179732227, 7619473822676314798, 16693352964891846403, 313226627594329084, 1998302339585631344, 12980640065122838615, 5208097093875270080, 3916338159635102605, 1388571319749272209] := by
    rw [show (136 : ℕ) = 135 + 1 from rfl, absorbBlocks_step,
        show List.take 136 [170, 187, 6, 0, 0, 0, 0, 0, 0, 0, 0, 0, 0, 0, 0, 0, 0, 0, 0, 0, 0, 0, 0, 0, 0, 0, 0, 0, 0, 0, 0, 0, 0, 0, 0, 0, 0, 0, 0, 0, 0, 0, 0, 0, 0, 0, 0, 0, 0, 0, 0, 0, 0, 0, 0, 0, 0, 0, 0, 0, 0, 0, 0, 0, 0, 0, 0, 0, 0, 0, 0, 0, 0, 0, 0, 0, 0, 0, 0, 0, 0, 0, 0, 0, 0, 0, 0, 0, 0, 0, 0, 0, 0, 0, 0, 0, 0, 0, 0, 0, 0, 0, 0, 0, 0, 0, 0, 0, 0, 0, 0, 0, 0, 0, 0, 0, 0, 0, 0, 0, 0, 0, 0, 0, 0, 0, 0, 0, 0, 0, 0, 0, 0, 0, 0, 128] = [170, 187, 6, 0, 0, 0, 0, 0, 0, 0, 0, 0, 0, 0, 0, 0, 0, 0, 0, 0, 0, 0, 0, 0, 0, 0, 0, 0, 0, 0, 0, 0, 0, 0, 0, 0, 0, 0, 0, 0, 0, 0, 0, 0, 0, 0, 0, 0, 0, 0, 0, 0, 0, 0, 0, 0, 0, 0, 0, 0, 0, 0, 0, 0, 0, 0, 0, 0, 0, 0, 0, 0, 0, 0, 0, 0, 0, 0, 0, 0, 0, 0, 0, 0, 0, 0, 0, 0, 0, 0, 0, 0, 0, 0, 0, 0, 0, 0, 0, 0, 0, 0, 0, 0, 0, 0, 0, 0, 0, 0, 0, 0, 0, 0, 0, 0, 0, 0, 0, 0, 0, 0, 0, 0, 0, 0, 0, 0, 0, 0, 0, 0, 0, 0, 0, 128] from by decide,
        show List.drop 136 [170, 187, 6, 0, 0, 0, 0, 0, 0, 0, 0, 0, 0, 0, 0, 0, 0, 0, 0, 0, 0, 0, 0, 0, 0, 0, 0, 0, 0, 0, 0, 0, 0, 0, 0, 0, 0, 0, 0, 0, 0, 0, 0, 0, 0, 0, 0, 0, 0, 0, 0, 0, 0, 0, 0, 0, 0, 0, 0, 0, 0, 0, 0, 0, 0, 0, 0, 0, 0, 0, 0, 0, 0, 0, 0, 0, 0, 0, 0, 0, 0, 0, 0, 0, 0, 0, 0, 0, 0, 0, 0, 0, 0, 0, 0, 0, 0, 0, 0, 0, 0, 0, 0, 0, 0, 0, 0, 0, 0, 0, 0, 0, 0, 0, 0, 0, 0, 0, 0, 0, 0, 0, 0, 0, 0, 0, 0, 0, 0, 0, 0, 0, 0, 0, 0, 128] = ([] : List Nat) from by decide,
        hxor, hkf, absorbBlocks_nil]
  simp only [sha3_256, hpad, show ([170, 187, 6, 0, 0, 0, 0, 0, 0, 0, 0, 0, 0, 0, 0, 0, 0, 0, 0, 0, 0, 0, 0, 0, 0, 0, 0, 0, 0, 0, 0, 0, 0, 0, 0, 0, 0, 0, 0, 0, 0, 0, 0, 0, 0, 0, 0, 0, 0, 0, 0, 0, 0, 0, 0, 0, 0, 0, 0, 0, 0, 0, 0, 0, 0, 0, 0, 0, 0, 0, 0, 0, 0, 0, 0, 0, 0, 0, 0, 0, 0, 0, 0, 0, 0, 0, 0, 0, 0, 0, 0, 0, 0, 0, 0, 0, 0, 0, 0, 0, 0, 0, 0, 0, 0, 0, 0, 0, 0, 0, 0, 0, 0, 0, 0, 0, 0, 0, 0, 0, 0, 0, 0, 0, 0, 0, 0, 0, 0, 0, 0, 0, 0, 0, 0, 128] : List Nat).length = 136 from by decide, habs]
  decide

/-- Staged kernel evaluation of SHA3-256 on the message `cccc`:
each Keccak round is checked separately on literal states, keeping every
single proof obligation small. -/
theorem sha3_eval_2 : sha3_256 [204, 204] = [205, 87, 245, 158, 100, 175, 78, 66, 110, 200, 2, 182, 109, 163, 24, 175, 146, 147, 82, 215, 108, 104, 104, 109, 172, 159, 158, 79, 225, 206, 193, 17] := by
  have hpad : sha3Pad [204, 204] = [204, 204, 6, 0, 0, 0, 0, 0, 0, 0, 0, 0, 0, 0, 0, 0, 0, 0, 0, 0, 0, 0, 0, 0, 0, 0, 0, 0, 0, 0, 0, 0, 0, 0, 0, 0, 0, 0, 0, 0, 0, 0, 0, 0, 0, 0, 0, 0, 0, 0, 0, 0, 0, 0, 0, 0, 0, 0, 0, 0, 0, 0, 0, 0, 0, 0, 0, 0, 0, 0, 0, 0, 0, 0, 0, 0, 0, 0, 0, 0, 0, 0, 0, 0, 0, 0, 0, 0, 0, 0, 0, 0, 0, 0, 0, 0, 0, 0, 0, 0, 0, 0, 0, 0, 0, 0, 0, 0, 0, 0, 0, 0, 0, 0, 0, 0, 0, 0, 0, 0, 0, 0, 0, 0, 0, 0, 0, 0, 0, 0, 0, 0, 0, 0, 0, 128] := by decide
  have hxor : xorBlock (List.replicate 25 0) [204, 204, 6, 0, 0, 0, 0, 0, 0, 0, 0, 0, 0, 0, 0, 0, 0, 0, 0, 0, 0, 0, 0, 0, 0, 0, 0, 0, 0, 0, 0, 0, 0, 0, 0, 0, 0, 0, 0, 0, 0, 0, 0, 0, 0, 0, 0, 0, 0, 0, 0, 0, 0, 0, 0, 0, 0, 0, 0, 0, 0, 0, 0, 0, 0, 0, 0, 0, 0, 0, 0, 0, 0, 0, 0, 0, 0, 0, 0, 0, 0, 0, 0, 0, 0, 0, 0, 0, 0, 0, 0, 0, 0, 0, 0, 0, 0, 0, 0, 0, 0, 0, 0, 0, 0, 0, 0, 0, 0, 0, 0, 0, 0, 0, 0, 0, 0, 0, 0, 0, 0, 0, 0, 0, 0, 0, 0, 0, 0, 0, 0, 0, 0, 0, 0, 128] = [445644, 0, 0, 0, 0, 0, 0, 0, 0, 0, 0, 0, 0, 0, 0, 0, 9223372036854775808, 0, 0, 0, 0, 0, 0, 0, 0] := by decide
  have hr0 : keccakRound [445644, 0, 0, 0, 0, 0, 0, 0, 0, 0, 0, 0, 0, 0, 0, 0, 9223372036854775808, 0, 0, 0, 0, 0, 0, 0, 0] 1 = [4398046956748, 7839852157577723904, 4412649373696, 52429, 7839852172180586496, 8, 15679722841924698112, 8, 15679721907341492224, 1152922439190052864, 891288, 228169760, 262144, 227541400, 262176, 119627106693120, 68719493120, 456339456, 119626650370048, 68719476736, 2795833769062301696, 2199023255552, 489990759850390320, 2305845208236949504, 1782576] := by decide
  have hr1 : keccakRound [4398046956748, 7839852157577723904, 4412649373696, 52429, 7839852172180586496, 8, 15679722841924698112, 8, 15679721907341492224, 1152922439190052864, 891288, 228169760, 262144, 227541400, 262176, 119627106693120, 68719493120, 456339456, 119626650370048, 68719476736, 2795833769062301696, 2199023255552, 489990759850390320, 2305845208236949504, 1782576] 32898 = [3918819192215064422, 14950484187369722118, 16321417549576832377, 13360621011110193209, 17133329995699477762, 16940996262236635865, 8974164584623063102, 15790573358604414026, 9533847732134495421, 8705854359728979509, 12333082687040834650, 11027856646728705525, 9826373664335898777, 767835078874098148, 13109779681935417899, 12735962180328768410, 9187404349945927311, 6666591864624130281, 17836550517552177321, 6115695654328249440, 11797507182672286255, 10184721541867068466, 18317195052519730717, 11812804351768205851, 11625654312728903840] := by decide
  have hr2 : keccakRound [3918819192215064422, 14950484187369722118, 16321417549576832377, 13360621011110193209, 17133329995699477762, 16940996262236635865, 8974164584623063102, 15790573358604414026, 9533847732134495421, 8705854359728979509, 12333082687040834650, 11027856646728705525, 9826373664335898777, 767835078874098148, 13109779681935417899, 12735962180328768410, 9187404349945927311, 6666591864624130281, 17836550517552177321, 6115695654328249440, 11797507182672286255, 10184721541867068466, 18317195052519730717, 11812804351768205851, 11625654312728903840] 9223372036854808714 = [6001559784916849369, 5750289366073688982, 12491716244707249930, 2119694280434964646, 7052375361123156768, 11965577597662574718, 2407997293933303973, 4918693940947676678, 10018316213908560581, 3772377606626379257, 6028413012901597087, 12756305830461728005, 6756678078642919497, 9249030092429170537, 3984832301877131875, 13038668050443580635, 8266660771956808929, 1918979410592801133, 17595872112398971360, 18308073713708707750, 9041465708384338858, 17086572611528769662, 4575266475150992365, 12627194158321729139, 4206984868228437823] := by decide
  have hr3 : keccakRound [6001559784916849369, 5750289366073688982, 12491716244707249930, 2119694280434964646, 7052375361123156768, 11965577597662574718, 2407997293933303973, 4918693940947676678, 10018316213908560581, 3772377606626379257, 6028413012901597087, 12756305830461728005, 6756678078642919497, 9249030092429170537, 3984832301877131875, 13038668050443580635, 8266660771956808929, 1918979410592801133, 17595872112398971360, 18308073713708707750, 9041465708384338858, 17086572611528769662, 4575266475150992365, 12627194158321729139, 4206984868228437823] 9223372039002292224 = [14543285531873491880, 13967446130243126267, 8088136685329598831, 9492045076709579211, 5647676228778846772, 3514466915550863316, 17274128420613847774, 13285693662226905457, 14925427704744403196, 6095654164420316812, 8433847042347424936, 517069428492323406, 7058109040308785750, 16724108765024038373, 12805093130165242996, 16247062141361788255, 9396624387518171663, 13462288564478215033, 15687758043740332101, 17542048158697084621, 111836640354915884, 9404356859347109731, 16019933698118455912, 17685168676491943835, 2583079009452924450] := by decide
  have hr4 : keccakRound [14543285531873491880, 13967446130243126267, 8088136685329598831, 9492045076709579211, 5647676228778846772, 3514466915550863316, 17274128420613847774, 13285693662226905457, 14925427704744403196, 6095654164420316812, 8433847042347424936, 517069428492323406, 7058109040308785750, 16724108765024038373, 12805093130165242996, 16247062141361788255, 9396624387518171663, 13462288564478215033, 15687758043740332101, 17542048158697084621, 111836640354915884, 9404356859347109731, 16019933698118455912, 17685168676491943835, 2583079009452924450] 32907 = [16499118051558313742, 8826102614838101526, 2878718075772517014, 867222644380535057, 5198699683703692422, 7211044274506155506, 4823768364090884169, 16800362882801869348, 15850251897795924449, 14757162897829160774, 17212771262957198813, 8311948602221942464, 15504095926483534543, 15026244846376621810, 5049360465254475438, 11380222148874469977, 16223222271333933555, 7977709805434390982, 15705857435719928254, 16487569171690783278, 6794984510894672216, 17359132656923610219, 14747046978754326545, 9772509392159465699, 8169797934305783132] := by decide
  have hr5 : keccakRound [16499118051558313742, 8826102614838101526, 2878718075772517014, 867222644380535057, 5198699683703692422, 7211044274506155506, 4823768364090884169, 16800362882801869348, 15850251897795924449, 14757162897829160774, 17212771262957198813, 8311948602221942464, 15504095926483534543, 15026244846376621810, 5049360465254475438, 11380222148874469977, 16223222271333933555, 7977709805434390982, 15705857435719928254, 16487569171690783278, 6794984510894672216, 17359132656923610219, 14747046978754326545, 9772509392159465699, 8169797934305783132] 2147483649 = [5157559343449657132, 10642994966750607054, 13959665401131452023, 7458171805016626510, 9768748468242332682, 8397601319288226356, 14303419903341557950, 7826224348227538540, 15517300955006425699, 407302634353430780, 6918973294284028497, 14542652856925706016, 7059677342971019919, 14965994252696828580, 10227673633173189053, 15014941639245675175, 15003366320527468501, 12894099965977484932, 1360778324321559495, 8192835335794741047, 12820123008281348143, 1290104501867873435, 15059141191675187790, 2987635790162079963, 11678214138654423160] := by decide
  have hr6 : keccakRound [5157559343449657132, 10642994966750607054, 13959665401131452023, 7458171805016626510, 9768748468242332682, 8397601319288226356, 14303419903341557950, 7826224348227538540, 15517300955006425699, 407302634353430780, 6918973294284028497, 14542652856925706016, 7059677342971019919, 14965994252696828580, 10227673633173189053, 15014941639245675175, 15003366320527468501, 12894099965977484932, 1360778324321559495, 8192835335794741047, 12820123008281348143, 1290104501867873435, 15059141191675187790, 2987635790162079963, 11678214138654423160] 9223372039002292353 = [13893809911834952113, 1084251330420507355, 13808683650968432876, 855794732689820070, 16033859093808540198, 18413501927558173932, 318067954706417717, 9164990248826677067, 3014376995001670572, 4665572505147704510, 17099451511444363044, 2486202288906851902, 1484366286773187683, 17138440049325639445, 611083649728206890, 4526171117920578810, 17069139361670884152, 17674372530568819355, 671550030434885434, 5484981590127710754, 7236505693157670080, 1936993726685904687, 8821660887979557668, 3209192344447627115, 16261117197067154617] := by decide
  have hr7 : keccakRound [13893809911834952113, 1084251330420507355, 13808683650968432876, 855794732689820070, 16033859093808540198, 18413501927558173932, 318067954706417717, 9164990248826677067, 3014376995001670572, 4665572505147704510, 17099451511444363044, 2486202288906851902, 1484366286773187683, 17138440049325639445, 611083649728206890, 4526171117920578810, 17069139361670884152, 17674372530568819355, 671550030434885434, 5484981590127710754, 7236505693157670080, 1936993726685904687, 8821660887979557668, 3209192344447627115, 16261117197067154617] 9223372036854808585 = [14194794050748449302, 17270785247627670007, 15684219571713185455, 396788546595467939, 8401725031672928080, 14534215066006735231, 3419441121869758233, 5737090612827272213, 16911486409322217257, 14446363087615239215, 11657956671085890270, 4358667868824964604, 16867315863345833566, 1725084028143633187, 784606031708325192, 7888005576300263091, 11107346347417208489, 16439144809442651364, 10833686259478866184, 13981505328786417821, 13348760159666194445, 14019847366048795410, 15451203205388847496, 13643294730532770499, 15178242137930381112] := by decide
  have hr8 : keccakRound [14194794050748449302, 17270785247627670007, 15684219571713185455, 396788546595467939, 8401725031672928080, 14534215066006735231, 3419441121869758233, 5737090612827272213, 16911486409322217257, 14446363087615239215, 11657956671085890270, 4358667868824964604, 16867315863345833566, 1725084028143633187, 784606031708325192, 7888005576300263091, 11107346347417208489, 16439144809442651364, 10833686259478866184, 13981505328786417821, 13348760159666194445, 14019847366048795410, 15451203205388847496, 13643294730532770499, 15178242137930381112] 138 = [11128930095244834285, 4989535400983751757, 3508748348239853560, 531346189075508886, 9637065233488231434, 15703546167879722059, 7908471110367618098, 7678844818178569302, 17155354239419169043, 13455869745943544972, 15461968642073140080, 2657258939942860563, 15735476369476912807, 11863992403648441636, 13530956744501582651, 13049121583958295042, 1830959463832083770, 8728241488475396928, 14306500803548246996, 7232355899064238540, 16900520344753339424, 13867749443182161734, 5594612185449843646, 3318141953993288260, 11210359108801978154] := by decide
  have hr9 : keccakRound [11128930095244834285, 4989535400983751757, 3508748348239853560, 531346189075508886, 9637065233488231434, 15703546167879722059, 7908471110367618098, 7678844818178569302, 17155354239419169043, 13455869745943544972, 15461968642073140080, 2657258939942860563, 15735476369476912807, 11863992403648441636, 13530956744501582651, 13049121583958295042, 1830959463832083770, 8728241488475396928, 14306500803548246996, 7232355899064238540, 16900520344753339424, 13867749443182161734, 5594612185449843646, 3318141953993288260, 11210359108801978154] 136 = [11183191555200848655, 3036424753465949935, 15145227453585396727, 6813864751424118015, 6792020083032378006, 10263791586817895133, 12695983670210116201, 2805207083320860736, 11597964523027390413, 9966416869585950009, 5604615862164616749, 6055036841601322301, 12771331153393908375, 10995100607410083068, 6975416744703715143, 15602080541565753631, 8095279981624297879, 1373564956284561050, 17580220963060697195, 379678394078299173, 13794609940043086886, 10021771985708477691, 6750037951809987083, 15875889535906992152, 10106150459910799804] := by decide
  have hr10 : keccakRound [11183191555200848655, 3036424753465949935, 15145227453585396727, 6813864751424118015, 6792020083032378006, 10263791586817895133, 12695983670210116201, 2805207083320860736, 11597964523027390413, 9966416869585950009, 5604615862164616749, 6055036841601322301, 12771331153393908375, 10995100607410083068, 6975416744703715143, 15602080541565753631, 8095279981624297879, 1373564956284561050, 17580220963060697195, 379678394078299173, 13794609940043086886, 10021771985708477691, 6750037951809987083, 15875889535906992152, 10106150459910799804] 2147516425 = [577898932112439003, 1168923381642294993, 14297047480860049307, 18216317925719045367, 14329417456496389852, 2930356645074933353, 9984406167323582090, 15978856553811447204, 17845120998956844483, 6867443581634319028, 10922134610816114321, 3433418600412278640, 9378965882001236334, 16371348701670410934, 13831997446213058939, 14553096973291835359, 7653007532573036076, 7947531764980933109, 1351684517783402597, 8767528361327827975, 10189451209903536189, 14729323206955308692, 6664924252752826909, 9758614973184017356, 14513318677712695870] := by decide
  have hr11 : keccakRound [577898932112439003, 1168923381642294993, 14297047480860049307, 18216317925719045367, 14329417456496389852, 2930356645074933353, 9984406167323582090, 15978856553811447204, 17845120998956844483, 6867443581634319028, 10922134610816114321, 3433418600412278640, 9378965882001236334, 16371348701670410934, 13831997446213058939, 14553096973291835359, 7653007532573036076, 7947531764980933109, 1351684517783402597, 8767528361327827975, 10189451209903536189, 14729323206955308692, 6664924252752826909, 9758614973184017356, 14513318677712695870] 2147483658 = [17919249124208448189, 13216660039145213981, 2734106483409410270, 563050721721355345, 17818050926304743678, 7711749844994514874, 2186822259573137344, 4284086260734369136, 10444969032720188006, 9386013234434116095, 14458526537629464805, 5055845780322038668, 16175285584637187126, 8521926972773148518, 1393947425907176794, 2971495379259650481, 15987971405641682775, 11435896124531749420, 15042917441658897388, 13007166640467768643, 10084591787804489755, 8628383956883870531, 414727636355463773, 16858500608994787725, 13151953764303862361] := by decide
  have hr12 : keccakRound [17919249124208448189, 13216660039145213981, 2734106483409410270, 563050721721355345, 17818050926304743678, 7711749844994514874, 2186822259573137344, 4284086260734369136, 10444969032720188006, 9386013234434116095, 14458526537629464805, 5055845780322038668, 16175285584637187126, 8521926972773148518, 1393947425907176794, 2971495379259650481, 15987971405641682775, 11435896124531749420, 15042917441658897388, 13007166640467768643, 10084591787804489755, 8628383956883870531, 414727636355463773, 16858500608994787725, 13151953764303862361] 2147516555 = [31297109245702653, 16278803513076551557, 12903534901668465089, 18134306581216489232, 8370654649116995541, 16517377358603939356, 15725322423998978418, 2137727817335462133, 5809944672379549291, 2596065669527081199, 249639768621489543, 17849027972557362486, 10240404839657367194, 6810053663926307221, 6130530872555852981, 1905449911602940049, 13925573530574091954, 10386849984553802691, 10015677141540418926, 2868384865638606096, 10738580454450637743, 773040938827523948, 3537717885202326333, 946025916199567613, 1671846045288396645] := by decide
  have hr13 : keccakRound [31297109245702653, 16278803513076551557, 12903534901668465089, 18134306581216489232, 8370654649116995541, 16517377358603939356, 15725322423998978418, 2137727817335462133, 5809944672379549291, 2596065669527081199, 249639768621489543, 17849027972557362486, 10240404839657367194, 6810053663926307221, 6130530872555852981, 1905449911602940049, 13925573530574091954, 10386849984553802691, 10015677141540418926, 2868384865638606096, 10738580454450637743, 773040938827523948, 3537717885202326333, 946025916199567613, 1671846045288396645] 9223372036854775947 = [12899181278434027731, 5074636583195695112, 18226309496681145465, 1032524414749105647, 18262027161852062836, 997430201356485047, 2204634816937030530, 14269927440861233418, 1493911211005689064, 1760312411977120059, 2252475423363220345, 12763335880043846717, 16248951084213929469, 2880711171429866911, 8014825731600071655, 8379598501967269306, 5578615851877051533, 5478623626818173507, 18046617926153515592, 15201369055487267897, 1443702009269439963, 1981401847226308161, 9443201178125873091, 7683879926803101134, 16186413295244501073] := by decide
  have hr14 : keccakRound [12899181278434027731, 5074636583195695112, 18226309496681145465, 1032524414749105647, 18262027161852062836, 997430201356485047, 2204634816937030530, 14269927440861233418, 1493911211005689064, 1760312411977120059, 2252475423363220345, 12763335880043846717, 16248951084213929469, 2880711171429866911, 8014825731600071655, 8379598501967269306, 5578615851877051533, 5478623626818173507, 18046617926153515592, 15201369055487267897, 1443702009269439963, 1981401847226308161, 9443201178125873091, 7683879926803101134, 16186413295244501073] 9223372036854808713 = [17594645801486217069, 1672008585288018095, 573215030496910489, 14807357957401054319, 5852972404105917370, 7291307475420343537, 13008470009470165178, 17077887916366510182, 9627202535491867854, 4393535015977759378, 1822064052645261350, 636827142819553032, 2449669094476567550, 9855528919471976124, 7886104331415538837, 6255633527287146701, 106837813514507617, 17409867348704842806, 10277074027777547436, 5199108386704863317, 9956575146481640526, 2569707569845353578, 14658658959934505803, 6573526140727696757, 18400648707916716183] := by decide
  have hr15 : keccakRound [17594645801486217069, 1672008585288018095, 573215030496910489, 14807357957401054319, 5852972404105917370, 7291307475420343537, 13008470009470165178, 17077887916366510182, 9627202535491867854, 4393535015977759378, 1822064052645261350, 636827142819553032, 2449669094476567550, 9855528919471976124, 7886104331415538837, 6255633527287146701, 106837813514507617, 17409867348704842806, 10277074027777547436, 5199108386704863317, 9956575146481640526, 2569707569845353578, 14658658959934505803, 6573526140727696757, 18400648707916716183] 9223372036854808579 = [17476652269307635516, 15077973868788402696, 13479944430294064044, 1322529860917606483, 589785110896187565, 5603347301189056255, 1402414130023539046, 16665977072289319351, 16542900679679589613, 13770460906573523802, 4712403299456757367, 7358167932596837703, 8400283560399685801, 10108381121209427756, 1251753671196207655, 6798310430879817024, 11010587953506937098, 1279533190509765275, 12463516650845814290, 15449137265241909373, 16722249227417828609, 7254407956122054719, 3809502004909568223, 17159673167365529618, 6139256516893740692] := by decide
  have hr16 : keccakRound [17476652269307635516, 15077973868788402696, 13479944430294064044, 1322529860917606483, 589785110896187565, 5603347301189056255, 1402414130023539046, 16665977072289319351, 16542900679679589613, 13770460906573523802, 4712403299456757367, 7358167932596837703, 8400283560399685801, 10108381121209427756, 1251753671196207655, 6798310430879817024, 11010587953506937098, 1279533190509765275, 12463516650845814290, 15449137265241909373, 16722249227417828609, 7254407956122054719, 3809502004909568223, 17159673167365529618, 6139256516893740692] 9223372036854808578 = [13824937280389711487, 12097936382753096244, 6837742839625929809, 6768898987565640698, 15655147379600610985, 13090554458851981686, 6606764051999550535, 2489179567206716194, 8124574991328134249, 16829048444816206996, 1003419796078299175, 11993200649422464681, 3135163610449719333, 18167019026850254175, 3156288970080491203, 7378493525769955764, 5304518997972703710, 4767886277584427649, 12212662419957257481, 1594793732900434708, 16592573766442261445, 3790234304011596446, 18101668625431941664, 16147669205279335166, 14772706166041983128] := by decide
  have hr17 : keccakRound [13824937280389711487, 12097936382753096244, 6837742839625929809, 6768898987565640698, 15655147379600610985, 13090554458851981686, 6606764051999550535, 2489179567206716194, 8124574991328134249, 16829048444816206996, 1003419796078299175, 11993200649422464681, 3135163610449719333, 18167019026850254175, 3156288970080491203, 7378493525769955764, 5304518997972703710, 4767886277584427649, 12212662419957257481, 1594793732900434708, 16592573766442261445, 3790234304011596446, 18101668625431941664, 16147669205279335166, 14772706166041983128] 9223372036854775936 = [2811051368915956507, 7601585837728276564, 10074060798496240562, 9373660933452257759, 8532387749951741576, 12707397000473462893, 15629861699410853571, 288312088357879876, 16439377042498083895, 13046956451747901929, 6589100599508613417, 5040671229593138124, 6459780287460309696, 18329225340567937, 17954281650345812653, 3323995403996843283, 3983876438716890799, 5684556565969483504, 1614979797737547487, 17135678071628448243, 5943785127848299887, 13590875854859531695, 8549164687795608106, 8453228794788135481, 1622022517247447081] := by decide
  have hr18 : keccakRound [2811051368915956507, 7601585837728276564, 10074060798496240562, 9373660933452257759, 8532387749951741576, 12707397000473462893, 15629861699410853571, 288312088357879876, 16439377042498083895, 13046956451747901929, 6589100599508613417, 5040671229593138124, 6459780287460309696, 18329225340567937, 17954281650345812653, 3323995403996843283, 3983876438716890799, 5684556565969483504, 1614979797737547487, 17135678071628448243, 5943785127848299887, 13590875854859531695, 8549164687795608106, 8453228794788135481, 1622022517247447081] 32778 = [4467158778138583736, 1761920991030198002, 12464592771786772751, 8352105327990697064, 11780918767292828878, 9283799071166836456, 1965707597244742452, 5197007540350732867, 11412868491392545189, 17102068616567121853, 4287489653549758461, 477061061051997012, 13257977766139143302, 9059092680245999812, 15381078860648722483, 3194165872801270049, 13426794942883082829, 4847901902606482084, 15040777335845461372, 18065438573174508875, 18101721776558009707, 16968542713803462433, 17204800439594945378, 14811906382839935435, 4794800503952962519] := by decide
  have hr19 : keccakRound [4467158778138583736, 1761920991030198002, 12464592771786772751, 8352105327990697064, 11780918767292828878, 9283799071166836456, 1965707597244742452, 5197007540350732867, 11412868491392545189, 17102068616567121853, 4287489653549758461, 477061061051997012, 13257977766139143302, 9059092680245999812, 15381078860648722483, 3194165872801270049, 13426794942883082829, 4847901902606482084, 15040777335845461372, 18065438573174508875, 18101721776558009707, 16968542713803462433, 17204800439594945378, 14811906382839935435, 4794800503952962519] 9223372039002259466 = [13545464267737142450, 8072063975769659741, 13287415398282606388, 13499558381955660965, 16666369754003315265, 1883037003553583001, 6143293935310384573, 12620497906769791657, 6211137612994940985, 3556683496770483288, 8797956687165275741, 12431924247585655697, 16403218256511303759, 669989715511542213, 15993553289907357006, 14450314838681697277, 1296417395495223625, 18076771183688872889, 11621264613581424364, 7999479292099205620, 3449181675802938918, 16764401590200768440, 237496154227507869, 14026205042428210949, 2174369523107455973] := by decide
  have hr20 : keccakRound [13545464267737142450, 8072063975769659741, 13287415398282606388, 13499558381955660965, 16666369754003315265, 1883037003553583001, 6143293935310384573, 12620497906769791657, 6211137612994940985, 3556683496770483288, 8797956687165275741, 12431924247585655697, 16403218256511303759, 669989715511542213, 15993553289907357006, 14450314838681697277, 1296417395495223625, 18076771183688872889, 11621264613581424364, 7999479292099205620, 3449181675802938918, 16764401590200768440, 237496154227507869, 14026205042428210949, 2174369523107455973] 9223372039002292353 = [16214045077995904615, 9544621003411842277, 5170454493517996114, 9023293546122392156, 1407761493172410424, 2792882334917508486, 16506444810194578483, 398708812540526736, 11907815353481874976, 14887343143695591006, 9096319530811993392, 2675102851901330101, 14315303660498820892, 16833915478610034361, 18260258719482921616, 6834702793010577922, 11220436861689721070, 17908508420346659370, 8388124398119043814, 18319522690010935337, 4034334434172040693, 13336368467194741691, 7291567875086254193, 11276786584801758100, 4283064923434120173] := by decide
  have hr21 : keccakRound [16214045077995904615, 9544621003411842277, 5170454493517996114, 9023293546122392156, 1407761493172410424, 2792882334917508486, 16506444810194578483, 398708812540526736, 11907815353481874976, 14887343143695591006, 9096319530811993392, 2675102851901330101, 14315303660498820892, 16833915478610034361, 18260258719482921616, 6834702793010577922, 11220436861689721070, 17908508420346659370, 8388124398119043814, 18319522690010935337, 4034334434172040693, 13336368467194741691, 7291567875086254193, 11276786584801758100, 4283064923434120173] 9223372036854808704 = [3209409450243095024, 9390463813915095426, 7152189113404226189, 18136093730449312027, 7460837014671577164, 9295416006449040392, 5637453477436140850, 11960311576592563831, 5144251144129495800, 1873815796578754167, 6777381222290751513, 7881301383388275312, 13611503627009090499, 17679149216608998276, 6246648387589427096, 5189958087726613075, 17215298760974921099, 18294524505894317853, 3767018705241757400, 15178897077150787008, 16553725899232319106, 14193433767717907694, 5205229130720213493, 11885765508683252522, 7895581810278739513] := by decide
  have hr22 : keccakRound [3209409450243095024, 9390463813915095426, 7152189113404226189, 18136093730449312027, 7460837014671577164, 9295416006449040392, 5637453477436140850, 11960311576592563831, 5144251144129495800, 1873815796578754167, 6777381222290751513, 7881301383388275312, 13611503627009090499, 17679149216608998276, 6246648387589427096, 5189958087726613075, 17215298760974921099, 18294524505894317853, 3767018705241757400, 15178897077150787008, 16553725899232319106, 14193433767717907694, 5205229130720213493, 11885765508683252522, 7895581810278739513] 2147483649 = [12015246196275612905, 16445610017316735988, 377814242904410417, 6222364237463222035, 8006321799899083743, 14686349332238224961, 478874545896802631, 12384531395406195146, 13070450813646286435, 9092323178247185033, 14379603341807904434, 3750706016729993027, 17063987507972015770, 1225787276311156150, 13793338837013464700, 17630661063832334254, 15802586839236967336, 11032221680670317206, 17977598144233868254, 4990108259111011878, 15540656369671134848, 5070767704371938891, 1437069100171374087, 5723661246915463352, 1777709639941863815] := by decide
  have hr23 : keccakRound [12015246196275612905, 16445610017316735988, 377814242904410417, 6222364237463222035, 8006321799899083743, 14686349332238224961, 478874545896802631, 12384531395406195146, 13070450813646286435, 9092323178247185033, 14379603341807904434, 3750706016729993027, 17063987507972015770, 1225787276311156150, 13793338837013464700, 17630661063832334254, 15802586839236967336, 11032221680670317206, 17977598144233868254, 4990108259111011878, 15540656369671134848, 5070767704371938891, 1437069100171374087, 5723661246915463352, 1777709639941863815] 9223372039002292232 = [4777949101385144269, 12617014047678842990, 7883665964390323090, 1279531236248690604, 6590714304219681745, 4479034397900063841, 17453201883912212870, 848437978595930325, 14737778426271602951, 11102319616362594478, 8122602817712961506, 2814428041770634330, 15783525291024532950, 3381831083902622994, 8579363102810131567, 9453479486853716124, 3576225345015328870, 10682572613114026042, 16690379577480183136, 1108062302592469225, 13658269939568067024, 7152671459296135072, 6120552932402276745, 7239031937448471870, 4217424685702568063] := by decide
  have hkf : keccakF [445644, 0, 0, 0, 0, 0, 0, 0, 0, 0, 0, 0, 0, 0, 0, 0, 9223372036854775808, 0, 0, 0, 0, 0, 0, 0, 0] = [4777949101385144269, 12617014047678842990, 7883665964390323090, 1279531236248690604, 6590714304219681745, 4479034397900063841, 17453201883912212870, 848437978595930325, 14737778426271602951, 11102319616362594478, 8122602817712961506, 2814428041770634330, 15783525291024532950, 3381831083902622994, 8579363102810131567, 9453479486853716124, 3576225345015328870, 10682572613114026042, 16690379577480183136, 1108062302592469225, 13658269939568067024, 7152671459296135072, 6120552932402276745, 7239031937448471870, 4217424685702568063] := by
    simp only [keccakF, keccakRC, List.foldl_cons, List.foldl_nil, hr0, hr1, hr2, hr3, hr4, hr5, hr6, hr7, hr8, hr9, hr10, hr11, hr12, hr13, hr14, hr15, hr16, hr17, hr18, hr19, hr20, hr21, hr22, hr23]
  have habs : absorbBlocks 136 (List.replicate 25 0) [204, 204, 6, 0, 0, 0, 0, 0, 0, 0, 0, 0, 0, 0, 0, 0, 0, 0, 0, 0, 0, 0, 0, 0, 0, 0, 0, 0, 0, 0, 0, 0, 0, 0, 0, 0, 0, 0, 0, 0, 0, 0, 0, 0, 0, 0, 0, 0, 0, 0, 0, 0, 0, 0, 0, 0, 0, 0, 0, 0, 0, 0, 0, 0, 0, 0, 0, 0, 0, 0, 0, 0, 0, 0, 0, 0, 0, 0, 0, 0, 0, 0, 0, 0, 0, 0, 0, 0, 0, 0, 0, 0, 0, 0, 0, 0, 0, 0, 0, 0, 0, 0, 0, 0, 0, 0, 0, 0, 0, 0, 0, 0, 0, 0, 0, 0, 0, 0, 0, 0, 0, 0, 0, 0, 0, 0, 0, 0, 0, 0, 0, 0, 0, 0, 0, 128] = [4777949101385144269, 12617014047678842990, 7883665964390323090, 1279531236248690604, 6590714304219681745, 4479034397900063841, 17453201883912212870, 848437978595930325, 14737778426271602951, 11102319616362594478, 8122602817712961506, 2814428041770634330, 15783525291024532950, 3381831083902622994, 8579363102810131567, 9453479486853716124, 3576225345015328870, 10682572613114026042, 16690379577480183136, 1108062302592469225, 13658269939568067024, 7152671459296135072, 6120552932402276745, 7239031937448471870, 4217424685702568063] := by
    rw [show (136 : ℕ) = 135 + 1 from rfl, absorbBlocks_step,
        show List.take 136 [204, 204, 6, 0, 0, 0, 0, 0, 0, 0, 0, 0, 0, 0, 0, 0, 0, 0, 0, 0, 0, 0, 0, 0, 0, 0, 0, 0, 0, 0, 0, 0, 0, 0, 0, 0, 0, 0, 0, 0, 0, 0, 0, 0, 0, 0, 0, 0, 0, 0, 0, 0, 0, 0, 0, 0, 0, 0, 0, 0, 0, 0, 0, 0, 0, 0, 0, 0, 0, 0, 0, 0, 0, 0, 0, 0, 0, 0, 0, 0, 0, 0, 0, 0, 0, 0, 0, 0, 0, 0, 0, 0, 0, 0, 0, 0, 0, 0, 0, 0, 0, 0, 0, 0, 0, 0, 0, 0, 0, 0, 0, 0, 0, 0, 0, 0, 0, 0, 0, 0, 0, 0, 0, 0, 0, 0, 0, 0, 0, 0, 0, 0, 0, 0, 0, 128] = [204, 204, 6, 0, 0, 0, 0, 0, 0, 0, 0, 0, 0, 0, 0, 0, 0, 0, 0, 0, 0, 0, 0, 0, 0, 0, 0, 0, 0, 0, 0, 0, 0, 0, 0, 0, 0, 0, 0, 0, 0, 0, 0, 0, 0, 0, 0, 0, 0, 0, 0, 0, 0, 0, 0, 0, 0, 0, 0, 0, 0, 0, 0, 0, 0, 0, 0, 0, 0, 0, 0, 0, 0, 0, 0, 0, 0, 0, 0, 0, 0, 0, 0, 0, 0, 0, 0, 0, 0, 0, 0, 0, 0, 0, 0, 0, 0, 0, 0, 0, 0, 0, 0, 0, 0, 0, 0, 0, 0, 0, 0, 0, 0, 0, 0, 0, 0, 0, 0, 0, 0, 0, 0, 0, 0, 0, 0, 0, 0, 0, 0, 0, 0, 0, 0, 128] from by decide,
        show List.drop 136 [204, 204, 6, 0, 0, 0, 0, 0, 0, 0, 0, 0, 0, 0, 0, 0, 0, 0, 0, 0, 0, 0, 0, 0, 0, 0, 0, 0, 0, 0, 0, 0, 0, 0, 0, 0, 0, 0, 0, 0, 0, 0, 0, 0, 0, 0, 0, 0, 0, 0, 0, 0, 0, 0, 0, 0, 0, 0, 0, 0, 0, 0, 0, 0, 0, 0, 0, 0, 0, 0, 0, 0, 0, 0, 0, 0, 0, 0, 0, 0, 0, 0, 0, 0, 0, 0, 0, 0, 0, 0, 0, 0, 0, 0, 0, 0, 0, 0, 0, 0, 0, 0, 0, 0, 0, 0, 0, 0, 0, 0, 0, 0, 0, 0, 0, 0, 0, 0, 0, 0, 0, 0, 0, 0, 0, 0, 0, 0, 0, 0, 0, 0, 0, 0, 0, 128] = ([] : List Nat) from by decide,
        hxor, hkf, absorbBlocks_nil]
  simp only [sha3_256, hpad, show ([204, 204, 6, 0, 0, 0, 0, 0, 0, 0, 0, 0, 0, 0, 0, 0, 0, 0, 0, 0, 0, 0, 0, 0, 0, 0, 0, 0, 0, 0, 0, 0, 0, 0, 0, 0, 0, 0, 0, 0, 0, 0, 0, 0, 0, 0, 0, 0, 0, 0, 0, 0, 0, 0, 0, 0, 0, 0, 0, 0, 0, 0, 0, 0, 0, 0, 0, 0, 0, 0, 0, 0, 0, 0, 0, 0, 0, 0, 0, 0, 0, 0, 0, 0, 0, 0, 0, 0, 0, 0, 0, 0, 0, 0, 0, 0, 0, 0, 0, 0, 0, 0, 0, 0, 0, 0, 0, 0, 0, 0, 0, 0, 0, 0, 0, 0, 0, 0, 0, 0, 0, 0, 0, 0, 0, 0, 0, 0, 0, 0, 0, 0, 0, 0, 0, 128] : List Nat).length = 136 from by decide, habs]
  decide

/-- Staged kernel evaluation of SHA3-256 on the message `f60f0c63a0f4b8d3ff5e6b997933f3d12007cc6201c2c4f7b88e11cdf8f951aecd57f59e64af4e426ec802b66da318af929352d76c68686dac9f9e4fe1cec111`:
each Keccak round is checked separately on literal states, keeping every
single proof obligation small. -/
theorem sha3_eval_3 : sha3_256 [246, 15, 12, 99, 160, 244, 184, 211, 255, 94, 107, 153, 121, 51, 243, 209, 32, 7, 204, 98, 1, 194, 196, 247, 184, 142, 17, 205, 248, 249, 81, 174, 205, 87, 245, 158, 100, 175, 78, 66, 110, 200, 2, 182, 109, 163, 24, 175, 146, 147, 82, 215, 108, 104, 104, 109, 172, 159, 158, 79, 225, 206, 193, 17] = [62, 211, 155, 147, 76, 210, 198, 94, 10, 108, 176, 114, 109, 1, 82, 161, 178, 228, 23, 43, 190, 100, 213, 108, 31, 190, 249, 221, 178, 161, 123, 118] := by
  have hpad : sha3Pad [246, 15, 12, 99, 160, 244, 184, 211, 255, 94, 107, 153, 121, 51, 243, 209, 32, 7, 204, 98, 1, 194, 196, 247, 184, 142, 17, 205, 248, 249, 81, 174, 205, 87, 245, 158, 100, 175, 78, 66, 110, 200, 2, 182, 109, 163, 24, 175, 146, 147, 82, 215, 108, 104, 104, 109, 172, 159, 158, 79, 225, 206, 193, 17] = [246, 15, 12, 99, 160, 244, 184, 211, 255, 94, 107, 153, 121, 51, 243, 209, 32, 7, 204, 98, 1, 194, 196, 247, 184, 142, 17, 205, 248, 249, 81, 174, 205, 87, 245, 158, 100, 175, 78, 66, 110, 200, 2, 182, 109, 163, 24, 175, 146, 147, 82, 215, 108, 104, 104, 109, 172, 159, 158, 79, 225, 206, 193, 17, 6, 0, 0, 0, 0, 0, 0, 0, 0, 0, 0, 0, 0, 0, 0, 0, 0, 0, 0, 0, 0, 0, 0, 0, 0, 0, 0, 0, 0, 0, 0, 0, 0, 0, 0, 0, 0, 0, 0, 0, 0, 0, 0, 0, 0, 0, 0, 0, 0, 0, 0, 0, 0, 0, 0, 0, 0, 0, 0, 0, 0, 0, 0, 0, 0, 0, 0, 0, 0, 0, 0, 128] := by decide
  have hxor : xorBlock (List.replicate 25 0) [246, 15, 12, 99, 160, 244, 184, 211, 255, 94, 107, 153, 121, 51, 243, 209, 32, 7, 204, 98, 1, 194, 196, 247, 184, 142, 17, 205, 248, 249, 81, 174, 205, 87, 245, 158, 100, 175, 78, 66, 110, 200, 2, 182, 109, 163, 24, 175, 146, 147, 82, 215, 108, 104, 104, 109, 172, 159, 158, 79, 225, 206, 193, 17, 6, 0, 0, 0, 0, 0, 0, 0, 0, 0, 0, 0, 0, 0, 0, 0, 0, 0, 0, 0, 0, 0, 0, 0, 0, 0, 0, 0, 0, 0, 0, 0, 0, 0, 0, 0, 0, 0, 0, 0, 0, 0, 0, 0, 0, 0, 0, 0, 0, 0, 0, 0, 0, 0, 0, 0, 0, 0, 0, 0, 0, 0, 0, 0, 0, 0, 0, 0, 0, 0, 0, 128] = [15256212707411234806, 15128492170625638143, 17853608134011782944, 12561095682700709560, 4777949101385144269, 12617014047678842990, 7883665964390323090, 1279531236248690604, 6, 0, 0, 0, 0, 0, 0, 0, 9223372036854775808, 0, 0, 0, 0, 0, 0, 0, 0] := by decide
  have hr0 : keccakRound [15256212707411234806, 15128492170625638143, 17853608134011782944, 12561095682700709560, 4777949101385144269, 12617014047678842990, 7883665964390323090, 1279531236248690604, 6, 0, 0, 0, 0, 0, 0, 0, 9223372036854775808, 0, 0, 0, 0, 0, 0, 0, 0] 1 = [12123813271929872576, 10913112338344068229, 14274242310268297828, 17105290592390484267, 4866642780459860170, 9518940188149977621, 4766590462064910417, 15836867925365760699, 8000834503327953224, 7936316008680274690, 14020421285193269340, 9155679950136893775, 3893775801519788292, 10652301226760248907, 6444944765024617184, 11454882101593832200, 2018210320812315175, 12337794164900663009, 9079020099320575956, 6224693058824419332, 2593960942678479980, 9343672341631651871, 4909441650744783793, 2939774133466216909, 5379967802023580181] := by decide
  have hr1 : keccakRound [12123813271929872576, 10913112338344068229, 14274242310268297828, 17105290592390484267, 4866642780459860170, 9518940188149977621, 4766590462064910417, 15836867925365760699, 8000834503327953224, 7936316008680274690, 14020421285193269340, 9155679950136893775, 3893775801519788292, 10652301226760248907, 6444944765024617184, 11454882101593832200, 2018210320812315175, 12337794164900663009, 9079020099320575956, 6224693058824419332, 2593960942678479980, 9343672341631651871, 4909441650744783793, 2939774133466216909, 5379967802023580181] 32898 = [12538905830518668335, 13547454534951500396, 5559170540313464882, 4209607353087899281, 6816785592189938217, 15117363207439446909, 12887096467031378134, 2751181508897350038, 8250340919268608582, 4420591373493715468, 4204403326403387896, 4979237579248424489, 17394568794025912077, 17044486294434213737, 1765186862832274978, 4035975182647967333, 9828233901944204943, 7275529919654421126, 15100935449332418732, 3843936187621145777, 8753999192250712395, 11004433532605467100, 12994438921209734006, 8386506606473281593, 17245060924061735681] := by decide
  have hr2 : keccakRound [12538905830518668335, 13547454534951500396, 5559170540313464882, 4209607353087899281, 6816785592189938217, 15117363207439446909, 12887096467031378134, 2751181508897350038, 8250340919268608582, 4420591373493715468, 4204403326403387896, 4979237579248424489, 17394568794025912077, 17044486294434213737, 1765186862832274978, 4035975182647967333, 9828233901944204943, 7275529919654421126, 15100935449332418732, 3843936187621145777, 8753999192250712395, 11004433532605467100, 12994438921209734006, 8386506606473281593, 17245060924061735681] 9223372036854808714 = [5265871471811062928, 10265711293424191597, 16326779334796734370, 14310554313134326905, 6123428827001174492, 8460938506850054227, 11129041343389327016, 8355936971474230501, 11707987976821443650, 1703425883692213364, 6822152558026972148, 11143846948484776502, 11270580051038140630, 12968808775514755629, 211898146500164517, 16469979959009548668, 4948124264177806070, 11744947001404915281, 15752583189544591095, 1681954207641189652, 14211447262697847145, 1791670245600090955, 14345442593080815722, 6976523871167456141, 2241117908503747374] := by decide
  have hr3 : keccakRound [5265871471811062928, 10265711293424191597, 16326779334796734370, 14310554313134326905, 6123428827001174492, 8460938506850054227, 11129041343389327016, 8355936971474230501, 11707987976821443650, 1703425883692213364, 6822152558026972148, 11143846948484776502, 11270580051038140630, 12968808775514755629, 211898146500164517, 16469979959009548668, 4948124264177806070, 11744947001404915281, 15752583189544591095, 1681954207641189652, 14211447262697847145, 1791670245600090955, 14345442593080815722, 6976523871167456141, 2241117908503747374] 9223372039002292224 = [2722834137873923695, 18395026172475606024, 12365281094541136243, 8250196920262096008, 13936054671021030830, 4264584190437823616, 15604756503746232620, 10826359447724657337, 18213127305031554995, 1849924399395619665, 2654548029753026839, 2351818141259646110, 3749266529843750076, 15436991355795305690, 6432347928288112913, 5449261978495410014, 354090666181209184, 4268614550619488902, 2476791558087203096, 5601347806760825734, 4484392295093814638, 9307253528491860620, 12407775485796971603, 15277662433594661954, 16760190136322750070] := by decide
  have hr4 : keccakRound [2722834137873923695, 18395026172475606024, 12365281094541136243, 8250196920262096008, 13936054671021030830, 4264584190437823616, 15604756503746232620, 10826359447724657337, 18213127305031554995, 1849924399395619665, 2654548029753026839, 2351818141259646110, 3749266529843750076, 15436991355795305690, 6432347928288112913, 5449261978495410014, 354090666181209184, 4268614550619488902, 2476791558087203096, 5601347806760825734, 4484392295093814638, 9307253528491860620, 12407775485796971603, 15277662433594661954, 16760190136322750070] 32907 = [4931173689827291669, 12625887896598012329, 10406956032507362083, 280902992743775282, 6425674776606765946, 795877644454145833, 12569489026939783017, 3135379612694275372, 7806985860097565650, 12562102035707554652, 1036758137873046703, 4657872885358529102, 17661691407995752867, 6281381056303738230, 11837421510123085173, 5551689991890717761, 4007236105585138179, 9731760443400408328, 12063616266272994072, 14985724308971395667, 18170207314312420718, 11385766925458920516, 8421763448271685628, 18164795022705419401, 14838873610459643918] := by decide
  have hr5 : keccakRound [4931173689827291669, 12625887896598012329, 10406956032507362083, 280902992743775282, 6425674776606765946, 795877644454145833, 12569489026939783017, 3135379612694275372, 7806985860097565650, 12562102035707554652, 1036758137873046703, 4657872885358529102, 17661691407995752867, 6281381056303738230, 11837421510123085173, 5551689991890717761, 4007236105585138179, 9731760443400408328, 12063616266272994072, 14985724308971395667, 18170207314312420718, 11385766925458920516, 8421763448271685628, 18164795022705419401, 14838873610459643918] 2147483649 = [10779932855740320797, 12679491468326148170, 4741765696786672846, 5076394372412993449, 1748378372554359027, 6470881529086543496, 2088312243033956283, 4581005850326750320, 12143050335923245587, 17247134830337895639, 14480550807774295890, 5791041173196734405, 195269040532433609, 1398782592096808260, 9243219449254772695, 172013762978846382, 2673528034037598666, 10645491519720074657, 11673685165727007828, 14482172940912095183, 1132353442926114554, 835620288743135520, 3679093389560013347, 5700775501358068534, 1175015585415360800] := by decide
  have hr6 : keccakRound [10779932855740320797, 12679491468326148170, 4741765696786672846, 5076394372412993449, 1748378372554359027, 6470881529086543496, 2088312243033956283, 4581005850326750320, 12143050335923245587, 17247134830337895639, 14480550807774295890, 5791041173196734405, 195269040532433609, 1398782592096808260, 9243219449254772695, 172013762978846382, 2673528034037598666, 10645491519720074657, 11673685165727007828, 14482172940912095183, 1132353442926114554, 835620288743135520, 3679093389560013347, 5700775501358068534, 1175015585415360800] 9223372039002292353 = [3005209267106529533, 17333856182557460015, 5215688933618913509, 8063440248033272307, 14340213382838297481, 11899766536623019145, 13710254574023930689, 6907422424434268039, 4751972840883648419, 11653567862918056920, 3774958700977157223, 15489615329680610428, 17311156761569084967, 10617607966015186378, 17879144342714609268, 2331807715612146614, 18165691373220281892, 15716956198323025862, 6743118015458629556, 2543709521788966644, 3118334803360907983, 18127426053914769928, 2592022043241105261, 3825438611188291715, 3313542895847529826] := by decide
  have hr7 : keccakRound [3005209267106529533, 17333856182557460015, 5215688933618913509, 8063440248033272307, 14340213382838297481, 11899766536623019145, 13710254574023930689, 6907422424434268039, 4751972840883648419, 11653567862918056920, 3774958700977157223, 15489615329680610428, 17311156761569084967, 10617607966015186378, 17879144342714609268, 2331807715612146614, 18165691373220281892, 15716956198323025862, 6743118015458629556, 2543709521788966644, 3118334803360907983, 18127426053914769928, 2592022043241105261, 3825438611188291715, 3313542895847529826] 9223372036854808585 = [326706316105452394, 18208856596198023855, 17780305958613878986, 13127353581842561896, 5777450527866926964, 8215459151399748851, 10830564305108695636, 15749778930556018220, 10994208596512038041, 9707215320276312421, 18436290791434222867, 18187167984090511498, 8831694859067473089, 15901050639970035073, 8237933740345790562, 8077189902092071055, 13410899835373402386, 6310050878197539271, 6354731237207799634, 9809787387846815922, 6130022049105193905, 1582786203413480302, 2104032202842253779, 10441815218555673299, 5973683231630152375] := by decide
  have hr8 : keccakRound [326706316105452394, 18208856596198023855, 17780305958613878986, 13127353581842561896, 5777450527866926964, 8215459151399748851, 10830564305108695636, 15749778930556018220, 10994208596512038041, 9707215320276312421, 18436290791434222867, 18187167984090511498, 8831694859067473089, 15901050639970035073, 8237933740345790562, 8077189902092071055, 13410899835373402386, 6310050878197539271, 6354731237207799634, 9809787387846815922, 6130022049105193905, 1582786203413480302, 2104032202842253779, 10441815218555673299, 5973683231630152375] 138 = [929416367756368604, 17976927624133292207, 9933037779347518966, 8209643566229822068, 2612877130142968969, 14445217238921529575, 12192974864929147178, 1844036819369753343, 8817139669633746615, 9886293977439998095, 10378235172887994346, 11170730518857841391, 6548366481892631776, 522843095948341992, 11073937622525511676, 10364036561402744548, 15636691384557630132, 14828692432361943459, 5768418439253608058, 5508353688332411960, 13441140903858906029, 2521442799917612298, 15428290038344268268, 18284982316445345776, 341788699536499424] := by decide
  have hr9 : keccakRound [929416367756368604, 17976927624133292207, 9933037779347518966, 8209643566229822068, 2612877130142968969, 14445217238921529575, 12192974864929147178, 1844036819369753343, 8817139669633746615, 9886293977439998095, 10378235172887994346, 11170730518857841391, 6548366481892631776, 522843095948341992, 11073937622525511676, 10364036561402744548, 15636691384557630132, 14828692432361943459, 5768418439253608058, 5508353688332411960, 13441140903858906029, 2521442799917612298, 15428290038344268268, 18284982316445345776, 341788699536499424] 136 = [10415321900102269593, 9001488504559352744, 11581733499291297231, 15746345437747743940, 6476874116754888748, 1480193586591578620, 4477813467919326472, 8061209881049488142, 8929841286312034165, 6818156163351522638, 6111917393956704145, 9910829955638940186, 11621822800532613038, 18024290449986586894, 15183809410466500565, 12097971736910703495, 10459193528386109257, 18026141551187552606, 4252782225218090880, 204595746347747318, 7764212449000724872, 11743641790111646703, 1199282342223358335, 8112369556951404955, 521576272158615832] := by decide
  have hr10 : keccakRound [10415321900102269593, 9001488504559352744, 11581733499291297231, 15746345437747743940, 6476874116754888748, 1480193586591578620, 4477813467919326472, 8061209881049488142, 8929841286312034165, 6818156163351522638, 6111917393956704145, 9910829955638940186, 11621822800532613038, 18024290449986586894, 15183809410466500565, 12097971736910703495, 10459193528386109257, 18026141551187552606, 4252782225218090880, 204595746347747318, 7764212449000724872, 11743641790111646703, 1199282342223358335, 8112369556951404955, 521576272158615832] 2147516425 = [11763060516633798384, 14435987897171699679, 4520439202184953553, 5899809714093066473, 17684570731135011461, 11936016157446137622, 7527209671872379604, 9742602725344083338, 15339807971505953038, 6999611393728426949, 15031689163122044828, 15948552935771256463, 10876858793795030493, 16573761234330509475, 17623526253365672820, 7032318006441489934, 4616036523374560276, 17723635632367074832, 7178780580665332111, 7231765659556076657, 16551981829980548878, 14134277662475253123, 9211922881715025033, 17987356053908743557, 15939459357472468647] := by decide
  have hr11 : keccakRound [11763060516633798384, 14435987897171699679, 4520439202184953553, 5899809714093066473, 17684570731135011461, 11936016157446137622, 7527209671872379604, 9742602725344083338, 15339807971505953038, 6999611393728426949, 15031689163122044828, 15948552935771256463, 10876858793795030493, 16573761234330509475, 17623526253365672820, 7032318006441489934, 4616036523374560276, 17723635632367074832, 7178780580665332111, 7231765659556076657, 16551981829980548878, 14134277662475253123, 9211922881715025033, 17987356053908743557, 15939459357472468647] 2147483658 = [13299392415456995870, 9243734025774740126, 3056405859511945911, 7236064994767286461, 4521619846456631441, 6465355795955536267, 3169421204392100226, 8947443307951250127, 5641342926977109999, 14887354751880298656, 2422472298813954925, 2605921522179424291, 15423229494045465273, 11945654071638575661, 8638845601740978913, 11498700626236704320, 18300436105110049115, 7646361656808156055, 11599610850860561262, 4604793406605095923, 5327232691594611671, 3117891775415265459, 13750129805585552226, 17069085267209089131, 5835233486656613171] := by decide
  have hr12 : keccakRound [13299392415456995870, 9243734025774740126, 3056405859511945911, 7236064994767286461, 4521619846456631441, 6465355795955536267, 3169421204392100226, 8947443307951250127, 5641342926977109999, 14887354751880298656, 2422472298813954925, 2605921522179424291, 15423229494045465273, 11945654071638575661, 8638845601740978913, 11498700626236704320, 18300436105110049115, 7646361656808156055, 11599610850860561262, 4604793406605095923, 5327232691594611671, 3117891775415265459, 13750129805585552226, 17069085267209089131, 5835233486656613171] 2147516555 = [9301571747916111630, 9554802722182568322, 7027529182352335523, 18236318598617675489, 13186107232064237542, 18384159058501176169, 487673571314409261, 15564273367285785779, 76856342959922625, 920242056051196588, 4540764771510514594, 13252140229151717481, 13041827727657671934, 9571094989204022481, 17617422283878843510, 3624045595685146863, 10162058961878608299, 18003498101981419371, 11971858609364458187, 17818893900144438790, 9198184934222420774, 13647347786728003180, 10084440123336077511, 7388011877527156086, 15157819581749593738] := by decide
  have hr13 : keccakRound [9301571747916111630, 9554802722182568322, 7027529182352335523, 18236318598617675489, 13186107232064237542, 18384159058501176169, 487673571314409261, 15564273367285785779, 76856342959922625, 920242056051196588, 4540764771510514594, 13252140229151717481, 13041827727657671934, 9571094989204022481, 17617422283878843510, 3624045595685146863, 10162058961878608299, 18003498101981419371, 11971858609364458187, 17818893900144438790, 9198184934222420774, 13647347786728003180, 10084440123336077511, 7388011877527156086, 15157819581749593738] 9223372036854775947 = [5876719457805302934, 5300198639674101516, 8133983402322983973, 4959975134139516013, 4944908726595690405, 3772504282194261277, 15999289307128570032, 16711776156573533866, 16700029205045899671, 3880413721998636683, 10897018935275240977, 12886992033873074426, 11351622485830632941, 10744425160868876370, 14773232253299342744, 7387670001558454441, 17885494758742279766, 11677113611448063456, 15914825109117454194, 15321256133158491279, 14340179065817063142, 5824035707753802132, 5921759836394441912, 2813111938827558083, 8305562547671605888] := by decide
  have hr14 : keccakRound [5876719457805302934, 5300198639674101516, 8133983402322983973, 4959975134139516013, 4944908726595690405, 3772504282194261277, 15999289307128570032, 16711776156573533866, 16700029205045899671, 3880413721998636683, 10897018935275240977, 12886992033873074426, 11351622485830632941, 10744425160868876370, 14773232253299342744, 7387670001558454441, 17885494758742279766, 11677113611448063456, 15914825109117454194, 15321256133158491279, 14340179065817063142, 5824035707753802132, 5921759836394441912, 2813111938827558083, 8305562547671605888] 9223372036854808713 = [15009597808152309686, 13561760706532248226, 1700835040215106203, 10460348826117148247, 10928345381051614930, 18241961941554766080, 9797172184184384788, 15495872464072598540, 10475048927403189265, 16861983024454983940, 6611599024992202073, 8804479263041422311, 18340343517457676836, 2805328954110115055, 5805696622459034895, 1131276175670041596, 10005920151769552115, 14892715750622062890, 16147618117807991430, 3145358769073883004, 716183183817753904, 7724571238233738339, 17949340269124705045, 10704549768843819931, 13678551576375072794] := by decide
  have hr15 : keccakRound [15009597808152309686, 13561760706532248226, 1700835040215106203, 10460348826117148247, 10928345381051614930, 18241961941554766080, 9797172184184384788, 15495872464072598540, 10475048927403189265, 16861983024454983940, 6611599024992202073, 8804479263041422311, 18340343517457676836, 2805328954110115055, 5805696622459034895, 1131276175670041596, 10005920151769552115, 14892715750622062890, 16147618117807991430, 3145358769073883004, 716183183817753904, 7724571238233738339, 17949340269124705045, 10704549768843819931, 13678551576375072794] 9223372036854808579 = [16936461495826162573, 10696750896128690026, 1802635149051237857, 12873129643229041978, 5565395578269681655, 14677423292481228396, 4091340394785524789, 11348822620855316282, 7390716726713146240, 10368670788881151366, 12581616970447869371, 12270140508076894068, 9639239186371502591, 16362821064196791176, 8392784230579856047, 2947073681112772233, 12934146265757606603, 4481741359875062380, 4934970772174394869, 13545262501515841100, 9540779143016085571, 17039564080156224224, 14028749070046983823, 11064537160007937928, 6013800435448328896] := by decide
  have hr16 : keccakRound [16936461495826162573, 10696750896128690026, 1802635149051237857, 12873129643229041978, 5565395578269681655, 14677423292481228396, 4091340394785524789, 11348822620855316282, 7390716726713146240, 10368670788881151366, 12581616970447869371, 12270140508076894068, 9639239186371502591, 16362821064196791176, 8392784230579856047, 2947073681112772233, 12934146265757606603, 4481741359875062380, 4934970772174394869, 13545262501515841100, 9540779143016085571, 17039564080156224224, 14028749070046983823, 11064537160007937928, 6013800435448328896] 9223372036854808578 = [12166696517246948565, 15057356144776422630, 2727809288278780876, 16176540236318286717, 1955289520017170233, 6045792014431811039, 11828172344580929369, 1409400714688827082, 8383619849768884310, 9929805254591994754, 4163492505343889105, 4849819474504542272, 17604831569640779419, 16881470931895986974, 6810331472824944628, 5819576096229475357, 6085370190823964880, 9579864406605007754, 2966377166036310305, 14330540004573491072, 3107067141490850527, 5802447927076244600, 6829752858122975916, 1065016212911071249, 9368807514420407260] := by decide
  have hr17 : keccakRound [12166696517246948565, 15057356144776422630, 2727809288278780876, 16176540236318286717, 1955289520017170233, 6045792014431811039, 11828172344580929369, 1409400714688827082, 8383619849768884310, 9929805254591994754, 4163492505343889105, 4849819474504542272, 17604831569640779419, 16881470931895986974, 6810331472824944628, 5819576096229475357, 6085370190823964880, 9579864406605007754, 2966377166036310305, 14330540004573491072, 3107067141490850527, 5802447927076244600, 6829752858122975916, 1065016212911071249, 9368807514420407260] 9223372036854775936 = [16342261740680640872, 1203286366862355297, 4204728431415078560, 8167803651589690804, 2246472950976391269, 17771478444241323941, 11503021295371723789, 12069731014651894050, 16192547313488003514, 3657616857112658926, 12956614466337083649, 15811109365135098792, 15607052400946172339, 2781691542695589631, 13043401940623520224, 1517416088066262734, 2132620050331322761, 6321414659881876028, 15222529085678334634, 420786298735087125, 7055566471425389092, 15305408159306776183, 1055662254256713144, 13356385107534198305, 7164811154152107021] := by decide
  have hr18 : keccakRound [16342261740680640872, 1203286366862355297, 4204728431415078560, 8167803651589690804, 2246472950976391269, 17771478444241323941, 11503021295371723789, 12069731014651894050, 16192547313488003514, 3657616857112658926, 12956614466337083649, 15811109365135098792, 15607052400946172339, 2781691542695589631, 13043401940623520224, 1517416088066262734, 2132620050331322761, 6321414659881876028, 15222529085678334634, 420786298735087125, 7055566471425389092, 15305408159306776183, 1055662254256713144, 13356385107534198305, 7164811154152107021] 32778 = [10208008464511202150, 4723184487107050493, 18028438099381466578, 2508725475649914450, 8166742834656710321, 4606256958194478928, 7523479152009974727, 8496931351797344881, 3204349116050582805, 11902839042294598605, 18339496085890064977, 2829819175024302932, 3109577554391750347, 16865955143353239142, 2685282796658854851, 16487016615753026197, 2494020177544719095, 7751792146233545159, 2820116002459200242, 8172268543069309301, 14236329854295793201, 8431080902086394768, 18218379827017591462, 1175584320193138593, 14849599845974087788] := by decide
  have hr19 : keccakRound [10208008464511202150, 4723184487107050493, 18028438099381466578, 2508725475649914450, 8166742834656710321, 4606256958194478928, 7523479152009974727, 8496931351797344881, 3204349116050582805, 11902839042294598605, 18339496085890064977, 2829819175024302932, 3109577554391750347, 16865955143353239142, 2685282796658854851, 16487016615753026197, 2494020177544719095, 7751792146233545159, 2820116002459200242, 8172268543069309301, 14236329854295793201, 8431080902086394768, 18218379827017591462, 1175584320193138593, 14849599845974087788] 9223372039002259466 = [17560465681310781683, 8991267503948379924, 4783309495279611267, 5342756756875397972, 1217559789977867452, 16719555024547394972, 13257433140375289056, 6166632287039015712, 2632078616541728993, 6318613461376715816, 13152612157679772360, 6823383413636769291, 1050973851292929552, 10198997075996084513, 18368325480082629505, 1487889628635567449, 17376653513376782515, 4675149063218009526, 340883650169395934, 407346408184581024, 505266450311522670, 7584591601954642264, 13464363322796765925, 14648875963608908131, 15560708969426412821] := by decide
  have hr20 : keccakRound [17560465681310781683, 8991267503948379924, 4783309495279611267, 5342756756875397972, 1217559789977867452, 16719555024547394972, 13257433140375289056, 6166632287039015712, 2632078616541728993, 6318613461376715816, 13152612157679772360, 6823383413636769291, 1050973851292929552, 10198997075996084513, 18368325480082629505, 1487889628635567449, 17376653513376782515, 4675149063218009526, 340883650169395934, 407346408184581024, 505266450311522670, 7584591601954642264, 13464363322796765925, 14648875963608908131, 15560708969426412821] 9223372039002292353 = [4724190126609440754, 12518417053626248519, 9767923408206750412, 1959320614407117321, 16729990642650235269, 14858930840247977982, 8328259479535936574, 8473928324037114770, 13668938713672213513, 5499559841668219285, 9623795835641537183, 2565095267695653312, 10367212138375303612, 6620727012956015190, 4678039159369663997, 6690268185117625172, 11372320567576850685, 5647203850747771194, 17730074760822917647, 16356163296512566029, 10927991548883347696, 2925410945868443930, 17807463771556780303, 6354968927124868080, 7317846523209688878] := by decide
  have hr21 : keccakRound [4724190126609440754, 12518417053626248519, 9767923408206750412, 1959320614407117321, 16729990642650235269, 14858930840247977982, 8328259479535936574, 8473928324037114770, 13668938713672213513, 5499559841668219285, 9623795835641537183, 2565095267695653312, 10367212138375303612, 6620727012956015190, 4678039159369663997, 6690268185117625172, 11372320567576850685, 5647203850747771194, 17730074760822917647, 16356163296512566029, 10927991548883347696, 2925410945868443930, 17807463771556780303, 6354968927124868080, 7317846523209688878] 9223372036854808704 = [1408494568066786760, 16044715219266200117, 3143049743863696106, 11701485173875846660, 15098275406848880423, 9786359500972791073, 15000187396238313697, 15914211925958962763, 9731216319742363840, 3675835379791833376, 13982869589605243823, 15421302486572379271, 5367318780982076502, 16186754005389836843, 276244171184648935, 1254264772253115715, 15706245294576289295, 17679757599070831566, 14740446415667958925, 8884485400664809580, 1509669337726947056, 12785477579164970287, 12414082113968886245, 306541499238484312, 2579073164000659214] := by decide
  have hr22 : keccakRound [1408494568066786760, 16044715219266200117, 3143049743863696106, 11701485173875846660, 15098275406848880423, 9786359500972791073, 15000187396238313697, 15914211925958962763, 9731216319742363840, 3675835379791833376, 13982869589605243823, 15421302486572379271, 5367318780982076502, 16186754005389836843, 276244171184648935, 1254264772253115715, 15706245294576289295, 17679757599070831566, 14740446415667958925, 8884485400664809580, 1509669337726947056, 12785477579164970287, 12414082113968886245, 306541499238484312, 2579073164000659214] 2147483649 = [18116240052638911614, 10014796893906673444, 278272793266765760, 700489360449171432, 12874828219571237202, 1614810873583955410, 17690059266264256670, 11528390858365712132, 2326366405936208552, 9356930092819315192, 14580640269466111570, 13392162734548516701, 17908118409383071925, 5054574877907891811, 48471133446694216, 3832564475817308423, 15315513361272189782, 2090823596941213042, 13068996049785620408, 13930214131543627684, 7136390782807750522, 5516917524404953434, 3080930203166483033, 9410355637184282790, 2822829213953106184] := by decide
  have hr23 : keccakRound [18116240052638911614, 10014796893906673444, 278272793266765760, 700489360449171432, 12874828219571237202, 1614810873583955410, 17690059266264256670, 11528390858365712132, 2326366405936208552, 9356930092819315192, 14580640269466111570, 13392162734548516701, 17908118409383071925, 5054574877907891811, 48471133446694216, 3832564475817308423, 15315513361272189782, 2090823596941213042, 13068996049785620408, 13930214131543627684, 7136390782807750522, 5516917524404953434, 3080930203166483033, 9410355637184282790, 2822829213953106184] 9223372039002292232 = [6829377111289746238, 11624355157783899146, 7842285094065136818, 8537595308211289631, 17745841396013384574, 6248323794894661024, 4152310502794911763, 839913247751016260, 1048953502694666286, 3572810417401256192, 12290196064403843750, 16701236381956433271, 3145340024001937236, 9470215716810608475, 17975338486274600390, 12806099319484805831, 3230052519790847634, 10953924995422072313, 9846006434287950781, 7870500310665107937, 3710663743172191062, 12009471943178021309, 16193106807487915669, 16353589469537272604, 16740802983677939991] := by decide
  have hkf : keccakF [15256212707411234806, 15128492170625638143, 17853608134011782944, 12561095682700709560, 4777949101385144269, 12617014047678842990, 7883665964390323090, 1279531236248690604, 6, 0, 0, 0, 0, 0, 0, 0, 9223372036854775808, 0, 0, 0, 0, 0, 0, 0, 0] = [6829377111289746238, 11624355157783899146, 7842285094065136818, 8537595308211289631, 17745841396013384574, 6248323794894661024, 4152310502794911763, 839913247751016260, 1048953502694666286, 3572810417401256192, 12290196064403843750, 16701236381956433271, 3145340024001937236, 9470215716810608475, 17975338486274600390, 12806099319484805831, 3230052519790847634, 10953924995422072313, 9846006434287950781, 7870500310665107937, 3710663743172191062, 12009471943178021309, 16193106807487915669, 16353589469537272604, 16740802983677939991] := by
    simp only [keccakF, keccakRC, List.foldl_cons, List.foldl_nil, hr0, hr1, hr2, hr3, hr4, hr5, hr6, hr7, hr8, hr9, hr10, hr11, hr12, hr13, hr14, hr15, hr16, hr17, hr18, hr19, hr20, hr21, hr22, hr23]
  have habs : absorbBlocks 136 (List.replicate 25 0) [246, 15, 12, 99, 160, 244, 184, 211, 255, 94, 107, 153, 121, 51, 243, 209, 32, 7, 204, 98, 1, 194, 196, 247, 184, 142, 17, 205, 248, 249, 81, 174, 205, 87, 245, 158, 100, 175, 78, 66, 110, 200, 2, 182, 109, 163, 24, 175, 146, 147, 82, 215, 108, 104, 104, 109, 172, 159, 158, 79, 225, 206, 193, 17, 6, 0, 0, 0, 0, 0, 0, 0, 0, 0, 0, 0, 0, 0, 0, 0, 0, 0, 0, 0, 0, 0, 0, 0, 0, 0, 0, 0, 0, 0, 0, 0, 0, 0, 0, 0, 0, 0, 0, 0, 0, 0, 0, 0, 0, 0, 0, 0, 0, 0, 0, 0, 0, 0, 0, 0, 0, 0, 0, 0, 0, 0, 0, 0, 0, 0, 0, 0, 0, 0, 0, 128] = [6829377111289746238, 11624355157783899146, 7842285094065136818, 8537595308211289631, 17745841396013384574, 6248323794894661024, 4152310502794911763, 839913247751016260, 1048953502694666286, 3572810417401256192, 12290196064403843750, 16701236381956433271, 3145340024001937236, 9470215716810608475, 17975338486274600390, 12806099319484805831, 3230052519790847634, 10953924995422072313, 9846006434287950781, 7870500310665107937, 3710663743172191062, 12009471943178021309, 16193106807487915669, 16353589469537272604, 16740802983677939991] := by
    rw [show (136 : ℕ) = 135 + 1 from rfl, absorbBlocks_step,
        show List.take 136 [246, 15, 12, 99, 160, 244, 184, 211, 255, 94, 107, 153, 121, 51, 243, 209, 32, 7, 204, 98, 1, 194, 196, 247, 184, 142, 17, 205, 248, 249, 81, 174, 205, 87, 245, 158, 100, 175, 78, 66, 110, 200, 2, 182, 109, 163, 24, 175, 146, 147, 82, 215, 108, 104, 104, 109, 172, 159, 158, 79, 225, 206, 193, 17, 6, 0, 0, 0, 0, 0, 0, 0, 0, 0, 0, 0, 0, 0, 0, 0, 0, 0, 0, 0, 0, 0, 0, 0, 0, 0, 0, 0, 0, 0, 0, 0, 0, 0, 0, 0, 0, 0, 0, 0, 0, 0, 0, 0, 0, 0, 0, 0, 0, 0, 0, 0, 0, 0, 0, 0, 0, 0, 0, 0, 0, 0, 0, 0, 0, 0, 0, 0, 0, 0, 0, 128] = [246, 15, 12, 99, 160, 244, 184, 211, 255, 94, 107, 153, 121, 51, 243, 209, 32, 7, 204, 98, 1, 194, 196, 247, 184, 142, 17, 205, 248, 249, 81, 174, 205, 87, 245, 158, 100, 175, 78, 66, 110, 200, 2, 182, 109, 163, 24, 175, 146, 147, 82, 215, 108, 104, 104, 109, 172, 159, 158, 79, 225, 206, 193, 17, 6, 0, 0, 0, 0, 0, 0, 0, 0, 0, 0, 0, 0, 0, 0, 0, 0, 0, 0, 0, 0, 0, 0, 0, 0, 0, 0, 0, 0, 0, 0, 0, 0, 0, 0, 0, 0, 0, 0, 0, 0, 0, 0, 0, 0, 0, 0, 0, 0, 0, 0, 0, 0, 0, 0, 0, 0, 0, 0, 0, 0, 0, 0, 0, 0, 0, 0, 0, 0, 0, 0, 128] from by decide,
        show List.drop 136 [246, 15, 12, 99, 160, 244, 184, 211, 255, 94, 107, 153, 121, 51, 243, 209, 32, 7, 204, 98, 1, 194, 196, 247, 184, 142, 17, 205, 248, 249, 81, 174, 205, 87, 245, 158, 100, 175, 78, 66, 110, 200, 2, 182, 109, 163, 24, 175, 146, 147, 82, 215, 108, 104, 104, 109, 172, 159, 158, 79, 225, 206, 193, 17, 6, 0, 0, 0, 0, 0, 0, 0, 0, 0, 0, 0, 0, 0, 0, 0, 0, 0, 0, 0, 0, 0, 0, 0, 0, 0, 0, 0, 0, 0, 0, 0, 0, 0, 0, 0, 0, 0, 0, 0, 0, 0, 0, 0, 0, 0, 0, 0, 0, 0, 0, 0, 0, 0, 0, 0, 0, 0, 0, 0, 0, 0, 0, 0, 0, 0, 0, 0, 0, 0, 0, 128] = ([] : List Nat) from by decide,
        hxor, hkf, absorbBlocks_nil]
  simp only [sha3_256, hpad, show ([246, 15, 12, 99, 160, 244, 184, 211, 255, 94, 107, 153, 121, 51, 243, 209, 32, 7, 204, 98, 1, 194, 196, 247, 184, 142, 17, 205, 248, 249, 81, 174, 205, 87, 245, 158, 100, 175, 78, 66, 110, 200, 2, 182, 109, 163, 24, 175, 146, 147, 82, 215, 108, 104, 104, 109, 172, 159, 158, 79, 225, 206, 193, 17, 6, 0, 0, 0, 0, 0, 0, 0, 0, 0, 0, 0, 0, 0, 0, 0, 0, 0, 0, 0, 0, 0, 0, 0, 0, 0, 0, 0, 0, 0, 0, 0, 0, 0, 0, 0, 0, 0, 0, 0, 0, 0, 0, 0, 0, 0, 0, 0, 0, 0, 0, 0, 0, 0, 0, 0, 0, 0, 0, 0, 0, 0, 0, 0, 0, 0, 0, 0, 0, 0, 0, 128] : List Nat).length = 136 from by decide, habs]
  decide

/-- Staged kernel evaluation of SHA3-256 on the message `aa`:
each Keccak round is checked separately on literal states, keeping every
single proof obligation small. -/
theorem sha3_eval_4 : sha3_256 [170] = [173, 94, 244, 26, 198, 107, 88, 38, 38, 57, 125, 83, 91, 178, 118, 28, 182, 32, 58, 80, 60, 201, 171, 174, 157, 229, 153, 187, 227, 18, 136, 6] := by
  have hpad : sha3Pad [170] = [170, 6, 0, 0, 0, 0, 0, 0, 0, 0, 0, 0, 0, 0, 0, 0, 0, 0, 0, 0, 0, 0, 0, 0, 0, 0, 0, 0, 0, 0, 0, 0, 0, 0, 0, 0, 0, 0, 0, 0, 0, 0, 0, 0, 0, 0, 0, 0, 0, 0, 0, 0, 0, 0, 0, 0, 0, 0, 0, 0, 0, 0, 0, 0, 0, 0, 0, 0, 0, 0, 0, 0, 0, 0, 0, 0, 0, 0, 0, 0, 0, 0, 0, 0, 0, 0, 0, 0, 0, 0, 0, 0, 0, 0, 0, 0, 0, 0, 0, 0, 0, 0, 0, 0, 0, 0, 0, 0, 0, 0, 0, 0, 0, 0, 0, 0, 0, 0, 0, 0, 0, 0, 0, 0, 0, 0, 0, 0, 0, 0, 0, 0, 0, 0, 0, 128] := by decide
  have hxor : xorBlock (List.replicate 25 0) [170, 6, 0, 0, 0, 0, 0, 0, 0, 0, 0, 0, 0, 0, 0, 0, 0, 0, 0, 0, 0, 0, 0, 0, 0, 0, 0, 0, 0, 0, 0, 0, 0, 0, 0, 0, 0, 0, 0, 0, 0, 0, 0, 0, 0, 0, 0, 0, 0, 0, 0, 0, 0, 0, 0, 0, 0, 0, 0, 0, 0, 0, 0, 0, 0, 0, 0, 0, 0, 0, 0, 0, 0, 0, 0, 0, 0, 0, 0, 0, 0, 0, 0, 0, 0, 0, 0, 0, 0, 0, 0, 0, 0, 0, 0, 0, 0, 0, 0, 0, 0, 0, 0, 0, 0, 0, 0, 0, 0, 0, 0, 0, 0, 0, 0, 0, 0, 0, 0, 0, 0, 0, 0, 0, 0, 0, 0, 0, 0, 0, 0, 0, 0, 0, 0, 128] = [1706, 0, 0, 0, 0, 0, 0, 0, 0, 0, 0, 0, 0, 0, 0, 0, 9223372036854775808, 0, 0, 0, 0, 0, 0, 0, 0] := by decide
  have hr0 : keccakRound [1706, 0, 0, 0, 0, 0, 0, 0, 0, 0, 0, 0, 0, 0, 0, 0, 9223372036854775808, 0, 0, 0, 0, 0, 0, 0, 0] 1 = [4398046512810, 30012269391773696, 4398102413312, 1707, 30012269447675904, 8, 60042134547333120, 1152921504606846984, 60042130969591808, 1152921508184588288, 3412, 873504, 0, 874836, 262176, 457952634880, 68719493120, 1746944, 457950904320, 68719476736, 2307718776050679808, 0, 1875766836992680, 2305845208236949504, 6824] := by decide
  have hr1 : keccakRound [4398046512810, 30012269391773696, 4398102413312, 1707, 30012269447675904, 8, 60042134547333120, 1152921504606846984, 60042130969591808, 1152921508184588288, 3412, 873504, 0, 874836, 262176, 457952634880, 68719493120, 1746944, 457950904320, 68719476736, 2307718776050679808, 0, 1875766836992680, 2305845208236949504, 6824] 32898 = [12682653533674912866, 2038562443045025129, 13533565432858864808, 15668561355802623549, 5748238004968381226, 1945229703158025858, 15827786015507025296, 13873970129965506254, 11673963554977500176, 2964345319268607790, 200520468601147172, 15948687900885050804, 7178616520635933651, 15568006239866788416, 17136446226512786655, 15588058211608939893, 5229079552028910493, 4600915004991608069, 16530993111374999802, 12731913560054001541, 10836026364243526599, 17945018625997346506, 2172512075930163120, 12931387260967860126, 5203850977370713816] := by decide
  have hr2 : keccakRound [12682653533674912866, 2038562443045025129, 13533565432858864808, 15668561355802623549, 5748238004968381226, 1945229703158025858, 15827786015507025296, 13873970129965506254, 11673963554977500176, 2964345319268607790, 200520468601147172, 15948687900885050804, 7178616520635933651, 15568006239866788416, 17136446226512786655, 15588058211608939893, 5229079552028910493, 4600915004991608069, 16530993111374999802, 12731913560054001541, 10836026364243526599, 17945018625997346506, 2172512075930163120, 12931387260967860126, 5203850977370713816] 9223372036854808714 = [1715886454477721037, 4458113765032940809, 14018295629278896342, 1425551005814572991, 16495100789033619063, 13354940785590153010, 6095660573661401016, 4100939418098640062, 17211203337984158776, 2985950651847220415, 1168013515800987708, 9448422405221937512, 238459988985259811, 15590920142233428406, 5985131520300482432, 3821135742658635791, 1469717019472240291, 10700331888931981572, 11089638977977136663, 11136624107215156871, 11514887095985288953, 477149822742339500, 6204447285311387253, 4800843745172194771, 13102698475874092791] := by decide
  have hr3 : keccakRound [1715886454477721037, 4458113765032940809, 14018295629278896342, 1425551005814572991, 16495100789033619063, 13354940785590153010, 6095660573661401016, 4100939418098640062, 17211203337984158776, 2985950651847220415, 1168013515800987708, 9448422405221937512, 238459988985259811, 15590920142233428406, 5985131520300482432, 3821135742658635791, 1469717019472240291, 10700331888931981572, 11089638977977136663, 11136624107215156871, 11514887095985288953, 477149822742339500, 6204447285311387253, 4800843745172194771, 13102698475874092791] 9223372039002292224 = [15607598025698416960, 17310041633570996961, 13824346867933348920, 12508446606151656315, 5880964473253722217, 15721263674536615256, 9608434910810280489, 10224438426134189123, 12886044102840610534, 3392833502346870124, 6808237933550544016, 1417227507039037571, 8905127531650315027, 5816578362602920652, 11137379168611876191, 3424286025001778388, 1516163827610146444, 14480720089880954756, 9286728513708905904, 9804352983812825611, 8613988809208327800, 7555693948482928068, 10287713392286933170, 13532248873761003273, 11061532974492340016] := by decide
  have hr4 : keccakRound [15607598025698416960, 17310041633570996961, 13824346867933348920, 12508446606151656315, 5880964473253722217, 15721263674536615256, 9608434910810280489, 10224438426134189123, 12886044102840610534, 3392833502346870124, 6808237933550544016, 1417227507039037571, 8905127531650315027, 5816578362602920652, 11137379168611876191, 3424286025001778388, 1516163827610146444, 14480720089880954756, 9286728513708905904, 9804352983812825611, 8613988809208327800, 7555693948482928068, 10287713392286933170, 13532248873761003273, 11061532974492340016] 32907 = [1977014568964664040, 11144865212603693496, 2296347942986885449, 8093705685921368186, 2252025801957730493, 9416466062731565112, 16903944678570468423, 17061129678170133940, 7918328466111190375, 5088632074920533768, 18415869995902885907, 10796520158362373903, 9691056645735728367, 15062265397268155300, 7726386505009452202, 2007992242104854372, 15100115913985805916, 18216841698071817400, 2834745023718595428, 6079119872808206753, 10619282083707412277, 3292750715986386384, 9594470351641836719, 165621331814531033, 16144324449159618033] := by decide
  have hr5 : keccakRound [1977014568964664040, 11144865212603693496, 2296347942986885449, 8093705685921368186, 2252025801957730493, 9416466062731565112, 16903944678570468423, 17061129678170133940, 7918328466111190375, 5088632074920533768, 18415869995902885907, 10796520158362373903, 9691056645735728367, 15062265397268155300, 7726386505009452202, 2007992242104854372, 15100115913985805916, 18216841698071817400, 2834745023718595428, 6079119872808206753, 10619282083707412277, 3292750715986386384, 9594470351641836719, 165621331814531033, 16144324449159618033] 2147483649 = [5652063117856367982, 1711317064671710479, 14207836365142744885, 15784554142314206431, 17269436616316042624, 13705498126490262835, 12532369441605630858, 2092142192871205929, 2349190473896827572, 5241481251685086007, 17567554784440602562, 15195855203711201385, 1622630376611107017, 166083422306207264, 12631658146247256331, 12795092113433455588, 17927222164008627422, 7494487416378382785, 15715611496500490660, 667025239855075699, 3845422862440445875, 9201454446282227779, 5691368012676351229, 15362276807233412390, 11767916819149739363] := by decide
  have hr6 : keccakRound [5652063117856367982, 1711317064671710479, 14207836365142744885, 15784554142314206431, 17269436616316042624, 13705498126490262835, 12532369441605630858, 2092142192871205929, 2349190473896827572, 5241481251685086007, 17567554784440602562, 15195855203711201385, 1622630376611107017, 166083422306207264, 12631658146247256331, 12795092113433455588, 17927222164008627422, 7494487416378382785, 15715611496500490660, 667025239855075699, 3845422862440445875, 9201454446282227779, 5691368012676351229, 15362276807233412390, 11767916819149739363] 9223372039002292353 = [12872689637555847808, 13176155894467242142, 2864810143490520183, 14098359170487998984, 8107184736191903327, 12109324902150743319, 11013211344990835978, 1748940686826136655, 9754084203971730624, 18327430561512911979, 13012630080161856016, 14540136254683599239, 18326671215479753917, 3883609823780159481, 13788646870709625571, 742315990036475432, 12206517630834724010, 15522519279633416884, 2276272461061641485, 4020441344504372263, 17134170827646814041, 16426456584786675089, 11387811016574768380, 3276676165049227109, 11750944048221018592] := by decide
  have hr7 : keccakRound [12872689637555847808, 13176155894467242142, 2864810143490520183, 14098359170487998984, 8107184736191903327, 12109324902150743319, 11013211344990835978, 1748940686826136655, 9754084203971730624, 18327430561512911979, 13012630080161856016, 14540136254683599239, 18326671215479753917, 3883609823780159481, 13788646870709625571, 742315990036475432, 12206517630834724010, 15522519279633416884, 2276272461061641485, 4020441344504372263, 17134170827646814041, 16426456584786675089, 11387811016574768380, 3276676165049227109, 11750944048221018592] 9223372036854808585 = [14838940820709074760, 15439531393412502861, 18364896970566178508, 5154642463418323936, 13343051726341819593, 9676512279295323135, 6182236077103446432, 661445324115763758, 10218948003736065867, 9765416811330886892, 11257260729220832245, 13549152508727650285, 14753210532187046238, 5219634382855537126, 17918085330878344422, 14920404938176791751, 7389180096745866002, 6825485191627877204, 17588590932538129135, 9903266760349661423, 14016717290799086074, 5773753858614491114, 4131216099117520859, 4995287806003616495, 17910784487601067510] := by decide
  have hr8 : keccakRound [14838940820709074760, 15439531393412502861, 18364896970566178508, 5154642463418323936, 13343051726341819593, 9676512279295323135, 6182236077103446432, 661445324115763758, 10218948003736065867, 9765416811330886892, 11257260729220832245, 13549152508727650285, 14753210532187046238, 5219634382855537126, 17918085330878344422, 14920404938176791751, 7389180096745866002, 6825485191627877204, 17588590932538129135, 9903266760349661423, 14016717290799086074, 5773753858614491114, 4131216099117520859, 4995287806003616495, 17910784487601067510] 138 = [7635355014350164840, 13405977533278724401, 16766871860587703221, 3369208613359759043, 18412690444532661220, 15372337898634034867, 4959142365104856571, 14166915119025792699, 16315821534636594197, 608485474022956315, 3185062689746474605, 9901001553408201499, 431399119307054381, 3834535942601514759, 7709344778827341286, 18432689892101169167, 5930209208209493451, 6883418053833102461, 15498021579890796723, 7594898494039392880, 13638572233493973994, 14307382025858063422, 6813012886027184027, 6365163811309330243, 10325944300052397016] := by decide
  have hr9 : keccakRound [7635355014350164840, 13405977533278724401, 16766871860587703221, 3369208613359759043, 18412690444532661220, 15372337898634034867, 4959142365104856571, 14166915119025792699, 16315821534636594197, 608485474022956315, 3185062689746474605, 9901001553408201499, 431399119307054381, 3834535942601514759, 7709344778827341286, 18432689892101169167, 5930209208209493451, 6883418053833102461, 15498021579890796723, 7594898494039392880, 13638572233493973994, 14307382025858063422, 6813012886027184027, 6365163811309330243, 10325944300052397016] 136 = [15868243972391152445, 14332441332716673474, 9847913322660401805, 13429771787072772679, 599161824267700072, 4605155496211804737, 15794867115734538965, 530761019064140933, 7126684967314364374, 3033369571716275769, 4253569360862684625, 10905435085174973418, 18161151336863722275, 15621457720309455675, 11886756158985408593, 52514918967760366, 15925912089399856657, 3215165385947171123, 4384884102896532707, 3009200175421934504, 18138338993948271730, 9049483591096538617, 6014470841588410455, 14712484477611129764, 1463440924001021332] := by decide
  have hr10 : keccakRound [15868243972391152445, 14332441332716673474, 9847913322660401805, 13429771787072772679, 599161824267700072, 4605155496211804737, 15794867115734538965, 530761019064140933, 7126684967314364374, 3033369571716275769, 4253569360862684625, 10905435085174973418, 18161151336863722275, 15621457720309455675, 11886756158985408593, 52514918967760366, 15925912089399856657, 3215165385947171123, 4384884102896532707, 3009200175421934504, 18138338993948271730, 9049483591096538617, 6014470841588410455, 14712484477611129764, 1463440924001021332] 2147516425 = [3903566183819555494, 14625345545384916795, 5115229063921802262, 11425673485464160123, 6318576092800511104, 11386319009097002932, 8874104159475847549, 12729179473107876412, 7778804931560973233, 1401178647247744603, 12313049139468319963, 10315733668176793981, 6681424552130847856, 3855608235329335245, 168770097624076428, 6375912783405050406, 13509036594469733179, 11428116221197360818, 9920946375729362427, 3508982093999585705, 15002142628548864660, 10168102129476359147, 9281900320109329332, 4461348536541254661, 4145539521033016371] := by decide
  have hr11 : keccakRound [3903566183819555494, 14625345545384916795, 5115229063921802262, 11425673485464160123, 6318576092800511104, 11386319009097002932, 8874104159475847549, 12729179473107876412, 7778804931560973233, 1401178647247744603, 12313049139468319963, 10315733668176793981, 6681424552130847856, 3855608235329335245, 168770097624076428, 6375912783405050406, 13509036594469733179, 11428116221197360818, 9920946375729362427, 3508982093999585705, 15002142628548864660, 10168102129476359147, 9281900320109329332, 4461348536541254661, 4145539521033016371] 2147483658 = [17051998020021671583, 8262956912196299731, 10681357411453061369, 4708038338036386616, 1338113478712294986, 4824562298449715783, 1290101884462578817, 11808768332572454422, 17098878825421813158, 12766085771855369237, 6028702546967451482, 5504784283037010261, 7325118933421457238, 5163253320475846145, 3267370409128637103, 5918956020541070195, 2637085073555970397, 14509131409210932731, 2525169461652436534, 14379917871446521412, 17138118610627633795, 4260470060057539293, 2771760519536027997, 16191825011145848098, 12248460944379409625] := by decide
  have hr12 : keccakRound [17051998020021671583, 8262956912196299731, 10681357411453061369, 4708038338036386616, 1338113478712294986, 4824562298449715783, 1290101884462578817, 11808768332572454422, 17098878825421813158, 12766085771855369237, 6028702546967451482, 5504784283037010261, 7325118933421457238, 5163253320475846145, 3267370409128637103, 5918956020541070195, 2637085073555970397, 14509131409210932731, 2525169461652436534, 14379917871446521412, 17138118610627633795, 4260470060057539293, 2771760519536027997, 16191825011145848098, 12248460944379409625] 2147516555 = [3256276516755481429, 13681303747000613589, 4922144128406900234, 15715090811480279495, 11779643631411698043, 3654364814023874166, 11446718413583520206, 10969772730655972494, 15069146120429260857, 5014090183264894192, 10682461052036864818, 5525965802662208465, 2996323458800369102, 11129413403672014167, 17704752353449644354, 12186245311855878638, 370756267870926153, 16812461906478262495, 5116849602576872592, 16482549596312783245, 9155257940521419314, 13553755180570884434, 5774870470563479722, 18191236980720785190, 1016137858109531652] := by decide
  have hr13 : keccakRound [3256276516755481429, 13681303747000613589, 4922144128406900234, 15715090811480279495, 11779643631411698043, 3654364814023874166, 11446718413583520206, 10969772730655972494, 15069146120429260857, 5014090183264894192, 10682461052036864818, 5525965802662208465, 2996323458800369102, 11129413403672014167, 17704752353449644354, 12186245311855878638, 370756267870926153, 16812461906478262495, 5116849602576872592, 16482549596312783245, 9155257940521419314, 13553755180570884434, 5774870470563479722, 18191236980720785190, 1016137858109531652] 9223372036854775947 = [14503265461407119605, 5288322198575592963, 15781113444167448584, 2037093368866479165, 18437736110403839454, 14904585517631231552, 12647235453481082436, 1627739147493230286, 12275508245596555146, 13497668568135009356, 13450605791023911237, 13021452012645552178, 18428367053582402563, 13556833115460950069, 11220428901799012239, 15433563445602142363, 12556598128114988248, 17797180991736268800, 13541760352186283462, 13331595300967010978, 5593705273993189916, 14111810949490482186, 8979834275956604068, 3588834736668276742, 6936421014815108997] := by decide
  have hr14 : keccakRound [14503265461407119605, 5288322198575592963, 15781113444167448584, 2037093368866479165, 18437736110403839454, 14904585517631231552, 12647235453481082436, 1627739147493230286, 12275508245596555146, 13497668568135009356, 13450605791023911237, 13021452012645552178, 18428367053582402563, 13556833115460950069, 11220428901799012239, 15433563445602142363, 12556598128114988248, 17797180991736268800, 13541760352186283462, 13331595300967010978, 5593705273993189916, 14111810949490482186, 8979834275956604068, 3588834736668276742, 6936421014815108997] 9223372036854808713 = [12733181966398563072, 4568196054958413495, 11116166136187228313, 9649642291365767768, 10720791038595184442, 4894378498828794352, 2378322871703101491, 1338732003137437070, 15113446260039193432, 7524633973714580499, 4527515667827429151, 3147669120272872718, 10282900810126975090, 8265038596337631322, 13715379781193752897, 15150706316983631576, 10169218407130486269, 4750456438367754954, 10228406057630184600, 1348183122453636325, 13361868675386678538, 16621447446641786551, 15421364761282272470, 216695168915813774, 1250851747146478671] := by decide
  have hr15 : keccakRound [12733181966398563072, 4568196054958413495, 11116166136187228313, 9649642291365767768, 10720791038595184442, 4894378498828794352, 2378322871703101491, 1338732003137437070, 15113446260039193432, 7524633973714580499, 4527515667827429151, 3147669120272872718, 10282900810126975090, 8265038596337631322, 13715379781193752897, 15150706316983631576, 10169218407130486269, 4750456438367754954, 10228406057630184600, 1348183122453636325, 13361868675386678538, 16621447446641786551, 15421364761282272470, 216695168915813774, 1250851747146478671] 9223372036854808579 = [5540630846586791940, 8791970550549251458, 3567831679304326597, 5993339929240996795, 13280329067717147323, 5968960845476221660, 3317056586765589376, 10026964836410942062, 7950578832423254655, 17511437957740282256, 13033916293849441491, 4503728831739836178, 16699766179610443050, 16248837916642557687, 17773143529628369659, 11191750568388301181, 15310461080033832673, 8962991070067884706, 7854811783830550245, 3978937663265876187, 364833975166473392, 10727587701261603167, 4069619697493575262, 6285109036451555711, 6816359209731887531] := by decide
  have hr16 : keccakRound [5540630846586791940, 8791970550549251458, 3567831679304326597, 5993339929240996795, 13280329067717147323, 5968960845476221660, 3317056586765589376, 10026964836410942062, 7950578832423254655, 17511437957740282256, 13033916293849441491, 4503728831739836178, 16699766179610443050, 16248837916642557687, 17773143529628369659, 11191750568388301181, 15310461080033832673, 8962991070067884706, 7854811783830550245, 3978937663265876187, 364833975166473392, 10727587701261603167, 4069619697493575262, 6285109036451555711, 6816359209731887531] 9223372036854808578 = [6816796019071264251, 14835634819726972658, 907156555909486099, 7869918587466800569, 1914073107749318242, 2295054431180083017, 14882567517248046547, 10132362694271198073, 5996035524090725503, 18149595798825217696, 17337571103899598424, 8324606076937544795, 1462619239559020159, 13848052000292265644, 2282949055138387306, 5461640591810636427, 2272998592382335489, 12244175607033804937, 14733960241806141188, 6050176912175928426, 2588150420144474510, 16791349495933590651, 13191153246297591738, 18386318446970049917, 14568729757400735166] := by decide
  have hr17 : keccakRound [6816796019071264251, 14835634819726972658, 907156555909486099, 7869918587466800569, 1914073107749318242, 2295054431180083017, 14882567517248046547, 10132362694271198073, 5996035524090725503, 18149595798825217696, 17337571103899598424, 8324606076937544795, 1462619239559020159, 13848052000292265644, 2282949055138387306, 5461640591810636427, 2272998592382335489, 12244175607033804937, 14733960241806141188, 6050176912175928426, 2588150420144474510, 16791349495933590651, 13191153246297591738, 18386318446970049917, 14568729757400735166] 9223372036854775936 = [9607440270970706474, 317281226165222977, 3542874986909304100, 17941788672197151601, 8748544424195033400, 17156046625846467434, 3278840207623912083, 6606764290643264429, 9132273609617355830, 13038369007758688786, 11013695605657604793, 6986529989022749088, 11152439403526762665, 8791869830669939757, 6500488922426713525, 13415481349220827531, 16569642630424599617, 9507246793586361084, 5842547412508858783, 11991288261185134673, 2406614386037620302, 15133198949156813504, 8171712305913386215, 10640858306867975178, 14314746907297075172] := by decide
  have hr18 : keccakRound [9607440270970706474, 317281226165222977, 3542874986909304100, 17941788672197151601, 8748544424195033400, 17156046625846467434, 3278840207623912083, 6606764290643264429, 9132273609617355830, 13038369007758688786, 11013695605657604793, 6986529989022749088, 11152439403526762665, 8791869830669939757, 6500488922426713525, 13415481349220827531, 16569642630424599617, 9507246793586361084, 5842547412508858783, 11991288261185134673, 2406614386037620302, 15133198949156813504, 8171712305913386215, 10640858306867975178, 14314746907297075172] 32778 = [10227400553106469292, 15992218774646223499, 9257480875065194385, 13686816395060680493, 1656721710739146876, 989651293992089719, 12417877403992718022, 10651255924673419000, 14857752927573658155, 12541214735699965917, 4859674067491893974, 908841279629928479, 15298107834402357234, 11980888661955630667, 5314463259105945397, 211093851427022842, 8836588874317020639, 3171862704104385334, 16191232730454385918, 15883536393757530995, 2096818313573082606, 3173732351072092377, 17378539693150624109, 8161097844506556734, 15975238052076395051] := by decide
  have hr19 : keccakRound [10227400553106469292, 15992218774646223499, 9257480875065194385, 13686816395060680493, 1656721710739146876, 989651293992089719, 12417877403992718022, 10651255924673419000, 14857752927573658155, 12541214735699965917, 4859674067491893974, 908841279629928479, 15298107834402357234, 11980888661955630667, 5314463259105945397, 211093851427022842, 8836588874317020639, 3171862704104385334, 16191232730454385918, 15883536393757530995, 2096818313573082606, 3173732351072092377, 17378539693150624109, 8161097844506556734, 15975238052076395051] 9223372039002259466 = [6937503922386612422, 1559925627833785713, 15852375578051227212, 17742121232962807602, 6931765997005243418, 17715202511887679766, 10313112344364080542, 2613964503360903607, 18318666886437923141, 7669565056980044268, 16939314592630322806, 1451994186635862445, 14274781905956802904, 11104779551835670821, 6367670516993712682, 8367830112667388668, 5922368384384388663, 6162670792239815569, 7452749093696446440, 7481445814223963045, 14575371405951708130, 6706614145454785762, 1334129792427662998, 3336461203494682376, 2599595546327565579] := by decide
  have hr20 : keccakRound [6937503922386612422, 1559925627833785713, 15852375578051227212, 17742121232962807602, 6931765997005243418, 17715202511887679766, 10313112344364080542, 2613964503360903607, 18318666886437923141, 7669565056980044268, 16939314592630322806, 1451994186635862445, 14274781905956802904, 11104779551835670821, 6367670516993712682, 8367830112667388668, 5922368384384388663, 6162670792239815569, 7452749093696446440, 7481445814223963045, 14575371405951708130, 6706614145454785762, 1334129792427662998, 3336461203494682376, 2599595546327565579] 9223372039002292353 = [7120333871680056858, 1136704991297248250, 11235710162028295201, 5167959931341392278, 704390421017694169, 11917307635595335209, 9956727318352238085, 5575271478239977499, 3884562174367420088, 11395699917617522632, 6739166660828255106, 17327384768517395833, 7822576574407408192, 3818550545235967551, 6184379546879550369, 10737176580474789068, 17577501767620758114, 1822014854875020520, 15303285496708436256, 7691739349299137388, 6569169989119293102, 1574165145855048124, 16205289160609098880, 12603116575034631766, 9372125998545345801] := by decide
  have hr21 : keccakRound [7120333871680056858, 1136704991297248250, 11235710162028295201, 5167959931341392278, 704390421017694169, 11917307635595335209, 9956727318352238085, 5575271478239977499, 3884562174367420088, 11395699917617522632, 6739166660828255106, 17327384768517395833, 7822576574407408192, 3818550545235967551, 6184379546879550369, 10737176580474789068, 17577501767620758114, 1822014854875020520, 15303285496708436256, 7691739349299137388, 6569169989119293102, 1574165145855048124, 16205289160609098880, 12603116575034631766, 9372125998545345801] 9223372036854808704 = [16093791602145113589, 14064298331281829808, 12855582579886396971, 642180179365263863, 14024664358593906560, 7689739698905614131, 16791535131902911436, 249428000073512560, 7383340266609510048, 4927953967537099566, 13679204211033098381, 10077924102838413833, 14839814870193272479, 2228931514110847470, 5397365817873103083, 10356586121687644384, 12158978518180101232, 5470028222922144942, 10138850107791603988, 14895739270039451939, 13953067520485720245, 13842345014140449287, 10891701576914785137, 10749812328482293395, 1983706518685951791] := by decide
  have hr22 : keccakRound [16093791602145113589, 14064298331281829808, 12855582579886396971, 642180179365263863, 14024664358593906560, 7689739698905614131, 16791535131902911436, 249428000073512560, 7383340266609510048, 4927953967537099566, 13679204211033098381, 10077924102838413833, 14839814870193272479, 2228931514110847470, 5397365817873103083, 10356586121687644384, 12158978518180101232, 5470028222922144942, 10138850107791603988, 14895739270039451939, 13953067520485720245, 13842345014140449287, 10891701576914785137, 10749812328482293395, 1983706518685951791] 2147483649 = [14172394964803999640, 5599891552101295567, 17899353003761945187, 10710604433265775650, 17694873530058530764, 1466348598349961883, 130284256371031276, 10608357321801565993, 16123504154371370113, 13308386618685641029, 9824890990312868690, 7577634592531088014, 2912863157250227255, 11252067749335414282, 2785956242175437014, 4220789111760940347, 4595439223104500015, 17032169177973817724, 4500873777846439061, 2261701300452203359, 4844319382743186199, 1643595074538928077, 3011452484368435069, 16838921692569970696, 10170317372241415283] := by decide
  have hr23 : keccakRound [14172394964803999640, 5599891552101295567, 17899353003761945187, 10710604433265775650, 17694873530058530764, 1466348598349961883, 130284256371031276, 10608357321801565993, 16123504154371370113, 13308386618685641029, 9824890990312868690, 7577634592531088014, 2912863157250227255, 11252067749335414282, 2785956242175437014, 4220789111760940347, 4595439223104500015, 17032169177973817724, 4500873777846439061, 2261701300452203359, 4844319382743186199, 1643595074538928077, 3011452484368435069, 16838921692569970696, 10170317372241415283] 9223372039002292232 = [2763076869991718573, 2051022785626323238, 12586374844498190518, 470646930374518173, 3109129361243460583, 5113459186085764393, 6758456411554555909, 952613378866713841, 3726520245914371797, 7898432647214183371, 14104202019346386566, 17699484814364771051, 11078980849121112753, 12683498136528005083, 10097967698180311088, 4458351049882214454, 1277218193537259650, 33319095905559668, 5827639517133009054, 15257233059421693429, 4449685191830131219, 10311516369760927036, 6954433560939913194, 1697268373218047315, 7642098711027787784] := by decide
  have hkf : keccakF [1706, 0, 0, 0, 0, 0, 0, 0, 0, 0, 0, 0, 0, 0, 0, 0, 9223372036854775808, 0, 0, 0, 0, 0, 0, 0, 0] = [2763076869991718573, 2051022785626323238, 12586374844498190518, 470646930374518173, 3109129361243460583, 5113459186085764393, 6758456411554555909, 952613378866713841, 3726520245914371797, 7898432647214183371, 14104202019346386566, 17699484814364771051, 11078980849121112753, 12683498136528005083, 10097967698180311088, 4458351049882214454, 1277218193537259650, 33319095905559668, 5827639517133009054, 15257233059421693429, 4449685191830131219, 10311516369760927036, 6954433560939913194, 1697268373218047315, 7642098711027787784] := by
    simp only [keccakF, keccakRC, List.foldl_cons, List.foldl_nil, hr0, hr1, hr2, hr3, hr4, hr5, hr6, hr7, hr8, hr9, hr10, hr11, hr12, hr13, hr14, hr15, hr16, hr17, hr18, hr19, hr20, hr21, hr22, hr23]
  have habs : absorbBlocks 136 (List.replicate 25 0) [170, 6, 0, 0, 0, 0, 0, 0, 0, 0, 0, 0, 0, 0, 0, 0, 0, 0, 0, 0, 0, 0, 0, 0, 0, 0, 0, 0, 0, 0, 0, 0, 0, 0, 0, 0, 0, 0, 0, 0, 0, 0, 0, 0, 0, 0, 0, 0, 0, 0, 0, 0, 0, 0, 0, 0, 0, 0, 0, 0, 0, 0, 0, 0, 0, 0, 0, 0, 0, 0, 0, 0, 0, 0, 0, 0, 0, 0, 0, 0, 0, 0, 0, 0, 0, 0, 0, 0, 0, 0, 0, 0, 0, 0, 0, 0, 0, 0, 0, 0, 0, 0, 0, 0, 0, 0, 0, 0, 0, 0, 0, 0, 0, 0, 0, 0, 0, 0, 0, 0, 0, 0, 0, 0, 0, 0, 0, 0, 0, 0, 0, 0, 0, 0, 0, 128] = [2763076869991718573, 2051022785626323238, 12586374844498190518, 470646930374518173, 3109129361243460583, 5113459186085764393, 6758456411554555909, 952613378866713841, 3726520245914371797, 7898432647214183371, 14104202019346386566, 17699484814364771051, 11078980849121112753, 12683498136528005083, 10097967698180311088, 4458351049882214454, 1277218193537259650, 33319095905559668, 5827639517133009054, 15257233059421693429, 4449685191830131219, 10311516369760927036, 6954433560939913194, 1697268373218047315, 7642098711027787784] := by
    rw [show (136 : ℕ) = 135 + 1 from rfl, absorbBlocks_step,
        show List.take 136 [170, 6, 0, 0, 0, 0, 0, 0, 0, 0, 0, 0, 0, 0, 0, 0, 0, 0, 0, 0, 0, 0, 0, 0, 0, 0, 0, 0, 0, 0, 0, 0, 0, 0, 0, 0, 0, 0, 0, 0, 0, 0, 0, 0, 0, 0, 0, 0, 0, 0, 0, 0, 0, 0, 0, 0, 0, 0, 0, 0, 0, 0, 0, 0, 0, 0, 0, 0, 0, 0, 0, 0, 0, 0, 0, 0, 0, 0, 0, 0, 0, 0, 0, 0, 0, 0, 0, 0, 0, 0, 0, 0, 0, 0, 0, 0, 0, 0, 0, 0, 0, 0, 0, 0, 0, 0, 0, 0, 0, 0, 0, 0, 0, 0, 0, 0, 0, 0, 0, 0, 0, 0, 0, 0, 0, 0, 0, 0, 0, 0, 0, 0, 0, 0, 0, 128] = [170, 6, 0, 0, 0, 0, 0, 0, 0, 0, 0, 0, 0, 0, 0, 0, 0, 0, 0, 0, 0, 0, 0, 0, 0, 0, 0, 0, 0, 0, 0, 0, 0, 0, 0, 0, 0, 0, 0, 0, 0, 0, 0, 0, 0, 0, 0, 0, 0, 0, 0, 0, 0, 0, 0, 0, 0, 0, 0, 0, 0, 0, 0, 0, 0, 0, 0, 0, 0, 0, 0, 0, 0, 0, 0, 0, 0, 0, 0, 0, 0, 0, 0, 0, 0, 0, 0, 0, 0, 0, 0, 0, 0, 0, 0, 0, 0, 0, 0, 0, 0, 0, 0, 0, 0, 0, 0, 0, 0, 0, 0, 0, 0, 0, 0, 0, 0, 0, 0, 0, 0, 0, 0, 0, 0, 0, 0, 0, 0, 0, 0, 0, 0, 0, 0, 128] from by decide,
        show List.drop 136 [170, 6, 0, 0, 0, 0, 0, 0, 0, 0, 0, 0, 0, 0, 0, 0, 0, 0, 0, 0, 0, 0, 0, 0, 0, 0, 0, 0, 0, 0, 0, 0, 0, 0, 0, 0, 0, 0, 0, 0, 0, 0, 0, 0, 0, 0, 0, 0, 0, 0, 0, 0, 0, 0, 0, 0, 0, 0, 0, 0, 0, 0, 0, 0, 0, 0, 0, 0, 0, 0, 0, 0, 0, 0, 0, 0, 0, 0, 0, 0, 0, 0, 0, 0, 0, 0, 0, 0, 0, 0, 0, 0, 0, 0, 0, 0, 0, 0, 0, 0, 0, 0, 0, 0, 0, 0, 0, 0, 0, 0, 0, 0, 0, 0, 0, 0, 0, 0, 0, 0, 0, 0, 0, 0, 0, 0, 0, 0, 0, 0, 0, 0, 0, 0, 0, 128] = ([] : List Nat) from by decide,
        hxor, hkf, absorbBlocks_nil]
  simp only [sha3_256, hpad, show ([170, 6, 0, 0, 0, 0, 0, 0, 0, 0, 0, 0, 0, 0, 0, 0, 0, 0, 0, 0, 0, 0, 0, 0, 0, 0, 0, 0, 0, 0, 0, 0, 0, 0, 0, 0, 0, 0, 0, 0, 0, 0, 0, 0, 0, 0, 0, 0, 0, 0, 0, 0, 0, 0, 0, 0, 0, 0, 0, 0, 0, 0, 0, 0, 0, 0, 0, 0, 0, 0, 0, 0, 0, 0, 0, 0, 0, 0, 0, 0, 0, 0, 0, 0, 0, 0, 0, 0, 0, 0, 0, 0, 0, 0, 0, 0, 0, 0, 0, 0, 0, 0, 0, 0, 0, 0, 0, 0, 0, 0, 0, 0, 0, 0, 0, 0, 0, 0, 0, 0, 0, 0, 0, 0, 0, 0, 0, 0, 0, 0, 0, 0, 0, 0, 0, 128] : List Nat).length = 136 from by decide, habs]
  decide

/-- Staged kernel evaluation of SHA3-256 on the message `bb`:
each Keccak round is checked separately on literal states, keeping every
single proof obligation small. -/
theorem sha3_eval_5 : sha3_256 [187] = [151, 38, 16, 58, 31, 195, 151, 35, 232, 204, 54, 101, 130, 228, 115, 175, 140, 218, 229, 41, 92, 87, 13, 230, 98, 48, 120, 128, 107, 107, 254, 124] := by
  have hpad : sha3Pad [187] = [187, 6, 0, 0, 0, 0, 0, 0, 0, 0, 0, 0, 0, 0, 0, 0, 0, 0, 0, 0, 0, 0, 0, 0, 0, 0, 0, 0, 0, 0, 0, 0, 0, 0, 0, 0, 0, 0, 0, 0, 0, 0, 0, 0, 0, 0, 0, 0, 0, 0, 0, 0, 0, 0, 0, 0, 0, 0, 0, 0, 0, 0, 0, 0, 0, 0, 0, 0, 0, 0, 0, 0, 0, 0, 0, 0, 0, 0, 0, 0, 0, 0, 0, 0, 0, 0, 0, 0, 0, 0, 0, 0, 0, 0, 0, 0, 0, 0, 0, 0, 0, 0, 0, 0, 0, 0, 0, 0, 0, 0, 0, 0, 0, 0, 0, 0, 0, 0, 0, 0, 0, 0, 0, 0, 0, 0, 0, 0, 0, 0, 0, 0, 0, 0, 0, 128] := by decide
  have hxor : xorBlock (List.replicate 25 0) [187, 6, 0, 0, 0, 0, 0, 0, 0, 0, 0, 0, 0, 0, 0, 0, 0, 0, 0, 0, 0, 0, 0, 0, 0, 0, 0, 0, 0, 0, 0, 0, 0, 0, 0, 0, 0, 0, 0, 0, 0, 0, 0, 0, 0, 0, 0, 0, 0, 0, 0, 0, 0, 0, 0, 0, 0, 0, 0, 0, 0, 0, 0, 0, 0, 0, 0, 0, 0, 0, 0, 0, 0, 0, 0, 0, 0, 0, 0, 0, 0, 0, 0, 0, 0, 0, 0, 0, 0, 0, 0, 0, 0, 0, 0, 0, 0, 0, 0, 0, 0, 0, 0, 0, 0, 0, 0, 0, 0, 0, 0, 0, 0, 0, 0, 0, 0, 0, 0, 0, 0, 0, 0, 0, 0, 0, 0, 0, 0, 0, 0, 0, 0, 0, 0, 128] = [1723, 0, 0, 0, 0, 0, 0, 0, 0, 0, 0, 0, 0, 0, 0, 0, 9223372036854775808, 0, 0, 0, 0, 0, 0, 0, 0] := by decide
  have hr0 : keccakRound [1723, 0, 0, 0, 0, 0, 0, 0, 0, 0, 0, 0, 0, 0, 0, 0, 9223372036854775808, 0, 0, 0, 0, 0, 0, 0, 0] 1 = [4398046512827, 30311336554528768, 4398102970368, 1722, 30311336610988032, 8, 60640268908494848, 1152921504606846984, 60640265295101952, 1152921508220239872, 3446, 882208, 0, 883574, 262144, 462516055040, 68719476736, 1764352, 462514307072, 68719476736, 2307737467748352000, 0, 1894458534664940, 2305845208236949504, 6892] := by decide
  have hr1 : keccakRound [4398046512827, 30311336554528768, 4398102970368, 1722, 30311336610988032, 8, 60640268908494848, 1152921504606846984, 60640265295101952, 1152921508220239872, 3446, 882208, 0, 883574, 262144, 462516055040, 68719476736, 1764352, 462514307072, 68719476736, 2307737467748352000, 0, 1894458534664940, 2305845208236949504, 6892] 32898 = [12204533101069859125, 117925429604955167, 13421239290051870143, 17965816249565280826, 14091750051634093630, 1919312276403638178, 14591756865554820514, 9273917081678208760, 10651263813710408642, 5287967582900249322, 258570807008597936, 15889189240304642132, 7464489321779766188, 15712122874837489256, 7551686263019121750, 16689125294519695845, 13714933547371791262, 222275704699723842, 15053547513688140077, 3761791688524772945, 1163520871861118758, 9159296165222890420, 2194140035426965064, 16390235336370435807, 10247667074004758581] := by decide
  have hr2 : keccakRound [12204533101069859125, 117925429604955167, 13421239290051870143, 17965816249565280826, 14091750051634093630, 1919312276403638178, 14591756865554820514, 9273917081678208760, 10651263813710408642, 5287967582900249322, 258570807008597936, 15889189240304642132, 7464489321779766188, 15712122874837489256, 7551686263019121750, 16689125294519695845, 13714933547371791262, 222275704699723842, 15053547513688140077, 3761791688524772945, 1163520871861118758, 9159296165222890420, 2194140035426965064, 16390235336370435807, 10247667074004758581] 9223372036854808714 = [2066272661681684047, 4247108377427277836, 16164964092550949529, 17108281516428102075, 14689873905605386633, 7762193725854567555, 3061651342974342352, 12304887692282229263, 16149707261747628413, 15678868811179457737, 7845979608719248434, 1975133637071902380, 15647945164643275264, 10148126503904326410, 13768589242476209353, 10302715652058657478, 10144653379411006765, 6659225875191711853, 16869210179102725103, 15137467426113701252, 5973981262985165867, 3965924912227082898, 10036004189293755669, 5942786029506032974, 14279772026712007834] := by decide
  have hr3 : keccakRound [2066272661681684047, 4247108377427277836, 16164964092550949529, 17108281516428102075, 14689873905605386633, 7762193725854567555, 3061651342974342352, 12304887692282229263, 16149707261747628413, 15678868811179457737, 7845979608719248434, 1975133637071902380, 15647945164643275264, 10148126503904326410, 13768589242476209353, 10302715652058657478, 10144653379411006765, 6659225875191711853, 16869210179102725103, 15137467426113701252, 5973981262985165867, 3965924912227082898, 10036004189293755669, 5942786029506032974, 14279772026712007834] 9223372039002292224 = [400188871569669189, 2856659166953178841, 5019303034592024002, 15542012540804540447, 1333253620400135822, 17504707608810607659, 4392480061862180991, 12564032544636959381, 18139488036571430027, 291976396782377748, 14728608356407895747, 6612340292663476410, 17482240766749911246, 2918064407947775712, 15450799317186195235, 17661423263513768345, 10689225215877542122, 11330071998033763662, 13889922977750593383, 10367330960911867193, 2990059234991405511, 5361600551140900938, 862616988231638932, 11352887633428131983, 3535400986951660917] := by decide
  have hr4 : keccakRound [400188871569669189, 2856659166953178841, 5019303034592024002, 15542012540804540447, 1333253620400135822, 17504707608810607659, 4392480061862180991, 12564032544636959381, 18139488036571430027, 291976396782377748, 14728608356407895747, 6612340292663476410, 17482240766749911246, 2918064407947775712, 15450799317186195235, 17661423263513768345, 10689225215877542122, 11330071998033763662, 13889922977750593383, 10367330960911867193, 2990059234991405511, 5361600551140900938, 862616988231638932, 11352887633428131983, 3535400986951660917] 32907 = [5110883467983479107, 16956533398771132538, 10044244269473204843, 7922335993191345103, 2341643127364755853, 18100075862136269892, 8206482268541749819, 8718997397617295934, 8395711418816574245, 46496628377593976, 11722623198734431815, 11550513887817221216, 9001829328058534911, 11871872724866782992, 5023652142580492531, 17291198257332732636, 10942896397287361047, 16430567194404396175, 7556457279556802736, 3958120180179760787, 3912781018894935057, 1281302891867638767, 18181714096227146690, 13460761742030728048, 14433416179446332212] := by decide
  have hr5 : keccakRound [5110883467983479107, 16956533398771132538, 10044244269473204843, 7922335993191345103, 2341643127364755853, 18100075862136269892, 8206482268541749819, 8718997397617295934, 8395711418816574245, 46496628377593976, 11722623198734431815, 11550513887817221216, 9001829328058534911, 11871872724866782992, 5023652142580492531, 17291198257332732636, 10942896397287361047, 16430567194404396175, 7556457279556802736, 3958120180179760787, 3912781018894935057, 1281302891867638767, 18181714096227146690, 13460761742030728048, 14433416179446332212] 2147483649 = [7275757585368156880, 2929189866033108813, 16622475042889090501, 13389484759005082519, 489595421984272273, 18056131331211635544, 17247413415036988495, 6189287211728534178, 12378896403583936247, 17779921893671497871, 57815835670345824, 18233350866291119618, 9941923318846539059, 16106471417132948164, 16320407380568135137, 16263731628970505485, 17145719609971019527, 13152863318543571214, 13418830593346594517, 15013621472408853028, 3037421844581291505, 696637807201656693, 3651201003814178068, 6431575792819662450, 12264619840295032497] := by decide
  have hr6 : keccakRound [7275757585368156880, 2929189866033108813, 16622475042889090501, 13389484759005082519, 489595421984272273, 18056131331211635544, 17247413415036988495, 6189287211728534178, 12378896403583936247, 17779921893671497871, 57815835670345824, 18233350866291119618, 9941923318846539059, 16106471417132948164, 16320407380568135137, 16263731628970505485, 17145719609971019527, 13152863318543571214, 13418830593346594517, 15013621472408853028, 3037421844581291505, 696637807201656693, 3651201003814178068, 6431575792819662450, 12264619840295032497] 9223372039002292353 = [3666968335314255197, 11299934834243661884, 17663724761590102178, 10407162040717342908, 16917023206775425933, 17806420887764268864, 10810497900326331229, 13658128171231772474, 9643764519851599785, 1619938869752725328, 5290869609987696522, 3579717199379463665, 5627159647182079770, 15667093198376734420, 14285348205552593997, 15429020426404653770, 1138704125352331024, 14744566997283958620, 5860811457656985847, 16192136766302475773, 1180832892299074973, 10872193102426250824, 6915432952508005905, 13474774660743566230, 11558539844540393906] := by decide
  have hr7 : keccakRound [3666968335314255197, 11299934834243661884, 17663724761590102178, 10407162040717342908, 16917023206775425933, 17806420887764268864, 10810497900326331229, 13658128171231772474, 9643764519851599785, 1619938869752725328, 5290869609987696522, 3579717199379463665, 5627159647182079770, 15667093198376734420, 14285348205552593997, 15429020426404653770, 1138704125352331024, 14744566997283958620, 5860811457656985847, 16192136766302475773, 1180832892299074973, 10872193102426250824, 6915432952508005905, 13474774660743566230, 11558539844540393906] 9223372036854808585 = [9519868856972908094, 1666724824714385563, 604755373510930622, 16911033210166457444, 7334177827541453829, 9829474722170116471, 3454228826560449373, 10151235860305633970, 10349746753552513870, 1338616209813863827, 12911288513730446284, 1693408960560080084, 5491191843078289311, 5364226554171416017, 6472436748001465941, 17395636479506272524, 3408089984054212488, 9698440274250027337, 12330827378135044577, 16273799805092978667, 10672475569933494410, 16532802995655948717, 7237591067239831336, 7876541475907356250, 13155551703117172010] := by decide
  have hr8 : keccakRound [9519868856972908094, 1666724824714385563, 604755373510930622, 16911033210166457444, 7334177827541453829, 9829474722170116471, 3454228826560449373, 10151235860305633970, 10349746753552513870, 1338616209813863827, 12911288513730446284, 1693408960560080084, 5491191843078289311, 5364226554171416017, 6472436748001465941, 17395636479506272524, 3408089984054212488, 9698440274250027337, 12330827378135044577, 16273799805092978667, 10672475569933494410, 16532802995655948717, 7237591067239831336, 7876541475907356250, 13155551703117172010] 138 = [8581540436901040337, 4004718306000819827, 8544256282437383621, 11461088572074776592, 304900451111777503, 410711406768715469, 71063480998720835, 14584365636048135450, 2683291298604580289, 16872776524525473169, 3679325424253884456, 16035062847766847754, 15298340529824816538, 9799386214930902172, 5475668584650546653, 17671723712082473837, 4499523270237618836, 749579739317455978, 17125338615186976193, 11994766799147485919, 3407128294451501252, 15936965721420960625, 1657237914577425751, 9635670915693994569, 18440211729344171024] := by decide
  have hr9 : keccakRound [8581540436901040337, 4004718306000819827, 8544256282437383621, 11461088572074776592, 304900451111777503, 410711406768715469, 71063480998720835, 14584365636048135450, 2683291298604580289, 16872776524525473169, 3679325424253884456, 16035062847766847754, 15298340529824816538, 9799386214930902172, 5475668584650546653, 17671723712082473837, 4499523270237618836, 749579739317455978, 17125338615186976193, 11994766799147485919, 3407128294451501252, 15936965721420960625, 1657237914577425751, 9635670915693994569, 18440211729344171024] 136 = [13699207914431009982, 5450313377798778552, 5786664456832722757, 9737583662970994055, 8633494526737220971, 14679294441990973485, 3732573450751673547, 9279814155615629174, 10303789237604133443, 7113067244235957666, 12443533617417286172, 14634033738686649182, 51357573048069954, 11096693248811853760, 8558086734947883194, 6655443698942442338, 5576338554131594400, 17993832212594799798, 6269279407777322224, 10027947528668855858, 8525042116921968741, 11552281399572195614, 15815147751272256181, 11982142630754412633, 4238835793298504032] := by decide
  have hr10 : keccakRound [13699207914431009982, 5450313377798778552, 5786664456832722757, 9737583662970994055, 8633494526737220971, 14679294441990973485, 3732573450751673547, 9279814155615629174, 10303789237604133443, 7113067244235957666, 12443533617417286172, 14634033738686649182, 51357573048069954, 11096693248811853760, 8558086734947883194, 6655443698942442338, 5576338554131594400, 17993832212594799798, 6269279407777322224, 10027947528668855858, 8525042116921968741, 11552281399572195614, 15815147751272256181, 11982142630754412633, 4238835793298504032] 2147516425 = [15029921033387488188, 17778912049588149857, 15331656801229931884, 9638017206426548735, 12104499965900041000, 7037727835234383271, 15625659440507587070, 10620753335746734207, 8825554785397228622, 1782404679792460983, 5955568841706857362, 1651922582429379011, 15889751380200458683, 14677386757977837486, 2843886252865678920, 791811733621951841, 3033128963439229533, 18122708686470171508, 2266052854516742868, 5544178212321924107, 3866318147762325174, 2973522478548184458, 7355402845134497691, 12901346345591358800, 5966982083484774534] := by decide
  have hr11 : keccakRound [15029921033387488188, 17778912049588149857, 15331656801229931884, 9638017206426548735, 12104499965900041000, 7037727835234383271, 15625659440507587070, 10620753335746734207, 8825554785397228622, 1782404679792460983, 5955568841706857362, 1651922582429379011, 15889751380200458683, 14677386757977837486, 2843886252865678920, 791811733621951841, 3033128963439229533, 18122708686470171508, 2266052854516742868, 5544178212321924107, 3866318147762325174, 2973522478548184458, 7355402845134497691, 12901346345591358800, 5966982083484774534] 2147483658 = [2425512374684710015, 13796532910263438392, 12365229803040683433, 11940691370777770731, 13548490523717836484, 242668651630754926, 9616368920995857825, 13670318656976105205, 5388863472893293485, 2991535889667076645, 14858131141792319586, 1545714541632140527, 15958312159485110756, 180691193231141965, 6536236455531880651, 16674622498422923410, 3863697279451079333, 4129054498400029727, 17374855395372446933, 12843615900961845538, 13166352421118168556, 8662713045307194816, 1798962660057814416, 2454771818701070455, 12364832810697317736] := by decide
  have hr12 : keccakRound [2425512374684710015, 13796532910263438392, 12365229803040683433, 11940691370777770731, 13548490523717836484, 242668651630754926, 9616368920995857825, 13670318656976105205, 5388863472893293485, 2991535889667076645, 14858131141792319586, 1545714541632140527, 15958312159485110756, 180691193231141965, 6536236455531880651, 16674622498422923410, 3863697279451079333, 4129054498400029727, 17374855395372446933, 12843615900961845538, 13166352421118168556, 8662713045307194816, 1798962660057814416, 2454771818701070455, 12364832810697317736] 2147516555 = [12867939601610625074, 9184087293461233255, 9973131327231325937, 5790906679457389441, 3611825747552312470, 8015573192735610780, 11567481974468795157, 16768196979238072622, 3187963289420540658, 11563660058551456475, 11907999264518630454, 14141776710497729916, 9241392551140425890, 16480984853031876690, 17202387754150500121, 5263891635914721553, 10177541151643458541, 1603728550328693111, 6460694874221558334, 429339197132789359, 9181687519613757881, 12506079157683944308, 6915271314521472423, 16287613074224581834, 4845701164131207308] := by decide
  have hr13 : keccakRound [12867939601610625074, 9184087293461233255, 9973131327231325937, 5790906679457389441, 3611825747552312470, 8015573192735610780, 11567481974468795157, 16768196979238072622, 3187963289420540658, 11563660058551456475, 11907999264518630454, 14141776710497729916, 9241392551140425890, 16480984853031876690, 17202387754150500121, 5263891635914721553, 10177541151643458541, 1603728550328693111, 6460694874221558334, 429339197132789359, 9181687519613757881, 12506079157683944308, 6915271314521472423, 16287613074224581834, 4845701164131207308] 9223372036854775947 = [7965225667907905312, 7329585881260501229, 18163577694811669228, 5139412632741139518, 12414392010105874178, 15051915147983783582, 6874987929415633912, 1061891703025489214, 632745092396515230, 5424604495090083379, 14510605053063375874, 15117715697248311012, 4025105907552054714, 6909304104674777779, 2312497785834425618, 18062562792722389674, 17190294191462413572, 1442452056405073266, 17923410821911012809, 953924384852747213, 4243311235749467187, 8140705839797040567, 10556431670099933371, 4664342944801577376, 15362117280312933626] := by decide
  have hr14 : keccakRound [7965225667907905312, 7329585881260501229, 18163577694811669228, 5139412632741139518, 12414392010105874178, 15051915147983783582, 6874987929415633912, 1061891703025489214, 632745092396515230, 5424604495090083379, 14510605053063375874, 15117715697248311012, 4025105907552054714, 6909304104674777779, 2312497785834425618, 18062562792722389674, 17190294191462413572, 1442452056405073266, 17923410821911012809, 953924384852747213, 4243311235749467187, 8140705839797040567, 10556431670099933371, 4664342944801577376, 15362117280312933626] 9223372036854808713 = [1974137410018202489, 2500591267460608556, 7207423626884217276, 13522760415055030790, 15385880977125172478, 4012533400696177010, 3662540243564334029, 8263537509450133136, 2319126981468713456, 10857111694805162092, 11233470220310066565, 9610033554101035530, 9453582438082198699, 14277287200103628239, 17303370167985847929, 18086054097138998829, 11494277784260857985, 8047664950429576866, 12003795182213568704, 3187676742961068512, 8512861714377779754, 9096877291394356353, 9976064103182442876, 1118852581878787044, 1093092204435223360] := by decide
  have hr15 : keccakRound [1974137410018202489, 2500591267460608556, 7207423626884217276, 13522760415055030790, 15385880977125172478, 4012533400696177010, 3662540243564334029, 8263537509450133136, 2319126981468713456, 10857111694805162092, 11233470220310066565, 9610033554101035530, 9453582438082198699, 14277287200103628239, 17303370167985847929, 18086054097138998829, 11494277784260857985, 8047664950429576866, 12003795182213568704, 3187676742961068512, 8512861714377779754, 9096877291394356353, 9976064103182442876, 1118852581878787044, 1093092204435223360] 9223372036854808579 = [7078331988519300247, 6501873618453657351, 9568980319702620783, 12211490345018644800, 2085205514548080925, 7168922915867662155, 3836800052076002255, 10761434410808906306, 8681614066772013426, 11453778158701574689, 15686883045133316651, 10780938270610399162, 12277777544303386750, 15897806524279106982, 4670505520174349542, 15876737613190821459, 15553589593504353425, 12798599047818952998, 10706003687102081793, 3014477962779698655, 9150197509496246559, 2263456955078950011, 6026423170225311334, 18103169807180459656, 1447731179425788426] := by decide
  have hr16 : keccakRound [7078331988519300247, 6501873618453657351, 9568980319702620783, 12211490345018644800, 2085205514548080925, 7168922915867662155, 3836800052076002255, 10761434410808906306, 8681614066772013426, 11453778158701574689, 15686883045133316651, 10780938270610399162, 12277777544303386750, 15897806524279106982, 4670505520174349542, 15876737613190821459, 15553589593504353425, 12798599047818952998, 10706003687102081793, 3014477962779698655, 9150197509496246559, 2263456955078950011, 6026423170225311334, 18103169807180459656, 1447731179425788426] 9223372036854808578 = [3131114018691812270, 2924303827358967481, 8835753386736205860, 15521650900864460018, 10603330615811514601, 15796524821847972441, 17658462414975370687, 9780571935557198890, 4938620731624436529, 12733713949790316830, 554902251156909584, 11426656418790661250, 12208678132570757989, 5530940348324158907, 1417650190604289777, 2360397767699491872, 5738491680252205257, 9031693384263425392, 15496381410842913742, 5293648920186941710, 11289083169135187811, 2300727827093423658, 16103994562573089970, 16407414624367701553, 8785394611642397587] := by decide
  have hr17 : keccakRound [3131114018691812270, 2924303827358967481, 8835753386736205860, 15521650900864460018, 10603330615811514601, 15796524821847972441, 17658462414975370687, 9780571935557198890, 4938620731624436529, 12733713949790316830, 554902251156909584, 11426656418790661250, 12208678132570757989, 5530940348324158907, 1417650190604289777, 2360397767699491872, 5738491680252205257, 9031693384263425392, 15496381410842913742, 5293648920186941710, 11289083169135187811, 2300727827093423658, 16103994562573089970, 16407414624367701553, 8785394611642397587] 9223372036854775936 = [2411009069725929336, 4685575055801976016, 11329195465599470420, 14595833602305720576, 13266276826339541335, 6581753650520343190, 7963759673742487586, 1129091027687311994, 15869503172410931340, 16709418146294345851, 1718165007946349529, 13188270515366039729, 10843534946329423702, 13963329395437589945, 9072037142474582547, 10978788535219869783, 11269079459503804637, 13343455648043783303, 6811394214186473615, 17056699026173171819, 10313195926230359859, 6061622386012181279, 2630113889065063416, 3087756362698841261, 12871569120608714622] := by decide
  have hr18 : keccakRound [2411009069725929336, 4685575055801976016, 11329195465599470420, 14595833602305720576, 13266276826339541335, 6581753650520343190, 7963759673742487586, 1129091027687311994, 15869503172410931340, 16709418146294345851, 1718165007946349529, 13188270515366039729, 10843534946329423702, 13963329395437589945, 9072037142474582547, 10978788535219869783, 11269079459503804637, 13343455648043783303, 6811394214186473615, 17056699026173171819, 10313195926230359859, 6061622386012181279, 2630113889065063416, 3087756362698841261, 12871569120608714622] 32778 = [18180834091593481306, 8511769668076514973, 9572357104902710026, 8641215002755464932, 15486329071363799830, 9496718416051803613, 8792298357084855254, 15065620546954381198, 6262320768699667659, 13429976299623452296, 4606401193913173992, 9240888892483020556, 3270430590702987760, 18019031546913283762, 5394871203392617362, 12778860973632094783, 9808895966530263685, 8026564955059232756, 5213775410337599877, 17754196360996069645, 11738319536541547668, 17841039105987446868, 9599792476728073142, 11462923853904304420, 4442024713125658956] := by decide
  have hr19 : keccakRound [18180834091593481306, 8511769668076514973, 9572357104902710026, 8641215002755464932, 15486329071363799830, 9496718416051803613, 8792298357084855254, 15065620546954381198, 6262320768699667659, 13429976299623452296, 4606401193913173992, 9240888892483020556, 3270430590702987760, 18019031546913283762, 5394871203392617362, 12778860973632094783, 9808895966530263685, 8026564955059232756, 5213775410337599877, 17754196360996069645, 11738319536541547668, 17841039105987446868, 9599792476728073142, 11462923853904304420, 4442024713125658956] 9223372039002259466 = [8570286115788468528, 18416618048804982971, 14215708096348518168, 7794704803627590308, 7266708847596610967, 9034306847812816538, 2926952082156527721, 12028998932407795713, 10450000220271211071, 962973900967085102, 2477450289565982296, 9943681184863615311, 11227666918987374110, 10338116129508614429, 4520595462747169087, 8329263554161975927, 17080985260842306319, 14157215759069516692, 4518735815882666115, 999317389111807300, 6867098336689996890, 13422758442780429376, 5815857377484081463, 1223571666757073002, 12024249783497331702] := by decide
  have hr20 : keccakRound [8570286115788468528, 18416618048804982971, 14215708096348518168, 7794704803627590308, 7266708847596610967, 9034306847812816538, 2926952082156527721, 12028998932407795713, 10450000220271211071, 962973900967085102, 2477450289565982296, 9943681184863615311, 11227666918987374110, 10338116129508614429, 4520595462747169087, 8329263554161975927, 17080985260842306319, 14157215759069516692, 4518735815882666115, 999317389111807300, 6867098336689996890, 13422758442780429376, 5815857377484081463, 1223571666757073002, 12024249783497331702] 9223372039002292353 = [1348231592612946657, 7268963046349842479, 10304254994110523625, 2147959142914149705, 13033306432097874213, 8563100353049276679, 17031490375983215397, 97024360384882753, 1631290887047076008, 17586358307430386735, 7180249096655111418, 6615654556238320412, 7675371908131923878, 16760656356183880987, 2061274841199657758, 5050951397434272426, 4954050493110268469, 7006040245521425495, 2537341468760682550, 12051757191781213474, 2124034900320717317, 18051253190180017935, 9245863320910461126, 9723774558688451443, 8648512871341598567] := by decide
  have hr21 : keccakRound [1348231592612946657, 7268963046349842479, 10304254994110523625, 2147959142914149705, 13033306432097874213, 8563100353049276679, 17031490375983215397, 97024360384882753, 1631290887047076008, 17586358307430386735, 7180249096655111418, 6615654556238320412, 7675371908131923878, 16760656356183880987, 2061274841199657758, 5050951397434272426, 4954050493110268469, 7006040245521425495, 2537341468760682550, 12051757191781213474, 2124034900320717317, 18051253190180017935, 9245863320910461126, 9723774558688451443, 8648512871341598567] 9223372036854808704 = [4836212923944440952, 8519335202893817807, 5390426527941080195, 6078420851707089991, 17440648838561710812, 12166445677490775376, 1988982312692391775, 16024326913502156747, 9710607454086142221, 11469401127818893913, 14910588803155232836, 1240245613060499120, 7922774023323670837, 4084008727304190552, 17588932620382737637, 10038235153330285353, 2597830379967993228, 11866638672435759224, 2285102077137118006, 8904817959401085146, 14917177838316790940, 14051951477192639564, 7265409769067860598, 548683371483286951, 13104209513262487371] := by decide
  have hr22 : keccakRound [4836212923944440952, 8519335202893817807, 5390426527941080195, 6078420851707089991, 17440648838561710812, 12166445677490775376, 1988982312692391775, 16024326913502156747, 9710607454086142221, 11469401127818893913, 14910588803155232836, 1240245613060499120, 7922774023323670837, 4084008727304190552, 17588932620382737637, 10038235153330285353, 2597830379967993228, 11866638672435759224, 2285102077137118006, 8904817959401085146, 14917177838316790940, 14051951477192639564, 7265409769067860598, 548683371483286951, 13104209513262487371] 2147483649 = [12858506856482330721, 7928130757766032018, 18252689741320548460, 17549106842573014969, 11846284095313970244, 3390409514407236291, 15107613239595563767, 8529179264868791285, 8964244380987598211, 17576702301702969830, 5488251602091780087, 7040408572531501416, 14493875741039319323, 15019081671723772331, 5634803029655581959, 2333855435168436241, 14115184384798163812, 8293128138640210978, 7155421927862675861, 17660941288036575818, 948645176060932761, 13981026997625384255, 4819170749072785599, 9449699447773197799, 195288147201278377] := by decide
  have hr23 : keccakRound [12858506856482330721, 7928130757766032018, 18252689741320548460, 17549106842573014969, 11846284095313970244, 3390409514407236291, 15107613239595563767, 8529179264868791285, 8964244380987598211, 17576702301702969830, 5488251602091780087, 7040408572531501416, 14493875741039319323, 15019081671723772331, 5634803029655581959, 2333855435168436241, 14115184384798163812, 8293128138640210978, 7155421927862675861, 17660941288036575818, 948645176060932761, 13981026997625384255, 4819170749072785599, 9449699447773197799, 195288147201278377] 9223372039002292232 = [2564733051696326295, 12642699827654085864, 16577001856772201100, 9006754414248603746, 18429578176445421913, 3989481288814173600, 16262547187329656315, 16308170093900288485, 17372316004292558354, 2087938140648551756, 16940853467013861994, 6887715365866097447, 2032376954383395233, 2316647903044571728, 413799600398924313, 15010774913973059672, 11588838056078593798, 12342922460579508201, 17427899808240462142, 6137224030125630485, 7156069070923555490, 9865300759797160482, 15779117296653970428, 100116611176404668, 17205866671022258035] := by decide
  have hkf : keccakF [1723, 0, 0, 0, 0, 0, 0, 0, 0, 0, 0, 0, 0, 0, 0, 0, 9223372036854775808, 0, 0, 0, 0, 0, 0, 0, 0] = [2564733051696326295, 12642699827654085864, 16577001856772201100, 9006754414248603746, 18429578176445421913, 3989481288814173600, 16262547187329656315, 16308170093900288485, 17372316004292558354, 2087938140648551756, 16940853467013861994, 6887715365866097447, 2032376954383395233, 2316647903044571728, 413799600398924313, 15010774913973059672, 11588838056078593798, 12342922460579508201, 17427899808240462142, 6137224030125630485, 7156069070923555490, 9865300759797160482, 15779117296653970428, 100116611176404668, 17205866671022258035] := by
    simp only [keccakF, keccakRC, List.foldl_cons, List.foldl_nil, hr0, hr1, hr2, hr3, hr4, hr5, hr6, hr7, hr8, hr9, hr10, hr11, hr12, hr13, hr14, hr15, hr16, hr17, hr18, hr19, hr20, hr21, hr22, hr23]
  have habs : absorbBlocks 136 (List.replicate 25 0) [187, 6, 0, 0, 0, 0, 0, 0, 0, 0, 0, 0, 0, 0, 0, 0, 0, 0, 0, 0, 0, 0, 0, 0, 0, 0, 0, 0, 0, 0, 0, 0, 0, 0, 0, 0, 0, 0, 0, 0, 0, 0, 0, 0, 0, 0, 0, 0, 0, 0, 0, 0, 0, 0, 0, 0, 0, 0, 0, 0, 0, 0, 0, 0, 0, 0, 0, 0, 0, 0, 0, 0, 0, 0, 0, 0, 0, 0, 0, 0, 0, 0, 0, 0, 0, 0, 0, 0, 0, 0, 0, 0, 0, 0, 0, 0, 0, 0, 0, 0, 0, 0, 0, 0, 0, 0, 0, 0, 0, 0, 0, 0, 0, 0, 0, 0, 0, 0, 0, 0, 0, 0, 0, 0, 0, 0, 0, 0, 0, 0, 0, 0, 0, 0, 0, 128] = [2564733051696326295, 12642699827654085864, 16577001856772201100, 9006754414248603746, 18429578176445421913, 3989481288814173600, 16262547187329656315, 16308170093900288485, 17372316004292558354, 2087938140648551756, 16940853467013861994, 6887715365866097447, 2032376954383395233, 2316647903044571728, 413799600398924313, 15010774913973059672, 11588838056078593798, 12342922460579508201, 17427899808240462142, 6137224030125630485, 7156069070923555490, 9865300759797160482, 15779117296653970428, 100116611176404668, 17205866671022258035] := by
    rw [show (136 : ℕ) = 135 + 1 from rfl, absorbBlocks_step,
        show List.take 136 [187, 6, 0, 0, 0, 0, 0, 0, 0, 0, 0, 0, 0, 0, 0, 0, 0, 0, 0, 0, 0, 0, 0, 0, 0, 0, 0, 0, 0, 0, 0, 0, 0, 0, 0, 0, 0, 0, 0, 0, 0, 0, 0, 0, 0, 0, 0, 0, 0, 0, 0, 0, 0, 0, 0, 0, 0, 0, 0, 0, 0, 0, 0, 0, 0, 0, 0, 0, 0, 0, 0, 0, 0, 0, 0, 0, 0, 0, 0, 0, 0, 0, 0, 0, 0, 0, 0, 0, 0, 0, 0, 0, 0, 0, 0, 0, 0, 0, 0, 0, 0, 0, 0, 0, 0, 0, 0, 0, 0, 0, 0, 0, 0, 0, 0, 0, 0, 0, 0, 0, 0, 0, 0, 0, 0, 0, 0, 0, 0, 0, 0, 0, 0, 0, 0, 128] = [187, 6, 0, 0, 0, 0, 0, 0, 0, 0, 0, 0, 0, 0, 0, 0, 0, 0, 0, 0, 0, 0, 0, 0, 0, 0, 0, 0, 0, 0, 0, 0, 0, 0, 0, 0, 0, 0, 0, 0, 0, 0, 0, 0, 0, 0, 0, 0, 0, 0, 0, 0, 0, 0, 0, 0, 0, 0, 0, 0, 0, 0, 0, 0, 0, 0, 0, 0, 0, 0, 0, 0, 0, 0, 0, 0, 0, 0, 0, 0, 0, 0, 0, 0, 0, 0, 0, 0, 0, 0, 0, 0, 0, 0, 0, 0, 0, 0, 0, 0, 0, 0, 0, 0, 0, 0, 0, 0, 0, 0, 0, 0, 0, 0, 0, 0, 0, 0, 0, 0, 0, 0, 0, 0, 0, 0, 0, 0, 0, 0, 0, 0, 0, 0, 0, 128] from by decide,
        show List.drop 136 [187, 6, 0, 0, 0, 0, 0, 0, 0, 0, 0, 0, 0, 0, 0, 0, 0, 0, 0, 0, 0, 0, 0, 0, 0, 0, 0, 0, 0, 0, 0, 0, 0, 0, 0, 0, 0, 0, 0, 0, 0, 0, 0, 0, 0, 0, 0, 0, 0, 0, 0, 0, 0, 0, 0, 0, 0, 0, 0, 0, 0, 0, 0, 0, 0, 0, 0, 0, 0, 0, 0, 0, 0, 0, 0, 0, 0, 0, 0, 0, 0, 0, 0, 0, 0, 0, 0, 0, 0, 0, 0, 0, 0, 0, 0, 0, 0, 0, 0, 0, 0, 0, 0, 0, 0, 0, 0, 0, 0, 0, 0, 0, 0, 0, 0, 0, 0, 0, 0, 0, 0, 0, 0, 0, 0, 0, 0, 0, 0, 0, 0, 0, 0, 0, 0, 128] = ([] : List Nat) from by decide,
        hxor, hkf, absorbBlocks_nil]
  simp only [sha3_256, hpad, show ([187, 6, 0, 0, 0, 0, 0, 0, 0, 0, 0, 0, 0, 0, 0, 0, 0, 0, 0, 0, 0, 0, 0, 0, 0, 0, 0, 0, 0, 0, 0, 0, 0, 0, 0, 0, 0, 0, 0, 0, 0, 0, 0, 0, 0, 0, 0, 0, 0, 0, 0, 0, 0, 0, 0, 0, 0, 0, 0, 0, 0, 0, 0, 0, 0, 0, 0, 0, 0, 0, 0, 0, 0, 0, 0, 0, 0, 0, 0, 0, 0, 0, 0, 0, 0, 0, 0, 0, 0, 0, 0, 0, 0, 0, 0, 0, 0, 0, 0, 0, 0, 0, 0, 0, 0, 0, 0, 0, 0, 0, 0, 0, 0, 0, 0, 0, 0, 0, 0, 0, 0, 0, 0, 0, 0, 0, 0, 0, 0, 0, 0, 0, 0, 0, 0, 128] : List Nat).length = 136 from by decide, habs]
  decide

/-- Staged kernel evaluation of SHA3-256 on the message `cc`:
each Keccak round is checked separately on literal states, keeping every
single proof obligation small. -/
theorem sha3_eval_6 : sha3_256 [204] = [103, 112, 53, 57, 28, 211, 112, 18, 147, 211, 133, 240, 55, 186, 50, 121, 98, 82, 187, 124, 225, 128, 176, 11, 88, 45, 217, 178, 10, 170, 215, 240] := by
  have hpad : sha3Pad [204] = [204, 6, 0, 0, 0, 0, 0, 0, 0, 0, 0, 0, 0, 0, 0, 0, 0, 0, 0, 0, 0, 0, 0, 0, 0, 0, 0, 0, 0, 0, 0, 0, 0, 0, 0, 0, 0, 0, 0, 0, 0, 0, 0, 0, 0, 0, 0, 0, 0, 0, 0, 0, 0, 0, 0, 0, 0, 0, 0, 0, 0, 0, 0, 0, 0, 0, 0, 0, 0, 0, 0, 0, 0, 0, 0, 0, 0, 0, 0, 0, 0, 0, 0, 0, 0, 0, 0, 0, 0, 0, 0, 0, 0, 0, 0, 0, 0, 0, 0, 0, 0, 0, 0, 0, 0, 0, 0, 0, 0, 0, 0, 0, 0, 0, 0, 0, 0, 0, 0, 0, 0, 0, 0, 0, 0, 0, 0, 0, 0, 0, 0, 0, 0, 0, 0, 128] := by decide
  have hxor : xorBlock (List.replicate 25 0) [204, 6, 0, 0, 0, 0, 0, 0, 0, 0, 0, 0, 0, 0, 0, 0, 0, 0, 0, 0, 0, 0, 0, 0, 0, 0, 0, 0, 0, 0, 0, 0, 0, 0, 0, 0, 0, 0, 0, 0, 0, 0, 0, 0, 0, 0, 0, 0, 0, 0, 0, 0, 0, 0, 0, 0, 0, 0, 0, 0, 0, 0, 0, 0, 0, 0, 0, 0, 0, 0, 0, 0, 0, 0, 0, 0, 0, 0, 0, 0, 0, 0, 0, 0, 0, 0, 0, 0, 0, 0, 0, 0, 0, 0, 0, 0, 0, 0, 0, 0, 0, 0, 0, 0, 0, 0, 0, 0, 0, 0, 0, 0, 0, 0, 0, 0, 0, 0, 0, 0, 0, 0, 0, 0, 0, 0, 0, 0, 0, 0, 0, 0, 0, 0, 0, 128] = [1740, 0, 0, 0, 0, 0, 0, 0, 0, 0, 0, 0, 0, 0, 0, 0, 9223372036854775808, 0, 0, 0, 0, 0, 0, 0, 0] := by decide
  have hr0 : keccakRound [1740, 0, 0, 0, 0, 0, 0, 0, 0, 0, 0, 0, 0, 0, 0, 0, 9223372036854775808, 0, 0, 0, 0, 0, 0, 0, 0] 1 = [4398046512844, 30610403717283840, 4398103527424, 1741, 30610403774300160, 8, 61238403269656576, 1152921504606846984, 61238399620612096, 1152921508255891456, 3480, 890912, 0, 890264, 262176, 467079475200, 68719493120, 1781760, 467077709824, 68719476736, 2307756159446024192, 2199023255552, 1913150232337200, 2305845208236949504, 6960] := by decide
  have hr1 : keccakRound [4398046512844, 30610403717283840, 4398103527424, 1741, 30610403774300160, 8, 61238403269656576, 1152921504606846984, 61238399620612096, 1152921508255891456, 3480, 890912, 0, 890264, 262176, 467079475200, 68719493120, 1781760, 467077709824, 68719476736, 2307756159446024192, 2199023255552, 1913150232337200, 2305845208236949504, 6960] 32898 = [12691832256722446102, 2222602482872668375, 12967360915707464408, 1778067646685560417, 467758647279163479, 11189670171566786178, 1071042774189835740, 13849473560302416483, 3958101832164878556, 7507532856174888439, 193507279996372056, 15393081521071710708, 7181108041782247058, 15278661130703599416, 16272954476021539974, 9978832413647042069, 10204797512014316437, 3274644779293911324, 11055929045807294083, 977509586465765407, 9476550129360838018, 5493269416803302877, 2295620993374510592, 6158166862332997713, 879726946136028348] := by decide
  have hr2 : keccakRound [12691832256722446102, 2222602482872668375, 12967360915707464408, 1778067646685560417, 467758647279163479, 11189670171566786178, 1071042774189835740, 13849473560302416483, 3958101832164878556, 7507532856174888439, 193507279996372056, 15393081521071710708, 7181108041782247058, 15278661130703599416, 16272954476021539974, 9978832413647042069, 10204797512014316437, 3274644779293911324, 11055929045807294083, 977509586465765407, 9476550129360838018, 5493269416803302877, 2295620993374510592, 6158166862332997713, 879726946136028348] 9223372036854808714 = [12262900083106105206, 16336375061578561324, 2041080169718449320, 17316384813449280370, 17440026782120531589, 12153023504494962385, 9757099199793705897, 366137395321873885, 15987984562377938830, 8784508820531447401, 16355545491111844248, 11802849088067013769, 8626453988041125336, 1037702605315315387, 5399872485374365980, 11689810631843691333, 6280971871396902400, 11704366448323806152, 7164695268535838835, 8893389833187455320, 17328037966301592500, 1156409696446617594, 9702356313783313332, 13255774858529197559, 12044483749511022521] := by decide
  have hr3 : keccakRound [12262900083106105206, 16336375061578561324, 2041080169718449320, 17316384813449280370, 17440026782120531589, 12153023504494962385, 9757099199793705897, 366137395321873885, 15987984562377938830, 8784508820531447401, 16355545491111844248, 11802849088067013769, 8626453988041125336, 1037702605315315387, 5399872485374365980, 11689810631843691333, 6280971871396902400, 11704366448323806152, 7164695268535838835, 8893389833187455320, 17328037966301592500, 1156409696446617594, 9702356313783313332, 13255774858529197559, 12044483749511022521] 9223372039002292224 = [4018882084260766490, 8731595803392276782, 8321924038963120538, 14580690393835396227, 774678080023019808, 3480133042487272955, 10030082372342299950, 7712170591621311783, 8836920897520366072, 3941011751527497404, 11080005849685015652, 17205179767417924890, 13734511572273678586, 6432042772745094760, 16908345034366516757, 10587575587903809239, 4360093153624907323, 1582435524127592217, 6836305030276793008, 6973625800458126215, 2158950300967539378, 12463410034365057163, 3287387937334895830, 2293583979364134181, 8868829005493148496] := by decide
  have hr4 : keccakRound [4018882084260766490, 8731595803392276782, 8321924038963120538, 14580690393835396227, 774678080023019808, 3480133042487272955, 10030082372342299950, 7712170591621311783, 8836920897520366072, 3941011751527497404, 11080005849685015652, 17205179767417924890, 13734511572273678586, 6432042772745094760, 16908345034366516757, 10587575587903809239, 4360093153624907323, 1582435524127592217, 6836305030276793008, 6973625800458126215, 2158950300967539378, 12463410034365057163, 3287387937334895830, 2293583979364134181, 8868829005493148496] 32907 = [14099961962585128339, 14393761914657768420, 12065930181955521897, 4989869053386099329, 13906403760380165156, 9654117375405571986, 3986042972761941606, 5833370302213181754, 9416199998924730799, 1011772274636059183, 11985255609262764078, 16373442332184715367, 9286405821562791840, 15033440434779754726, 12631964936709711538, 10201608303380207742, 15498494964989300173, 887851235000133322, 15631905757746517563, 1311476107494919256, 7704851153102960595, 10285940612905539362, 113058255029942494, 9236241311008721983, 491359562522830314] := by decide
  have hr5 : keccakRound [14099961962585128339, 14393761914657768420, 12065930181955521897, 4989869053386099329, 13906403760380165156, 9654117375405571986, 3986042972761941606, 5833370302213181754, 9416199998924730799, 1011772274636059183, 11985255609262764078, 16373442332184715367, 9286405821562791840, 15033440434779754726, 12631964936709711538, 10201608303380207742, 15498494964989300173, 887851235000133322, 15631905757746517563, 1311476107494919256, 7704851153102960595, 10285940612905539362, 113058255029942494, 9236241311008721983, 491359562522830314] 2147483649 = [7074762713887705101, 3900259490355053687, 16631107918738755457, 4127598666388937371, 12633770570623255959, 14638870287598306268, 4678795615230161966, 2376328175590422795, 11691771443854849640, 11116606103813976203, 14055990843156872728, 6178390874322233907, 12143869972085554149, 8249531521615434067, 2687782004586147583, 10073401965156472520, 17035209698194480070, 10093357159360966502, 12361487631603752152, 9958592158848241405, 14704897500312708794, 8016831317870710827, 13665645806780436349, 8425851076300394607, 15048107491426436536] := by decide
  have hr6 : keccakRound [7074762713887705101, 3900259490355053687, 16631107918738755457, 4127598666388937371, 12633770570623255959, 14638870287598306268, 4678795615230161966, 2376328175590422795, 11691771443854849640, 11116606103813976203, 14055990843156872728, 6178390874322233907, 12143869972085554149, 8249531521615434067, 2687782004586147583, 10073401965156472520, 17035209698194480070, 10093357159360966502, 12361487631603752152, 9958592158848241405, 14704897500312708794, 8016831317870710827, 13665645806780436349, 8425851076300394607, 15048107491426436536] 9223372039002292353 = [17897661091028883759, 7179667659604627893, 10953437581229880202, 4987087506823786107, 12304417917624544016, 4451137805236773095, 12688826892850031986, 5679196833558963102, 11067366965247455626, 10244096596368962186, 6292607342392521293, 11697348785023105145, 9138275581442067509, 12320306000752327406, 16294285364668895428, 12400122811442993440, 9559776201131090618, 9959368650996947989, 654819513135767571, 6203592527963118980, 5738924298854911242, 9292225466170478815, 1660248283008876045, 11549132835573862767, 15146366287419419990] := by decide
  have hr7 : keccakRound [17897661091028883759, 7179667659604627893, 10953437581229880202, 4987087506823786107, 12304417917624544016, 4451137805236773095, 12688826892850031986, 5679196833558963102, 11067366965247455626, 10244096596368962186, 6292607342392521293, 11697348785023105145, 9138275581442067509, 12320306000752327406, 16294285364668895428, 12400122811442993440, 9559776201131090618, 9959368650996947989, 654819513135767571, 6203592527963118980, 5738924298854911242, 9292225466170478815, 1660248283008876045, 11549132835573862767, 15146366287419419990] 9223372036854808585 = [17429215670504542012, 6621673155548921287, 2657666715359587020, 7065960430016346690, 7237593360691485484, 14482066985495106983, 6460948559499574933, 18267876643560141759, 8378652332635198886, 3068564192471264786, 5846378686546114696, 5468296456577081762, 16976342366123539564, 8481990510489820523, 2061927226911398135, 16856714072112498918, 842112441445621388, 13770424678485906421, 18253037976915060815, 5481140104053880604, 4387098988095876036, 6167321160836509470, 11222397490570681531, 11050536127035907220, 3327754729513388048] := by decide
  have hr8 : keccakRound [17429215670504542012, 6621673155548921287, 2657666715359587020, 7065960430016346690, 7237593360691485484, 14482066985495106983, 6460948559499574933, 18267876643560141759, 8378652332635198886, 3068564192471264786, 5846378686546114696, 5468296456577081762, 16976342366123539564, 8481990510489820523, 2061927226911398135, 16856714072112498918, 842112441445621388, 13770424678485906421, 18253037976915060815, 5481140104053880604, 4387098988095876036, 6167321160836509470, 11222397490570681531, 11050536127035907220, 3327754729513388048] 138 = [16106512259440635455, 5067372989154945072, 2386133298711433531, 2519577559247050840, 8412761535961158827, 869690989362522648, 8042197286632942159, 4775509994556056644, 5000034918357564785, 5968876289661159688, 2219097840938652331, 8140887816738059592, 11124279779413607244, 538032656183163825, 219528921938887551, 6372268544898323050, 1058380327991975859, 14523466795967367035, 4380442245042328461, 7890179919658655366, 14917633998524418337, 12885016713866336902, 5776500047210978416, 6006077770565535339, 2367817685761653435] := by decide
  have hr9 : keccakRound [16106512259440635455, 5067372989154945072, 2386133298711433531, 2519577559247050840, 8412761535961158827, 869690989362522648, 8042197286632942159, 4775509994556056644, 5000034918357564785, 5968876289661159688, 2219097840938652331, 8140887816738059592, 11124279779413607244, 538032656183163825, 219528921938887551, 6372268544898323050, 1058380327991975859, 14523466795967367035, 4380442245042328461, 7890179919658655366, 14917633998524418337, 12885016713866336902, 5776500047210978416, 6006077770565535339, 2367817685761653435] 136 = [9061015245341348315, 18293598768824278069, 10483988087970742265, 3075069231692100999, 155113157009894096, 13923026288714544728, 11465167744665423163, 17508375459312004717, 14521886374482047971, 14084804282243856304, 4052505453519404895, 6655986857068886700, 6380312897183851261, 4700887955167526362, 15718087510294115539, 13812051886053136086, 17724785578541783368, 5193220617254469103, 298396301175482686, 15110619088787311446, 6244863186805421433, 16134808617405601010, 16540568997255986190, 3103153067102971441, 2747884368796333638] := by decide
  have hr10 : keccakRound [9061015245341348315, 18293598768824278069, 10483988087970742265, 3075069231692100999, 155113157009894096, 13923026288714544728, 11465167744665423163, 17508375459312004717, 14521886374482047971, 14084804282243856304, 4052505453519404895, 6655986857068886700, 6380312897183851261, 4700887955167526362, 15718087510294115539, 13812051886053136086, 17724785578541783368, 5193220617254469103, 298396301175482686, 15110619088787311446, 6244863186805421433, 16134808617405601010, 16540568997255986190, 3103153067102971441, 2747884368796333638] 2147516425 = [13262918006360371281, 11040312480179209967, 11064555053878602206, 7279170827291684629, 11660251389069941946, 7298119362041186836, 8146761464450487146, 6567364405240344107, 5396812694092312371, 12531487822588061188, 9131637784947496111, 16827985381176198333, 1804008023408941301, 16197127953108762913, 18261170105696259161, 16342361585289826235, 14985239819398202966, 7561284365890843887, 12037846703551394657, 17748688997069893625, 10363614565935014952, 5064271284363620721, 2709310236266479994, 17443808004277871525, 7918362708499577238] := by decide
  have hr11 : keccakRound [13262918006360371281, 11040312480179209967, 11064555053878602206, 7279170827291684629, 11660251389069941946, 7298119362041186836, 8146761464450487146, 6567364405240344107, 5396812694092312371, 12531487822588061188, 9131637784947496111, 16827985381176198333, 1804008023408941301, 16197127953108762913, 18261170105696259161, 16342361585289826235, 14985239819398202966, 7561284365890843887, 12037846703551394657, 17748688997069893625, 10363614565935014952, 5064271284363620721, 2709310236266479994, 17443808004277871525, 7918362708499577238] 2147483658 = [2459032181424376965, 2099690508444159634, 7812385992410629887, 4852964452533585441, 9350589385021298837, 12982062745785785640, 13152426870800686288, 7193534936946884700, 3927422133110503521, 5889048560243963981, 17636375359599164540, 17567930249014584505, 13845037623473381817, 9617907626284474585, 15297117158960338006, 12055448699827946138, 4764495529241107946, 1836079083341196459, 14137660464634251865, 2351839732093355944, 3023784855959764761, 5350545895303924147, 17189068215456065964, 15004759354370943528, 14268022119541539884] := by decide
  have hr12 : keccakRound [2459032181424376965, 2099690508444159634, 7812385992410629887, 4852964452533585441, 9350589385021298837, 12982062745785785640, 13152426870800686288, 7193534936946884700, 3927422133110503521, 5889048560243963981, 17636375359599164540, 17567930249014584505, 13845037623473381817, 9617907626284474585, 15297117158960338006, 12055448699827946138, 4764495529241107946, 1836079083341196459, 14137660464634251865, 2351839732093355944, 3023784855959764761, 5350545895303924147, 17189068215456065964, 15004759354370943528, 14268022119541539884] 2147516555 = [7037922040126897731, 14306717216302595484, 12807885578314244240, 10282634009074773780, 8392688637683203715, 17355165296009227556, 15637730651812388127, 10895595530725379468, 15650109130195354306, 17292128419322965122, 5862448890298340853, 3217725965347999470, 9159900647547758767, 17053638917409600716, 7913930466843944495, 4183684789316759859, 10990670730727364393, 13733081774236428445, 15271366258155851918, 16270909789813746478, 4342561409556076066, 11863964102267890590, 5705789992514110073, 12763282482186782661, 6561192276598153079] := by decide
  have hr13 : keccakRound [7037922040126897731, 14306717216302595484, 12807885578314244240, 10282634009074773780, 8392688637683203715, 17355165296009227556, 15637730651812388127, 10895595530725379468, 15650109130195354306, 17292128419322965122, 5862448890298340853, 3217725965347999470, 9159900647547758767, 17053638917409600716, 7913930466843944495, 4183684789316759859, 10990670730727364393, 13733081774236428445, 15271366258155851918, 16270909789813746478, 4342561409556076066, 11863964102267890590, 5705789992514110073, 12763282482186782661, 6561192276598153079] 9223372036854775947 = [11977660845534272130, 16891662391321804390, 2235955983638516739, 1389987859220972624, 2412544517943814078, 17629628861091147785, 17611921523148051265, 2058645521469243824, 9007240888976465805, 2251624118252754116, 11597295291942634961, 2038635036562214222, 931790185530314482, 16144099769338592468, 17955998285583172381, 8561973596321981253, 9757844630909383234, 4553596832924247722, 4228260173484032941, 18276924929992195434, 243020247174716315, 3989167041719164868, 1460783364355310701, 10063189742967351521, 8561515167006996108] := by decide
  have hr14 : keccakRound [11977660845534272130, 16891662391321804390, 2235955983638516739, 1389987859220972624, 2412544517943814078, 17629628861091147785, 17611921523148051265, 2058645521469243824, 9007240888976465805, 2251624118252754116, 11597295291942634961, 2038635036562214222, 931790185530314482, 16144099769338592468, 17955998285583172381, 8561973596321981253, 9757844630909383234, 4553596832924247722, 4228260173484032941, 18276924929992195434, 243020247174716315, 3989167041719164868, 1460783364355310701, 10063189742967351521, 8561515167006996108] 9223372036854808713 = [7657201812624535133, 10627811398024766005, 15405915243250661261, 14704129231100853828, 11973379579759366577, 14091598501911559972, 11410706929664981713, 5286201090149824092, 1320515193802744147, 1676831365519383283, 807947505552768342, 4532469491063527221, 16122873928383759804, 8568548129118631813, 10356063261032558262, 16688964341429191584, 8200426248900245243, 17946629744672315724, 8376116287770653037, 8454289438530795068, 13108591967750201561, 16638145095885049714, 9606707863978956705, 8313089093763855346, 16330983643860771347] := by decide
  have hr15 : keccakRound [7657201812624535133, 10627811398024766005, 15405915243250661261, 14704129231100853828, 11973379579759366577, 14091598501911559972, 11410706929664981713, 5286201090149824092, 1320515193802744147, 1676831365519383283, 807947505552768342, 4532469491063527221, 16122873928383759804, 8568548129118631813, 10356063261032558262, 16688964341429191584, 8200426248900245243, 17946629744672315724, 8376116287770653037, 8454289438530795068, 13108591967750201561, 16638145095885049714, 9606707863978956705, 8313089093763855346, 16330983643860771347] 9223372036854808579 = [11494728119242995476, 5370672140116537544, 11042801150938427176, 1313476148310782131, 6642897503127464784, 3753498871604669476, 12531025835449065071, 1474981284412463479, 13085402057506612847, 5161810567999819519, 3615866610401169623, 10878911788811099086, 17146728242275344857, 9844001320924626109, 7432631956443517760, 10009618766047402709, 7298131987643368255, 13312644233234855960, 6023283776535445793, 16215289149321393872, 10314041545607071027, 1958820717588659503, 9704487266500324720, 2611947380679463817, 10529954365100424725] := by decide
  have hr16 : keccakRound [11494728119242995476, 5370672140116537544, 11042801150938427176, 1313476148310782131, 6642897503127464784, 3753498871604669476, 12531025835449065071, 1474981284412463479, 13085402057506612847, 5161810567999819519, 3615866610401169623, 10878911788811099086, 17146728242275344857, 9844001320924626109, 7432631956443517760, 10009618766047402709, 7298131987643368255, 13312644233234855960, 6023283776535445793, 16215289149321393872, 10314041545607071027, 1958820717588659503, 9704487266500324720, 2611947380679463817, 10529954365100424725] 9223372036854808578 = [3169286615490747848, 5259466335897288145, 5733548489687737281, 11288213772716100913, 8019256628424858807, 8136857678144891573, 4348520031621498805, 8611132456403304601, 9384736706977569303, 16936416619060613105, 15312500148861424238, 15670083224245956011, 516615804324320564, 3734549027264796809, 10740304994192775282, 5529749545456108072, 15303600704628172530, 16541437471660586557, 1499501939324977422, 12926906848643046461, 5258260424347020848, 7394387254106498094, 14094372932391890656, 10161331786115460690, 14528226086805812164] := by decide
  have hr17 : keccakRound [3169286615490747848, 5259466335897288145, 5733548489687737281, 11288213772716100913, 8019256628424858807, 8136857678144891573, 4348520031621498805, 8611132456403304601, 9384736706977569303, 16936416619060613105, 15312500148861424238, 15670083224245956011, 516615804324320564, 3734549027264796809, 10740304994192775282, 5529749545456108072, 15303600704628172530, 16541437471660586557, 1499501939324977422, 12926906848643046461, 5258260424347020848, 7394387254106498094, 14094372932391890656, 10161331786115460690, 14528226086805812164] 9223372036854775936 = [6491676871465335755, 4849607388076688021, 17693239418698293332, 7379322763639263440, 3939875823702022841, 14065896302316356935, 6765717772913905685, 11229555082392717678, 3409826477102486036, 12571395135551008066, 8611703893292971864, 7676546396947858000, 14949404836259102823, 17260037862199384625, 6529917744979672158, 1551392761071141391, 3002851614732466902, 9282392304087604107, 11013287513464162517, 6443249263769397769, 5710311034214789068, 14280556436041200770, 11894369829918009090, 6571841000500972254, 17024768871801262349] := by decide
  have hr18 : keccakRound [6491676871465335755, 4849607388076688021, 17693239418698293332, 7379322763639263440, 3939875823702022841, 14065896302316356935, 6765717772913905685, 11229555082392717678, 3409826477102486036, 12571395135551008066, 8611703893292971864, 7676546396947858000, 14949404836259102823, 17260037862199384625, 6529917744979672158, 1551392761071141391, 3002851614732466902, 9282392304087604107, 11013287513464162517, 6443249263769397769, 5710311034214789068, 14280556436041200770, 11894369829918009090, 6571841000500972254, 17024768871801262349] 32778 = [2034019766059217514, 6447674784302962696, 14373849827022662729, 1123698743829207817, 9503238102466769219, 17649334348367047566, 14918184416441143683, 11925443173005448966, 5095137743693213016, 6305089066046927326, 13044090420952623130, 12824949378415857074, 14098087374844811125, 17594735429941156419, 836676802714286568, 10905588829217462537, 17392918176435033499, 6682796118905301571, 1246063152041675489, 2887244007830918604, 3437279541253907143, 12766225217973169507, 655105243216339437, 17311149409741441055, 12649550897304136129] := by decide
  have hr19 : keccakRound [2034019766059217514, 6447674784302962696, 14373849827022662729, 1123698743829207817, 9503238102466769219, 17649334348367047566, 14918184416441143683, 11925443173005448966, 5095137743693213016, 6305089066046927326, 13044090420952623130, 12824949378415857074, 14098087374844811125, 17594735429941156419, 836676802714286568, 10905588829217462537, 17392918176435033499, 6682796118905301571, 1246063152041675489, 2887244007830918604, 3437279541253907143, 12766225217973169507, 655105243216339437, 17311149409741441055, 12649550897304136129] 9223372039002259466 = [11055511483515177626, 670393313886124919, 11381622061118593541, 4659601965855420533, 1026954300871614308, 2004063788805388668, 12819496807263113328, 10934922730044749597, 6852321292716870147, 8860675067422169116, 14604417173224651298, 10689944305012017134, 3964532906485965262, 4082485253756050334, 15408430480099533958, 15408774609422359154, 1819515135806176984, 6712056149247659735, 17507540958955658137, 5887877377104905253, 7490950056933667603, 11388328220532616224, 428319961353383021, 9678226259742033365, 16722899503868194122] := by decide
  have hr20 : keccakRound [11055511483515177626, 670393313886124919, 11381622061118593541, 4659601965855420533, 1026954300871614308, 2004063788805388668, 12819496807263113328, 10934922730044749597, 6852321292716870147, 8860675067422169116, 14604417173224651298, 10689944305012017134, 3964532906485965262, 4082485253756050334, 15408430480099533958, 15408774609422359154, 1819515135806176984, 6712056149247659735, 17507540958955658137, 5887877377104905253, 7490950056933667603, 11388328220532616224, 428319961353383021, 9678226259742033365, 16722899503868194122] 9223372039002292353 = [16124213913747281579, 6206690363359053053, 14561469543919349379, 14763491190022373343, 9940072994328498808, 6570804712915606658, 3120285420914721613, 2965044250117466112, 15727894834298889058, 2391029476210601355, 4702568588727648909, 10081883396570600290, 3065992922691124667, 7024157336876598498, 6372124639448838208, 5873759437302786960, 16904429706963880913, 4812817841307126668, 2463940364848046692, 1295368380987565407, 7804558718702937239, 2834235259137345801, 8217770217183799886, 16256175175100401520, 4404369537554565470] := by decide
  have hr21 : keccakRound [16124213913747281579, 6206690363359053053, 14561469543919349379, 14763491190022373343, 9940072994328498808, 6570804712915606658, 3120285420914721613, 2965044250117466112, 15727894834298889058, 2391029476210601355, 4702568588727648909, 10081883396570600290, 3065992922691124667, 7024157336876598498, 6372124639448838208, 5873759437302786960, 16904429706963880913, 4812817841307126668, 2463940364848046692, 1295368380987565407, 7804558718702937239, 2834235259137345801, 8217770217183799886, 16256175175100401520, 4404369537554565470] 9223372036854808704 = [8181783071636640149, 8802142717284214149, 17780264420649593660, 15795333620090879314, 12342534334549114533, 9508921967099195860, 8311925129783757911, 4335838118608390405, 9579431454112351904, 1458297155096177401, 16411188516865654102, 9256081855423653723, 15767774073242868594, 5440638721645819395, 9877076924239910953, 15191480553287159108, 10274841943078396377, 389929638143906319, 5209845712992966645, 16978934249613353011, 2768872570056148391, 8864634474373438095, 4762316943040697924, 5181756340986979347, 17284474422846560100] := by decide
  have hr22 : keccakRound [8181783071636640149, 8802142717284214149, 17780264420649593660, 15795333620090879314, 12342534334549114533, 9508921967099195860, 8311925129783757911, 4335838118608390405, 9579431454112351904, 1458297155096177401, 16411188516865654102, 9256081855423653723, 15767774073242868594, 5440638721645819395, 9877076924239910953, 15191480553287159108, 10274841943078396377, 389929638143906319, 5209845712992966645, 16978934249613353011, 2768872570056148391, 8864634474373438095, 4762316943040697924, 5181756340986979347, 17284474422846560100] 2147483649 = [12260645085742137388, 17246625821295402185, 13733049970804625703, 11078971922321401669, 12365148440425313550, 921827565336204726, 14914164215863598105, 14367138574886141495, 2667776550630993808, 4836175460796693503, 7121666799980663936, 11258214752360610837, 13087559352372157558, 533737029635526104, 13260870106641046541, 6561749505725023062, 7183861533572209722, 11656396975978477449, 10517506586307143497, 8643127850706270087, 7954196265705910187, 18078244912986824839, 17511936730047805374, 3818332750560872394, 5924518846074836392] := by decide
  have hr23 : keccakRound [12260645085742137388, 17246625821295402185, 13733049970804625703, 11078971922321401669, 12365148440425313550, 921827565336204726, 14914164215863598105, 14367138574886141495, 2667776550630993808, 4836175460796693503, 7121666799980663936, 11258214752360610837, 13087559352372157558, 533737029635526104, 13260870106641046541, 6561749505725023062, 7183861533572209722, 11656396975978477449, 10517506586307143497, 8643127850706270087, 7954196265705910187, 18078244912986824839, 17511936730047805374, 3818332750560872394, 5924518846074836392] 9223372039002292232 = [1328794008246644839, 8733247376846082963, 842314836266930786, 17354526652022467928, 9680548609702651138, 3543052639515046492, 9995939751490463998, 17675290233225977985, 18070605447558687296, 15943870684897134393, 4642453797270029594, 8759125270818215037, 384032161336321569, 9558921143312442243, 3745529298840001047, 1713585394511534840, 11431914261063455377, 9092740006456608596, 14721045059748401546, 3846350539710894614, 12219944453396824208, 11136915542475358702, 4810185465877028202, 5233938028115461600, 14418471668218326626] := by decide
  have hkf : keccakF [1740, 0, 0, 0, 0, 0, 0, 0, 0, 0, 0, 0, 0, 0, 0, 0, 9223372036854775808, 0, 0, 0, 0, 0, 0, 0, 0] = [1328794008246644839, 8733247376846082963, 842314836266930786, 17354526652022467928, 9680548609702651138, 3543052639515046492, 9995939751490463998, 17675290233225977985, 18070605447558687296, 15943870684897134393, 4642453797270029594, 8759125270818215037, 384032161336321569, 9558921143312442243, 3745529298840001047, 1713585394511534840, 11431914261063455377, 9092740006456608596, 14721045059748401546, 3846350539710894614, 12219944453396824208, 11136915542475358702, 4810185465877028202, 5233938028115461600, 14418471668218326626] := by
    simp only [keccakF, keccakRC, List.foldl_cons, List.foldl_nil, hr0, hr1, hr2, hr3, hr4, hr5, hr6, hr7, hr8, hr9, hr10, hr11, hr12, hr13, hr14, hr15, hr16, hr17, hr18, hr19, hr20, hr21, hr22, hr23]
  have habs : absorbBlocks 136 (List.replicate 25 0) [204, 6, 0, 0, 0, 0, 0, 0, 0, 0, 0, 0, 0, 0, 0, 0, 0, 0, 0, 0, 0, 0, 0, 0, 0, 0, 0, 0, 0, 0, 0, 0, 0, 0, 0, 0, 0, 0, 0, 0, 0, 0, 0, 0, 0, 0, 0, 0, 0, 0, 0, 0, 0, 0, 0, 0, 0, 0, 0, 0, 0, 0, 0, 0, 0, 0, 0, 0, 0, 0, 0, 0, 0, 0, 0, 0, 0, 0, 0, 0, 0, 0, 0, 0, 0, 0, 0, 0, 0, 0, 0, 0, 0, 0, 0, 0, 0, 0, 0, 0, 0, 0, 0, 0, 0, 0, 0, 0, 0, 0, 0, 0, 0, 0, 0, 0, 0, 0, 0, 0, 0, 0, 0, 0, 0, 0, 0, 0, 0, 0, 0, 0, 0, 0, 0, 128] = [1328794008246644839, 8733247376846082963, 842314836266930786, 17354526652022467928, 9680548609702651138, 3543052639515046492, 9995939751490463998, 17675290233225977985, 18070605447558687296, 15943870684897134393, 4642453797270029594, 8759125270818215037, 384032161336321569, 9558921143312442243, 3745529298840001047, 1713585394511534840, 11431914261063455377, 9092740006456608596, 14721045059748401546, 3846350539710894614, 12219944453396824208, 11136915542475358702, 4810185465877028202, 5233938028115461600, 14418471668218326626] := by
    rw [show (136 : ℕ) = 135 + 1 from rfl, absorbBlocks_step,
        show List.take 136 [204, 6, 0, 0, 0, 0, 0, 0, 0, 0, 0, 0, 0, 0, 0, 0, 0, 0, 0, 0, 0, 0, 0, 0, 0, 0, 0, 0, 0, 0, 0, 0, 0, 0, 0, 0, 0, 0, 0, 0, 0, 0, 0, 0, 0, 0, 0, 0, 0, 0, 0, 0, 0, 0, 0, 0, 0, 0, 0, 0, 0, 0, 0, 0, 0, 0, 0, 0, 0, 0, 0, 0, 0, 0, 0, 0, 0, 0, 0, 0, 0, 0, 0, 0, 0, 0, 0, 0, 0, 0, 0, 0, 0, 0, 0, 0, 0, 0, 0, 0, 0, 0, 0, 0, 0, 0, 0, 0, 0, 0, 0, 0, 0, 0, 0, 0, 0, 0, 0, 0, 0, 0, 0, 0, 0, 0, 0, 0, 0, 0, 0, 0, 0, 0, 0, 128] = [204, 6, 0, 0, 0, 0, 0, 0, 0, 0, 0, 0, 0, 0, 0, 0, 0, 0, 0, 0, 0, 0, 0, 0, 0, 0, 0, 0, 0, 0, 0, 0, 0, 0, 0, 0, 0, 0, 0, 0, 0, 0, 0, 0, 0, 0, 0, 0, 0, 0, 0, 0, 0, 0, 0, 0, 0, 0, 0, 0, 0, 0, 0, 0, 0, 0, 0, 0, 0, 0, 0, 0, 0, 0, 0, 0, 0, 0, 0, 0, 0, 0, 0, 0, 0, 0, 0, 0, 0, 0, 0, 0, 0, 0, 0, 0, 0, 0, 0, 0, 0, 0, 0, 0, 0, 0, 0, 0, 0, 0, 0, 0, 0, 0, 0, 0, 0, 0, 0, 0, 0, 0, 0, 0, 0, 0, 0, 0, 0, 0, 0, 0, 0, 0, 0, 128] from by decide,
        show List.drop 136 [204, 6, 0, 0, 0, 0, 0, 0, 0, 0, 0, 0, 0, 0, 0, 0, 0, 0, 0, 0, 0, 0, 0, 0, 0, 0, 0, 0, 0, 0, 0, 0, 0, 0, 0, 0, 0, 0, 0, 0, 0, 0, 0, 0, 0, 0, 0, 0, 0, 0, 0, 0, 0, 0, 0, 0, 0, 0, 0, 0, 0, 0, 0, 0, 0, 0, 0, 0, 0, 0, 0, 0, 0, 0, 0, 0, 0, 0, 0, 0, 0, 0, 0, 0, 0, 0, 0, 0, 0, 0, 0, 0, 0, 0, 0, 0, 0, 0, 0, 0, 0, 0, 0, 0, 0, 0, 0, 0, 0, 0, 0, 0, 0, 0, 0, 0, 0, 0, 0, 0, 0, 0, 0, 0, 0, 0, 0, 0, 0, 0, 0, 0, 0, 0, 0, 128] = ([] : List Nat) from by decide,
        hxor, hkf, absorbBlocks_nil]
  simp only [sha3_256, hpad, show ([204, 6, 0, 0, 0, 0, 0, 0, 0, 0, 0, 0, 0, 0, 0, 0, 0, 0, 0, 0, 0, 0, 0, 0, 0, 0, 0, 0, 0, 0, 0, 0, 0, 0, 0, 0, 0, 0, 0, 0, 0, 0, 0, 0, 0, 0, 0, 0, 0, 0, 0, 0, 0, 0, 0, 0, 0, 0, 0, 0, 0, 0, 0, 0, 0, 0, 0, 0, 0, 0, 0, 0, 0, 0, 0, 0, 0, 0, 0, 0, 0, 0, 0, 0, 0, 0, 0, 0, 0, 0, 0, 0, 0, 0, 0, 0, 0, 0, 0, 0, 0, 0, 0, 0, 0, 0, 0, 0, 0, 0, 0, 0, 0, 0, 0, 0, 0, 0, 0, 0, 0, 0, 0, 0, 0, 0, 0, 0, 0, 0, 0, 0, 0, 0, 0, 128] : List Nat).length = 136 from by decide, habs]
  decide

/-- Staged kernel evaluation of SHA3-256 on the message `ad5ef41ac66b582626397d535bb2761cb6203a503cc9abae9de599bbe31288069726103a1fc39723e8cc366582e473af8cdae5295c570de6623078806b6bfe7c`:
each Keccak round is checked separately on literal states, keeping every
single proof obligation small. -/
theorem sha3_eval_7 : sha3_256 [173, 94, 244, 26, 198, 107, 88, 38, 38, 57, 125, 83, 91, 178, 118, 28, 182, 32, 58, 80, 60, 201, 171, 174, 157, 229, 153, 187, 227, 18, 136, 6, 151, 38, 16, 58, 31, 195, 151, 35, 232, 204, 54, 101, 130, 228, 115, 175, 140, 218, 229, 41, 92, 87, 13, 230, 98, 48, 120, 128, 107, 107, 254, 124] = [27, 203, 12, 191, 153, 82, 163, 24, 39, 65, 101, 146, 250, 242, 136, 118, 238, 185, 179, 98, 241, 192, 245, 135, 71, 13, 185, 207, 171, 204, 84, 42] := by
  have hpad : sha3Pad [173, 94, 244, 26, 198, 107, 88, 38, 38, 57, 125, 83, 91, 178, 118, 28, 182, 32, 58, 80, 60, 201, 171, 174, 157, 229, 153, 187, 227, 18, 136, 6, 151, 38, 16, 58, 31, 195, 151, 35, 232, 204, 54, 101, 130, 228, 115, 175, 140, 218, 229, 41, 92, 87, 13, 230, 98, 48, 120, 128, 107, 107, 254, 124] = [173, 94, 244, 26, 198, 107, 88, 38, 38, 57, 125, 83, 91, 178, 118, 28, 182, 32, 58, 80, 60, 201, 171, 174, 157, 229, 153, 187, 227, 18, 136, 6, 151, 38, 16, 58, 31, 195, 151, 35, 232, 204, 54, 101, 130, 228, 115, 175, 140, 218, 229, 41, 92, 87, 13, 230, 98, 48, 120, 128, 107, 107, 254, 124, 6, 0, 0, 0, 0, 0, 0, 0, 0, 0, 0, 0, 0, 0, 0, 0, 0, 0, 0, 0, 0, 0, 0, 0, 0, 0, 0, 0, 0, 0, 0, 0, 0, 0, 0, 0, 0, 0, 0, 0, 0, 0, 0, 0, 0, 0, 0, 0, 0, 0, 0, 0, 0, 0, 0, 0, 0, 0, 0, 0, 0, 0, 0, 0, 0, 0, 0, 0, 0, 0, 0, 128] := by decide
  have hxor : xorBlock (List.replicate 25 0) [173, 94, 244, 26, 198, 107, 88, 38, 38, 57, 125, 83, 91, 178, 118, 28, 182, 32, 58, 80, 60, 201, 171, 174, 157, 229, 153, 187, 227, 18, 136, 6, 151, 38, 16, 58, 31, 195, 151, 35, 232, 204, 54, 101, 130, 228, 115, 175, 140, 218, 229, 41, 92, 87, 13, 230, 98, 48, 120, 128, 107, 107, 254, 124, 6, 0, 0, 0, 0, 0, 0, 0, 0, 0, 0, 0, 0, 0, 0, 0, 0, 0, 0, 0, 0, 0, 0, 0, 0, 0, 0, 0, 0, 0, 0, 0, 0, 0, 0, 0, 0, 0, 0, 0, 0, 0, 0, 0, 0, 0, 0, 0, 0, 0, 0, 0, 0, 0, 0, 0, 0, 0, 0, 0, 0, 0, 0, 0, 0, 0, 0, 0, 0, 0, 0, 128] = [2763076869991718573, 2051022785626323238, 12586374844498190518, 470646930374518173, 2564733051696326295, 12642699827654085864, 16577001856772201100, 9006754414248603746, 6, 0, 0, 0, 0, 0, 0, 0, 9223372036854775808, 0, 0, 0, 0, 0, 0, 0, 0] := by decide
  have hr0 : keccakRound [2763076869991718573, 2051022785626323238, 12586374844498190518, 470646930374518173, 2564733051696326295, 12642699827654085864, 16577001856772201100, 9006754414248603746, 6, 0, 0, 0, 0, 0, 0, 0, 9223372036854775808, 0, 0, 0, 0, 0, 0, 0, 0] 1 = [13292517051270807402, 12872977652060508266, 1967706622193172574, 13624706755505362188, 14239499316716520759, 11024727792631751014, 9424297874338954256, 12934373891745188365, 17829493872602347904, 14478290293343201667, 8209208322425869788, 16820594583359930262, 17513320516879169992, 11287331438748307456, 11548694019358816130, 11672567671886145279, 4698048495053886011, 1854030992985026814, 16212962839757078423, 18057159237865372509, 13137002824713913994, 13819782225442517810, 13429910059309005186, 4878392349626344340, 18305323442310282900] := by decide
  have hr1 : keccakRound [13292517051270807402, 12872977652060508266, 1967706622193172574, 13624706755505362188, 14239499316716520759, 11024727792631751014, 9424297874338954256, 12934373891745188365, 17829493872602347904, 14478290293343201667, 8209208322425869788, 16820594583359930262, 17513320516879169992, 11287331438748307456, 11548694019358816130, 11672567671886145279, 4698048495053886011, 1854030992985026814, 16212962839757078423, 18057159237865372509, 13137002824713913994, 13819782225442517810, 13429910059309005186, 4878392349626344340, 18305323442310282900] 32898 = [14300840058854258398, 5162153581461079320, 15727091657951638449, 15556440356659842377, 509314100380322042, 1834965563985202070, 3164624408208808170, 13525825320477095426, 17926929993096737969, 5487770299465740550, 1134148294782229504, 8717135761771494815, 3337487479348305319, 9140142823889961987, 7296350891741749670, 92611140997225170, 17721828566743515443, 6120611248396301790, 13872411280914219862, 17896277701093918597, 14221057822527736041, 5059097897472377341, 15322446514514642073, 6566703168203378307, 3233996614217250422] := by decide
  have hr2 : keccakRound [14300840058854258398, 5162153581461079320, 15727091657951638449, 15556440356659842377, 509314100380322042, 1834965563985202070, 3164624408208808170, 13525825320477095426, 17926929993096737969, 5487770299465740550, 1134148294782229504, 8717135761771494815, 3337487479348305319, 9140142823889961987, 7296350891741749670, 92611140997225170, 17721828566743515443, 6120611248396301790, 13872411280914219862, 17896277701093918597, 14221057822527736041, 5059097897472377341, 15322446514514642073, 6566703168203378307, 3233996614217250422] 9223372036854808714 = [12840510186590263840, 2275385477737652548, 1781337259801896110, 10666955896347644874, 5175680163520680958, 3352076100742976015, 6345425070661362211, 13000207821222291449, 10816800312546013795, 12462835328210882732, 4467062660596894148, 5448885449718085408, 3399398260488914329, 6791536638495507738, 15386991760596562942, 16079808442866390183, 17564950676955951750, 15504365086674461678, 10582666918134608478, 11777291765761252900, 6664206134582901907, 712995666453457963, 12572419889704238305, 13791844237787036477, 3847405324797117315] := by decide
  have hr3 : keccakRound [12840510186590263840, 2275385477737652548, 1781337259801896110, 10666955896347644874, 5175680163520680958, 3352076100742976015, 6345425070661362211, 13000207821222291449, 10816800312546013795, 12462835328210882732, 4467062660596894148, 5448885449718085408, 3399398260488914329, 6791536638495507738, 15386991760596562942, 16079808442866390183, 17564950676955951750, 15504365086674461678, 10582666918134608478, 11777291765761252900, 6664206134582901907, 712995666453457963, 12572419889704238305, 13791844237787036477, 3847405324797117315] 9223372039002292224 = [7124714962040555382, 5467296264173443591, 17259493437579278248, 5088591826760434268, 13060224774852810794, 8959089336699000025, 12411681094247232230, 15709729920744865906, 7862823780474467668, 17748799766443158167, 109827702024299554, 5694778039693861996, 15310579636753076787, 12370384429798514327, 11907807455573469938, 8466391187073338876, 14623343565315912183, 16141358013332389091, 5896815028253925484, 6995421748066205435, 2526708119554061340, 6595189393197264410, 6548739840573877352, 10378637317555419338, 11684966420207424351] := by decide
  have hr4 : keccakRound [7124714962040555382, 5467296264173443591, 17259493437579278248, 5088591826760434268, 13060224774852810794, 8959089336699000025, 12411681094247232230, 15709729920744865906, 7862823780474467668, 17748799766443158167, 109827702024299554, 5694778039693861996, 15310579636753076787, 12370384429798514327, 11907807455573469938, 8466391187073338876, 14623343565315912183, 16141358013332389091, 5896815028253925484, 6995421748066205435, 2526708119554061340, 6595189393197264410, 6548739840573877352, 10378637317555419338, 11684966420207424351] 32907 = [2650633856641572086, 8044243924769543887, 6348289113485559983, 10526974245707734354, 7936670891967946714, 15423709335232166997, 14375072838023664426, 16838406497751333231, 9811023840497403594, 6728722328254480901, 7711808446194932639, 5881333430064398376, 1397671162468229831, 4490232124824170986, 2080230666578809989, 13762821940982294512, 14176338907594454712, 10551608956181501511, 4941678734296681000, 9115590610253781158, 11492218499227853230, 12799853486133161683, 13412715479642038873, 16135456861599234967, 17559131684452285599] := by decide
  have hr5 : keccakRound [2650633856641572086, 8044243924769543887, 6348289113485559983, 10526974245707734354, 7936670891967946714, 15423709335232166997, 14375072838023664426, 16838406497751333231, 9811023840497403594, 6728722328254480901, 7711808446194932639, 5881333430064398376, 1397671162468229831, 4490232124824170986, 2080230666578809989, 13762821940982294512, 14176338907594454712, 10551608956181501511, 4941678734296681000, 9115590610253781158, 11492218499227853230, 12799853486133161683, 13412715479642038873, 16135456861599234967, 17559131684452285599] 2147483649 = [13728656415326896713, 10279350247914668111, 4776576518568528797, 1468281774350757032, 16288458433028483883, 864598876011515094, 7213909732223991187, 667786320341855362, 7641211329062697603, 10162805830382965260, 9850868456456208644, 16201554591397737478, 7993046123355004799, 11246906468038272137, 9215635381255405893, 3365917313605087178, 17831058190769622328, 9504262832113149877, 16206673325181402376, 15589385165020639350, 10269678772806576198, 4882693842805437981, 1585978228066723578, 5144984950648484270, 8312000229723009297] := by decide
  have hr6 : keccakRound [13728656415326896713, 10279350247914668111, 4776576518568528797, 1468281774350757032, 16288458433028483883, 864598876011515094, 7213909732223991187, 667786320341855362, 7641211329062697603, 10162805830382965260, 9850868456456208644, 16201554591397737478, 7993046123355004799, 11246906468038272137, 9215635381255405893, 3365917313605087178, 17831058190769622328, 9504262832113149877, 16206673325181402376, 15589385165020639350, 10269678772806576198, 4882693842805437981, 1585978228066723578, 5144984950648484270, 8312000229723009297] 9223372039002292353 = [18325973627946518570, 17883004390496968802, 7533431867988309034, 5825974702646360461, 6842501114816635408, 13443924870492243029, 10710455634156789768, 17803097152318009074, 3417716758254910577, 11541107804513219849, 5089171149384275630, 6842971454996269387, 1746292833932184042, 1253183926296250784, 13192475026403207688, 7757210918044306267, 10156957209549839458, 11175164019200834788, 15176823230836079467, 1069788204945083354, 11375331469899100284, 7923702261279494809, 24260899286705150, 13510298339155128767, 13458729173252060118] := by decide
  have hr7 : keccakRound [18325973627946518570, 17883004390496968802, 7533431867988309034, 5825974702646360461, 6842501114816635408, 13443924870492243029, 10710455634156789768, 17803097152318009074, 3417716758254910577, 11541107804513219849, 5089171149384275630, 6842971454996269387, 1746292833932184042, 1253183926296250784, 13192475026403207688, 7757210918044306267, 10156957209549839458, 11175164019200834788, 15176823230836079467, 1069788204945083354, 11375331469899100284, 7923702261279494809, 24260899286705150, 13510298339155128767, 13458729173252060118] 9223372036854808585 = [3706638455818240687, 13896064463284459155, 13121666775782753223, 6429870017840920595, 11644836830772132209, 14171572356390258298, 7848408415342034615, 8582048395191558422, 4659690236524867089, 12964100030900155810, 6267468920537375533, 4823209205423648074, 4607742749087456437, 13765278041995911137, 11088568585358022650, 9389689914105135841, 8713416740962728622, 4462317662783104701, 7966354145392993542, 10735520063834851835, 7058847353292599128, 12782432240307535632, 7813646588019493922, 16521246521761456429, 10429020213919284475] := by decide
  have hr8 : keccakRound [3706638455818240687, 13896064463284459155, 13121666775782753223, 6429870017840920595, 11644836830772132209, 14171572356390258298, 7848408415342034615, 8582048395191558422, 4659690236524867089, 12964100030900155810, 6267468920537375533, 4823209205423648074, 4607742749087456437, 13765278041995911137, 11088568585358022650, 9389689914105135841, 8713416740962728622, 4462317662783104701, 7966354145392993542, 10735520063834851835, 7058847353292599128, 12782432240307535632, 7813646588019493922, 16521246521761456429, 10429020213919284475] 138 = [8656046897578437796, 8489381010172777137, 16698566938588059455, 6929156121333295873, 6664161110132743335, 8115621779707269344, 9749744487806020330, 18176397946451815820, 10638556278431143766, 14302668789701604084, 13387887557749752354, 2671577841959601302, 2437810159588322922, 10884163031353842038, 12703840285311014821, 5136985970578515675, 16892500209836970670, 13959001140876714651, 2080273603142886414, 3852015090370175945, 8357655240518820397, 1918738854789370865, 13367620485603334109, 11369851446191970059, 13289062888649286472] := by decide
  have hr9 : keccakRound [8656046897578437796, 8489381010172777137, 16698566938588059455, 6929156121333295873, 6664161110132743335, 8115621779707269344, 9749744487806020330, 18176397946451815820, 10638556278431143766, 14302668789701604084, 13387887557749752354, 2671577841959601302, 2437810159588322922, 10884163031353842038, 12703840285311014821, 5136985970578515675, 16892500209836970670, 13959001140876714651, 2080273603142886414, 3852015090370175945, 8357655240518820397, 1918738854789370865, 13367620485603334109, 11369851446191970059, 13289062888649286472] 136 = [17382842937861057115, 10175384131789773585, 10084842062852397108, 9904259674508273826, 16603073982562894977, 1663556203911452159, 11251437112900303213, 750777923393569738, 4620713482278354367, 188430766245933248, 16856764616395742765, 2159728143458324940, 13038416406051137783, 6840051171932265155, 13802938540480358759, 2700384878455734886, 7067593362141655713, 12298123739453374608, 9793796307593238238, 4149235732196759245, 2758201984078627313, 5408458749991019011, 481452008715806806, 6677529057323112416, 9157387795272146302] := by decide
  have hr10 : keccakRound [17382842937861057115, 10175384131789773585, 10084842062852397108, 9904259674508273826, 16603073982562894977, 1663556203911452159, 11251437112900303213, 750777923393569738, 4620713482278354367, 188430766245933248, 16856764616395742765, 2159728143458324940, 13038416406051137783, 6840051171932265155, 13802938540480358759, 2700384878455734886, 7067593362141655713, 12298123739453374608, 9793796307593238238, 4149235732196759245, 2758201984078627313, 5408458749991019011, 481452008715806806, 6677529057323112416, 9157387795272146302] 2147516425 = [17803941227514494586, 10054297406171605606, 10570278212307920440, 1293591082103266878, 5276042094085474951, 13941404968420813020, 5374065311446629206, 18204498749915165813, 11308123493054790245, 11372750238823695314, 2634641205422830625, 1448924721628010061, 1193040588127676700, 13658203532784307565, 5089446001470309236, 16358210099226483602, 4610635598809590864, 6200519618186297390, 14573669681559372622, 1244796581226746785, 10231751482456207787, 12634142969134970597, 15319993470068445342, 10038986355707125860, 17621443942163798029] := by decide
  have hr11 : keccakRound [17803941227514494586, 10054297406171605606, 10570278212307920440, 1293591082103266878, 5276042094085474951, 13941404968420813020, 5374065311446629206, 18204498749915165813, 11308123493054790245, 11372750238823695314, 2634641205422830625, 1448924721628010061, 1193040588127676700, 13658203532784307565, 5089446001470309236, 16358210099226483602, 4610635598809590864, 6200519618186297390, 14573669681559372622, 1244796581226746785, 10231751482456207787, 12634142969134970597, 15319993470068445342, 10038986355707125860, 17621443942163798029] 2147483658 = [5678468710732946533, 4184458286922056583, 18412795696315142029, 9177173067147454836, 18285411701989702864, 2908264804688307336, 5414548846573633998, 9972360643333944011, 9690954052166656192, 9900639646069416555, 952791930176104510, 5544893830197649606, 2570522130425579084, 14308368616901897132, 13223825593737921994, 11630412185534006293, 15572647148026152569, 12584038057381249480, 2223301308384476227, 15535293618570008994, 4408011117279935458, 5117468098657596970, 10464160084690690616, 1820402709953636553, 17246462577382269545] := by decide
  have hr12 : keccakRound [5678468710732946533, 4184458286922056583, 18412795696315142029, 9177173067147454836, 18285411701989702864, 2908264804688307336, 5414548846573633998, 9972360643333944011, 9690954052166656192, 9900639646069416555, 952791930176104510, 5544893830197649606, 2570522130425579084, 14308368616901897132, 13223825593737921994, 11630412185534006293, 15572647148026152569, 12584038057381249480, 2223301308384476227, 15535293618570008994, 4408011117279935458, 5117468098657596970, 10464160084690690616, 1820402709953636553, 17246462577382269545] 2147516555 = [17336339506559958474, 18155064058933074712, 5867527898034862081, 15158269346796669785, 3570435563804970543, 11410186442778680393, 9993193371684169925, 10597637840944556773, 16437355256834710771, 7554211824131730222, 8661027543411788206, 744809956084221142, 5512831200101086184, 5160561729460521732, 5263803309857589690, 11278444639394286663, 13942186711727267327, 11555170738572859842, 10227312378477296151, 494623345645669337, 6589642716031857724, 219585244339217306, 1948593750911343464, 17637143143594158906, 3003981970805727337] := by decide
  have hr13 : keccakRound [17336339506559958474, 18155064058933074712, 5867527898034862081, 15158269346796669785, 3570435563804970543, 11410186442778680393, 9993193371684169925, 10597637840944556773, 16437355256834710771, 7554211824131730222, 8661027543411788206, 744809956084221142, 5512831200101086184, 5160561729460521732, 5263803309857589690, 11278444639394286663, 13942186711727267327, 11555170738572859842, 10227312378477296151, 494623345645669337, 6589642716031857724, 219585244339217306, 1948593750911343464, 17637143143594158906, 3003981970805727337] 9223372036854775947 = [9032018284761884870, 13771193495411809198, 14273340023481918447, 6837848849545481965, 6871413350955857783, 7414164673646859906, 16033523223590019876, 13387606406746137281, 7552744541477106795, 10259311207408099372, 9390424079646724228, 18066589419471131758, 16661403572278165660, 4264670765248444328, 9515346540544686522, 11744592987824619155, 5102186493132162373, 3805657685622641348, 15739631479138093171, 9709631898531127650, 8249761025494749917, 11670730804179345576, 17050089568590313549, 2202862348948166312, 7268457772263486978] := by decide
  have hr14 : keccakRound [9032018284761884870, 13771193495411809198, 14273340023481918447, 6837848849545481965, 6871413350955857783, 7414164673646859906, 16033523223590019876, 13387606406746137281, 7552744541477106795, 10259311207408099372, 9390424079646724228, 18066589419471131758, 16661403572278165660, 4264670765248444328, 9515346540544686522, 11744592987824619155, 5102186493132162373, 3805657685622641348, 15739631479138093171, 9709631898531127650, 8249761025494749917, 11670730804179345576, 17050089568590313549, 2202862348948166312, 7268457772263486978] 9223372036854808713 = [15435931947655088100, 10086320903115891649, 14714368832842572993, 15616159444201344197, 7070254569400887160, 9631471642149142671, 16733334419233666007, 7613574004017188991, 18318308583759410750, 11128350952591581061, 17222096683144763556, 9672849435347290500, 11116584374489987724, 16201813561607029105, 11322983085283865616, 3687924201536178636, 5419906464166820822, 10492559042735135364, 8426958623022801920, 11268369452776345692, 10981453281963984650, 624712262425649942, 16047055322979182429, 13509182442522809187, 9704473597534069109] := by decide
  have hr15 : keccakRound [15435931947655088100, 10086320903115891649, 14714368832842572993, 15616159444201344197, 7070254569400887160, 9631471642149142671, 16733334419233666007, 7613574004017188991, 18318308583759410750, 11128350952591581061, 17222096683144763556, 9672849435347290500, 11116584374489987724, 16201813561607029105, 11322983085283865616, 3687924201536178636, 5419906464166820822, 10492559042735135364, 8426958623022801920, 11268369452776345692, 10981453281963984650, 624712262425649942, 16047055322979182429, 13509182442522809187, 9704473597534069109] 9223372036854808579 = [11847334947818969252, 4510216355498890141, 17093662722236229914, 8544824953151649565, 4660455370795248941, 2806997294320689708, 15627689303577936317, 14892899994773297462, 13920911954745170147, 8390148742239581867, 11189717070332865084, 218381956297178239, 2655173049587737719, 13317141074052818342, 6773930888425945376, 12381036717783858197, 3293211946451334603, 4018855209671180689, 5768685587554964010, 4908093042060984251, 5636759020860077872, 16697367079138445259, 2804990835656363595, 16823636693282358287, 15774144739612186600] := by decide
  have hr16 : keccakRound [11847334947818969252, 4510216355498890141, 17093662722236229914, 8544824953151649565, 4660455370795248941, 2806997294320689708, 15627689303577936317, 14892899994773297462, 13920911954745170147, 8390148742239581867, 11189717070332865084, 218381956297178239, 2655173049587737719, 13317141074052818342, 6773930888425945376, 12381036717783858197, 3293211946451334603, 4018855209671180689, 5768685587554964010, 4908093042060984251, 5636759020860077872, 16697367079138445259, 2804990835656363595, 16823636693282358287, 15774144739612186600] 9223372036854808578 = [5381490309650851961, 3608373146170260738, 17228128093499385493, 14046511165624273470, 7764831921089343523, 2144707180763908285, 4314522874251154686, 4673715178387278512, 2477269761883059796, 17056684224025394527, 6406998568637199889, 7159861753032934819, 16284119427059195595, 12783449329190078739, 3817595292297892678, 12192371970791594049, 3087805131586249343, 17587875573804480327, 6259792064609581890, 7284139408208445044, 10429995326081872767, 9550758730962398434, 3389025349036319058, 17116770849414418516, 11036281529074770400] := by decide
  have hr17 : keccakRound [5381490309650851961, 3608373146170260738, 17228128093499385493, 14046511165624273470, 7764831921089343523, 2144707180763908285, 4314522874251154686, 4673715178387278512, 2477269761883059796, 17056684224025394527, 6406998568637199889, 7159861753032934819, 16284119427059195595, 12783449329190078739, 3817595292297892678, 12192371970791594049, 3087805131586249343, 17587875573804480327, 6259792064609581890, 7284139408208445044, 10429995326081872767, 9550758730962398434, 3389025349036319058, 17116770849414418516, 11036281529074770400] 9223372036854775936 = [12457426741204139254, 5534688696032259545, 7865175593849778332, 8539315256393185871, 12803484248648844395, 8415894311849901861, 2693104653090344192, 17311429852381807252, 18079256573405947071, 17061166024825026531, 6185509040357393982, 17768561059457442549, 6046565483521918546, 11657287272202620379, 5493917226850611844, 6695270100010337667, 16229842077950464062, 12915417815569462730, 6159686824347661001, 5978333312746777291, 4453857749050301796, 17948135785132847144, 10970056042019402420, 10095088249020420612, 11771879907133490162] := by decide
  have hr18 : keccakRound [12457426741204139254, 5534688696032259545, 7865175593849778332, 8539315256393185871, 12803484248648844395, 8415894311849901861, 2693104653090344192, 17311429852381807252, 18079256573405947071, 17061166024825026531, 6185509040357393982, 17768561059457442549, 6046565483521918546, 11657287272202620379, 5493917226850611844, 6695270100010337667, 16229842077950464062, 12915417815569462730, 6159686824347661001, 5978333312746777291, 4453857749050301796, 17948135785132847144, 10970056042019402420, 10095088249020420612, 11771879907133490162] 32778 = [9968666482612306072, 1712744612090613193, 14919066545420377516, 2659689953192033818, 1627558255134526658, 13332515751920793028, 3343210375634752380, 9894801990245930845, 3272746664413723202, 8978771197339354322, 10119346196978839076, 2622622748743170249, 4000523564223290961, 10815243711607707723, 14715035727261015363, 7581655957378316141, 15880242438105407727, 13446127566799227510, 6668595083722886789, 15845939537378811699, 14299694156043050318, 4048017013776369611, 1062193793269251157, 5229145252053090877, 4664837993852448014] := by decide
  have hr19 : keccakRound [9968666482612306072, 1712744612090613193, 14919066545420377516, 2659689953192033818, 1627558255134526658, 13332515751920793028, 3343210375634752380, 9894801990245930845, 3272746664413723202, 8978771197339354322, 10119346196978839076, 2622622748743170249, 4000523564223290961, 10815243711607707723, 14715035727261015363, 7581655957378316141, 15880242438105407727, 13446127566799227510, 6668595083722886789, 15845939537378811699, 14299694156043050318, 4048017013776369611, 1062193793269251157, 5229145252053090877, 4664837993852448014] 9223372039002259466 = [14242766663774733385, 7382247832870096121, 6600297560036910860, 2738512466914668724, 4051309468343247609, 17482957416633790617, 12287578308131487255, 325086299494575963, 14415030618736380718, 6630812576158154153, 1628946440201097551, 8213933430852868249, 6496715560293917435, 11005339478116924792, 8435242017026024615, 9266435504936398959, 8880466475342675850, 10390410349029364695, 6021501658236295702, 6544495166765056174, 5292263253892737660, 1074503066331298539, 10216318602162465785, 13925729619666659705, 9806634672459374301] := by decide
  have hr20 : keccakRound [14242766663774733385, 7382247832870096121, 6600297560036910860, 2738512466914668724, 4051309468343247609, 17482957416633790617, 12287578308131487255, 325086299494575963, 14415030618736380718, 6630812576158154153, 1628946440201097551, 8213933430852868249, 6496715560293917435, 11005339478116924792, 8435242017026024615, 9266435504936398959, 8880466475342675850, 10390410349029364695, 6021501658236295702, 6544495166765056174, 5292263253892737660, 1074503066331298539, 10216318602162465785, 13925729619666659705, 9806634672459374301] 9223372039002292353 = [1648291825244321121, 12396645284904546777, 947923512039399556, 4371656339760153715, 11255367005226889015, 6454056392305807433, 13118651951343904313, 12092127844635726452, 8998214446385949369, 4005018092767251278, 18263693860114409125, 4461049740685669801, 7214119857768061766, 1499031269680429644, 15527684670529781185, 11971956522439605495, 17765841478082564542, 1895098748977574592, 3905834711660872341, 11729175646989268344, 9203009263561657280, 4803960506993582331, 7313577456934761061, 3635720523517450418, 6665480106342719910] := by decide
  have hr21 : keccakRound [1648291825244321121, 12396645284904546777, 947923512039399556, 4371656339760153715, 11255367005226889015, 6454056392305807433, 13118651951343904313, 12092127844635726452, 8998214446385949369, 4005018092767251278, 18263693860114409125, 4461049740685669801, 7214119857768061766, 1499031269680429644, 15527684670529781185, 11971956522439605495, 17765841478082564542, 1895098748977574592, 3905834711660872341, 11729175646989268344, 9203009263561657280, 4803960506993582331, 7313577456934761061, 3635720523517450418, 6665480106342719910] 9223372036854808704 = [3707431222092103066, 15951735511444787379, 11000120095202186659, 16357032886531019090, 9256335519533397540, 15338269253912837537, 6183849227027644684, 11802434882427832914, 11165828365711432543, 7189563132169678725, 5788014213559341019, 2505776984772413057, 11307806609258653083, 6396862218235947300, 16492303634921253576, 5382261455626038666, 2707421141455879753, 5884676044856506428, 1048251342853640464, 5584634568749021866, 9786829010586305187, 12954075499942040750, 13501093327582984492, 2084974242562656556, 1880988406068071829] := by decide
  have hr22 : keccakRound [3707431222092103066, 15951735511444787379, 11000120095202186659, 16357032886531019090, 9256335519533397540, 15338269253912837537, 6183849227027644684, 11802434882427832914, 11165828365711432543, 7189563132169678725, 5788014213559341019, 2505776984772413057, 11307806609258653083, 6396862218235947300, 16492303634921253576, 5382261455626038666, 2707421141455879753, 5884676044856506428, 1048251342853640464, 5584634568749021866, 9786829010586305187, 12954075499942040750, 13501093327582984492, 2084974242562656556, 1880988406068071829] 2147483649 = [5152950842260575099, 2556834076782486136, 7302381905639686708, 12076851439002258635, 13422004438286375906, 10949832035700888763, 830551181415285004, 3266912879547616249, 1633329607103026301, 17602747994440011611, 4261965143315586076, 13162738121989704956, 14037939620150692172, 6651437748817243286, 13066682636931357922, 12815197683144674369, 17370450277240318175, 5083158657953358720, 1191943478762704756, 13470268504035177552, 3060793617196418389, 7295786822148895804, 1594564143708667572, 285661665755063064, 733168195383343725] := by decide
  have hr23 : keccakRound [5152950842260575099, 2556834076782486136, 7302381905639686708, 12076851439002258635, 13422004438286375906, 10949832035700888763, 830551181415285004, 3266912879547616249, 1633329607103026301, 17602747994440011611, 4261965143315586076, 13162738121989704956, 14037939620150692172, 6651437748817243286, 13066682636931357922, 12815197683144674369, 17370450277240318175, 5083158657953358720, 1191943478762704756, 13470268504035177552, 3060793617196418389, 7295786822148895804, 1594564143708667572, 285661665755063064, 733168195383343725] 9223372039002292232 = [1775353498402867995, 8541343851320000807, 9796948707389979118, 3050287885933153607, 3145862288352559447, 825998675375264092, 14550931718631498376, 17764752092568724203, 2979991662977685557, 2054263586966959400, 16931335794777023422, 15723384887648684786, 204009416649221347, 1962409034072166176, 16486791060343084154, 17902800495310363743, 14447374880485379502, 10577299296054541512, 5114750278974340213, 7296608237189482738, 17391608095596267729, 3054724250877527874, 5886362318921805052, 11012363201323567201, 9711406880965226876] := by decide
  have hkf : keccakF [2763076869991718573, 2051022785626323238, 12586374844498190518, 470646930374518173, 2564733051696326295, 12642699827654085864, 16577001856772201100, 9006754414248603746, 6, 0, 0, 0, 0, 0, 0, 0, 9223372036854775808, 0, 0, 0, 0, 0, 0, 0, 0] = [1775353498402867995, 8541343851320000807, 9796948707389979118, 3050287885933153607, 3145862288352559447, 825998675375264092, 14550931718631498376, 17764752092568724203, 2979991662977685557, 2054263586966959400, 16931335794777023422, 15723384887648684786, 204009416649221347, 1962409034072166176, 16486791060343084154, 17902800495310363743, 14447374880485379502, 10577299296054541512, 5114750278974340213, 7296608237189482738, 17391608095596267729, 3054724250877527874, 5886362318921805052, 11012363201323567201, 9711406880965226876] := by
    simp only [keccakF, keccakRC, List.foldl_cons, List.foldl_nil, hr0, hr1, hr2, hr3, hr4, hr5, hr6, hr7, hr8, hr9, hr10, hr11, hr12, hr13, hr14, hr15, hr16, hr17, hr18, hr19, hr20, hr21, hr22, hr23]
  have habs : absorbBlocks 136 (List.replicate 25 0) [173, 94, 244, 26, 198, 107, 88, 38, 38, 57, 125, 83, 91, 178, 118, 28, 182, 32, 58, 80, 60, 201, 171, 174, 157, 229, 153, 187, 227, 18, 136, 6, 151, 38, 16, 58, 31, 195, 151, 35, 232, 204, 54, 101, 130, 228, 115, 175, 140, 218, 229, 41, 92, 87, 13, 230, 98, 48, 120, 128, 107, 107, 254, 124, 6, 0, 0, 0, 0, 0, 0, 0, 0, 0, 0, 0, 0, 0, 0, 0, 0, 0, 0, 0, 0, 0, 0, 0, 0, 0, 0, 0, 0, 0, 0, 0, 0, 0, 0, 0, 0, 0, 0, 0, 0, 0, 0, 0, 0, 0, 0, 0, 0, 0, 0, 0, 0, 0, 0, 0, 0, 0, 0, 0, 0, 0, 0, 0, 0, 0, 0, 0, 0, 0, 0, 128] = [1775353498402867995, 8541343851320000807, 9796948707389979118, 3050287885933153607, 3145862288352559447, 825998675375264092, 14550931718631498376, 17764752092568724203, 2979991662977685557, 2054263586966959400, 16931335794777023422, 15723384887648684786, 204009416649221347, 1962409034072166176, 16486791060343084154, 17902800495310363743, 14447374880485379502, 10577299296054541512, 5114750278974340213, 7296608237189482738, 17391608095596267729, 3054724250877527874, 5886362318921805052, 11012363201323567201, 9711406880965226876] := by
    rw [show (136 : ℕ) = 135 + 1 from rfl, absorbBlocks_step,
        show List.take 136 [173, 94, 244, 26, 198, 107, 88, 38, 38, 57, 125, 83, 91, 178, 118, 28, 182, 32, 58, 80, 60, 201, 171, 174, 157, 229, 153, 187, 227, 18, 136, 6, 151, 38, 16, 58, 31, 195, 151, 35, 232, 204, 54, 101, 130, 228, 115, 175, 140, 218, 229, 41, 92, 87, 13, 230, 98, 48, 120, 128, 107, 107, 254, 124, 6, 0, 0, 0, 0, 0, 0, 0, 0, 0, 0, 0, 0, 0, 0, 0, 0, 0, 0, 0, 0, 0, 0, 0, 0, 0, 0, 0, 0, 0, 0, 0, 0, 0, 0, 0, 0, 0, 0, 0, 0, 0, 0, 0, 0, 0, 0, 0, 0, 0, 0, 0, 0, 0, 0, 0, 0, 0, 0, 0, 0, 0, 0, 0, 0, 0, 0, 0, 0, 0, 0, 128] = [173, 94, 244, 26, 198, 107, 88, 38, 38, 57, 125, 83, 91, 178, 118, 28, 182, 32, 58, 80, 60, 201, 171, 174, 157, 229, 153, 187, 227, 18, 136, 6, 151, 38, 16, 58, 31, 195, 151, 35, 232, 204, 54, 101, 130, 228, 115, 175, 140, 218, 229, 41, 92, 87, 13, 230, 98, 48, 120, 128, 107, 107, 254, 124, 6, 0, 0, 0, 0, 0, 0, 0, 0, 0, 0, 0, 0, 0, 0, 0, 0, 0, 0, 0, 0, 0, 0, 0, 0, 0, 0, 0, 0, 0, 0, 0, 0, 0, 0, 0, 0, 0, 0, 0, 0, 0, 0, 0, 0, 0, 0, 0, 0, 0, 0, 0, 0, 0, 0, 0, 0, 0, 0, 0, 0, 0, 0, 0, 0, 0, 0, 0, 0, 0, 0, 128] from by decide,
        show List.drop 136 [173, 94, 244, 26, 198, 107, 88, 38, 38, 57, 125, 83, 91, 178, 118, 28, 182, 32, 58, 80, 60, 201, 171, 174, 157, 229, 153, 187, 227, 18, 136, 6, 151, 38, 16, 58, 31, 195, 151, 35, 232, 204, 54, 101, 130, 228, 115, 175, 140, 218, 229, 41, 92, 87, 13, 230, 98, 48, 120, 128, 107, 107, 254, 124, 6, 0, 0, 0, 0, 0, 0, 0, 0, 0, 0, 0, 0, 0, 0, 0, 0, 0, 0, 0, 0, 0, 0, 0, 0, 0, 0, 0, 0, 0, 0, 0, 0, 0, 0, 0, 0, 0, 0, 0, 0, 0, 0, 0, 0, 0, 0, 0, 0, 0, 0, 0, 0, 0, 0, 0, 0, 0, 0, 0, 0, 0, 0, 0, 0, 0, 0, 0, 0, 0, 0, 128] = ([] : List Nat) from by decide,
        hxor, hkf, absorbBlocks_nil]
  simp only [sha3_256, hpad, show ([173, 94, 244, 26, 198, 107, 88, 38, 38, 57, 125, 83, 91, 178, 118, 28, 182, 32, 58, 80, 60, 201, 171, 174, 157, 229, 153, 187, 227, 18, 136, 6, 151, 38, 16, 58, 31, 195, 151, 35, 232, 204, 54, 101, 130, 228, 115, 175, 140, 218, 229, 41, 92, 87, 13, 230, 98, 48, 120, 128, 107, 107, 254, 124, 6, 0, 0, 0, 0, 0, 0, 0, 0, 0, 0, 0, 0, 0, 0, 0, 0, 0, 0, 0, 0, 0, 0, 0, 0, 0, 0, 0, 0, 0, 0, 0, 0, 0, 0, 0, 0, 0, 0, 0, 0, 0, 0, 0, 0, 0, 0, 0, 0, 0, 0, 0, 0, 0, 0, 0, 0, 0, 0, 0, 0, 0, 0, 0, 0, 0, 0, 0, 0, 0, 0, 128] : List Nat).length = 136 from by decide, habs]
  decide

/-- Staged kernel evaluation of SHA3-256 on the message `677035391cd3701293d385f037ba32796252bb7ce180b00b582dd9b20aaad7f0677035391cd3701293d385f037ba32796252bb7ce180b00b582dd9b20aaad7f0`:
each Keccak round is checked separately on literal states, keeping every
single proof obligation small. -/
theorem sha3_eval_8 : sha3_256 [103, 112, 53, 57, 28, 211, 112, 18, 147, 211, 133, 240, 55, 186, 50, 121, 98, 82, 187, 124, 225, 128, 176, 11, 88, 45, 217, 178, 10, 170, 215, 240, 103, 112, 53, 57, 28, 211, 112, 18, 147, 211, 133, 240, 55, 186, 50, 121, 98, 82, 187, 124, 225, 128, 176, 11, 88, 45, 217, 178, 10, 170, 215, 240] = [30, 210, 242, 124, 229, 39, 99, 57, 119, 86, 122, 25, 89, 173, 4, 2, 251, 250, 248, 225, 92, 101, 142, 180, 36, 211, 170, 219, 116, 225, 150, 227] := by
  have hpad : sha3Pad [103, 112, 53, 57, 28, 211, 112, 18, 147, 211, 133, 240, 55, 186, 50, 121, 98, 82, 187, 124, 225, 128, 176, 11, 88, 45, 217, 178, 10, 170, 215, 240, 103, 112, 53, 57, 28, 211, 112, 18, 147, 211, 133, 240, 55, 186, 50, 121, 98, 82, 187, 124, 225, 128, 176, 11, 88, 45, 217, 178, 10, 170, 215, 240] = [103, 112, 53, 57, 28, 211, 112, 18, 147, 211, 133, 240, 55, 186, 50, 121, 98, 82, 187, 124, 225, 128, 176, 11, 88, 45, 217, 178, 10, 170, 215, 240, 103, 112, 53, 57, 28, 211, 112, 18, 147, 211, 133, 240, 55, 186, 50, 121, 98, 82, 187, 124, 225, 128, 176, 11, 88, 45, 217, 178, 10, 170, 215, 240, 6, 0, 0, 0, 0, 0, 0, 0, 0, 0, 0, 0, 0, 0, 0, 0, 0, 0, 0, 0, 0, 0, 0, 0, 0, 0, 0, 0, 0, 0, 0, 0, 0, 0, 0, 0, 0, 0, 0, 0, 0, 0, 0, 0, 0, 0, 0, 0, 0, 0, 0, 0, 0, 0, 0, 0, 0, 0, 0, 0, 0, 0, 0, 0, 0, 0, 0, 0, 0, 0, 0, 128] := by decide
  have hxor : xorBlock (List.replicate 25 0) [103, 112, 53, 57, 28, 211, 112, 18, 147, 211, 133, 240, 55, 186, 50, 121, 98, 82, 187, 124, 225, 128, 176, 11, 88, 45, 217, 178, 10, 170, 215, 240, 103, 112, 53, 57, 28, 211, 112, 18, 147, 211, 133, 240, 55, 186, 50, 121, 98, 82, 187, 124, 225, 128, 176, 11, 88, 45, 217, 178, 10, 170, 215, 240, 6, 0, 0, 0, 0, 0, 0, 0, 0, 0, 0, 0, 0, 0, 0, 0, 0, 0, 0, 0, 0, 0, 0, 0, 0, 0, 0, 0, 0, 0, 0, 0, 0, 0, 0, 0, 0, 0, 0, 0, 0, 0, 0, 0, 0, 0, 0, 0, 0, 0, 0, 0, 0, 0, 0, 0, 0, 0, 0, 0, 0, 0, 0, 0, 0, 0, 0, 0, 0, 0, 0, 128] = [1328794008246644839, 8733247376846082963, 842314836266930786, 17354526652022467928, 1328794008246644839, 8733247376846082963, 842314836266930786, 17354526652022467928, 6, 0, 0, 0, 0, 0, 0, 0, 9223372036854775808, 0, 0, 0, 0, 0, 0, 0, 0] := by decide
  have hr0 : keccakRound [1328794008246644839, 8733247376846082963, 842314836266930786, 17354526652022467928, 1328794008246644839, 8733247376846082963, 842314836266930786, 17354526652022467928, 6, 0, 0, 0, 0, 0, 0, 0, 9223372036854775808, 0, 0, 0, 0, 0, 0, 0, 0] 1 = [16358258249210465954, 7555835528194044429, 2511364776745113160, 13508464150754095794, 14910644502659946888, 12306155404617091693, 9638294422789449663, 13538024720374664550, 11184744182094465706, 9761461329410129531, 14426450993201878052, 12587981344618657566, 3457798316630099145, 1315426813749147139, 12413248101690596554, 2946929565751515976, 11230295195471954413, 8101398886598182527, 13790475695159712982, 16196500776439040186, 9383077860206299355, 17991251224172643341, 13413312892274227860, 1215973987973194251, 1114768138081366530] := by decide
  have hr1 : keccakRound [16358258249210465954, 7555835528194044429, 2511364776745113160, 13508464150754095794, 14910644502659946888, 12306155404617091693, 9638294422789449663, 13538024720374664550, 11184744182094465706, 9761461329410129531, 14426450993201878052, 12587981344618657566, 3457798316630099145, 1315426813749147139, 12413248101690596554, 2946929565751515976, 11230295195471954413, 8101398886598182527, 13790475695159712982, 16196500776439040186, 9383077860206299355, 17991251224172643341, 13413312892274227860, 1215973987973194251, 1114768138081366530] 32898 = [12306552261804172592, 6820544651478372790, 4572644050739275029, 15139664746289587584, 2686920025034219820, 2797907048091875872, 8450456544893922546, 4271819002537630188, 13857999627934365583, 2674998812981868379, 17494782460378709724, 6372389030600402400, 3446484669979505447, 1741072014499302523, 17359063925840916107, 9165652065763491427, 7715325318659845157, 2136113341581048178, 5909958328110160487, 394268401593794690, 7170483270110901288, 15163963387342301684, 8626494692822987038, 11901996678709642399, 13696356409636752609] := by decide
  have hr2 : keccakRound [12306552261804172592, 6820544651478372790, 4572644050739275029, 15139664746289587584, 2686920025034219820, 2797907048091875872, 8450456544893922546, 4271819002537630188, 13857999627934365583, 2674998812981868379, 17494782460378709724, 6372389030600402400, 3446484669979505447, 1741072014499302523, 17359063925840916107, 9165652065763491427, 7715325318659845157, 2136113341581048178, 5909958328110160487, 394268401593794690, 7170483270110901288, 15163963387342301684, 8626494692822987038, 11901996678709642399, 13696356409636752609] 9223372036854808714 = [15398742711712457419, 6666800038055621370, 1723427766410373971, 4625030166611198794, 7403497308594434390, 3759221718353660248, 301120304314958804, 7974574524976067051, 8581839303567344404, 5327186378421892398, 7790887044437042630, 3174954892040232978, 2267333082312620397, 16023499683646605471, 15787491827698103816, 10632544850641312466, 4390801225810063090, 18193945191797542887, 8563636858409131067, 4544807232277247234, 3285365060807388365, 120230335922472260, 3087222308653561815, 12295811365343882104, 5732147955151975804] := by decide
  have hr3 : keccakRound [15398742711712457419, 6666800038055621370, 1723427766410373971, 4625030166611198794, 7403497308594434390, 3759221718353660248, 301120304314958804, 7974574524976067051, 8581839303567344404, 5327186378421892398, 7790887044437042630, 3174954892040232978, 2267333082312620397, 16023499683646605471, 15787491827698103816, 10632544850641312466, 4390801225810063090, 18193945191797542887, 8563636858409131067, 4544807232277247234, 3285365060807388365, 120230335922472260, 3087222308653561815, 12295811365343882104, 5732147955151975804] 9223372039002292224 = [13943936173653346545, 8707133122273575069, 15827998214460091992, 14380061910265011336, 3101414562360891236, 9050203126960847491, 5211297674859066392, 17972601759091208419, 5241746635353739339, 2406601013773120091, 13563512346819018490, 5013024952846977330, 2330737098766296604, 3667358442914907275, 12866768556115946256, 7847692463636798044, 7682171961548408374, 6386544508372082170, 1561740486827634653, 9440670242540680119, 14200964363481946294, 2838393762354685178, 11996724849161648376, 8086944306877830382, 9092472919723297629] := by decide
  have hr4 : keccakRound [13943936173653346545, 8707133122273575069, 15827998214460091992, 14380061910265011336, 3101414562360891236, 9050203126960847491, 5211297674859066392, 17972601759091208419, 5241746635353739339, 2406601013773120091, 13563512346819018490, 5013024952846977330, 2330737098766296604, 3667358442914907275, 12866768556115946256, 7847692463636798044, 7682171961548408374, 6386544508372082170, 1561740486827634653, 9440670242540680119, 14200964363481946294, 2838393762354685178, 11996724849161648376, 8086944306877830382, 9092472919723297629] 32907 = [8466209806796887053, 9084650003923626411, 5614870533837483420, 8279372788847496843, 14372563978262451801, 13531692121425565671, 12814301665978673267, 13897177500748195406, 315796443573118333, 9363518639191119918, 8306258224946793291, 14388004248096232148, 8324695469058537057, 12119735229906428520, 11055936992924128410, 17678670594972259827, 10333995331968202453, 15569342432275656279, 1509532922229063083, 14668167609149876264, 5881468540294201329, 12689799628993840505, 2137053761187593056, 10814830395009181305, 18072623946307815245] := by decide
  have hr5 : keccakRound [8466209806796887053, 9084650003923626411, 5614870533837483420, 8279372788847496843, 14372563978262451801, 13531692121425565671, 12814301665978673267, 13897177500748195406, 315796443573118333, 9363518639191119918, 8306258224946793291, 14388004248096232148, 8324695469058537057, 12119735229906428520, 11055936992924128410, 17678670594972259827, 10333995331968202453, 15569342432275656279, 1509532922229063083, 14668167609149876264, 5881468540294201329, 12689799628993840505, 2137053761187593056, 10814830395009181305, 18072623946307815245] 2147483649 = [15557422262638403717, 13951217031135738556, 11805218620359452786, 4544613900101637564, 4345917063558916619, 12237837447770861735, 16663234362083310846, 10138924686180741686, 9924345994384204246, 6080489302053896947, 463547898821276680, 6370997855930007478, 4479603661631952282, 12531368320221811365, 4017351116263476610, 6278304898686359555, 1853639127713766252, 7895958016335149698, 11723503449885088597, 7271763327689150045, 13516784163023584813, 2644504600950425907, 12041860692750183967, 15475342390758058114, 4079409061370223321] := by decide
  have hr6 : keccakRound [15557422262638403717, 13951217031135738556, 11805218620359452786, 4544613900101637564, 4345917063558916619, 12237837447770861735, 16663234362083310846, 10138924686180741686, 9924345994384204246, 6080489302053896947, 463547898821276680, 6370997855930007478, 4479603661631952282, 12531368320221811365, 4017351116263476610, 6278304898686359555, 1853639127713766252, 7895958016335149698, 11723503449885088597, 7271763327689150045, 13516784163023584813, 2644504600950425907, 12041860692750183967, 15475342390758058114, 4079409061370223321] 9223372039002292353 = [5898094772447518376, 5533707904061317555, 1054406630301748762, 3878799795427379409, 12701149767233093325, 8045301139700503263, 9221764436872994858, 10492742623473217748, 6151344635276974634, 10903041889373718000, 4945574842254167126, 5484177217215901510, 8378163528978303276, 5518559999828577404, 13370394070351879457, 16789950293792124807, 2707198779576709714, 3062836850689103148, 13845234585666703922, 4160823149663768720, 5609495218462046795, 12734967868003983240, 11091356464302472561, 15344278186086495919, 12632722504936436676] := by decide
  have hr7 : keccakRound [5898094772447518376, 5533707904061317555, 1054406630301748762, 3878799795427379409, 12701149767233093325, 8045301139700503263, 9221764436872994858, 10492742623473217748, 6151344635276974634, 10903041889373718000, 4945574842254167126, 5484177217215901510, 8378163528978303276, 5518559999828577404, 13370394070351879457, 16789950293792124807, 2707198779576709714, 3062836850689103148, 13845234585666703922, 4160823149663768720, 5609495218462046795, 12734967868003983240, 11091356464302472561, 15344278186086495919, 12632722504936436676] 9223372036854808585 = [64698064905705952, 1342514269246665713, 356306070447502803, 12033268604262484126, 11169969535025637617, 16806309959951158320, 14181195368285452953, 14279289906224134636, 6919824979376627226, 328288536172900803, 5318707340558800125, 17528593443534714946, 9874339215744613631, 4173891472284467645, 2228099091622178783, 10543761567908965019, 8976800562806420961, 5515298416372446186, 4356631617604343833, 14716973936271305219, 13622402790724501074, 2780764802153287587, 6503871981296814097, 8888357898309318869, 8705068574901458250] := by decide
  have hr8 : keccakRound [64698064905705952, 1342514269246665713, 356306070447502803, 12033268604262484126, 11169969535025637617, 16806309959951158320, 14181195368285452953, 14279289906224134636, 6919824979376627226, 328288536172900803, 5318707340558800125, 17528593443534714946, 9874339215744613631, 4173891472284467645, 2228099091622178783, 10543761567908965019, 8976800562806420961, 5515298416372446186, 4356631617604343833, 14716973936271305219, 13622402790724501074, 2780764802153287587, 6503871981296814097, 8888357898309318869, 8705068574901458250] 138 = [1398904335603573834, 2850979032682257547, 12424288088292759005, 1081402035911346352, 5780628824308164529, 6685546707017054203, 15992943888988971026, 6351553667705108828, 2489621150911942882, 16832297261497197970, 17203174505877422286, 4813427934376713650, 9750162304532904382, 15259508428647047080, 2739766870382985276, 555656009795069656, 17753933185859163835, 15125426304862470424, 14398436265321661885, 6200412095339598758, 14122414419185001680, 3812598401039101545, 13780401144943720068, 12764290350561568222, 8910297176954584039] := by decide
  have hr9 : keccakRound [1398904335603573834, 2850979032682257547, 12424288088292759005, 1081402035911346352, 5780628824308164529, 6685546707017054203, 15992943888988971026, 6351553667705108828, 2489621150911942882, 16832297261497197970, 17203174505877422286, 4813427934376713650, 9750162304532904382, 15259508428647047080, 2739766870382985276, 555656009795069656, 17753933185859163835, 15125426304862470424, 14398436265321661885, 6200412095339598758, 14122414419185001680, 3812598401039101545, 13780401144943720068, 12764290350561568222, 8910297176954584039] 136 = [4978019490791617896, 17277603356105504249, 13482551644155852149, 1052378684392813204, 2603729364894092402, 13409863145731443950, 10085656781373672885, 2110959924214287125, 11835830195055490639, 15811006029924148504, 15195216163839314727, 15950661396876305800, 16524205487075630520, 3985089133459165188, 14804532938097783407, 10022144647070470, 3140950126460491009, 3708426159405665522, 4015258376219516473, 17281594593095669915, 8091975760178483397, 6805478857412083863, 15970810868082864451, 16858245073903974433, 11980718561690116435] := by decide
  have hr10 : keccakRound [4978019490791617896, 17277603356105504249, 13482551644155852149, 1052378684392813204, 2603729364894092402, 13409863145731443950, 10085656781373672885, 2110959924214287125, 11835830195055490639, 15811006029924148504, 15195216163839314727, 15950661396876305800, 16524205487075630520, 3985089133459165188, 14804532938097783407, 10022144647070470, 3140950126460491009, 3708426159405665522, 4015258376219516473, 17281594593095669915, 8091975760178483397, 6805478857412083863, 15970810868082864451, 16858245073903974433, 11980718561690116435] 2147516425 = [85371657843225437, 1832059451353907338, 13115400469731435992, 12568570952581752552, 3579489325840357132, 15127875631724923347, 17411993482602613494, 13838257270970862187, 13276050012261006217, 18074381292538868151, 15256378759218255281, 10780430884187777602, 13011871463254115488, 6492221179030931479, 11671917293691955601, 1192967821718933672, 6712589151496063248, 9989827137038754927, 9946247062327769313, 11498484597614803507, 6740061486318131851, 15428679513869545494, 6236381783984797883, 5107748011190221793, 16364770337052169677] := by decide
  have hr11 : keccakRound [85371657843225437, 1832059451353907338, 13115400469731435992, 12568570952581752552, 3579489325840357132, 15127875631724923347, 17411993482602613494, 13838257270970862187, 13276050012261006217, 18074381292538868151, 15256378759218255281, 10780430884187777602, 13011871463254115488, 6492221179030931479, 11671917293691955601, 1192967821718933672, 6712589151496063248, 9989827137038754927, 9946247062327769313, 11498484597614803507, 6740061486318131851, 15428679513869545494, 6236381783984797883, 5107748011190221793, 16364770337052169677] 2147483658 = [6517067970422764018, 6346167718127731962, 16315321060554899056, 17011783561874249013, 12678476491338611673, 6522395461000417348, 11803765755336387660, 6878467043563546764, 14046803953760102338, 17689907512028183207, 15046414228865745968, 8838194975704998670, 5206596463912153972, 11757625969054285187, 12028592995050223349, 1654688884877895799, 12158799813759372121, 5120259133588882322, 11231761866419822263, 12573302472426654597, 6120720416090621075, 8305023932710276610, 6043914123255858834, 15133521444611902711, 3989891921718323318] := by decide
  have hr12 : keccakRound [6517067970422764018, 6346167718127731962, 16315321060554899056, 17011783561874249013, 12678476491338611673, 6522395461000417348, 11803765755336387660, 6878467043563546764, 14046803953760102338, 17689907512028183207, 15046414228865745968, 8838194975704998670, 5206596463912153972, 11757625969054285187, 12028592995050223349, 1654688884877895799, 12158799813759372121, 5120259133588882322, 11231761866419822263, 12573302472426654597, 6120720416090621075, 8305023932710276610, 6043914123255858834, 15133521444611902711, 3989891921718323318] 2147516555 = [7638951002852093126, 55158244490275286, 16445974680405744991, 17489900860584105411, 2793586414168798430, 9855092700979028371, 5974667239882871453, 290037972167191602, 13016949369551750669, 8224380784580204099, 1413169272261356806, 8404148824585748969, 15106740155716875780, 1397305642972413260, 15195343939820524124, 12756656655898519080, 14626704171041504546, 8066532585750032555, 1718538166109219441, 14198781144653405974, 10284356005881889534, 14211092401227845031, 14375738720549801443, 11331777720662792937, 15652332724444464325] := by decide
  have hr13 : keccakRound [7638951002852093126, 55158244490275286, 16445974680405744991, 17489900860584105411, 2793586414168798430, 9855092700979028371, 5974667239882871453, 290037972167191602, 13016949369551750669, 8224380784580204099, 1413169272261356806, 8404148824585748969, 15106740155716875780, 1397305642972413260, 15195343939820524124, 12756656655898519080, 14626704171041504546, 8066532585750032555, 1718538166109219441, 14198781144653405974, 10284356005881889534, 14211092401227845031, 14375738720549801443, 11331777720662792937, 15652332724444464325] 9223372036854775947 = [2501391769757913668, 15400058365782309930, 10098392248126022012, 108789637303491536, 15899773759077958371, 15087691583433205970, 17885036448523110754, 15224718092546783172, 16264620261808444013, 2495030280999286391, 18192739131482301473, 13291830237512239527, 2837946346311044660, 6016576998256190855, 10581169593062985783, 11740655626972806587, 3725601357341054596, 9202241319586806882, 18107113135602137395, 18167522372396290162, 8038132130141407771, 4908040754949594679, 10602218720855636312, 5638476937032151113, 16150738295502660000] := by decide
  have hr14 : keccakRound [2501391769757913668, 15400058365782309930, 10098392248126022012, 108789637303491536, 15899773759077958371, 15087691583433205970, 17885036448523110754, 15224718092546783172, 16264620261808444013, 2495030280999286391, 18192739131482301473, 13291830237512239527, 2837946346311044660, 6016576998256190855, 10581169593062985783, 11740655626972806587, 3725601357341054596, 9202241319586806882, 18107113135602137395, 18167522372396290162, 8038132130141407771, 4908040754949594679, 10602218720855636312, 5638476937032151113, 16150738295502660000] 9223372036854808713 = [3951888729103887269, 10923771774096765255, 2041945108898272645, 14999309442006772102, 7850183409376938145, 16229667712956054439, 8070407051291402419, 14399189123134687082, 6378420377514246352, 11052983885377325296, 8975615890050243728, 15602684080791052107, 8974466407643539131, 9422500964384312703, 18181157069520858535, 12830119465330228382, 1358279457353425267, 3197335977631642954, 18144245847398770907, 6659489967618509223, 4300940975972136800, 15873508054126515571, 13794725538273964268, 18122559857698769065, 4308002653701962020] := by decide
  have hr15 : keccakRound [3951888729103887269, 10923771774096765255, 2041945108898272645, 14999309442006772102, 7850183409376938145, 16229667712956054439, 8070407051291402419, 14399189123134687082, 6378420377514246352, 11052983885377325296, 8975615890050243728, 15602684080791052107, 8974466407643539131, 9422500964384312703, 18181157069520858535, 12830119465330228382, 1358279457353425267, 3197335977631642954, 18144245847398770907, 6659489967618509223, 4300940975972136800, 15873508054126515571, 13794725538273964268, 18122559857698769065, 4308002653701962020] 9223372036854808579 = [500347301659222936, 18177004007550753665, 1447236023608308277, 2612934976817227294, 16046654268856058133, 3197426044387625636, 15113596415678183097, 8677638838749226114, 16476818362482669352, 17980871883892008269, 4329850630115437743, 5255488805060638925, 14217751559814273009, 18182603468136722181, 13250262121915053193, 1551476025231572411, 15462294398222647771, 17846458411074657803, 6904546396518738060, 8886552516665145351, 2358759717777676259, 2616624570568225213, 1023254909306317155, 17055440773623302329, 11466391955938387946] := by decide
  have hr16 : keccakRound [500347301659222936, 18177004007550753665, 1447236023608308277, 2612934976817227294, 16046654268856058133, 3197426044387625636, 15113596415678183097, 8677638838749226114, 16476818362482669352, 17980871883892008269, 4329850630115437743, 5255488805060638925, 14217751559814273009, 18182603468136722181, 13250262121915053193, 1551476025231572411, 15462294398222647771, 17846458411074657803, 6904546396518738060, 8886552516665145351, 2358759717777676259, 2616624570568225213, 1023254909306317155, 17055440773623302329, 11466391955938387946] 9223372036854808578 = [11372452979302642312, 2080210812145232550, 14709643076884522921, 4183457996587460571, 9537560357477539209, 8342350463652561564, 14385214723766718391, 588625373281477025, 14072977173629016669, 13035975061098900348, 8446206948338638957, 332627954894882238, 9428692289909898557, 17597136899488712639, 10267509402087434737, 16084779844245600454, 565707491367975128, 8507939453090425640, 5672829221784300582, 17227728455829384248, 12074030058996750074, 4571130670029267435, 8913220420324979995, 18439782361687057797, 9370859654407449007] := by decide
  have hr17 : keccakRound [11372452979302642312, 2080210812145232550, 14709643076884522921, 4183457996587460571, 9537560357477539209, 8342350463652561564, 14385214723766718391, 588625373281477025, 14072977173629016669, 13035975061098900348, 8446206948338638957, 332627954894882238, 9428692289909898557, 17597136899488712639, 10267509402087434737, 16084779844245600454, 565707491367975128, 8507939453090425640, 5672829221784300582, 17227728455829384248, 12074030058996750074, 4571130670029267435, 8913220420324979995, 18439782361687057797, 9370859654407449007] 9223372036854775936 = [336513693851761291, 12961267559695048326, 15171959151923239918, 3624957237462846886, 6108400476559490759, 11676328804576212566, 9983687811807399483, 6230715734713436939, 5474771974611581647, 6742906450076024287, 14399207793536445788, 14517517244603165493, 13682569140402983662, 13946999278501576086, 2382408513640704509, 13872200166946837222, 5168713060446509550, 540055478012532146, 1996373740023719432, 13486937160375543157, 6136512291720521562, 4041771517042849412, 8771697130968566038, 8837074657448039621, 179216459479471756] := by decide
  have hr18 : keccakRound [336513693851761291, 12961267559695048326, 15171959151923239918, 3624957237462846886, 6108400476559490759, 11676328804576212566, 9983687811807399483, 6230715734713436939, 5474771974611581647, 6742906450076024287, 14399207793536445788, 14517517244603165493, 13682569140402983662, 13946999278501576086, 2382408513640704509, 13872200166946837222, 5168713060446509550, 540055478012532146, 1996373740023719432, 13486937160375543157, 6136512291720521562, 4041771517042849412, 8771697130968566038, 8837074657448039621, 179216459479471756] 32778 = [2249542134296626008, 5346243685855220990, 13597312922797918630, 9579701702266309425, 2540380963329366038, 2335515680438958789, 17148179942902317611, 5683437162661465496, 18190574949191468100, 8439374348270151064, 10796347411499740078, 15804440246232218512, 14946259837137364273, 13502513296520331145, 12726294201685699789, 11425806481650528813, 16392041609704491832, 2400741795268753504, 9831904896068656407, 3626308203576160954, 7547214987939413950, 17048136913512515482, 1726525908321156448, 11949385293671661747, 706799626449223580] := by decide
  have hr19 : keccakRound [2249542134296626008, 5346243685855220990, 13597312922797918630, 9579701702266309425, 2540380963329366038, 2335515680438958789, 17148179942902317611, 5683437162661465496, 18190574949191468100, 8439374348270151064, 10796347411499740078, 15804440246232218512, 14946259837137364273, 13502513296520331145, 12726294201685699789, 11425806481650528813, 16392041609704491832, 2400741795268753504, 9831904896068656407, 3626308203576160954, 7547214987939413950, 17048136913512515482, 1726525908321156448, 11949385293671661747, 706799626449223580] 9223372039002259466 = [7792230730772520138, 2833285993874549324, 5600083228143268382, 3642209697734534610, 9698395573260612797, 14188655339762567648, 17821496186496361725, 16650359328349479021, 7744208139979631782, 17011039352790769881, 2531197316190685891, 6007845509836682140, 7287576849738216395, 6444549368791048421, 354826620778675477, 262364762185333045, 2368861397329724439, 11538868112196903626, 9785096565006484596, 5982624662561414366, 13441931429642129615, 118979541577527692, 2484679498501262693, 7051234933480263913, 15995262383592038802] := by decide
  have hr20 : keccakRound [7792230730772520138, 2833285993874549324, 5600083228143268382, 3642209697734534610, 9698395573260612797, 14188655339762567648, 17821496186496361725, 16650359328349479021, 7744208139979631782, 17011039352790769881, 2531197316190685891, 6007845509836682140, 7287576849738216395, 6444549368791048421, 354826620778675477, 262364762185333045, 2368861397329724439, 11538868112196903626, 9785096565006484596, 5982624662561414366, 13441931429642129615, 118979541577527692, 2484679498501262693, 7051234933480263913, 15995262383592038802] 9223372039002292353 = [2053913800808126751, 12166641822067535849, 16125809523260406137, 10393790053943947203, 12361653864798107614, 7679896421636500633, 9026034829540815709, 4336093341446339916, 6905448748114572843, 6749975032641672863, 17175518716863481075, 359114598394130530, 13786676920904793116, 1595546854992278675, 5318664067760015532, 4160318373689596156, 15033806206031871537, 18225359084086796174, 8773650439806019216, 5038875685641869431, 5776254593557611438, 16445745799390471253, 9129939329891934980, 14264486943870470744, 9669252573602366151] := by decide
  have hr21 : keccakRound [2053913800808126751, 12166641822067535849, 16125809523260406137, 10393790053943947203, 12361653864798107614, 7679896421636500633, 9026034829540815709, 4336093341446339916, 6905448748114572843, 6749975032641672863, 17175518716863481075, 359114598394130530, 13786676920904793116, 1595546854992278675, 5318664067760015532, 4160318373689596156, 15033806206031871537, 18225359084086796174, 8773650439806019216, 5038875685641869431, 5776254593557611438, 16445745799390471253, 9129939329891934980, 14264486943870470744, 9669252573602366151] 9223372036854808704 = [8867578227565745670, 12579523618177158154, 8658454833300462007, 403230672200396515, 713757169062438999, 4134506853468563271, 10189874787770021420, 14758349504238240896, 8811877099058490657, 10093866252627364562, 14801201549185960106, 12186020630220418118, 10947555997475095953, 16761302754228276177, 10569435507234290093, 11328943749467603911, 15157777265461736546, 15599601316372712363, 4712058290749006196, 261342876448085720, 6823706088615843754, 10753942518626197542, 2566099643849068691, 17414717848841222885, 11661990206404596886] := by decide
  have hr22 : keccakRound [8867578227565745670, 12579523618177158154, 8658454833300462007, 403230672200396515, 713757169062438999, 4134506853468563271, 10189874787770021420, 14758349504238240896, 8811877099058490657, 10093866252627364562, 14801201549185960106, 12186020630220418118, 10947555997475095953, 16761302754228276177, 10569435507234290093, 11328943749467603911, 15157777265461736546, 15599601316372712363, 4712058290749006196, 261342876448085720, 6823706088615843754, 10753942518626197542, 2566099643849068691, 17414717848841222885, 11661990206404596886] 2147483649 = [11467164200374509084, 2680487650036566217, 9944098264818094758, 13328671103910408333, 17669099374977099538, 2601907324266419966, 9547594556468656463, 3324984349169320479, 4738495889378988423, 13080244401419671223, 12661336534940769826, 12071424842450234543, 14860684040020032259, 13444455365563276223, 7598623645084017272, 8859882599194070078, 11618034219787265106, 8232371123736786259, 7566199491496718669, 3911388084962148619, 13272471787243208564, 4134644993030796074, 14986466115538923818, 6283948535160856486, 11539131979524385535] := by decide
  have hr23 : keccakRound [11467164200374509084, 2680487650036566217, 9944098264818094758, 13328671103910408333, 17669099374977099538, 2601907324266419966, 9547594556468656463, 3324984349169320479, 4738495889378988423, 13080244401419671223, 12661336534940769826, 12071424842450234543, 14860684040020032259, 13444455365563276223, 7598623645084017272, 8859882599194070078, 11618034219787265106, 8232371123736786259, 7566199491496718669, 3911388084962148619, 13272471787243208564, 4134644993030796074, 14986466115538923818, 6283948535160856486, 11539131979524385535] 9223372039002292232 = [4135192749453529630, 145431686173841015, 13010447823122529019, 16399542985134101284, 12850449894244423978, 9525749776793389743, 16974379188535714468, 11380315270682875185, 855606725497383560, 11297874655289813624, 12796644847832622985, 11849212402512067830, 610655074741688459, 9070689427258295783, 9270280884217508600, 5993041398662285297, 10247825894345793823, 14015639551756389241, 1916772381909487325, 12897069173570169546, 10368385328859575322, 699685099860759174, 9053514886032444446, 11187474606239244779, 175485003479459832] := by decide
  have hkf : keccakF [1328794008246644839, 8733247376846082963, 842314836266930786, 17354526652022467928, 1328794008246644839, 8733247376846082963, 842314836266930786, 17354526652022467928, 6, 0, 0, 0, 0, 0, 0, 0, 9223372036854775808, 0, 0, 0, 0, 0, 0, 0, 0] = [4135192749453529630, 145431686173841015, 13010447823122529019, 16399542985134101284, 12850449894244423978, 9525749776793389743, 16974379188535714468, 11380315270682875185, 855606725497383560, 11297874655289813624, 12796644847832622985, 11849212402512067830, 610655074741688459, 9070689427258295783, 9270280884217508600, 5993041398662285297, 10247825894345793823, 14015639551756389241, 1916772381909487325, 12897069173570169546, 10368385328859575322, 699685099860759174, 9053514886032444446, 11187474606239244779, 175485003479459832] := by
    simp only [keccakF, keccakRC, List.foldl_cons, List.foldl_nil, hr0, hr1, hr2, hr3, hr4, hr5, hr6, hr7, hr8, hr9, hr10, hr11, hr12, hr13, hr14, hr15, hr16, hr17, hr18, hr19, hr20, hr21, hr22, hr23]
  have habs : absorbBlocks 136 (List.replicate 25 0) [103, 112, 53, 57, 28, 211, 112, 18, 147, 211, 133, 240, 55, 186, 50, 121, 98, 82, 187, 124, 225, 128, 176, 11, 88, 45, 217, 178, 10, 170, 215, 240, 103, 112, 53, 57, 28, 211, 112, 18, 147, 211, 133, 240, 55, 186, 50, 121, 98, 82, 187, 124, 225, 128, 176, 11, 88, 45, 217, 178, 10, 170, 215, 240, 6, 0, 0, 0, 0, 0, 0, 0, 0, 0, 0, 0, 0, 0, 0, 0, 0, 0, 0, 0, 0, 0, 0, 0, 0, 0, 0, 0, 0, 0, 0, 0, 0, 0, 0, 0, 0, 0, 0, 0, 0, 0, 0, 0, 0, 0, 0, 0, 0, 0, 0, 0, 0, 0, 0, 0, 0, 0, 0, 0, 0, 0, 0, 0, 0, 0, 0, 0, 0, 0, 0, 128] = [4135192749453529630, 145431686173841015, 13010447823122529019, 16399542985134101284, 12850449894244423978, 9525749776793389743, 16974379188535714468, 11380315270682875185, 855606725497383560, 11297874655289813624, 12796644847832622985, 11849212402512067830, 610655074741688459, 9070689427258295783, 9270280884217508600, 5993041398662285297, 10247825894345793823, 14015639551756389241, 1916772381909487325, 12897069173570169546, 10368385328859575322, 699685099860759174, 9053514886032444446, 11187474606239244779, 175485003479459832] := by
    rw [show (136 : ℕ) = 135 + 1 from rfl, absorbBlocks_step,
        show List.take 136 [103, 112, 53, 57, 28, 211, 112, 18, 147, 211, 133, 240, 55, 186, 50, 121, 98, 82, 187, 124, 225, 128, 176, 11, 88, 45, 217, 178, 10, 170, 215, 240, 103, 112, 53, 57, 28, 211, 112, 18, 147, 211, 133, 240, 55, 186, 50, 121, 98, 82, 187, 124, 225, 128, 176, 11, 88, 45, 217, 178, 10, 170, 215, 240, 6, 0, 0, 0, 0, 0, 0, 0, 0, 0, 0, 0, 0, 0, 0, 0, 0, 0, 0, 0, 0, 0, 0, 0, 0, 0, 0, 0, 0, 0, 0, 0, 0, 0, 0, 0, 0, 0, 0, 0, 0, 0, 0, 0, 0, 0, 0, 0, 0, 0, 0, 0, 0, 0, 0, 0, 0, 0, 0, 0, 0, 0, 0, 0, 0, 0, 0, 0, 0, 0, 0, 128] = [103, 112, 53, 57, 28, 211, 112, 18, 147, 211, 133, 240, 55, 186, 50, 121, 98, 82, 187, 124, 225, 128, 176, 11, 88, 45, 217, 178, 10, 170, 215, 240, 103, 112, 53, 57, 28, 211, 112, 18, 147, 211, 133, 240, 55, 186, 50, 121, 98, 82, 187, 124, 225, 128, 176, 11, 88, 45, 217, 178, 10, 170, 215, 240, 6, 0, 0, 0, 0, 0, 0, 0, 0, 0, 0, 0, 0, 0, 0, 0, 0, 0, 0, 0, 0, 0, 0, 0, 0, 0, 0, 0, 0, 0, 0, 0, 0, 0, 0, 0, 0, 0, 0, 0, 0, 0, 0, 0, 0, 0, 0, 0, 0, 0, 0, 0, 0, 0, 0, 0, 0, 0, 0, 0, 0, 0, 0, 0, 0, 0, 0, 0, 0, 0, 0, 128] from by decide,
        show List.drop 136 [103, 112, 53, 57, 28, 211, 112, 18, 147, 211, 133, 240, 55, 186, 50, 121, 98, 82, 187, 124, 225, 128, 176, 11, 88, 45, 217, 178, 10, 170, 215, 240, 103, 112, 53, 57, 28, 211, 112, 18, 147, 211, 133, 240, 55, 186, 50, 121, 98, 82, 187, 124, 225, 128, 176, 11, 88, 45, 217, 178, 10, 170, 215, 240, 6, 0, 0, 0, 0, 0, 0, 0, 0, 0, 0, 0, 0, 0, 0, 0, 0, 0, 0, 0, 0, 0, 0, 0, 0, 0, 0, 0, 0, 0, 0, 0, 0, 0, 0, 0, 0, 0, 0, 0, 0, 0, 0, 0, 0, 0, 0, 0, 0, 0, 0, 0, 0, 0, 0, 0, 0, 0, 0, 0, 0, 0, 0, 0, 0, 0, 0, 0, 0, 0, 0, 128] = ([] : List Nat) from by decide,
        hxor, hkf, absorbBlocks_nil]
  simp only [sha3_256, hpad, show ([103, 112, 53, 57, 28, 211, 112, 18, 147, 211, 133, 240, 55, 186, 50, 121, 98, 82, 187, 124, 225, 128, 176, 11, 88, 45, 217, 178, 10, 170, 215, 240, 103, 112, 53, 57, 28, 211, 112, 18, 147, 211, 133, 240, 55, 186, 50, 121, 98, 82, 187, 124, 225, 128, 176, 11, 88, 45, 217, 178, 10, 170, 215, 240, 6, 0, 0, 0, 0, 0, 0, 0, 0, 0, 0, 0, 0, 0, 0, 0, 0, 0, 0, 0, 0, 0, 0, 0, 0, 0, 0, 0, 0, 0, 0, 0, 0, 0, 0, 0, 0, 0, 0, 0, 0, 0, 0, 0, 0, 0, 0, 0, 0, 0, 0, 0, 0, 0, 0, 0, 0, 0, 0, 0, 0, 0, 0, 0, 0, 0, 0, 0, 0, 0, 0, 128] : List Nat).length = 136 from by decide, habs]
  decide

/-- Staged kernel evaluation of SHA3-256 on the message `1bcb0cbf9952a31827416592faf28876eeb9b362f1c0f587470db9cfabcc542a1ed2f27ce527633977567a1959ad0402fbfaf8e15c658eb424d3aadb74e196e3`:
each Keccak round is checked separately on literal states, keeping every
single proof obligation small. -/
theorem sha3_eval_9 : sha3_256 [27, 203, 12, 191, 153, 82, 163, 24, 39, 65, 101, 146, 250, 242, 136, 118, 238, 185, 179, 98, 241, 192, 245, 135, 71, 13, 185, 207, 171, 204, 84, 42, 30, 210, 242, 124, 229, 39, 99, 57, 119, 86, 122, 25, 89, 173, 4, 2, 251, 250, 248, 225, 92, 101, 142, 180, 36, 211, 170, 219, 116, 225, 150, 227] = [97, 193, 180, 28, 199, 91, 139, 37, 202, 167, 162, 126, 147, 39, 124, 230, 165, 51, 114, 72, 226, 57, 237, 49, 14, 194, 251, 74, 43, 255, 105, 118] := by
  have hpad : sha3Pad [27, 203, 12, 191, 153, 82, 163, 24, 39, 65, 101, 146, 250, 242, 136, 118, 238, 185, 179, 98, 241, 192, 245, 135, 71, 13, 185, 207, 171, 204, 84, 42, 30, 210, 242, 124, 229, 39, 99, 57, 119, 86, 122, 25, 89, 173, 4, 2, 251, 250, 248, 225, 92, 101, 142, 180, 36, 211, 170, 219, 116, 225, 150, 227] = [27, 203, 12, 191, 153, 82, 163, 24, 39, 65, 101, 146, 250, 242, 136, 118, 238, 185, 179, 98, 241, 192, 245, 135, 71, 13, 185, 207, 171, 204, 84, 42, 30, 210, 242, 124, 229, 39, 99, 57, 119, 86, 122, 25, 89, 173, 4, 2, 251, 250, 248, 225, 92, 101, 142, 180, 36, 211, 170, 219, 116, 225, 150, 227, 6, 0, 0, 0, 0, 0, 0, 0, 0, 0, 0, 0, 0, 0, 0, 0, 0, 0, 0, 0, 0, 0, 0, 0, 0, 0, 0, 0, 0, 0, 0, 0, 0, 0, 0, 0, 0, 0, 0, 0, 0, 0, 0, 0, 0, 0, 0, 0, 0, 0, 0, 0, 0, 0, 0, 0, 0, 0, 0, 0, 0, 0, 0, 0, 0, 0, 0, 0, 0, 0, 0, 128] := by decide
  have hxor : xorBlock (List.replicate 25 0) [27, 203, 12, 191, 153, 82, 163, 24, 39, 65, 101, 146, 250, 242, 136, 118, 238, 185, 179, 98, 241, 192, 245, 135, 71, 13, 185, 207, 171, 204, 84, 42, 30, 210, 242, 124, 229, 39, 99, 57, 119, 86, 122, 25, 89, 173, 4, 2, 251, 250, 248, 225, 92, 101, 142, 180, 36, 211, 170, 219, 116, 225, 150, 227, 6, 0, 0, 0, 0, 0, 0, 0, 0, 0, 0, 0, 0, 0, 0, 0, 0, 0, 0, 0, 0, 0, 0, 0, 0, 0, 0, 0, 0, 0, 0, 0, 0, 0, 0, 0, 0, 0, 0, 0, 0, 0, 0, 0, 0, 0, 0, 0, 0, 0, 0, 0, 0, 0, 0, 0, 0, 0, 0, 0, 0, 0, 0, 0, 0, 0, 0, 0, 0, 0, 0, 128] = [1775353498402867995, 8541343851320000807, 9796948707389979118, 3050287885933153607, 4135192749453529630, 145431686173841015, 13010447823122529019, 16399542985134101284, 6, 0, 0, 0, 0, 0, 0, 0, 9223372036854775808, 0, 0, 0, 0, 0, 0, 0, 0] := by decide
  have hr0 : keccakRound [1775353498402867995, 8541343851320000807, 9796948707389979118, 3050287885933153607, 4135192749453529630, 145431686173841015, 13010447823122529019, 16399542985134101284, 6, 0, 0, 0, 0, 0, 0, 0, 9223372036854775808, 0, 0, 0, 0, 0, 0, 0, 0] 1 = [10504534672760103576, 5458425860687733715, 8721309676455824421, 16784148051425229972, 9721728550460872324, 9341622552130426410, 3649955581478937403, 12227454265295743254, 9313187212736295052, 17356240325228434874, 15659725031928452095, 5713347533981224894, 13692557746701151868, 5936794082037177112, 2634339888228891064, 18103684816014827751, 3042160920469329694, 17795180462921160641, 10273243428529376119, 17731988387558646726, 11981333714892130092, 7587250113406319697, 16329909907398178177, 13194225273720493883, 1265426937404283808] := by decide
  have hr1 : keccakRound [10504534672760103576, 5458425860687733715, 8721309676455824421, 16784148051425229972, 9721728550460872324, 9341622552130426410, 3649955581478937403, 12227454265295743254, 9313187212736295052, 17356240325228434874, 15659725031928452095, 5713347533981224894, 13692557746701151868, 5936794082037177112, 2634339888228891064, 18103684816014827751, 3042160920469329694, 17795180462921160641, 10273243428529376119, 17731988387558646726, 11981333714892130092, 7587250113406319697, 16329909907398178177, 13194225273720493883, 1265426937404283808] 32898 = [7972976090317474032, 5695405570148243397, 14044449131472676925, 5976542331769544712, 3006982190589827405, 11474003652449371922, 6362830109840999723, 2660510578411360716, 16228800947975955804, 1311520549549643977, 6208285747541926550, 13589399504596952638, 7095226485704197143, 13816168814249346892, 5953271136117547623, 4020365324147893890, 14625316253485479572, 12892855569902014633, 17887862037221107688, 8467684244549016239, 10095392583675307944, 1246604410279773732, 10299865058435361281, 4491896190550296898, 287520602791197538] := by decide
  have hr2 : keccakRound [7972976090317474032, 5695405570148243397, 14044449131472676925, 5976542331769544712, 3006982190589827405, 11474003652449371922, 6362830109840999723, 2660510578411360716, 16228800947975955804, 1311520549549643977, 6208285747541926550, 13589399504596952638, 7095226485704197143, 13816168814249346892, 5953271136117547623, 4020365324147893890, 14625316253485479572, 12892855569902014633, 17887862037221107688, 8467684244549016239, 10095392583675307944, 1246604410279773732, 10299865058435361281, 4491896190550296898, 287520602791197538] 9223372036854808714 = [10491837077866696381, 7663305818352906450, 4794245326804045945, 4016633993635763117, 9981105545068678411, 18043250268220781941, 14017881862878170625, 14549111218242999653, 7532401057801363781, 10222429419229748448, 15517506029777708673, 7993030063028147058, 12747058933217317037, 5778963723228971407, 7404048503453507303, 6872954117997245405, 14903129983039047909, 10555642721502716864, 10190367291200727818, 14999442334818416296, 658982288030559298, 3991047961348185267, 14199342712223088172, 1826422750829195278, 15113948125547496236] := by decide
  have hr3 : keccakRound [10491837077866696381, 7663305818352906450, 4794245326804045945, 4016633993635763117, 9981105545068678411, 18043250268220781941, 14017881862878170625, 14549111218242999653, 7532401057801363781, 10222429419229748448, 15517506029777708673, 7993030063028147058, 12747058933217317037, 5778963723228971407, 7404048503453507303, 6872954117997245405, 14903129983039047909, 10555642721502716864, 10190367291200727818, 14999442334818416296, 658982288030559298, 3991047961348185267, 14199342712223088172, 1826422750829195278, 15113948125547496236] 9223372039002292224 = [2055529314520815087, 13963354822782561738, 8506364613250989238, 1877779096153387101, 8394776074191998930, 10791843148628102963, 5528196112308777505, 5395685739147267934, 15371117267332042639, 15110989498151322211, 7683854415356388862, 313985055533651820, 15584487347284717027, 9038692026959913894, 2103364417567410375, 1502800429055202004, 15444232176792417074, 15811030074414848887, 315597766117578205, 9345375118632387303, 12268480981676498674, 371075086754381338, 18175284110593564578, 10605298663147556468, 1551228451014384496] := by decide
  have hr4 : keccakRound [2055529314520815087, 13963354822782561738, 8506364613250989238, 1877779096153387101, 8394776074191998930, 10791843148628102963, 5528196112308777505, 5395685739147267934, 15371117267332042639, 15110989498151322211, 7683854415356388862, 313985055533651820, 15584487347284717027, 9038692026959913894, 2103364417567410375, 1502800429055202004, 15444232176792417074, 15811030074414848887, 315597766117578205, 9345375118632387303, 12268480981676498674, 371075086754381338, 18175284110593564578, 10605298663147556468, 1551228451014384496] 32907 = [11830765420086112955, 10883450921483636631, 2719926026663916533, 15886752959361941280, 6915334987334116101, 7276455431333103840, 1073157856614992404, 11594597069769921039, 14902527281345508342, 18272919485220413874, 1913139111828356806, 10474155797456831196, 18253624345229861844, 2069899974293857950, 6730507305872575334, 16586077178288896477, 757625972660401475, 5460002953219888502, 15130681735851359520, 8113445485664413487, 18444646389524110504, 11037535239159087870, 2900785591445033781, 8764799901523176988, 9119808630858023129] := by decide
  have hr5 : keccakRound [11830765420086112955, 10883450921483636631, 2719926026663916533, 15886752959361941280, 6915334987334116101, 7276455431333103840, 1073157856614992404, 11594597069769921039, 14902527281345508342, 18272919485220413874, 1913139111828356806, 10474155797456831196, 18253624345229861844, 2069899974293857950, 6730507305872575334, 16586077178288896477, 757625972660401475, 5460002953219888502, 15130681735851359520, 8113445485664413487, 18444646389524110504, 11037535239159087870, 2900785591445033781, 8764799901523176988, 9119808630858023129] 2147483649 = [17731349144329109303, 5256665066560880016, 9023768091201176543, 6612281424133597009, 17461768101183838064, 10329927506171106300, 12854698135832607249, 3574449433093802278, 256315476816918455, 17282868297925197351, 14090458271978012584, 1964822765097814300, 2076326662398153426, 10108146398995777051, 9232198045622919985, 11438687068720652017, 1827461142771433321, 8808307934375094599, 10078530631088637479, 4503655466906007550, 12109571458321209591, 16969482482668704629, 7676632971548639389, 136777323046160486, 17619892453357759537] := by decide
  have hr6 : keccakRound [17731349144329109303, 5256665066560880016, 9023768091201176543, 6612281424133597009, 17461768101183838064, 10329927506171106300, 12854698135832607249, 3574449433093802278, 256315476816918455, 17282868297925197351, 14090458271978012584, 1964822765097814300, 2076326662398153426, 10108146398995777051, 9232198045622919985, 11438687068720652017, 1827461142771433321, 8808307934375094599, 10078530631088637479, 4503655466906007550, 12109571458321209591, 16969482482668704629, 7676632971548639389, 136777323046160486, 17619892453357759537] 9223372039002292353 = [5072580769512038679, 12753993593025193104, 8178771804149753354, 15731749949456680261, 2379007534532978900, 9764311263131186223, 11378680756321129681, 9754910482066403865, 14140541705637281914, 13895705096464509692, 10579420385106482734, 13849611905926577855, 10485472448730183329, 15000142157917560700, 1831550721807466538, 16436821047830788417, 6645875416848692020, 18035806079792606546, 15602662692703928022, 15946733845121884970, 15033720627815153892, 9503199903050181394, 17755618840641434623, 17239415021212552189, 10395436116042233049] := by decide
  have hr7 : keccakRound [5072580769512038679, 12753993593025193104, 8178771804149753354, 15731749949456680261, 2379007534532978900, 9764311263131186223, 11378680756321129681, 9754910482066403865, 14140541705637281914, 13895705096464509692, 10579420385106482734, 13849611905926577855, 10485472448730183329, 15000142157917560700, 1831550721807466538, 16436821047830788417, 6645875416848692020, 18035806079792606546, 15602662692703928022, 15946733845121884970, 15033720627815153892, 9503199903050181394, 17755618840641434623, 17239415021212552189, 10395436116042233049] 9223372036854808585 = [340929217491602750, 12494480357026694046, 4321840034151481037, 15145807466167076163, 6591936934093384480, 8582435283774455848, 9684178717641271231, 10680100015444226658, 9166862257467459302, 5659050813356483693, 4755466174852154514, 13396480261422030930, 10374000826776816568, 12107743589937440995, 14779293680478454706, 4750210766789898598, 2355742838734750120, 14015334677082180060, 7279474952954752135, 432299058576148629, 15865292409639852992, 14330464447154489276, 18026006150702237448, 2423992304774283447, 14467293999637897847] := by decide
  have hr8 : keccakRound [340929217491602750, 12494480357026694046, 4321840034151481037, 15145807466167076163, 6591936934093384480, 8582435283774455848, 9684178717641271231, 10680100015444226658, 9166862257467459302, 5659050813356483693, 4755466174852154514, 13396480261422030930, 10374000826776816568, 12107743589937440995, 14779293680478454706, 4750210766789898598, 2355742838734750120, 14015334677082180060, 7279474952954752135, 432299058576148629, 15865292409639852992, 14330464447154489276, 18026006150702237448, 2423992304774283447, 14467293999637897847] 138 = [8219747602490985591, 8193725065669903588, 4261156832812012179, 496679784257342608, 14302907777733096855, 14855541904809532251, 8900592064687836511, 10044898495820460861, 9827364292916547137, 5782481300920322420, 7969364685607216849, 17784796640272858706, 8769632287868480209, 2548963996461482587, 11699984446379399742, 11728529363722797910, 6842102515363957708, 325832586205584536, 1095257979687050232, 1950257968502822445, 15222898005242125609, 1080909665946723841, 649015797604360153, 1416236100272580497, 7910516941763173985] := by decide
  have hr9 : keccakRound [8219747602490985591, 8193725065669903588, 4261156832812012179, 496679784257342608, 14302907777733096855, 14855541904809532251, 8900592064687836511, 10044898495820460861, 9827364292916547137, 5782481300920322420, 7969364685607216849, 17784796640272858706, 8769632287868480209, 2548963996461482587, 11699984446379399742, 11728529363722797910, 6842102515363957708, 325832586205584536, 1095257979687050232, 1950257968502822445, 15222898005242125609, 1080909665946723841, 649015797604360153, 1416236100272580497, 7910516941763173985] 136 = [10282336875261992631, 1808279931985146735, 14411964908394822957, 15182758463979244037, 18406947309120751600, 17424707989095710694, 63593410317674511, 12941554356763182152, 6669438138105289620, 6122093640000061342, 8137959006029364790, 4273427450852324861, 13703331676938526096, 11874683653489794014, 5018470628500647692, 7167667584120080100, 16496116959313797411, 13835076818887421700, 7272549742804903302, 959922040754453747, 7868598222965374028, 9711959859603483909, 14345209643831042405, 9372374786223850120, 1282571780049757305] := by decide
  have hr10 : keccakRound [10282336875261992631, 1808279931985146735, 14411964908394822957, 15182758463979244037, 18406947309120751600, 17424707989095710694, 63593410317674511, 12941554356763182152, 6669438138105289620, 6122093640000061342, 8137959006029364790, 4273427450852324861, 13703331676938526096, 11874683653489794014, 5018470628500647692, 7167667584120080100, 16496116959313797411, 13835076818887421700, 7272549742804903302, 959922040754453747, 7868598222965374028, 9711959859603483909, 14345209643831042405, 9372374786223850120, 1282571780049757305] 2147516425 = [6275638852560334898, 1571347545613161321, 13415882409862620914, 7670779165619938898, 418710286760539346, 8095563060788778744, 701722742659869967, 11140298727574086728, 7075415724533500663, 12283355695424397867, 594169945855894675, 4674181196839065688, 5912517530073069952, 16064676170128304577, 12957889221296874192, 8504006713061670615, 13253877692883411081, 3362944056215031500, 17800597967252397252, 14794005130855787647, 6134538684610226573, 7540640028011927351, 4072636763754896752, 7834846656627294833, 2422347583326528446] := by decide
  have hr11 : keccakRound [6275638852560334898, 1571347545613161321, 13415882409862620914, 7670779165619938898, 418710286760539346, 8095563060788778744, 701722742659869967, 11140298727574086728, 7075415724533500663, 12283355695424397867, 594169945855894675, 4674181196839065688, 5912517530073069952, 16064676170128304577, 12957889221296874192, 8504006713061670615, 13253877692883411081, 3362944056215031500, 17800597967252397252, 14794005130855787647, 6134538684610226573, 7540640028011927351, 4072636763754896752, 7834846656627294833, 2422347583326528446] 2147483658 = [8650468286103906385, 2779356265370965827, 6628475001890263434, 8429591992902614276, 9442361177023467017, 4197970126620405424, 608051032406357453, 13432999340873471231, 3805763041603961046, 4651647340146894375, 9325029021473377168, 15994668057029581472, 18228940627430878876, 16452008195302919700, 11531908908902914417, 5442216197510820627, 12432465052604739138, 13068535469203643978, 5099830716321249699, 9430851225265116477, 2880572052349972661, 1186583164107702022, 4285742183646338561, 14108719635557300601, 7456196424246903464] := by decide
  have hr12 : keccakRound [8650468286103906385, 2779356265370965827, 6628475001890263434, 8429591992902614276, 9442361177023467017, 4197970126620405424, 608051032406357453, 13432999340873471231, 3805763041603961046, 4651647340146894375, 9325029021473377168, 15994668057029581472, 18228940627430878876, 16452008195302919700, 11531908908902914417, 5442216197510820627, 12432465052604739138, 13068535469203643978, 5099830716321249699, 9430851225265116477, 2880572052349972661, 1186583164107702022, 4285742183646338561, 14108719635557300601, 7456196424246903464] 2147516555 = [4673253317692169410, 5640037510339876592, 8897988681592427122, 5299752870150286458, 1725924539172693150, 1415797106082695332, 8386117778402440770, 9632160590372727902, 12022936078112165440, 2512416995917016680, 6817394323187603875, 18143996277982980564, 1850675364313046342, 7274866499116567517, 11226208138578270939, 6357810642374268844, 14651669611391686207, 11058161065349925059, 13254031598640841292, 16976366330488897932, 11003437203271847670, 1211962077593850935, 10338897179152183571, 8943647502607504051, 481618389670414931] := by decide
  have hr13 : keccakRound [4673253317692169410, 5640037510339876592, 8897988681592427122, 5299752870150286458, 1725924539172693150, 1415797106082695332, 8386117778402440770, 9632160590372727902, 12022936078112165440, 2512416995917016680, 6817394323187603875, 18143996277982980564, 1850675364313046342, 7274866499116567517, 11226208138578270939, 6357810642374268844, 14651669611391686207, 11058161065349925059, 13254031598640841292, 16976366330488897932, 11003437203271847670, 1211962077593850935, 10338897179152183571, 8943647502607504051, 481618389670414931] 9223372036854775947 = [17424736282318029175, 13400344943695728590, 11768051696980119257, 13370091393741498334, 14759095402566228233, 3475249037663635759, 9694085203004136681, 14751914144440288361, 2806653564090421659, 2771450373405357401, 16251614096094292252, 15657687038152730646, 1629893449816101856, 5980786372516899633, 12594421076213284604, 2796578951700131596, 349710287322912951, 9147035952528593777, 11426695126217786847, 7861807385417054414, 5217457281569487073, 9968724724404809104, 7065363868420878398, 7291632217436582248, 8820664354123830116] := by decide
  have hr14 : keccakRound [17424736282318029175, 13400344943695728590, 11768051696980119257, 13370091393741498334, 14759095402566228233, 3475249037663635759, 9694085203004136681, 14751914144440288361, 2806653564090421659, 2771450373405357401, 16251614096094292252, 15657687038152730646, 1629893449816101856, 5980786372516899633, 12594421076213284604, 2796578951700131596, 349710287322912951, 9147035952528593777, 11426695126217786847, 7861807385417054414, 5217457281569487073, 9968724724404809104, 7065363868420878398, 7291632217436582248, 8820664354123830116] 9223372036854808713 = [17560616722548671888, 9072460100242248243, 17310642403403948876, 4013741150661485750, 16158037405351175823, 5119639208047259519, 18384974773341669380, 1404230060356625414, 17298566213438695490, 15312244845890702773, 7504821140555832118, 11606353565000034417, 11780810133978892748, 894163277670272343, 4187691122161437739, 3506186898347271644, 4368702862437732815, 9085406621980689523, 17291282993165417530, 17790350958357636410, 5303676788344960144, 5869011291884301500, 5394791755434053830, 15276255812658216598, 13421732951795809840] := by decide
  have hr15 : keccakRound [17560616722548671888, 9072460100242248243, 17310642403403948876, 4013741150661485750, 16158037405351175823, 5119639208047259519, 18384974773341669380, 1404230060356625414, 17298566213438695490, 15312244845890702773, 7504821140555832118, 11606353565000034417, 11780810133978892748, 894163277670272343, 4187691122161437739, 3506186898347271644, 4368702862437732815, 9085406621980689523, 17291282993165417530, 17790350958357636410, 5303676788344960144, 5869011291884301500, 5394791755434053830, 15276255812658216598, 13421732951795809840] 9223372036854808579 = [10210767210096371627, 11328718710412970642, 11025713935026358985, 14158133047045736174, 17091688292846946398, 5448174094790292107, 3973292979524652596, 13628580603880753920, 15252722676368214528, 12155457289970224905, 7196208094836403648, 14852972675693632803, 6967046985035114561, 14929996196764622797, 2526150827241774150, 16653171380743487420, 8751761780956903549, 18399225837437061629, 2728160035898416150, 10070326279037651487, 1429792870472786361, 146417781682074817, 15143256855632366393, 2494817548544945637, 6120034917457244472] := by decide
  have hr16 : keccakRound [10210767210096371627, 11328718710412970642, 11025713935026358985, 14158133047045736174, 17091688292846946398, 5448174094790292107, 3973292979524652596, 13628580603880753920, 15252722676368214528, 12155457289970224905, 7196208094836403648, 14852972675693632803, 6967046985035114561, 14929996196764622797, 2526150827241774150, 16653171380743487420, 8751761780956903549, 18399225837437061629, 2728160035898416150, 10070326279037651487, 1429792870472786361, 146417781682074817, 15143256855632366393, 2494817548544945637, 6120034917457244472] 9223372036854808578 = [9403839559879449961, 7191328197679235923, 7662819808907522954, 17180792769179191698, 16786026411420190799, 7376687925929330730, 15024327439988938237, 662185776344429607, 9235638146769532916, 4522814133918072177, 3145101718531959886, 5453948075012974177, 12779558109995158936, 725999428500791732, 16685157186446348701, 16081197836804717220, 10755612953093251016, 15708493088335882549, 11402358007463454520, 14157111968498267718, 3267614767644141337, 10693472285333949522, 8244303192995586989, 6533087812640512139, 10636412016049586866] := by decide
  have hr17 : keccakRound [9403839559879449961, 7191328197679235923, 7662819808907522954, 17180792769179191698, 16786026411420190799, 7376687925929330730, 15024327439988938237, 662185776344429607, 9235638146769532916, 4522814133918072177, 3145101718531959886, 5453948075012974177, 12779558109995158936, 725999428500791732, 16685157186446348701, 16081197836804717220, 10755612953093251016, 15708493088335882549, 11402358007463454520, 14157111968498267718, 3267614767644141337, 10693472285333949522, 8244303192995586989, 6533087812640512139, 10636412016049586866] 9223372036854775936 = [10600930852728081159, 6017642450911119341, 1391745085540619138, 18149460839083961538, 13255075584989770363, 1700652918904325141, 14097502286507819363, 10544786319600385425, 11082637384543274419, 12781869134026697031, 16011817765363600753, 8847495683422595956, 15912277031144827015, 13426851725937887806, 5282687413777482451, 3550980050215573866, 11068116695474698905, 4308339440094961983, 7967006406861693142, 4929151524650790377, 3803145310990154823, 18057797311675434388, 7673370011820321792, 8456221434637993657, 11815481410763007433] := by decide
  have hr18 : keccakRound [10600930852728081159, 6017642450911119341, 1391745085540619138, 18149460839083961538, 13255075584989770363, 1700652918904325141, 14097502286507819363, 10544786319600385425, 11082637384543274419, 12781869134026697031, 16011817765363600753, 8847495683422595956, 15912277031144827015, 13426851725937887806, 5282687413777482451, 3550980050215573866, 11068116695474698905, 4308339440094961983, 7967006406861693142, 4929151524650790377, 3803145310990154823, 18057797311675434388, 7673370011820321792, 8456221434637993657, 11815481410763007433] 32778 = [4036910194094652021, 5699279374780719267, 5471502296366011643, 5728743822549370477, 6664543399734425348, 13850871536089620408, 7209038088799844550, 2446927022095126025, 13843004830278284116, 16758726057047840404, 16765092037292280306, 3368650282118109639, 10975015917608847325, 11992002987467151281, 5773758235057995127, 782788417361363004, 15639455429512163296, 8254593986918790548, 8644580138715208350, 6416427244072677548, 2841075455443054829, 6411040872798440919, 2613485883059982278, 13336062389043997582, 3833219393039866656] := by decide
  have hr19 : keccakRound [4036910194094652021, 5699279374780719267, 5471502296366011643, 5728743822549370477, 6664543399734425348, 13850871536089620408, 7209038088799844550, 2446927022095126025, 13843004830278284116, 16758726057047840404, 16765092037292280306, 3368650282118109639, 10975015917608847325, 11992002987467151281, 5773758235057995127, 782788417361363004, 15639455429512163296, 8254593986918790548, 8644580138715208350, 6416427244072677548, 2841075455443054829, 6411040872798440919, 2613485883059982278, 13336062389043997582, 3833219393039866656] 9223372039002259466 = [2901049237729806891, 1074391100595443106, 9419788406089628476, 7497909311870095537, 12685162630689160985, 5634223914182752687, 11719593059993484499, 5161349471521705435, 5588673784574613940, 17099476661685683516, 7407115838988742985, 16657517493620468698, 5977796489160829527, 1458849890130692552, 3834018980796208882, 6998170246010768814, 11382566326549106950, 13431609471378484074, 10655128198780623359, 13289244191406586483, 4658066493216109975, 1097426415459524733, 9793252951673165721, 13007655443212761382, 10131251293433182016] := by decide
  have hr20 : keccakRound [2901049237729806891, 1074391100595443106, 9419788406089628476, 7497909311870095537, 12685162630689160985, 5634223914182752687, 11719593059993484499, 5161349471521705435, 5588673784574613940, 17099476661685683516, 7407115838988742985, 16657517493620468698, 5977796489160829527, 1458849890130692552, 3834018980796208882, 6998170246010768814, 11382566326549106950, 13431609471378484074, 10655128198780623359, 13289244191406586483, 4658066493216109975, 1097426415459524733, 9793252951673165721, 13007655443212761382, 10131251293433182016] 9223372039002292353 = [14201016077642599439, 1830868818431983377, 10589479724557855469, 7946285361125187074, 8525410516236965135, 1890604822750701169, 5229710050066144213, 7698207363396271332, 11342029877500289823, 17001236929209916418, 18345460997148539313, 17670936077975585216, 16995934308521645763, 6396941161096793550, 3038913635170074000, 2791349220540544959, 14163321761910312268, 2087474833003671121, 5834944087377590181, 3288977208849647450, 15976518409924907059, 4555709552442987000, 1964043956429671130, 2780840062029235909, 16861246692202589685] := by decide
  have hr21 : keccakRound [14201016077642599439, 1830868818431983377, 10589479724557855469, 7946285361125187074, 8525410516236965135, 1890604822750701169, 5229710050066144213, 7698207363396271332, 11342029877500289823, 17001236929209916418, 18345460997148539313, 17670936077975585216, 16995934308521645763, 6396941161096793550, 3038913635170074000, 2791349220540544959, 14163321761910312268, 2087474833003671121, 5834944087377590181, 3288977208849647450, 15976518409924907059, 4555709552442987000, 1964043956429671130, 2780840062029235909, 16861246692202589685] 9223372036854808704 = [9884310591889768794, 2196356571512280328, 671512286396408975, 13332463993594209133, 11989235622930151008, 15865184551519014772, 9865043536706697434, 2648162488595289881, 5060258826504245069, 13634364379610877579, 10856368095636805293, 13781584177712966370, 7520088795502762486, 14831537878885788613, 4721116886677670527, 9930197911483023327, 15816219731209569231, 14334053053741926156, 1281398572522630286, 11738049671981133598, 11505793796473591916, 6134693909539885717, 3900810010341330513, 4734762962178716993, 3764554075788187510] := by decide
  have hr22 : keccakRound [9884310591889768794, 2196356571512280328, 671512286396408975, 13332463993594209133, 11989235622930151008, 15865184551519014772, 9865043536706697434, 2648162488595289881, 5060258826504245069, 13634364379610877579, 10856368095636805293, 13781584177712966370, 7520088795502762486, 14831537878885788613, 4721116886677670527, 9930197911483023327, 15816219731209569231, 14334053053741926156, 1281398572522630286, 11738049671981133598, 11505793796473591916, 6134693909539885717, 3900810010341330513, 4734762962178716993, 3764554075788187510] 2147483649 = [11647512569640437336, 1475095947541829713, 11321593557173488992, 6446839311189351348, 7777703414611605451, 11639783355005904842, 4797703245370710657, 989837897235750952, 5436087211658091173, 16917118240647789705, 535576226427164811, 13466998204186828019, 15477459624702091853, 11994210897809530223, 3092868750731277275, 4368670529627980387, 9413246104846493839, 4120415715663159744, 15708703125889765889, 14226506556682841935, 5242114241048184236, 14174924706707917176, 18120542666789936907, 4788307398240507456, 3440590787366414187] := by decide
  have hr23 : keccakRound [11647512569640437336, 1475095947541829713, 11321593557173488992, 6446839311189351348, 7777703414611605451, 11639783355005904842, 4797703245370710657, 989837897235750952, 5436087211658091173, 16917118240647789705, 535576226427164811, 13466998204186828019, 15477459624702091853, 11994210897809530223, 3092868750731277275, 4368670529627980387, 9413246104846493839, 4120415715663159744, 15708703125889765889, 14226506556682841935, 5242114241048184236, 14174924706707917176, 18120542666789936907, 4788307398240507456, 3440590787366414187] 9223372039002292232 = [2705356911904342369, 16608193040273811402, 3597595321379730341, 8532631530436805134, 9556504255451701184, 12620793217017630036, 4148806009284396939, 10597134548278458088, 3078948186736124326, 3545690377929795741, 15750542947608169588, 8924446022509394102, 5754961076817093782, 15409202827118171199, 15683618609544992453, 12802999843782407747, 1662549314703737225, 5239513065900503303, 12072855532365242847, 17606517634353304086, 9190265016764379272, 771938695861604164, 1157202988625265458, 259430126000796083, 18334198062801952651] := by decide
  have hkf : keccakF [1775353498402867995, 8541343851320000807, 9796948707389979118, 3050287885933153607, 4135192749453529630, 145431686173841015, 13010447823122529019, 16399542985134101284, 6, 0, 0, 0, 0, 0, 0, 0, 9223372036854775808, 0, 0, 0, 0, 0, 0, 0, 0] = [2705356911904342369, 16608193040273811402, 3597595321379730341, 8532631530436805134, 9556504255451701184, 12620793217017630036, 4148806009284396939, 10597134548278458088, 3078948186736124326, 3545690377929795741, 15750542947608169588, 8924446022509394102, 5754961076817093782, 15409202827118171199, 15683618609544992453, 12802999843782407747, 1662549314703737225, 5239513065900503303, 12072855532365242847, 17606517634353304086, 9190265016764379272, 771938695861604164, 1157202988625265458, 259430126000796083, 18334198062801952651] := by
    simp only [keccakF, keccakRC, List.foldl_cons, List.foldl_nil, hr0, hr1, hr2, hr3, hr4, hr5, hr6, hr7, hr8, hr9, hr10, hr11, hr12, hr13, hr14, hr15, hr16, hr17, hr18, hr19, hr20, hr21, hr22, hr23]
  have habs : absorbBlocks 136 (List.replicate 25 0) [27, 203, 12, 191, 153, 82, 163, 24, 39, 65, 101, 146, 250, 242, 136, 118, 238, 185, 179, 98, 241, 192, 245, 135, 71, 13, 185, 207, 171, 204, 84, 42, 30, 210, 242, 124, 229, 39, 99, 57, 119, 86, 122, 25, 89, 173, 4, 2, 251, 250, 248, 225, 92, 101, 142, 180, 36, 211, 170, 219, 116, 225, 150, 227, 6, 0, 0, 0, 0, 0, 0, 0, 0, 0, 0, 0, 0, 0, 0, 0, 0, 0, 0, 0, 0, 0, 0, 0, 0, 0, 0, 0, 0, 0, 0, 0, 0, 0, 0, 0, 0, 0, 0, 0, 0, 0, 0, 0, 0, 0, 0, 0, 0, 0, 0, 0, 0, 0, 0, 0, 0, 0, 0, 0, 0, 0, 0, 0, 0, 0, 0, 0, 0, 0, 0, 128] = [2705356911904342369, 16608193040273811402, 3597595321379730341, 8532631530436805134, 9556504255451701184, 12620793217017630036, 4148806009284396939, 10597134548278458088, 3078948186736124326, 3545690377929795741, 15750542947608169588, 8924446022509394102, 5754961076817093782, 15409202827118171199, 15683618609544992453, 12802999843782407747, 1662549314703737225, 5239513065900503303, 12072855532365242847, 17606517634353304086, 9190265016764379272, 771938695861604164, 1157202988625265458, 259430126000796083, 18334198062801952651] := by
    rw [show (136 : ℕ) = 135 + 1 from rfl, absorbBlocks_step,
        show List.take 136 [27, 203, 12, 191, 153, 82, 163, 24, 39, 65, 101, 146, 250, 242, 136, 118, 238, 185, 179, 98, 241, 192, 245, 135, 71, 13, 185, 207, 171, 204, 84, 42, 30, 210, 242, 124, 229, 39, 99, 57, 119, 86, 122, 25, 89, 173, 4, 2, 251, 250, 248, 225, 92, 101, 142, 180, 36, 211, 170, 219, 116, 225, 150, 227, 6, 0, 0, 0, 0, 0, 0, 0, 0, 0, 0, 0, 0, 0, 0, 0, 0, 0, 0, 0, 0, 0, 0, 0, 0, 0, 0, 0, 0, 0, 0, 0, 0, 0, 0, 0, 0, 0, 0, 0, 0, 0, 0, 0, 0, 0, 0, 0, 0, 0, 0, 0, 0, 0, 0, 0, 0, 0, 0, 0, 0, 0, 0, 0, 0, 0, 0, 0, 0, 0, 0, 128] = [27, 203, 12, 191, 153, 82, 163, 24, 39, 65, 101, 146, 250, 242, 136, 118, 238, 185, 179, 98, 241, 192, 245, 135, 71, 13, 185, 207, 171, 204, 84, 42, 30, 210, 242, 124, 229, 39, 99, 57, 119, 86, 122, 25, 89, 173, 4, 2, 251, 250, 248, 225, 92, 101, 142, 180, 36, 211, 170, 219, 116, 225, 150, 227, 6, 0, 0, 0, 0, 0, 0, 0, 0, 0, 0, 0, 0, 0, 0, 0, 0, 0, 0, 0, 0, 0, 0, 0, 0, 0, 0, 0, 0, 0, 0, 0, 0, 0, 0, 0, 0, 0, 0, 0, 0, 0, 0, 0, 0, 0, 0, 0, 0, 0, 0, 0, 0, 0, 0, 0, 0, 0, 0, 0, 0, 0, 0, 0, 0, 0, 0, 0, 0, 0, 0, 128] from by decide,
        show List.drop 136 [27, 203, 12, 191, 153, 82, 163, 24, 39, 65, 101, 146, 250, 242, 136, 118, 238, 185, 179, 98, 241, 192, 245, 135, 71, 13, 185, 207, 171, 204, 84, 42, 30, 210, 242, 124, 229, 39, 99, 57, 119, 86, 122, 25, 89, 173, 4, 2, 251, 250, 248, 225, 92, 101, 142, 180, 36, 211, 170, 219, 116, 225, 150, 227, 6, 0, 0, 0, 0, 0, 0, 0, 0, 0, 0, 0, 0, 0, 0, 0, 0, 0, 0, 0, 0, 0, 0, 0, 0, 0, 0, 0, 0, 0, 0, 0, 0, 0, 0, 0, 0, 0, 0, 0, 0, 0, 0, 0, 0, 0, 0, 0, 0, 0, 0, 0, 0, 0, 0, 0, 0, 0, 0, 0, 0, 0, 0, 0, 0, 0, 0, 0, 0, 0, 0, 128] = ([] : List Nat) from by decide,
        hxor, hkf, absorbBlocks_nil]
  simp only [sha3_256, hpad, show ([27, 203, 12, 191, 153, 82, 163, 24, 39, 65, 101, 146, 250, 242, 136, 118, 238, 185, 179, 98, 241, 192, 245, 135, 71, 13, 185, 207, 171, 204, 84, 42, 30, 210, 242, 124, 229, 39, 99, 57, 119, 86, 122, 25, 89, 173, 4, 2, 251, 250, 248, 225, 92, 101, 142, 180, 36, 211, 170, 219, 116, 225, 150, 227, 6, 0, 0, 0, 0, 0, 0, 0, 0, 0, 0, 0, 0, 0, 0, 0, 0, 0, 0, 0, 0, 0, 0, 0, 0, 0, 0, 0, 0, 0, 0, 0, 0, 0, 0, 0, 0, 0, 0, 0, 0, 0, 0, 0, 0, 0, 0, 0, 0, 0, 0, 0, 0, 0, 0, 0, 0, 0, 0, 0, 0, 0, 0, 0, 0, 0, 0, 0, 0, 0, 0, 128] : List Nat).length = 136 from by decide, habs]
  decide

/-- Value of the first-level pair hash of the decoded leaves aa, bb. -/
theorem hashPair_aa_bb : hashPair "aa" "bb" = "f60f0c63a0f4b8d3ff5e6b997933f3d12007cc6201c2c4f7b88e11cdf8f951ae" := by
  simp only [hashPair, show hexDecodeD "aa" ++ hexDecodeD "bb" = [170, 187] from by decide,
    sha3_eval_1]
  decide

/-- Value of the first-level pair hash of the (duplicated) decoded leaf cc. -/
theorem hashPair_cc_cc : hashPair "cc" "cc" = "cd57f59e64af4e426ec802b66da318af929352d76c68686dac9f9e4fe1cec111" := by
  simp only [hashPair, show hexDecodeD "cc" ++ hexDecodeD "cc" = [204, 204] from by decide,
    sha3_eval_2]
  decide

/-- Value of the second-level pair hash, i.e. the Merkle root of the code. -/
theorem hashPair_level2 : hashPair "f60f0c63a0f4b8d3ff5e6b997933f3d12007cc6201c2c4f7b88e11cdf8f951ae" "cd57f59e64af4e426ec802b66da318af929352d76c68686dac9f9e4fe1cec111" = "3ed39b934cd2c65e0a6cb0726d0152a1b2e4172bbe64d56c1fbef9ddb2a17b76" := by
  simp only [hashPair,
    show hexDecodeD "f60f0c63a0f4b8d3ff5e6b997933f3d12007cc6201c2c4f7b88e11cdf8f951ae" ++ hexDecodeD "cd57f59e64af4e426ec802b66da318af929352d76c68686dac9f9e4fe1cec111" = [246, 15, 12, 99, 160, 244, 184, 211, 255, 94, 107, 153, 121, 51, 243, 209, 32, 7, 204, 98, 1, 194, 196, 247, 184, 142, 17, 205, 248, 249, 81, 174, 205, 87, 245, 158, 100, 175, 78, 66, 110, 200, 2, 182, 109, 163, 24, 175, 146, 147, 82, 215, 108, 104, 104, 109, 172, 159, 158, 79, 225, 206, 193, 17] from by decide,
    sha3_eval_3]
  decide

/-- The Merkle recursion on `["aa","bb","cc"]` reduces symbolically (without
evaluating any hash) to the nested pair hashes. -/
theorem calMerkleRoot_symbolic :
    calMerkleRoot ["aa", "bb", "cc"] = hashPair (hashPair "aa" "bb") (hashPair "cc" "cc") := rfl

/-- The concrete Merkle root the code computes for `["aa","bb","cc"]`. -/
theorem calMerkleRoot_aabbcc :
    calMerkleRoot ["aa", "bb", "cc"] = "3ed39b934cd2c65e0a6cb0726d0152a1b2e4172bbe64d56c1fbef9ddb2a17b76" := by
  rw [calMerkleRoot_symbolic, hashPair_aa_bb, hashPair_cc_cc, hashPair_level2]

/-- Leaf hash H(aa) of the S5 formula. -/
theorem specH_aa : specH "aa" = "ad5ef41ac66b582626397d535bb2761cb6203a503cc9abae9de599bbe3128806" := by
  simp only [specH, show hexDecodeD "aa" = [170] from by decide, sha3_eval_4]
  decide

/-- Leaf hash H(bb) of the S5 formula. -/
theorem specH_bb : specH "bb" = "9726103a1fc39723e8cc366582e473af8cdae5295c570de6623078806b6bfe7c" := by
  simp only [specH, show hexDecodeD "bb" = [187] from by decide, sha3_eval_5]
  decide

/-- Leaf hash H(cc) of the S5 formula. -/
theorem specH_cc : specH "cc" = "677035391cd3701293d385f037ba32796252bb7ce180b00b582dd9b20aaad7f0" := by
  simp only [specH, show hexDecodeD "cc" = [204] from by decide, sha3_eval_6]
  decide

/-- Middle hash H(H(aa) ∥ H(bb)) of the S5 formula. -/
theorem specH_mid_ab : specH ("ad5ef41ac66b582626397d535bb2761cb6203a503cc9abae9de599bbe3128806" ++ "9726103a1fc39723e8cc366582e473af8cdae5295c570de6623078806b6bfe7c") = "1bcb0cbf9952a31827416592faf28876eeb9b362f1c0f587470db9cfabcc542a" := by
  simp only [specH,
    show hexDecodeD ("ad5ef41ac66b582626397d535bb2761cb6203a503cc9abae9de599bbe3128806" ++ "9726103a1fc39723e8cc366582e473af8cdae5295c570de6623078806b6bfe7c") = [173, 94, 244, 26, 198, 107, 88, 38, 38, 57, 125, 83, 91, 178, 118, 28, 182, 32, 58, 80, 60, 201, 171, 174, 157, 229, 153, 187, 227, 18, 136, 6, 151, 38, 16, 58, 31, 195, 151, 35, 232, 204, 54, 101, 130, 228, 115, 175, 140, 218, 229, 41, 92, 87, 13, 230, 98, 48, 120, 128, 107, 107, 254, 124] from by decide,
    sha3_eval_7]
  decide

/-- Middle hash H(H(cc) ∥ H(cc)) of the S5 formula. -/
theorem specH_mid_cc : specH ("677035391cd3701293d385f037ba32796252bb7ce180b00b582dd9b20aaad7f0" ++ "677035391cd3701293d385f037ba32796252bb7ce180b00b582dd9b20aaad7f0") = "1ed2f27ce527633977567a1959ad0402fbfaf8e15c658eb424d3aadb74e196e3" := by
  simp only [specH,
    show hexDecodeD ("677035391cd3701293d385f037ba32796252bb7ce180b00b582dd9b20aaad7f0" ++ "677035391cd3701293d385f037ba32796252bb7ce180b00b582dd9b20aaad7f0") = [103, 112, 53, 57, 28, 211, 112, 18, 147, 211, 133, 240, 55, 186, 50, 121, 98, 82, 187, 124, 225, 128, 176, 11, 88, 45, 217, 178, 10, 170, 215, 240, 103, 112, 53, 57, 28, 211, 112, 18, 147, 211, 133, 240, 55, 186, 50, 121, 98, 82, 187, 124, 225, 128, 176, 11, 88, 45, 217, 178, 10, 170, 215, 240] from by decide,
    sha3_eval_8]
  decide

/-- The value of the full S5 formula H(H(H(aa)∥H(bb)) ∥ H(H(cc)∥H(cc))). -/
theorem specH_s5_value :
    specH (specH ((specH "aa") ++ (specH "bb")) ++ specH ((specH "cc") ++ (specH "cc"))) =
      "61c1b41cc75b8b25caa7a27e93277ce6a5337248e239ed310ec2fb4a2bff6976" := by
  rw [specH_aa, specH_bb, specH_cc, specH_mid_ab, specH_mid_cc]
  simp only [specH,
    show hexDecodeD ("1bcb0cbf9952a31827416592faf28876eeb9b362f1c0f587470db9cfabcc542a" ++ "1ed2f27ce527633977567a1959ad0402fbfaf8e15c658eb424d3aadb74e196e3") = [27, 203, 12, 191, 153, 82, 163, 24, 39, 65, 101, 146, 250, 242, 136, 118, 238, 185, 179, 98, 241, 192, 245, 135, 71, 13, 185, 207, 171, 204, 84, 42, 30, 210, 242, 124, 229, 39, 99, 57, 119, 86, 122, 25, 89, 173, 4, 2, 251, 250, 248, 225, 92, 101, 142, 180, 36, 211, 170, 219, 116, 225, 150, 227] from by decide,
    sha3_eval_9]
  decide

/-- The value of the corrected formula H(H(aa∥bb) ∥ H(cc∥cc)). -/
theorem specH_amended_value :
    specH (specH ("aa" ++ "bb") ++ specH ("cc" ++ "cc")) = "3ed39b934cd2c65e0a6cb0726d0152a1b2e4172bbe64d56c1fbef9ddb2a17b76" := by
  have h1 : specH ("aa" ++ "bb") = "f60f0c63a0f4b8d3ff5e6b997933f3d12007cc6201c2c4f7b88e11cdf8f951ae" := by
    simp only [specH, show hexDecodeD ("aa" ++ "bb") = [170, 187] from by decide, sha3_eval_1]
    decide
  have h2 : specH ("cc" ++ "cc") = "cd57f59e64af4e426ec802b66da318af929352d76c68686dac9f9e4fe1cec111" := by
    simp only [specH, show hexDecodeD ("cc" ++ "cc") = [204, 204] from by decide, sha3_eval_2]
    decide
  rw [h1, h2]
  simp only [specH,
    show hexDecodeD ("f60f0c63a0f4b8d3ff5e6b997933f3d12007cc6201c2c4f7b88e11cdf8f951ae" ++ "cd57f59e64af4e426ec802b66da318af929352d76c68686dac9f9e4fe1cec111") = [246, 15, 12, 99, 160, 244, 184, 211, 255, 94, 107, 153, 121, 51, 243, 209, 32, 7, 204, 98, 1, 194, 196, 247, 184, 142, 17, 205, 248, 249, 81, 174, 205, 87, 245, 158, 100, 175, 78, 66, 110, 200, 2, 182, 109, 163, 24, 175, 146, 147, 82, 215, 108, 104, 104, 109, 172, 159, 158, 79, 225, 206, 193, 17] from by decide,
    sha3_eval_3]
  decide


/-- C6 counterexample: at the concrete input `["aa","bb","cc"]` the Merkle root
computed by the code is NOT the S5 value `H(H(H(aa)∥H(bb)) ∥ H(H(cc)∥H(cc)))`:
the code concatenates and hashes the decoded leaves directly, without first
hashing each leaf. -/
theorem cal_merkle_root_s5_counterexample :
    calMerkleRoot ["aa", "bb", "cc"] ≠
      specH (specH ((specH "aa") ++ (specH "bb")) ++ specH ((specH "cc") ++ (specH "cc"))) := by
  rw [calMerkleRoot_aabbcc, specH_s5_value]
  decide

/-- C6 (amended): `Block::cal_merkle_root` duplicates the last leaf when the
leaf count is odd, hashes each consecutive pair as SHA3-256 of the
concatenated hex-decoded bytes, and recurses to a single hex-encoded root; in
particular for the input `["aa","bb","cc"]` the result equals
`H(H(aa∥bb) ∥ H(cc∥cc))` with H = SHA3-256 on decoded bytes, results
hex-encoded (the leaves are already hashes and are not re-hashed
individually). -/
theorem cal_merkle_root_s5_amended :
    calMerkleRoot ["aa", "bb", "cc"] = specH (specH ("aa" ++ "bb") ++ specH ("cc" ++ "cc")) := by
  rw [calMerkleRoot_aabbcc, specH_amended_value]


/-- Every error branch of `add_block` happens before the mutation at the end
of the method, so an erroring call leaves the chain untouched. -/
theorem addBlock_error_unchanged (txOk : Transaction → Bool) (c : Blockchain) (b : Block)
    (e : BlockChainError) (c'' : Blockchain) (h : addBlock txOk c b = (some e, c'')) :
    c'' = c := by
  unfold addBlock at h
  repeat' split at h
  all_goals simp_all

/-- A successful `add_block` makes `b` the tip, so the same block is rejected
as a duplicate immediately afterwards. -/
theorem addBlock_ok_then_duplicate (txOk : Transaction → Bool) (c : Blockchain) (b : Block)
    (c' : Blockchain) (h : addBlock txOk c b = (none, c')) :
    addBlock txOk c' b = (some .DuplicateBlocksReceived, c') := by
  unfold addBlock at h
  split at h
  · simp_all
  · rename_i hverify
    repeat' split at h
    all_goals simp_all
    obtain ⟨rfl⟩ := h.symm
    have htip : getLastHash ⟨c.blocks ++ [b], c.transactions_hash_set ++ b.body.transactions.map (·.hash)⟩ = b.header.hash := by
      simp [getLastHash, getLastBlock, List.getLastD_concat]
    unfold addBlock
    simp_all


/-- C4: the code only rejects a same-epoch block when its slot is STRICTLY
below the tip's (`last.slot > block.slot`), so a block whose slot EQUALS the
tip's slot is accepted: at the concrete chain `chainC4` (tip at epoch 0,
slot 5) the block `blockC4` (epoch 0, slot 5, matching parent hash and index,
empty body) is appended with no error, where the claim demands
`Err(SlotError)`. -/
theorem add_block_equal_slot_accepted :
    ∀ txOk : Transaction → Bool,
      addBlock txOk chainC4 blockC4 = (none, ⟨[tipC4, blockC4], []⟩) := by
  intro txOk
  rfl


/-- C5: if `add_block(b)` succeeds then calling it again with the same block
on the resulting chain returns `Err(DuplicateBlocksReceived)` and leaves the
chain unchanged, and every `Err` return of `add_block` leaves the chain
unchanged (same block sequence and same seen-transaction-hash set). -/
theorem add_block_idempotent :
    ∀ (txOk : Transaction → Bool) (c : Blockchain) (b : Block),
      (∀ c', addBlock txOk c b = (none, c') →
         addBlock txOk c' b = (some .DuplicateBlocksReceived, c'))
    ∧ (∀ e c'', addBlock txOk c b = (some e, c'') → c'' = c) := by
  intro txOk c b
  exact ⟨fun c' h => addBlock_ok_then_duplicate txOk c b c' h,
         fun e c'' h => addBlock_error_unchanged txOk c b e c'' h⟩

/-- Witness for C5: the concrete block `blockC5` appends to `chainC4`
successfully, and re-adding it yields `DuplicateBlocksReceived` with the
chain unchanged. -/
theorem add_block_idempotent_witness :
    addBlock (fun _ => true) chainC4 blockC5 = (none, chainC5) ∧
      addBlock (fun _ => true) chainC5 blockC5 =
        (some .DuplicateBlocksReceived, chainC5) :=
  ⟨by rfl,
   (add_block_idempotent (fun _ => true) chainC4 blockC5).1 chainC5 (by rfl)⟩


noncomputable section

/-- The usize-subtraction path value agrees with the spec's formula. -/
theorem computePathValue_eq_cSpec (ntd L : ℕ) : computePathValue ntd L = cSpec ntd L := by
  unfold computePathValue cSpec
  split
  · rfl
  · rename_i h
    rw [Nat.cast_sub (le_of_lt (not_le.mp h))]

/-- In range (1 ≤ k ≤ L) the guarded position weight agrees with the spec's
formula. -/
theorem computePositionWeight_eq_alphaSpec (k L : ℕ) (hk : 1 ≤ k) (hkL : k ≤ L) :
    computePositionWeight k L = alphaSpec k L := by
  unfold computePositionWeight alphaSpec
  rw [if_neg (by omega)]
  push_cast [Nat.cast_sub hkL]
  ring

/-- Applying a fold of pointwise updates and reading one coordinate yields the
starting value plus the sum of the updates landing on that coordinate. -/
theorem foldl_update_apply (w : ℕ × String → ℝ) :
    ∀ (l : List (ℕ × String)) (m : String → ℝ) (n : String),
      (l.foldl (fun m' pn => fun n' => if n' = pn.2 then m' n' + w pn else m' n') m) n
        = m n + (l.map (fun pn => if pn.2 = n then w pn else 0)).sum := by
  intro l
  induction l with
  | nil => simp
  | cons pn rest ih =>
    intro m n
    simp only [List.foldl_cons, List.map_cons, List.sum_cons]
    rw [ih]
    by_cases h : n = pn.2
    · simp [h, add_assoc]
    · simp [h, Ne.symm h]

/-- One step of the `raw_scores` accumulation adds exactly the path's
spec-side raw contribution at every coordinate. -/
theorem rawStep_apply (ntd : ℕ) (validators : List Validator) (path : List String)
    (m : String → ℝ) (n : String) :
    (if path = [] then m
     else
       let path_nodes := path.dropLast
       let path_length := path_nodes.length
       if path_length = 0 then m
       else
         let c_p := computePathValue ntd path_length
         let sum_stake := (path_nodes.map (fun nd => getRealStake nd validators)).sum
         if sum_stake = 0 then m
         else
           path_nodes.enum.foldl (fun m' pn =>
             fun n' => if n' = pn.2 then m' n' + atomicScore c_p path_length sum_stake validators pn
                       else m' n') m) n
      = m n + pathRawSpec ntd validators n path := by
  unfold pathRawSpec
  by_cases hempty : path = []
  · simp [hempty]
  · rw [if_neg hempty]
    by_cases hlen : path.dropLast.length = 0
    · simp [hlen]
    · rw [if_neg hlen, if_neg hlen]
      by_cases hsum : (path.dropLast.map (fun nd => getRealStake nd validators)).sum = 0
      · rw [if_pos hsum, if_pos hsum, add_zero]
      · rw [if_neg hsum, if_neg hsum]
        rw [foldl_update_apply]
        congr 1
        apply congrArg
        apply List.map_congr_left
        intro pn hpn
        have hget := List.mem_enum_iff_getElem?.mp hpn
        obtain ⟨hlt, -⟩ := List.getElem?_eq_some.mp hget
        by_cases hn : pn.2 = n
        · rw [if_pos hn, if_pos hn]
          unfold atomicScore
          rw [computePathValue_eq_cSpec,
              computePositionWeight_eq_alphaSpec (pn.1 + 1) path.dropLast.length
                (by omega) (by omega),
              hn]
        · rw [if_neg hn, if_neg hn]

/-- The accumulated raw-score map equals, at every coordinate, the spec-side
sum over paths (generalised over the starting accumulator). -/
theorem rawScores_foldl_apply (ntd : ℕ) (validators : List Validator) :
    ∀ (paths : List (List String)) (m : String → ℝ) (n : String),
      (paths.foldl (fun m path =>
        if path = [] then m
        else
          let path_nodes := path.dropLast
          let path_length := path_nodes.length
          if path_length = 0 then m
          else
            let c_p := computePathValue ntd path_length
            let sum_stake := (path_nodes.map (fun nd => getRealStake nd validators)).sum
            if sum_stake = 0 then m
            else
              path_nodes.enum.foldl (fun m' pn =>
                fun n' => if n' = pn.2 then
                    m' n' + atomicScore c_p path_length sum_stake validators pn
                  else m' n') m) m) n
        = m n + (paths.map (pathRawSpec ntd validators n)).sum := by
  intro paths
  induction paths with
  | nil => simp
  | cons p rest ih =>
    intro m n
    simp only [List.foldl_cons, List.map_cons, List.sum_cons]
    rw [ih]
    rw [rawStep_apply ntd validators p m n]
    ring

/-- The raw-score map of `cal_slot_contribution` agrees with the spec's
`raw(n)`. -/
theorem rawScores_eq_rawSpec (ntd : ℕ) (paths : List (List String))
    (validators : List Validator) (n : String) :
    rawScores ntd paths validators n = rawSpec ntd paths validators n := by
  unfold rawScores rawSpec
  rw [rawScores_foldl_apply]
  simp

end


noncomputable section

/-- C1: `cal_slot_contribution` assigns to each node `n` exactly
`K_sat · ln(1 + raw(n)/K_base)`, where `raw(n)` is the spec's sum over every
path containing `n` at 1-indexed non-miner position `k` of
`c(p) · alpha_k · ŝ_k` (path value, position weight, and in-path stake share
as in the spec; absent addresses have stake 0; empty paths, miner-only paths
and zero-stake-total paths contribute nothing). -/
theorem cal_slot_contribution_assigns (st : PogState) (paths : List (List String))
    (validators : List Validator) (n : String) :
    calSlotContribution st paths validators n =
      st.k_sat * Real.log (1 + rawSpec st.ntd paths validators n / st.k_base) := by
  unfold calSlotContribution
  rw [rawScores_eq_rawSpec]

end


noncomputable section

/-- `mapInsert` preserves distinctness of keys. -/
theorem mapKeys_mapInsert_nodup (m : List (String × ℝ)) (k : String) (v : ℝ)
    (h : (mapKeys m).Nodup) : (mapKeys (mapInsert m k v)).Nodup := by
  unfold mapKeys mapInsert
  simp only [List.map_cons, List.nodup_cons]
  constructor
  · intro hk
    obtain ⟨p, hp, hpk⟩ := List.mem_map.mp hk
    have := (List.mem_filter.mp hp).2
    simp [hpk] at this
  · exact h.sublist ((List.filter_sublist m).map Prod.fst)

/-- The keys of the collected real-stake map are distinct. -/
theorem mapKeys_realStakeMap_nodup (validators : List Validator) :
    (mapKeys (realStakeMap validators)).Nodup := by
  unfold realStakeMap
  suffices h : ∀ (vs : List Validator) (m : List (String × ℝ)),
      (mapKeys m).Nodup → (mapKeys (vs.foldl (fun m v => mapInsert m v.address v.stake) m)).Nodup by
    exact h validators [] (by simp [mapKeys])
  intro vs
  induction vs with
  | nil => intro m hm; simpa using hm
  | cons v rest ih =>
    intro m hm
    exact ih _ (mapKeys_mapInsert_nodup m v.address v.stake hm)

/-- Normalisation does not change the key list. -/
theorem mapKeys_normalizeMap (m : List (String × ℝ)) :
    mapKeys (normalizeMap m) = mapKeys m := by
  simp only [normalizeMap, mapKeys]
  split
  · rfl
  · simp

/-- Rescaling every value of a map divides its total. -/
theorem mapSum_map_div :
    ∀ (m : List (String × ℝ)) (s : ℝ),
      mapSum (m.map (fun p => (p.1, p.2 / s))) = mapSum m / s := by
  intro m s
  induction m with
  | nil => simp [mapSum]
  | cons p rest ih =>
    simp only [List.map_cons, mapSum, List.sum_cons] at ih ⊢
    rw [ih, add_div]

/-- Normalisation of a map with nonzero total yields total 1. -/
theorem mapSum_normalizeMap (m : List (String × ℝ)) (h : mapSum m ≠ 0) :
    mapSum (normalizeMap m) = 1 := by
  simp only [normalizeMap, if_neg h]
  rw [mapSum_map_div, div_self h]

/-- Lookup of an absent key yields the 0 default. -/
theorem mapGetD_eq_zero_of_not_mem (m : List (String × ℝ)) (k : String)
    (h : k ∉ mapKeys m) : mapGetD m k = 0 := by
  unfold mapGetD
  have : m.find? (fun p => p.1 == k) = none := by
    rw [List.find?_eq_none]
    intro p hp
    simp only [beq_iff_eq]
    intro hpk
    exact h (List.mem_map.mpr ⟨p, hp, hpk⟩)
  rw [this]

/-- Lookup at the head key of a map. -/
theorem mapGetD_cons_pos (p : String × ℝ) (m : List (String × ℝ)) (k : String)
    (h : p.1 = k) : mapGetD (p :: m) k = p.2 := by
  unfold mapGetD
  rw [List.find?_cons_of_pos m (by simp [h])]

/-- Lookup past a non-matching head entry. -/
theorem mapGetD_cons_neg (p : String × ℝ) (m : List (String × ℝ)) (k : String)
    (h : p.1 ≠ k) : mapGetD (p :: m) k = mapGetD m k := by
  unfold mapGetD
  rw [List.find?_cons_of_neg m (by simp [h])]

/-- Summing a single-key indicator over a nodup-keyed map containing the key
picks out the value. -/
theorem sum_indicator_single :
    ∀ (real : List (String × ℝ)) (k : String) (v : ℝ),
      (mapKeys real).Nodup → k ∈ mapKeys real →
      (real.map (fun p => if p.1 = k then v else 0)).sum = v := by
  intro real
  induction real with
  | nil => intro k v _ hk; simp [mapKeys] at hk
  | cons p rest ih =>
    intro k v hnd hk
    simp only [mapKeys, List.map_cons, List.nodup_cons] at hnd
    simp only [List.map_cons, List.sum_cons]
    by_cases hp : p.1 = k
    · rw [if_pos hp]
      have hzero : (rest.map (fun q => if q.1 = k then v else 0)).sum = 0 := by
        have : ∀ q ∈ rest, (if q.1 = k then v else 0) = 0 := by
          intro q hq
          rw [if_neg]
          intro hqk
          exact hnd.1 (hp ▸ hqk ▸ List.mem_map.mpr ⟨q, hq, rfl⟩)
        rw [List.map_congr_left this]
        simp
      rw [hzero, add_zero]
    · rw [if_neg hp, zero_add]
      apply ih k v hnd.2
      rcases List.mem_map.mp hk with ⟨q, hq, hqk⟩
      rcases List.mem_cons.mp hq with h1 | h1
      · exact absurd (h1 ▸ hqk) hp
      · exact List.mem_map.mpr ⟨q, h1, hqk⟩

/-- Summing the lookups of a nodup-keyed map `nc` over the (nodup, covering)
key list of another map recovers the total of `nc`. -/
theorem sum_mapGetD_entries :
    ∀ (nc real : List (String × ℝ)),
      (mapKeys real).Nodup → (mapKeys nc).Nodup →
      (∀ k ∈ mapKeys nc, k ∈ mapKeys real) →
      (real.map (fun p => mapGetD nc p.1)).sum = mapSum nc := by
  intro nc
  induction nc with
  | nil =>
    intro real _ _ _
    have : ∀ p ∈ real, mapGetD ([] : List (String × ℝ)) p.1 = 0 := fun p _ => rfl
    rw [List.map_congr_left this]
    simp [mapSum]
  | cons q nc' ih =>
    intro real hreal hnc hsub
    simp only [mapKeys, List.map_cons, List.nodup_cons] at hnc
    have hqabsent : mapGetD nc' q.1 = 0 :=
      mapGetD_eq_zero_of_not_mem nc' q.1 hnc.1
    have hpoint : ∀ p ∈ real, mapGetD (q :: nc') p.1 =
        (if p.1 = q.1 then q.2 else 0) + mapGetD nc' p.1 := by
      intro p _
      by_cases hk : p.1 = q.1
      · rw [if_pos hk, mapGetD_cons_pos q nc' p.1 hk.symm, hk, hqabsent, add_zero]
      · rw [if_neg hk, mapGetD_cons_neg q nc' p.1 (fun hq => hk hq.symm), zero_add]
    rw [List.map_congr_left hpoint, List.sum_map_add]
    have h1 : (real.map (fun p => if p.1 = q.1 then q.2 else 0)).sum = q.2 :=
      sum_indicator_single real q.1 q.2 hreal (hsub q.1 (by simp [mapKeys]))
    have h2 : (real.map (fun p => mapGetD nc' p.1)).sum = mapSum nc' := by
      apply ih real hreal hnc.2
      intro k hk
      exact hsub k (by simp [mapKeys] at hk ⊢; exact Or.inr hk)
    rw [h1, h2]
    simp [mapSum]

/-- The total of the virtual-stake map splits linearly into the contribution
and stake lookups. -/
theorem mapSum_calVirtualStake (omega : ℝ) (ns nc : List (String × ℝ)) :
    ∀ real : List (String × ℝ),
      mapSum (calVirtualStake omega real ns nc) =
        omega * (real.map (fun p => mapGetD nc p.1)).sum +
          (1 - omega) * (real.map (fun p => mapGetD ns p.1)).sum := by
  intro real
  induction real with
  | nil => simp [calVirtualStake, mapSum]
  | cons p rest ih =>
    simp only [calVirtualStake, List.map_cons, mapSum, List.sum_cons] at ih ⊢
    rw [ih]
    ring

end


noncomputable section

/-- C2 counterexample: with a single validator of stake 1 (non-empty list,
positive stake total), an EMPTY score history, and omega = 1 ∈ [0, 1], the
virtual stakes produced by `cal_virtual_stake` from the `normalize_map`-ed
stake and contribution sum to 0, not 1: `normalize_map` returns a zero-sum
map unchanged, so the contribution lookups are all 0 and the stake part is
weighted by 1 − omega = 0. -/
theorem cal_virtual_stake_sum_counterexample :
    ([⟨"a", 1⟩] : List Validator) ≠ [] ∧
      (([⟨"a", 1⟩] : List Validator).map (fun v => v.stake)).sum > 0 ∧
      (0 : ℝ) ≤ 1 ∧ (1 : ℝ) ≤ 1 ∧
      mapSum (calVirtualStake 1 (realStakeMap [⟨"a", 1⟩])
        (normalizeMap (realStakeMap [⟨"a", 1⟩])) (normalizeMap [])) ≠ 1 := by
  refine ⟨by simp, by norm_num, by norm_num, by norm_num, ?_⟩
  norm_num [mapSum, calVirtualStake, realStakeMap, normalizeMap, mapInsert, mapGetD]

/-- C2 (amended): for every validator list whose collected stake map has
nonzero total, the virtual-stake map produced by `cal_virtual_stake` from the
`normalize_map`-normalized stake and contribution sums to exactly 1, for every
omega, PROVIDED either omega = 0 or the score history has distinct keys, all
belonging to the stake map's keys, and nonzero total.  (With an empty or
zero-total score history and omega ≠ 0 the sum is 1 − omega instead, refuting
the original claim's inclusion of that case.) -/
theorem cal_virtual_stake_sums_to_one (validators : List Validator)
    (hist : List (String × ℝ)) (omega : ℝ)
    (hstake : mapSum (realStakeMap validators) ≠ 0)
    (hhist : omega = 0 ∨ ((mapKeys hist).Nodup ∧
      (∀ k ∈ mapKeys hist, k ∈ mapKeys (realStakeMap validators)) ∧ mapSum hist ≠ 0)) :
    mapSum (calVirtualStake omega (realStakeMap validators)
      (normalizeMap (realStakeMap validators)) (normalizeMap hist)) = 1 := by
  have hrealnd := mapKeys_realStakeMap_nodup validators
  have hns : ((realStakeMap validators).map
      (fun p => mapGetD (normalizeMap (realStakeMap validators)) p.1)).sum = 1 := by
    rw [sum_mapGetD_entries (normalizeMap (realStakeMap validators)) (realStakeMap validators)
          hrealnd (by rw [mapKeys_normalizeMap]; exact hrealnd)
          (by rw [mapKeys_normalizeMap]; exact fun k hk => hk)]
    exact mapSum_normalizeMap _ hstake
  rw [mapSum_calVirtualStake]
  rcases hhist with homega | ⟨hnd, hsub, hsum⟩
  · rw [homega, hns]
    ring
  · have hnc : ((realStakeMap validators).map
        (fun p => mapGetD (normalizeMap hist) p.1)).sum = 1 := by
      rw [sum_mapGetD_entries (normalizeMap hist) (realStakeMap validators)
            hrealnd (by rw [mapKeys_normalizeMap]; exact hnd)
            (by rw [mapKeys_normalizeMap]; exact hsub)]
      exact mapSum_normalizeMap _ hsum
    rw [hns, hnc]
    ring

/-- Witness for C2 (amended) at a single validator of stake 1, empty history,
omega = 0. -/
theorem cal_virtual_stake_sums_to_one_witness :
    mapSum (realStakeMap [⟨"a", 1⟩]) ≠ 0 ∧
      mapSum (calVirtualStake 0 (realStakeMap [⟨"a", 1⟩])
        (normalizeMap (realStakeMap [⟨"a", 1⟩])) (normalizeMap [])) = 1 :=
  ⟨by norm_num [mapSum, realStakeMap, mapInsert],
   cal_virtual_stake_sums_to_one [⟨"a", 1⟩] [] 0
     (by norm_num [mapSum, realStakeMap, mapInsert]) (Or.inl rfl)⟩

end


/-- C3: with at least one path, `adjust_ntd` moves NTD exactly one step toward
`target = ⌈p_avg⌉` (down if above, up if below, fixed at the target); with no
paths NTD is unchanged; and if every epoch's observed paths yield the same
target `t = ⌈L*⌉`, the NTD sequence reaches `t` within `|NTD₀ − t|` epochs
and stays there. -/
theorem adjust_ntd_one_step_tracking :
    ∀ (paths : List (List String)) (ntd : ℕ),
      (paths ≠ [] →
         adjustNtd ntd paths =
           if ntdTarget paths < ntd then ntd - 1
           else if ntd < ntdTarget paths then ntd + 1 else ntd)
      ∧ adjustNtd ntd [] = ntd
      ∧ (∀ (pathsSeq : ℕ → List (List String)) (t k : ℕ),
           (∀ j, pathsSeq j ≠ []) → (∀ j, ntdTarget (pathsSeq j) = t) →
           Nat.dist ntd t ≤ k → ntdTrajectory ntd pathsSeq k = t) := by
  intro paths ntd
  refine ⟨fun h => by simp [adjustNtd, h], by simp [adjustNtd], ?_⟩
  intro pathsSeq t k
  induction k generalizing ntd pathsSeq with
  | zero =>
    intro _ _ hd
    have : ntd = t := by
      unfold Nat.dist at hd
      omega
    simpa [ntdTrajectory] using this
  | succ k ih =>
    intro hne htgt hd
    show ntdTrajectory (adjustNtd ntd (pathsSeq 0)) (fun i => pathsSeq (i + 1)) k = t
    apply ih (adjustNtd ntd (pathsSeq 0)) (fun i => pathsSeq (i + 1))
      (fun j => hne (j + 1)) (fun j => htgt (j + 1))
    have hstep : adjustNtd ntd (pathsSeq 0) =
        if t < ntd then ntd - 1 else if ntd < t then ntd + 1 else ntd := by
      simp [adjustNtd, hne 0, htgt 0]
    rw [hstep]
    unfold Nat.dist at hd ⊢
    split_ifs <;> omega

/-- Witness for C3: a single 4-hop path (3 non-miner nodes) observed every
epoch gives target 3; starting from NTD = 5, two epochs reach it. -/
theorem adjust_ntd_one_step_tracking_witness :
    (∀ j : ℕ, (fun _ : ℕ => [["a", "b", "c", "m"]]) j ≠ []) ∧
      Nat.dist 5 (ntdTarget [["a", "b", "c", "m"]]) ≤ 2 ∧
      ntdTrajectory 5 (fun _ => [["a", "b", "c", "m"]]) 2 = ntdTarget [["a", "b", "c", "m"]] :=
  ⟨fun _ => by simp, by norm_num [ntdTarget, Nat.dist]; decide,
   (adjust_ntd_one_step_tracking [["a", "b", "c", "m"]] 5).2.2
     (fun _ => [["a", "b", "c", "m"]]) (ntdTarget [["a", "b", "c", "m"]]) 2
     (fun _ => by simp) (fun _ => rfl)
     (by norm_num [ntdTarget, Nat.dist]; decide)⟩


noncomputable section

/-- If the draw lies below the remaining cumulative mass, the loop picks some
member of the list. -/
theorem cumulativePick_mem :
    ∀ (vs : List Validator) (acc u : ℝ), acc ≤ u → u < acc + totalStake vs →
      ∃ v ∈ vs, cumulativePick vs acc u = some v := by
  intro vs
  induction vs with
  | nil =>
    intro acc u h1 h2
    simp [totalStake] at h2
    linarith
  | cons v rest ih =>
    intro acc u h1 h2
    by_cases h : acc + v.stake > u
    · exact ⟨v, List.mem_cons_self v rest, by simp [cumulativePick, h]⟩
    · push_neg at h
      have h2' : u < (acc + v.stake) + totalStake rest := by
        simp only [totalStake, List.map_cons, List.sum_cons] at h2 ⊢
        linarith
      obtain ⟨w, hw, hpick⟩ := ih (acc + v.stake) u h h2'
      refine ⟨w, List.mem_cons_of_mem v hw, ?_⟩
      rw [show cumulativePick (v :: rest) acc u =
          if acc + v.stake > u then some v else cumulativePick rest (acc + v.stake) u from rfl,
        if_neg (not_lt.mpr h)]
      exact hpick

end


noncomputable section

/-- C10: whenever the draw `u` lands in `[0, total)` — which is exactly the
range of `gen_range(0.0..total)`, nonempty only when the (virtual) stake
total is positive — both `PosConsensus::select` and
`PogConsensus::select_internal` return `Ok` of a validator from the list, so
the trailing `NOValidatorError` after the cumulative loop is unreachable;
`PosConsensus::select` returns `NOValidatorError` (only) for the empty list;
and with a zero total the draw's range `[0, total)` is empty, so the
precondition is necessary. -/
theorem select_proposer_nonempty_total :
    (∀ (validators : List Validator) (u : ℝ),
        validators ≠ [] → 0 ≤ u → u < totalStake validators →
        ∃ v ∈ validators, posSelect validators u = .ok v)
  ∧ (∀ u : ℝ, posSelect [] u = .error .NOValidatorError)
  ∧ (∀ (st : PogState) (validators : List Validator) (bc : Blockchain) (u : ℝ),
        0 ≤ u →
        u < totalStake (pogVirtualValidators st validators (getAllPaths (getLastBlock bc))) →
        ∃ v, (selectInternal st validators bc u).1 = .ok v ∧
          v.address ∈ validators.map (fun w => w.address))
  ∧ (∀ validators : List Validator, totalStake validators = 0 →
        ¬ ∃ u : ℝ, 0 ≤ u ∧ u < totalStake validators) := by
  refine ⟨?_, ?_, ?_, ?_⟩
  · intro validators u hne h0 hu
    obtain ⟨v, hv, hpick⟩ := cumulativePick_mem validators 0 u h0 (by simpa using hu)
    refine ⟨v, hv, ?_⟩
    unfold posSelect
    rw [if_neg (by simpa [List.isEmpty_iff] using hne), hpick]
  · intro u
    rfl
  · intro st validators bc u h0 hu
    obtain ⟨v, hv, hpick⟩ :=
      cumulativePick_mem (pogVirtualValidators st validators (getAllPaths (getLastBlock bc)))
        0 u h0 (by simpa using hu)
    refine ⟨v, ?_, ?_⟩
    · unfold selectInternal
      simp only [hpick]
    · unfold pogVirtualValidators at hv
      obtain ⟨w, hw, hwv⟩ := List.mem_map.mp hv
      exact List.mem_map.mpr ⟨w, hw, by rw [← hwv]⟩
  · intro validators htot
    rintro ⟨u, h0, hu⟩
    rw [htot] at hu
    linarith

/-- Witness for C10: one validator of stake 1 under PoS with draw 1/2, and
the same validator under a fresh PoG state (`PogConsensus::new(3)`) against a
chain whose last block embeds no paths. -/
theorem select_proposer_nonempty_total_witness :
    (∃ v ∈ ([⟨"a", 1⟩] : List Validator), posSelect [⟨"a", 1⟩] (1 / 2) = .ok v) ∧
      (∃ v, (selectInternal (pogNew 3) [⟨"a", 1⟩] chainC4 (1 / 2)).1 = .ok v ∧
        v.address ∈ ([⟨"a", 1⟩] : List Validator).map (fun w => w.address)) :=
  ⟨select_proposer_nonempty_total.1 [⟨"a", 1⟩] (1 / 2) (by simp) (by norm_num)
     (by norm_num [totalStake]),
   select_proposer_nonempty_total.2.2.1 (pogNew 3) [⟨"a", 1⟩] chainC4 (1 / 2) (by norm_num)
     (by norm_num [totalStake, pogVirtualValidators, calSlotContribution, rawScores,
       updateScoreHistory, realStakeMap, normalizeMap, calVirtualStake, mapGetD,
       mapInsert, mapSum, pogNew, getAllPaths, getLastBlock, chainC4, tipC4,
       Real.log_one, List.find?])⟩

end


/-- The conditional fold of `combine_seed` equals the unconditional XOR fold
of the accepted contributions (generalised over the accumulator). -/
theorem combineSeed_foldl_filter (ecdsaVerify : List Nat → String → String → Bool)
    (validators : List Validator) :
    ∀ (seeds : List RandaoSeed) (b : Fin 32 → Nat),
      seeds.foldl (fun result v =>
        if ¬ validators.any (fun validator => validator.address == v.address) then result
        else if ecdsaVerify (List.ofFn v.seed) v.signature v.address then
          fun i => result i ^^^ v.seed i
        else result) b
      = (acceptedSeeds ecdsaVerify validators seeds).foldl
          (fun result v => fun i => result i ^^^ v.seed i) b := by
  intro seeds
  induction seeds with
  | nil => intro b; rfl
  | cons s rest ih =>
    intro b
    by_cases hmem : validators.any (fun validator => validator.address == s.address)
    · by_cases hver : ecdsaVerify (List.ofFn s.seed) s.signature s.address
      · have hacc : acceptedSeeds ecdsaVerify validators (s :: rest)
            = s :: acceptedSeeds ecdsaVerify validators rest := by
          unfold acceptedSeeds
          rw [List.filter_cons, if_pos (by rw [hmem, hver]; rfl)]
        rw [hacc]
        simp only [List.foldl_cons]
        rw [if_neg (not_not_intro hmem), if_pos hver]
        exact ih _
      · have hacc : acceptedSeeds ecdsaVerify validators (s :: rest)
            = acceptedSeeds ecdsaVerify validators rest := by
          unfold acceptedSeeds
          rw [List.filter_cons, if_neg (by rw [hmem]; simpa using hver)]
        rw [hacc]
        simp only [List.foldl_cons]
        rw [if_neg (not_not_intro hmem), if_neg hver]
        exact ih b
    · have hacc : acceptedSeeds ecdsaVerify validators (s :: rest)
          = acceptedSeeds ecdsaVerify validators rest := by
        unfold acceptedSeeds
        rw [List.filter_cons, if_neg (fun h => hmem ((Bool.and_eq_true _ _).mp h).1)]
      rw [hacc]
      simp only [List.foldl_cons]
      rw [if_pos hmem]
      exact ih b


/-- C8: `combine_seed` returns the SHA3-256 hash of the bytewise XOR of
exactly the accepted contributions (address present among the validators and
ECDSA signature over the seed bytes verifying), and consequently its value
does not depend on the order in which the accepted contributions arrive: any
permutation of the contribution list yields the same seed. -/
theorem combine_seed_hash_of_xor (ecdsaVerify : List Nat → String → String → Bool)
    (validators : List Validator) (seeds seeds' : List RandaoSeed)
    (hperm : seeds.Perm seeds') :
    combineSeed ecdsaVerify validators seeds =
      sha3_256 (List.ofFn (xorFold (acceptedSeeds ecdsaVerify validators seeds)))
    ∧ combineSeed ecdsaVerify validators seeds = combineSeed ecdsaVerify validators seeds' := by
  have hrepr : ∀ l, combineSeed ecdsaVerify validators l =
      sha3_256 (List.ofFn (xorFold (acceptedSeeds ecdsaVerify validators l))) := by
    intro l
    unfold combineSeed xorFold
    rw [combineSeed_foldl_filter]
  refine ⟨hrepr seeds, ?_⟩
  rw [hrepr seeds, hrepr seeds']
  have hfperm : (acceptedSeeds ecdsaVerify validators seeds).Perm
      (acceptedSeeds ecdsaVerify validators seeds') := hperm.filter _
  have hfold : xorFold (acceptedSeeds ecdsaVerify validators seeds) =
      xorFold (acceptedSeeds ecdsaVerify validators seeds') := by
    unfold xorFold
    apply hfperm.foldl_eq'
    intro x _ y _ z
    funext i
    simp only [Nat.xor_assoc]
    rw [Nat.xor_comm (x.seed i) (y.seed i)]
  rw [hfold]

/-- Witness for C8: two concrete contributions in both orders, with an
always-true verification oracle and one validator. -/
theorem combine_seed_hash_of_xor_witness :
    combineSeed (fun _ _ _ => true) [⟨"a", 1⟩]
        [⟨"a", fun _ => 1, "s1"⟩, ⟨"b", fun _ => 2, "s2"⟩] =
      sha3_256 (List.ofFn (xorFold (acceptedSeeds (fun _ _ _ => true) [⟨"a", 1⟩]
        [⟨"a", fun _ => 1, "s1"⟩, ⟨"b", fun _ => 2, "s2"⟩]))) ∧
    combineSeed (fun _ _ _ => true) [⟨"a", 1⟩]
        [⟨"a", fun _ => 1, "s1"⟩, ⟨"b", fun _ => 2, "s2"⟩] =
      combineSeed (fun _ _ _ => true) [⟨"a", 1⟩]
        [⟨"b", fun _ => 2, "s2"⟩, ⟨"a", fun _ => 1, "s1"⟩] :=
  combine_seed_hash_of_xor (fun _ _ _ => true) [⟨"a", 1⟩]
    [⟨"a", fun _ => 1, "s1"⟩, ⟨"b", fun _ => 2, "s2"⟩]
    [⟨"b", fun _ => 2, "s2"⟩, ⟨"a", fun _ => 1, "s1"⟩]
    (List.Perm.swap _ _ _)


/-- C7: the verification entry points are NOT panic-free.
`Wallet::verify_by_address` panics (out-of-range slice `&signature[0..128]`)
on the too-short signature `"0xdead"`, and panics
(`RecoveryId::try_from(..).expect(..)`) on a well-formed 130-digit signature
whose recovery byte `0x00` is not in `27..=30` — for every message, address
and recovery oracle; `AggregatedSignedPaths::verify` panics
(`get_bls_pub_key(..).unwrap()`) when an address of its list has no BLS key
in the registry, instead of returning `false` as the spec requires. -/
theorem verify_crash_on_malformed :
    (∀ (PK : Type) (recoverOracle : List Nat → List Nat → Nat → Option PK)
       (addrOf : PK → String) (msg : List Nat) (address : String),
       verifyByAddress recoverOracle addrOf msg "0xdead" address = .crash)
  ∧ (∀ (PK : Type) (recoverOracle : List Nat → List Nat → Nat → Option PK)
       (addrOf : PK → String) (msg : List Nat) (address : String),
       verifyByAddress recoverOracle addrOf msg
         ("0xaaaaaaaaaaaaaaaaaaaaaaaaaaaaaaaaaaaaaaaaaaaaaaaaaaaaaaaaaaaaaaaaaaaaaaaaaaaaaaaaaaaaaaaaaaaaaaaaaaaaaaaaaaaaaaaaaaaaaaaaaaaa00")
         address = .crash)
  ∧ (∀ (PK : Type) (aggVerifyOracle : List (List Nat) → List PK → String → Bool),
       aspVerify (fun _ => (none : Option PK)) aggVerifyOracle
         ⟨"0xsig", ["a", "m"]⟩ txC7 "m" = .crash) := by
  refine ⟨?_, ?_, ?_⟩
  · intro PK recoverOracle addrOf msg address
    rfl
  · intro PK recoverOracle addrOf msg address
    rfl
  · intro PK aggVerifyOracle
    rfl


end PogRs
